import Mathlib

/-!
Verification development for the `delta` option-pricing repository.

The pricing core consists of:
* `CRR_pricing_model.py` / `crr_american_option_pricing.py` — a Cox-Ross-Rubinstein
  binomial lattice pricer (`CRRBinomialOptionPricing`), the second file duplicating the
  first with property wrappers and a different `greeks` method;
* `lsmc_american_option_pricing.py` — a Longstaff-Schwartz least-squares Monte Carlo
  pricer (`AmericanOptionsLSMC`);
* `main.py` — an options-chain dashboard whose `AmericanOptionBinomialTree` duplicates
  the lattice loop and adds its own `greeks` method.

The embedding is generic over a linear ordered field `α`.  The transcendental
functions `np.exp` and `np.sqrt` are passed as explicit function parameters
`aexp asqrt : α → α`; instantiating `α := ℝ`, `aexp := Real.exp`,
`asqrt := Real.sqrt` yields the idealized real-number semantics of the Python
floating-point code, while instantiating with computable stand-ins over `ℚ`
lets concrete runs be evaluated by `decide`.  NumPy's pseudo-random
`standard_normal` draws are modelled by an abstract stream
`stream : ℕ → ℕ → ℕ → α` where `stream s t i` is the `i`-th component of the
vector returned by the `t`-th `standard_normal` call after `np.random.seed s`.
-/

set_option maxRecDepth 10000

namespace Delta

variable {α : Type} [LinearOrderedField α]

/-! ### CRR binomial lattice (`CRR_pricing_model.py`) -/

namespace CRR

/-- Raw constructor arguments of `CRRBinomialOptionPricing.__init__`
(`S, K, T, r, sigma, n, option_type, american`).  `optionCall` models
`option_type == 'call'`. -/
structure Args (α : Type) where
  S : α
  K : α
  T : α
  r : α
  sigma : α
  n : ℕ
  optionCall : Bool
  american : Bool
deriving DecidableEq, Repr

/-- The fields stored on a constructed `CRRBinomialOptionPricing` object:
the constructor arguments together with the derived quantities
`dt = T/n`, `u = exp(sigma*sqrt(dt))`, `d = 1/u`,
`p = (exp(r*dt) - d)/(u - d)`, `one_minus_p = 1 - p`. -/
structure Model (α : Type) where
  S : α
  K : α
  T : α
  r : α
  sigma : α
  n : ℕ
  optionCall : Bool
  american : Bool
  dt : α
  u : α
  d : α
  p : α
  oneMinusP : α
deriving DecidableEq, Repr

/-- Derivation of the stored fields from the constructor arguments, exactly as in
`CRRBinomialOptionPricing.__init__` (lines computing `dt`, `u`, `d`, `p`,
`one_minus_p`). -/
def mkModel (aexp asqrt : α → α) (a : Args α) : Model α :=
  let dt := a.T / (a.n : α)
  let u := aexp (a.sigma * asqrt dt)
  let d := 1 / u
  let p := (aexp (a.r * dt) - d) / (u - d)
  { S := a.S, K := a.K, T := a.T, r := a.r, sigma := a.sigma, n := a.n
    optionCall := a.optionCall, american := a.american
    dt := dt, u := u, d := d, p := p, oneMinusP := 1 - p }

/-- Construction of a `CRRBinomialOptionPricing` object.  The only failure mode of
`__init__` is the Python `ZeroDivisionError` raised by `self.T / self.n` when
`n = 0`; no other validation (in particular no check on the derived
risk-neutral probability) is performed. -/
def mk (aexp asqrt : α → α) (a : Args α) : Except String (Model α) :=
  if a.n = 0 then .error "ZeroDivisionError: division by zero"
  else .ok (mkModel aexp asqrt a)

/-- `build_stock_price_tree`: terminal stock prices
`S * u ** arange(n+1) * d ** arange(n, -1, -1)`, i.e. entry `j` is
`S * u^j * d^(n-j)` for `j = 0..n`. -/
def buildStockPriceTree (m : Model α) : List α :=
  (List.range (m.n + 1)).map fun j => m.S * m.u ^ j * m.d ^ (m.n - j)

/-- `option_payoff`: `maximum(S - K, 0)` for a call, `maximum(K - S, 0)` for a put. -/
def optionPayoff (m : Model α) (s : α) : α :=
  if m.optionCall then max (s - m.K) 0 else max (m.K - s) 0

/-- The second argument of the `np.maximum` call in the early-exercise branch of
`price`: `stock_price - K` for a call, `K - stock_price` for a put (note: not
clamped at zero there). -/
def intrinsic (m : Model α) (s : α) : α :=
  if m.optionCall then s - m.K else m.K - s

/-- One iteration of the backward-induction loop in `price`:
`stock_price = stock_price[:-1] * u`;
`option_values = exp(-r*dt) * (p * option_values[1:] + one_minus_p * option_values[:-1])`;
then, if `american`, `option_values = maximum(option_values, ±(stock_price - K))`. -/
def step (aexp : α → α) (m : Model α) (st : List α × List α) : List α × List α :=
  let sp := st.1.dropLast.map (· * m.u)
  let ov := List.zipWith (fun vUp vDown => aexp (-(m.r * m.dt)) * (m.p * vUp + m.oneMinusP * vDown))
    st.2.tail st.2.dropLast
  let ov := if m.american then List.zipWith (fun v s => max v (intrinsic m s)) ov sp else ov
  (sp, ov)

/-- `k` iterations of the backward-induction loop (the Python loop
`for i in range(n - 1, -1, -1)` runs `n` times; the loop index only counts
iterations, all state is carried by the two arrays). -/
def loop (aexp : α → α) (m : Model α) : ℕ → List α × List α → List α × List α
  | 0, st => st
  | k + 1, st => loop aexp m k (step aexp m st)

/-- `CRRBinomialOptionPricing.price`: build the terminal stock prices and payoffs,
run the backward induction `n` times, return `option_values[0]`. -/
def price (aexp : α → α) (m : Model α) : α :=
  let sp := buildStockPriceTree m
  let ov := sp.map (optionPayoff m)
  ((loop aexp m m.n (sp, ov)).2).headD 0

end CRR

/-! ### Options-chain dashboard model (`main.py`, `AmericanOptionBinomialTree`) -/

namespace Dash

/-- Fields of `AmericanOptionBinomialTree.__init__`: the same derived lattice
quantities as `CRRBinomialOptionPricing`, except that the exercise style is not
stored (it is the `american` parameter of `price`, default `True`). -/
structure Model (α : Type) where
  S : α
  K : α
  T : α
  r : α
  sigma : α
  n : ℕ
  optionCall : Bool
  dt : α
  u : α
  d : α
  p : α
  oneMinusP : α
deriving DecidableEq, Repr

/-- `AmericanOptionBinomialTree.price(american)`: its body is textually the same
backward induction as `CRRBinomialOptionPricing.price`, so it is embedded by
running `CRR.price` on the model with the given exercise flag. -/
def price (aexp : α → α) (m : Model α) (american : Bool) : α :=
  CRR.price aexp
    { S := m.S, K := m.K, T := m.T, r := m.r, sigma := m.sigma, n := m.n
      optionCall := m.optionCall, american := american
      dt := m.dt, u := m.u, d := m.d, p := m.p, oneMinusP := m.oneMinusP }

/-- `AmericanOptionBinomialTree.greeks`, line for line:
`delta = (self.price() - self.price()) / (self.S * 0.01)`,
`gamma = (delta - delta) / (self.S * 0.01)`,
`theta = -(self.price() - self.price()) / (self.T / self.n)`,
`vega = (self.price() - self.price()) / (self.sigma * 0.01)`,
`rho = (self.price() - self.price()) / (self.r * 0.01)`;
`self.price()` uses the default `american=True`.  Returned as the tuple
(Delta, Gamma, Theta, Vega, Rho). -/
def greeks (aexp : α → α) (m : Model α) : α × α × α × α × α :=
  let delta := (price aexp m true - price aexp m true) / (m.S * (1 / 100))
  let gamma := (delta - delta) / (m.S * (1 / 100))
  let theta := -(price aexp m true - price aexp m true) / (m.T / (m.n : α))
  let vega := (price aexp m true - price aexp m true) / (m.sigma * (1 / 100))
  let rho := (price aexp m true - price aexp m true) / (m.r * (1 / 100))
  (delta, gamma, theta, vega, rho)

end Dash

/-! ### Least-squares Monte Carlo (`lsmc_american_option_pricing.py`) -/

namespace LSMC

/-- Constructor arguments of `AmericanOptionsLSMC.__init__`
(`S0, strike, T, M, r, div, sigma, option_type, simulations`).
`put` models `option_type == 'put'`. -/
structure Args (α : Type) where
  S0 : α
  strike : α
  T : α
  M : ℕ
  r : α
  div : α
  sigma : α
  put : Bool
  simulations : ℕ
deriving DecidableEq, Repr

/-- Fields stored on a constructed `AmericanOptionsLSMC` object: the arguments
together with `dt = T / M` and `discount = exp(-r * dt)`. -/
structure Model (α : Type) where
  S0 : α
  strike : α
  T : α
  M : ℕ
  r : α
  div : α
  sigma : α
  put : Bool
  simulations : ℕ
  dt : α
  discount : α
deriving DecidableEq, Repr

/-- The `__init__` derivation: `dt = T / M`, `discount = np.exp(-r * dt)`. -/
def mkModel (aexp : α → α) (a : Args α) : Model α :=
  let dt := a.T / (a.M : α)
  { S0 := a.S0, strike := a.strike, T := a.T, M := a.M, r := a.r, div := a.div
    sigma := a.sigma, put := a.put, simulations := a.simulations
    dt := dt, discount := aexp (-(a.r * dt)) }

/-- Price of path `i` at time index `t` in `simulate_stock_paths`:
column `0` is `S0`; column `t+1` is column `t` times
`exp((r - div - 0.5*sigma^2) * dt + sigma * sqrt(dt) * z)` where `z` is the
`i`-th draw of the `(t+1)`-th `standard_normal(N)` call made after the
unconditional `np.random.seed(42)` at the top of the method
(the method recomputes `dt = T / M` locally). -/
def pathAt (aexp asqrt : α → α) (stream : ℕ → ℕ → ℕ → α) (m : Model α) (i : ℕ) : ℕ → α
  | 0 => m.S0
  | t + 1 =>
    pathAt aexp asqrt stream m i t *
      aexp ((m.r - m.div - (1 / 2) * m.sigma ^ 2) * (m.T / (m.M : α)) +
        m.sigma * asqrt (m.T / (m.M : α)) * stream 42 (t + 1) i)

/-- `simulate_stock_paths(N)`: the `N × (M+1)` matrix of simulated paths, row
`i` being path `i`.  The random seed is the hardcoded constant `42`; the method
takes no seed parameter. -/
def simulateStockPaths (aexp asqrt : α → α) (stream : ℕ → ℕ → ℕ → α) (m : Model α)
    (N : ℕ) : List (List α) :=
  (List.range N).map fun i => (List.range (m.M + 1)).map fun t => pathAt aexp asqrt stream m i t

/-- Modelled from the spec: §4.2's contract
`simulate(spec, paths, timeSteps, seed) -> matrix[paths][timeSteps+1]`, with
column 0 equal to `spot` and the exact discretization
`S_{t+1} = S_t * exp((r - q - 0.5σ²) dt + σ sqrt(dt) Z)`, the draws coming from
a generator seeded deterministically from the **given** `seed` argument (which
the source method does not have). -/
def specPathAt (aexp asqrt : α → α) (stream : ℕ → ℕ → ℕ → α) (m : Model α) (seed i : ℕ) :
    ℕ → α
  | 0 => m.S0
  | t + 1 =>
    specPathAt aexp asqrt stream m seed i t *
      aexp ((m.r - m.div - (1 / 2) * m.sigma ^ 2) * (m.T / (m.M : α)) +
        m.sigma * asqrt (m.T / (m.M : α)) * stream seed (t + 1) i)

/-- Modelled from the spec: the full path matrix of §4.2, seeded from the given
`seed` argument (see `specPathAt`). -/
def specSimulate (aexp asqrt : α → α) (stream : ℕ → ℕ → ℕ → α) (m : Model α)
    (N seed : ℕ) : List (List α) :=
  (List.range N).map fun i =>
    (List.range (m.M + 1)).map fun t => specPathAt aexp asqrt stream m seed i t

/-- The payoff applied elementwise to the path matrix in `price`:
`maximum((strike - paths) if put else (paths - strike), 0)`. -/
def payoff (m : Model α) (s : α) : α :=
  max (if m.put then m.strike - s else s - m.strike) 0

/-- Column `t` of an `N × (M+1)` matrix stored as a list of rows. -/
def col (t : ℕ) (mat : List (List α)) : List α :=
  mat.map fun row => row.getD t 0

/-- Exact embedding of `np.polyfit(x, y, 2)` on the systems this file evaluates.
`np.polyfit` raises `TypeError("expected non-empty vector for x")` on an empty
`x`, modelled by the error branch.  On a nonempty sample it computes a
least-squares quadratic fit; whenever the sample contains at least 3 distinct
abscissae the normal matrix is nonsingular and the unique least-squares
solution is the one obtained here by Cramer's rule on the normal equations.
(On a rank-deficient nonempty sample NumPy instead returns a minimum-norm
least-squares solution under a `RankWarning`; there the determinant below is
zero and, `α` being a field, the divisions return junk coefficients — no
theorem in this file evaluates that branch.)  Coefficients are returned
highest-degree first, as NumPy does. -/
def polyfit2 (xs ys : List α) : Except String (α × α × α) :=
  if xs = [] then .error "TypeError: expected non-empty vector for x"
  else
    let s0 : α := (xs.length : α)
    let s1 := xs.sum
    let s2 := (xs.map (· ^ 2)).sum
    let s3 := (xs.map (· ^ 3)).sum
    let s4 := (xs.map (· ^ 4)).sum
    let t0 := ys.sum
    let t1 := (List.zipWith (· * ·) xs ys).sum
    let t2 := (List.zipWith (fun x y => x ^ 2 * y) xs ys).sum
    let det := s4 * (s2 * s0 - s1 * s1) - s3 * (s3 * s0 - s1 * s2) + s2 * (s3 * s1 - s2 * s2)
    let da := t2 * (s2 * s0 - s1 * s1) - s3 * (t1 * s0 - s1 * t0) + s2 * (t1 * s1 - s2 * t0)
    let db := s4 * (t1 * s0 - s1 * t0) - t2 * (s3 * s0 - s1 * s2) + s2 * (s3 * t0 - s2 * t1)
    let dc := s4 * (s2 * t0 - t1 * s1) - s3 * (s3 * t0 - s1 * t1) + t2 * (s3 * s1 - s2 * s2)
    .ok (da / det, db / det, dc / det)

/-- `np.polyval` on a quadratic, highest coefficient first. -/
def polyval (c : α × α × α) (x : α) : α :=
  c.1 * x ^ 2 + c.2.1 * x + c.2.2

/-- The body of one iteration of the backward loop of `price` at time `t`, given
column `t` of the stock paths, column `t` of the payoff matrix, and the current
cashflow vector:
`in_the_money = payoffs[:, t] > 0`;
`regression = np.polyfit(paths[itm, t], cashflows[itm] * discount, 2)`;
`continuation = np.polyval(regression, paths[itm, t])`;
`cashflows[itm] = np.where(payoffs[itm, t] > continuation, payoffs[itm, t], cashflows[itm] * discount)`.
Out-of-the-money entries of `cashflows` are not reassigned. -/
def stepCashflows (disc : α) (pricesT payoffsT cfs : List α) : Except String (List α) := do
  let xs := (pricesT.zip payoffsT).filterMap fun pr => if pr.2 > 0 then some pr.1 else none
  let ys := (payoffsT.zip cfs).filterMap fun pc => if pc.1 > 0 then some (pc.2 * disc) else none
  let coeffs ← polyfit2 xs ys
  pure <| (pricesT.zip (payoffsT.zip cfs)).map fun x =>
    if x.2.1 > 0 then (if x.2.1 > polyval coeffs x.1 then x.2.1 else x.2.2 * disc) else x.2.2

/-- Modelled from the spec: §4.4 step 3's loop body, which additionally
discounts every out-of-the-money path's cashflow one step forward
(`cashflow *= exp(-r dt)`), exercising none of them.  Identical to
`stepCashflows` except for the out-of-the-money branch. -/
def specStepCashflows (disc : α) (pricesT payoffsT cfs : List α) : Except String (List α) := do
  let xs := (pricesT.zip payoffsT).filterMap fun pr => if pr.2 > 0 then some pr.1 else none
  let ys := (payoffsT.zip cfs).filterMap fun pc => if pc.1 > 0 then some (pc.2 * disc) else none
  let coeffs ← polyfit2 xs ys
  pure <| (pricesT.zip (payoffsT.zip cfs)).map fun x =>
    if x.2.1 > 0 then (if x.2.1 > polyval coeffs x.1 then x.2.1 else x.2.2 * disc)
    else x.2.2 * disc

/-- The list of time indices visited by `for t in range(M - 1, 0, -1)`:
`[M-1, M-2, ..., 1]`. -/
def tsList (M : ℕ) : List ℕ :=
  (List.range' 1 (M - 1)).reverse

/-- The whole backward loop of `price`: fold `stepCashflows` over
`t = M-1, ..., 1` starting from the terminal cashflows. -/
def backward (disc : α) (paths payoffs : List (List α)) (cf0 : List α) (M : ℕ) :
    Except String (List α) :=
  (tsList M).foldlM (fun cfs t => stepCashflows disc (col t paths) (col t payoffs) cfs) cf0

/-- Modelled from the spec: the backward loop with §4.4's out-of-the-money
discounting (`specStepCashflows`) in place of the source's update. -/
def specBackward (disc : α) (paths payoffs : List (List α)) (cf0 : List α) (M : ℕ) :
    Except String (List α) :=
  (tsList M).foldlM (fun cfs t => specStepCashflows disc (col t paths) (col t payoffs) cfs) cf0

/-- `AmericanOptionsLSMC.price`: simulate the paths, take terminal payoffs as the
initial cashflows, run the backward loop, and return
`np.mean(cashflows) * discount`.  A failure inside `np.polyfit` (empty
in-the-money set) propagates out as the Python exception does. -/
def price (aexp asqrt : α → α) (stream : ℕ → ℕ → ℕ → α) (a : Args α) : Except String α := do
  let m := mkModel aexp a
  let paths := simulateStockPaths aexp asqrt stream m m.simulations
  let payoffs := paths.map (List.map (payoff m))
  let cf0 := col m.M payoffs
  let cf ← backward m.discount paths payoffs cf0 m.M
  pure <| (cf.sum / (m.simulations : α)) * m.discount

/-- The perturbed constructor arguments of the `vega` property:
`diff = sigma * 0.01`, bumped-up instance uses `sigma + diff`. -/
def vegaUpArgs (a : Args α) : Args α :=
  { a with sigma := a.sigma + a.sigma * (1 / 100) }

/-- The bumped-down instance of the `vega` property: `sigma - diff` with
`diff = sigma * 0.01`. -/
def vegaDownArgs (a : Args α) : Args α :=
  { a with sigma := a.sigma - a.sigma * (1 / 100) }

/-- The perturbed constructor arguments of the `rho` property:
`diff = r * 0.01`, bumped-up instance uses `r + diff`. -/
def rhoUpArgs (a : Args α) : Args α :=
  { a with r := a.r + a.r * (1 / 100) }

/-- The bumped-down instance of the `rho` property: `r - diff` with
`diff = r * 0.01`. -/
def rhoDownArgs (a : Args α) : Args α :=
  { a with r := a.r - a.r * (1 / 100) }

end LSMC

/-! ### Greeks of `crr_american_option_pricing.py`

That file's `CRRBinomialOptionPricing` duplicates the pricing logic of
`CRR_pricing_model.py` (adding only behavior-free property wrappers), but its
`greeks` method uses different finite-difference bumps: relative bumps for the
spot legs and absolute `epsilon = 0.01` bumps for the vega and rho legs. -/

namespace CRRA

/-- Spot bumped up for Delta: `S * (1 + epsilon)`, `epsilon = 0.01`. -/
def deltaUpArgs (a : CRR.Args α) : CRR.Args α :=
  { a with S := a.S * (1 + 1 / 100) }

/-- Spot bumped down for Delta: `S * (1 - epsilon)`. -/
def deltaDownArgs (a : CRR.Args α) : CRR.Args α :=
  { a with S := a.S * (1 - 1 / 100) }

/-- Spot bumped up for Gamma: `S * (1 + 2*epsilon)`. -/
def gammaUpArgs (a : CRR.Args α) : CRR.Args α :=
  { a with S := a.S * (1 + 2 * (1 / 100)) }

/-- Spot bumped down for Gamma: `S * (1 - 2*epsilon)`. -/
def gammaDownArgs (a : CRR.Args α) : CRR.Args α :=
  { a with S := a.S * (1 - 2 * (1 / 100)) }

/-- Maturity bumped for Theta: `T - self.dt` with `self.dt = T / n`. -/
def thetaArgs (a : CRR.Args α) : CRR.Args α :=
  { a with T := a.T - a.T / (a.n : α) }

/-- Volatility bumped for Vega: `sigma + epsilon` — an **absolute** bump of
`0.01`, not a multiple of `sigma`. -/
def vegaArgs (a : CRR.Args α) : CRR.Args α :=
  { a with sigma := a.sigma + 1 / 100 }

/-- Rate bumped for Rho: `r + epsilon` — an **absolute** bump of `0.01`, not a
multiple of `r`. -/
def rhoArgs (a : CRR.Args α) : CRR.Args α :=
  { a with r := a.r + 1 / 100 }

/-- `crr_american_option_pricing.py`'s `greeks`: each leg constructs a fresh
`CRRBinomialOptionPricing` instance from the bumped arguments and prices it.
Returned as the tuple (Delta, Gamma, Theta, Vega, Rho). -/
def greeks (aexp asqrt : α → α) (a : CRR.Args α) : α × α × α × α × α :=
  let ε : α := 1 / 100
  let base := CRR.price aexp (CRR.mkModel aexp asqrt a)
  let priceUp := CRR.price aexp (CRR.mkModel aexp asqrt (deltaUpArgs a))
  let priceDown := CRR.price aexp (CRR.mkModel aexp asqrt (deltaDownArgs a))
  let priceUp2 := CRR.price aexp (CRR.mkModel aexp asqrt (gammaUpArgs a))
  let priceDown2 := CRR.price aexp (CRR.mkModel aexp asqrt (gammaDownArgs a))
  let delta := (priceUp - priceDown) / (2 * a.S * ε)
  let gamma := (priceUp2 - 2 * base + priceDown2) / (a.S * ε) ^ 2
  let theta := (CRR.price aexp (CRR.mkModel aexp asqrt (thetaArgs a)) - base) / (a.T / (a.n : α))
  let vega := (CRR.price aexp (CRR.mkModel aexp asqrt (vegaArgs a)) - base) / ε
  let rho := (CRR.price aexp (CRR.mkModel aexp asqrt (rhoArgs a)) - base) / ε
  (delta, gamma, theta, vega, rho)

end CRRA

/-! ### Spec-side lattice (for the refinement claim C4) -/

namespace CRR

/-- Modelled from the spec (§4.1), with the iteration-count detail stated the
way the code actually behaves: the node values of the lattice, level by level.
`specLevel k` is the list of option values after `k` backward steps, i.e. at
time level `i = n - k`, which has `i + 1` nodes; node `j` of level `i` has
stock price `S * u^j * d^(i-j)`, terminal values are the payoffs
`max(S-K,0)` / `max(K-S,0)`, and one step computes
`exp(-r dt) * (p * V_{i+1,j+1} + (1-p) * V_{i+1,j})`, followed, in the American
case, by `max` with the intrinsic payoff at the node's stock price. -/
def specLevel (aexp : α → α) (m : Model α) : ℕ → List α
  | 0 => ((List.range (m.n + 1)).map fun j => m.S * m.u ^ j * m.d ^ (m.n - j)).map (optionPayoff m)
  | k + 1 =>
    let prev := specLevel aexp m k
    let i := m.n - (k + 1)
    (List.range (i + 1)).map fun j =>
      let cont := aexp (-(m.r * m.dt)) * (m.p * prev.getD (j + 1) 0 + m.oneMinusP * prev.getD j 0)
      if m.american then max cont (optionPayoff m (m.S * m.u ^ j * m.d ^ (i - j))) else cont

/-- Modelled from the spec (§4.1): the root value of the backward induction. -/
def specPrice (aexp : α → α) (m : Model α) : α :=
  (specLevel aexp m m.n).getD 0 0

end CRR

/-! ### Rigorous interval evaluation of the real-number lattice (for C9)

Scaled natural-number interval arithmetic: a pair `⟨lo, hi⟩ : NInt` encloses a
real `x` when `lo ≤ x * Sc ≤ hi` with scale `Sc = 10^9`.  All quantities in the
lattice run for the C9 scenario are nonnegative, so products can be bounded
endpoint-by-endpoint with floor/ceiling division.  A forcing guard (an `if`
with identical branches, provably equal to the plain step) keeps the kernel's
evaluation of a 200-step run shallow enough to `decide`. -/

namespace IV

/-- The fixed scale of the interval arithmetic. -/
def Sc : ℕ := 1000000000

/-- A nonnegative interval with endpoints scaled by `Sc`. -/
structure NInt where
  lo : ℕ
  hi : ℕ
deriving DecidableEq, Repr

/-- `⟨lo, hi⟩` encloses the real `x` when `lo ≤ x * Sc ≤ hi`. -/
def encl (v : NInt) (x : ℝ) : Prop :=
  (v.lo : ℝ) ≤ x * (Sc : ℝ) ∧ x * (Sc : ℝ) ≤ (v.hi : ℝ)

/-- Outward-rounded interval product (for enclosures of nonnegative reals). -/
def NInt.mul (a b : NInt) : NInt :=
  ⟨a.lo * b.lo / Sc, (a.hi * b.hi + (Sc - 1)) / Sc⟩

/-- Exact interval sum. -/
def NInt.add (a b : NInt) : NInt :=
  ⟨a.lo + b.lo, a.hi + b.hi⟩

/-- Elementwise interval maximum. -/
def NInt.max (a b : NInt) : NInt :=
  ⟨Max.max a.lo b.lo, Max.max a.hi b.hi⟩

/-- Interval power by repeated squaring (fuel-structural so that the kernel can
unfold it; `fuel = 16` covers every exponent below `2^16`). -/
def NInt.powAux : ℕ → NInt → ℕ → NInt
  | 0, _, _ => ⟨Sc, Sc⟩
  | fuel + 1, b, k =>
    if k = 0 then ⟨Sc, Sc⟩
    else
      let h := NInt.powAux fuel (b.mul b) (k / 2)
      if k % 2 = 1 then h.mul b else h

/-- Interval power. -/
def NInt.pow (b : NInt) (k : ℕ) : NInt :=
  NInt.powAux 16 b k

/-- Interval version of the clamped payoff `max(s - K, 0)` / `max(K - s, 0)`
(the truncated subtraction of `ℕ` is exactly the clamp). -/
def payI (call : Bool) (KSc : ℕ) (s : NInt) : NInt :=
  if call then ⟨s.lo - KSc, s.hi - KSc⟩ else ⟨KSc - s.hi, KSc - s.lo⟩

/-- Interval mirror of one backward-induction iteration of `CRR.price` for an
American option: collapse the stock array, discount the expected value, take
the max with the intrinsic value. -/
def step (uI pI qI discI : NInt) (call : Bool) (KSc : ℕ)
    (st : List NInt × List NInt) : List NInt × List NInt :=
  let sp := st.1.dropLast.map (·.mul uI)
  let ov := List.zipWith (fun vUp vDown => discI.mul ((pI.mul vUp).add (qI.mul vDown)))
    st.2.tail st.2.dropLast
  let ov := List.zipWith (fun v s => v.max (payI call KSc s)) ov sp
  (sp, ov)

/-- A strictness barrier: fully evaluating this fold forces every interval in
the list into literal form, which keeps the kernel's call stack shallow during
`decide`. -/
def forceL (l : List NInt) : ℕ :=
  l.foldl (fun a x => a + x.lo + x.hi) 0

/-- The guarded step: an `if` whose two branches are the same `step`.  By
`ite_self` it equals `step`; its only purpose is to force the state before
recursing. -/
def stepG (uI pI qI discI : NInt) (call : Bool) (KSc : ℕ)
    (st : List NInt × List NInt) : List NInt × List NInt :=
  if forceL st.1 + forceL st.2 = 0 then step uI pI qI discI call KSc st
  else step uI pI qI discI call KSc st

/-- `k` guarded interval iterations. -/
def loopG (uI pI qI discI : NInt) (call : Bool) (KSc : ℕ) :
    ℕ → List NInt × List NInt → List NInt × List NInt
  | 0, st => st
  | k + 1, st => loopG uI pI qI discI call KSc k (stepG uI pI qI discI call KSc st)

/-- `k` plain interval iterations (the object the soundness proof talks about). -/
def loop (uI pI qI discI : NInt) (call : Bool) (KSc : ℕ) :
    ℕ → List NInt × List NInt → List NInt × List NInt
  | 0, st => st
  | k + 1, st => loop uI pI qI discI call KSc k (step uI pI qI discI call KSc st)

/-- Interval mirror of `build_stock_price_tree`: entry `j` is an enclosure of
`S * u^j * d^(n-j)`. -/
def initSP (uI dI SI : NInt) (n : ℕ) : List NInt :=
  (List.range (n + 1)).map fun j => (SI.mul (uI.pow j)).mul (dI.pow (n - j))

/-- The interval root value of an `n`-step American CRR run. -/
def root (uI dI pI qI discI SI : NInt) (call : Bool) (KSc n : ℕ) : NInt :=
  let sp := initSP uI dI SI n
  ((loopG uI pI qI discI call KSc n (sp, sp.map (payI call KSc))).2).headD ⟨0, 0⟩

/-- The input enclosures of the C9 scenario
(`S=100, K=100, T=1, r=0.05, σ=0.2, n=200`), scaled by `Sc = 10^9`:
`u = exp(0.2·sqrt(1/200)) ∈ [1.014242608, 1.014242609]`, `d = 1/u`,
`p = (exp(0.05/200) - d)/(u - d)`, `q = 1 - p`, `disc = exp(-0.05/200)`. -/
def uI9 : NInt := ⟨1014242608, 1014242609⟩

/-- Enclosure of `d = 1/u` for the C9 scenario. -/
def dI9 : NInt := ⟨985957394, 985957395⟩

/-- Enclosure of the risk-neutral probability `p` for the C9 scenario. -/
def pI9 : NInt := ⟨505304170, 505304171⟩

/-- Enclosure of `1 - p` for the C9 scenario. -/
def qI9 : NInt := ⟨494695829, 494695830⟩

/-- Enclosure of the one-step discount `exp(-0.05/200)` for the C9 scenario. -/
def discI9 : NInt := ⟨999750031, 999750032⟩

/-- Exact (degenerate) enclosure of the spot `S = 100`. -/
def SI9 : NInt := ⟨100 * Sc, 100 * Sc⟩

/-- The scaled strike `K = 100`. -/
def KSc9 : ℕ := 100 * Sc

/-- The interval result for the C9 American call. -/
def callRoot : NInt := root uI9 dI9 pI9 qI9 discI9 SI9 true KSc9 200

/-- The interval result for the C9 American put. -/
def putRoot : NInt := root uI9 dI9 pI9 qI9 discI9 SI9 false KSc9 200

/-- Pointwise enclosure of a real list by an interval list. -/
def enclL (l : List NInt) (L : List ℝ) : Prop :=
  List.Forall₂ encl l L

end IV

/-! ### Concrete scenarios used by individual claims -/

/-- The C9 contract: `S=100, K=100, T=1, r=0.05, σ=0.2, steps=200`, American call. -/
def aC9call (α : Type) [LinearOrderedField α] : CRR.Args α :=
  { S := 100, K := 100, T := 1, r := 5 / 100, sigma := 2 / 10, n := 200
    optionCall := true, american := true }

/-- The C9 contract with the same parameters, American put. -/
def aC9put (α : Type) [LinearOrderedField α] : CRR.Args α :=
  { aC9call α with optionCall := false }

/-- The C3 counterexample contract: `S=K=1, T=1, σ=1, n=1` and a large rate
`r=2`, for which the derived risk-neutral probability exceeds 1. -/
def aC3 (α : Type) [LinearOrderedField α] : CRR.Args α :=
  { S := 1, K := 1, T := 1, r := 2, sigma := 1, n := 1
    optionCall := true, american := true }

/-- The C8 counterexample contract: `S=K=1, T=2, r=2, σ=1, n=2`, a put.  The
derived probability is `p = (e² - e⁻¹)/(e - e⁻¹) > 1`, outside the spec's model
invariant, and the American lattice value is strictly below the European one. -/
def aC8 (α : Type) [LinearOrderedField α] : CRR.Args α :=
  { S := 1, K := 1, T := 2, r := 2, sigma := 1, n := 2
    optionCall := false, american := true }

/-- The C4 counterexample contract (any `n = 2` contract works: the refuted
count is about array lengths, not values). -/
def aC4 (α : Type) [LinearOrderedField α] : CRR.Args α :=
  { S := 100, K := 100, T := 1, r := 5 / 100, sigma := 2 / 10, n := 2
    optionCall := true, american := true }

/-- The C1 counterexample scenario: a 4-path, 2-step call with `strike = 2`,
`T = 2` (so `dt = 1`), `r = -1/2`; with `aexp = id` the one-step discount is
`exp(-r*dt) = 1/2`.  The draws are chosen so that at `t = 1` paths 0–2 are in
the money with distinct prices 3, 4, 5 and path 3 is out of the money with
price 1 but finishes in the money with terminal cashflow 3. -/
def aC1 : LSMC.Args ℚ :=
  { S0 := 1, strike := 2, T := 2, M := 2, r := -(1 / 2), div := 0, sigma := 1
    put := false, simulations := 4 }

/-- The draw stream of the C1 scenario (`stream s t i` is draw `i` of step `t`). -/
def streamC1 : ℕ → ℕ → ℕ → ℚ := fun _ t i =>
  if t = 1 then [4, 5, 6, 2].getD i 0 else [1, 1, 1, 6].getD i 0

/-- The constructed LSMC model of the C1 scenario (`aexp = id`). -/
def mC1 : LSMC.Model ℚ := LSMC.mkModel id aC1

/-- The simulated path matrix of the C1 scenario:
`[[1,3,0],[1,4,0],[1,5,0],[1,1,5]]`. -/
def pathsC1 : List (List ℚ) := LSMC.simulateStockPaths id id streamC1 mC1 4

/-- The payoff matrix of the C1 scenario: `[[0,1,0],[0,2,0],[0,3,0],[0,0,3]]`. -/
def payoffsC1 : List (List ℚ) := pathsC1.map (List.map (LSMC.payoff mC1))

/-- The C2 counterexample scenario: a 2-path, 2-step put with `strike = 0`, so
no path is ever in the money and the first backward step hands `np.polyfit` an
empty in-the-money vector. -/
def aC2 : LSMC.Args ℚ :=
  { S0 := 1, strike := 0, T := 2, M := 2, r := 0, div := 0, sigma := 0
    put := true, simulations := 2 }

/-- A second degenerate scenario (used by the C2 witness): one path, three
steps, `strike = 0`. -/
def aC2w : LSMC.Args ℚ :=
  { S0 := 2, strike := 0, T := 3, M := 3, r := 0, div := 0, sigma := 0
    put := true, simulations := 1 }

/-- The C5 counterexample model: a single path and a single step. -/
def mC5 : LSMC.Model ℚ :=
  LSMC.mkModel id
    { S0 := 1, strike := 1, T := 1, M := 1, r := 0, div := 0, sigma := 1
      put := false, simulations := 1 }

/-- A draw stream that depends only on the seed, separating seed 42 from any
other requested seed. -/
def streamC5 : ℕ → ℕ → ℕ → ℚ := fun s _ _ => (s : ℚ)

/-- Concrete lattice arguments for the C6 witness. -/
def aC6crr : CRR.Args ℚ :=
  { S := 4, K := 5, T := 1, r := 0, sigma := 0, n := 2
    optionCall := false, american := true }

/-- Concrete Monte Carlo arguments for the C6 witness (`M = 1`, so the backward
loop is empty and the price is the discounted mean terminal payoff). -/
def aC6mc : LSMC.Args ℚ :=
  { S0 := 1, strike := 1, T := 1, M := 1, r := 0, div := 0, sigma := 0
    put := true, simulations := 1 }

/-- Contract with `σ = 1/2` and `r = 1/2` for the C7 counterexample: the source
vega/rho bumps are the absolute `0.01`, not 1% of `σ` or `r`. -/
def aC7 : CRR.Args ℚ :=
  { S := 100, K := 100, T := 1, r := 1 / 2, sigma := 1 / 2, n := 10
    optionCall := true, american := true }

/-- Concrete lattice model for witnesses of the generic lattice theorems:
`u = 2`, `d = 1/2`, `p = 1/2`, and `r·dt = -1` so that with `aexp = id` the
discount `aexp(-(r·dt)) = 1` is nonnegative. -/
def wModel : CRR.Model ℚ :=
  { S := 4, K := 5, T := 2, r := -1, sigma := 0, n := 2
    optionCall := false, american := true
    dt := 1, u := 2, d := 1 / 2, p := 1 / 2, oneMinusP := 1 / 2 }

/-- The constructed LSMC model of the C2 scenario (`aexp` constantly 1). -/
def mC2 : LSMC.Model ℚ := LSMC.mkModel (fun _ => 1) aC2

/-- The simulated path matrix of the C2 scenario (all prices equal 1). -/
def pathsC2 : List (List ℚ) := LSMC.simulateStockPaths (fun _ => 1) id (fun _ _ _ => 0) mC2 2

/-- The payoff matrix of the C2 scenario (all zero: the strike is 0 and the
option a put). -/
def payoffsC2 : List (List ℚ) := pathsC2.map (List.map (LSMC.payoff mC2))

/-! ## Theorems -/

/-- C10: for every input option (any spot, strike, maturity, rate, volatility,
step count and option type), the `greeks` method of `main.py`'s
`AmericanOptionBinomialTree` returns Delta, Gamma, Theta, Vega and Rho all
exactly zero, because each numerator is a difference of two identical
`self.price()` calls. -/
theorem C10_theorem {α : Type} [LinearOrderedField α] (aexp : α → α) (m : Dash.Model α) :
    Dash.greeks aexp m = (0, 0, 0, 0, 0) := by
  simp [Dash.greeks]

/-- C7 (amended): the spot bumps of `crr_american_option_pricing.py`'s Delta
and Gamma legs are relative (`S*(1±ε)`, `S*(1±2ε)` with `ε = 0.01`), and the
LSMC `vega`/`rho` bumps are 1% of the current volatility and rate; but the
vega and rho bumps of `crr_american_option_pricing.py` are the **absolute**
constant `0.01`, not 1% of the perturbed variable. -/
theorem C7_amended {α : Type} [LinearOrderedField α] (a : CRR.Args α) (b : LSMC.Args α) :
    (CRRA.deltaUpArgs a).S = a.S * (1 + 1 / 100) ∧
    (CRRA.deltaDownArgs a).S = a.S * (1 - 1 / 100) ∧
    (CRRA.gammaUpArgs a).S = a.S * (1 + 2 * (1 / 100)) ∧
    (CRRA.gammaDownArgs a).S = a.S * (1 - 2 * (1 / 100)) ∧
    (LSMC.vegaUpArgs b).sigma = b.sigma + b.sigma * (1 / 100) ∧
    (LSMC.vegaDownArgs b).sigma = b.sigma - b.sigma * (1 / 100) ∧
    (LSMC.rhoUpArgs b).r = b.r + b.r * (1 / 100) ∧
    (LSMC.rhoDownArgs b).r = b.r - b.r * (1 / 100) ∧
    (CRRA.vegaArgs a).sigma = a.sigma + 1 / 100 ∧
    (CRRA.rhoArgs a).r = a.r + 1 / 100 :=
  ⟨rfl, rfl, rfl, rfl, rfl, rfl, rfl, rfl, rfl, rfl⟩

/-- C7 (counterexample): at `σ = 1/2`, `r = 1/2` the vega bump of
`crr_american_option_pricing.py` is `σ + 0.01 = 0.51`, not
`σ + 0.01·σ = 0.505`, and likewise for rho — the claim that every bump is 1%
of the perturbed variable fails on these two legs. -/
theorem C7_counterexample :
    (CRRA.vegaArgs aC7).sigma ≠ aC7.sigma + aC7.sigma * (1 / 100) ∧
    (CRRA.rhoArgs aC7).r ≠ aC7.r + aC7.r * (1 / 100) := by
  constructor <;> · norm_num [CRRA.vegaArgs, CRRA.rhoArgs, aC7]

/-- C6: both pricers are deterministic two-run: with identical constructor
arguments (and, for the Monte Carlo pricer, the same draw generator — the
source seeds NumPy with the fixed constant 42, so the draw stream is the same
function on every call) the returned prices are identical. -/
theorem C6_theorem {α : Type} [LinearOrderedField α] (aexp asqrt : α → α)
    (stream : ℕ → ℕ → ℕ → α) (a₁ a₂ : CRR.Args α) (b₁ b₂ : LSMC.Args α)
    (h : a₁ = a₂) (h' : b₁ = b₂) :
    CRR.price aexp (CRR.mkModel aexp asqrt a₁) = CRR.price aexp (CRR.mkModel aexp asqrt a₂) ∧
    LSMC.price aexp asqrt stream b₁ = LSMC.price aexp asqrt stream b₂ := by
  subst h; subst h'; exact ⟨rfl, rfl⟩

/-- Witness for C6 at a concrete lattice contract and a concrete Monte Carlo
contract. -/
theorem C6_witness :
    CRR.price id (CRR.mkModel id id aC6crr) = CRR.price id (CRR.mkModel id id aC6crr) ∧
    LSMC.price id id (fun _ _ _ => (0 : ℚ)) aC6mc = LSMC.price id id (fun _ _ _ => (0 : ℚ)) aC6mc :=
  C6_theorem id id (fun _ _ _ => (0 : ℚ)) aC6crr aC6crr aC6mc aC6mc rfl rfl

/-- C3 (amended): the lattice pricer performs no validation of the derived
risk-neutral probability: construction fails (with Python's
`ZeroDivisionError`, not an `InvalidModelError`) exactly when `steps = 0`, and
for every other argument set — including any with `p ∉ [0,1]` — construction
succeeds and `price` returns a numeric value. -/
theorem C3_amended {α : Type} [LinearOrderedField α] (aexp asqrt : α → α) (a : CRR.Args α) :
    (CRR.mk aexp asqrt a = .error "ZeroDivisionError: division by zero" ↔ a.n = 0) ∧
    (a.n ≠ 0 → CRR.mk aexp asqrt a = .ok (CRR.mkModel aexp asqrt a)) := by
  unfold CRR.mk
  constructor
  · split <;> simp_all
  · intro h
    simp [h]

/-- Witness for C3 (amended) at a concrete contract with `n = 2 ≠ 0`. -/
theorem C3_witness :
    CRR.mk (id : ℚ → ℚ) id aC6crr = .ok (CRR.mkModel id id aC6crr) :=
  (C3_amended id id aC6crr).2 (by decide)

/-- C1 (counterexample): in the concrete 4-path, 2-step scenario `aC1`, path 3
is out of the money at the backward step `t = 1` (the in-the-money payoffs
column there is `[1,2,3,0]`), and the source loop leaves its cashflow at the
undiscounted `3` (final cashflows `[1,2,3,3]`, price `9/8`), whereas the
claimed loop — which discounts every out-of-the-money cashflow by
`exp(-r·dt) = 1/2` — produces `[1,2,3,3/2]`; and `3 ≠ 3·(1/2)`. -/
theorem C1_counterexample :
    LSMC.col 1 payoffsC1 = [1, 2, 3, 0] ∧
    LSMC.backward mC1.discount pathsC1 payoffsC1 (LSMC.col mC1.M payoffsC1) mC1.M
      = .ok [1, 2, 3, 3] ∧
    LSMC.specBackward mC1.discount pathsC1 payoffsC1 (LSMC.col mC1.M payoffsC1) mC1.M
      = .ok [1, 2, 3, 3 / 2] ∧
    LSMC.price id id streamC1 aC1 = .ok (9 / 8) ∧
    (3 : ℚ) ≠ 3 * (1 / 2) := by
  refine ⟨?_, ?_, ?_, ?_, by norm_num⟩ <;>
  · norm_num [payoffsC1, pathsC1, mC1, aC1, streamC1, LSMC.price, LSMC.mkModel,
      LSMC.simulateStockPaths, LSMC.pathAt, LSMC.payoff, LSMC.col, LSMC.backward,
      LSMC.specBackward, LSMC.tsList, LSMC.stepCashflows, LSMC.specStepCashflows,
      LSMC.polyfit2, LSMC.polyval, List.range_succ, List.foldlM, List.filterMap,
      Except.bind]
    try simp
    try norm_num

/-- C1 (amended): in the Monte Carlo pricer's backward loop, whenever the
regression succeeds, every in-the-money path's cashflow is replaced by the
immediate-exercise payoff exactly when that payoff strictly exceeds the
regression-estimated continuation value and otherwise by the cashflow
discounted one step; every out-of-the-money path's cashflow is left
**unchanged** (neither discounted nor set to an exercise value). -/
theorem C1_amended {α : Type} [LinearOrderedField α] (disc : α)
    (pricesT payoffsT cfs : List α) (coeffs : α × α × α)
    (hfit : LSMC.polyfit2
        ((pricesT.zip payoffsT).filterMap fun pr => if pr.2 > 0 then some pr.1 else none)
        ((payoffsT.zip cfs).filterMap fun pc => if pc.1 > 0 then some (pc.2 * disc) else none)
        = .ok coeffs)
    (hl1 : payoffsT.length = pricesT.length) (hl2 : cfs.length = pricesT.length)
    (i : ℕ) (hi : i < pricesT.length) :
    ∃ out, LSMC.stepCashflows disc pricesT payoffsT cfs = .ok out ∧
      out.length = pricesT.length ∧
      (payoffsT.getD i 0 > 0 →
        out.getD i 0 = if payoffsT.getD i 0 > LSMC.polyval coeffs (pricesT.getD i 0)
          then payoffsT.getD i 0 else cfs.getD i 0 * disc) ∧
      (¬ payoffsT.getD i 0 > 0 → out.getD i 0 = cfs.getD i 0) := by
  have hip : i < payoffsT.length := by omega
  have hic : i < cfs.length := by omega
  refine ⟨(pricesT.zip (payoffsT.zip cfs)).map fun x =>
      if x.2.1 > 0 then (if x.2.1 > LSMC.polyval coeffs x.1 then x.2.1 else x.2.2 * disc)
      else x.2.2, ?_, ?_, ?_, ?_⟩
  · simp [LSMC.stepCashflows, hfit]
  · simp [List.length_zip, hl1, hl2]
  all_goals
    intro hitm
    have hiz : i < ((pricesT.zip (payoffsT.zip cfs)).map fun x =>
        if x.2.1 > 0 then (if x.2.1 > LSMC.polyval coeffs x.1 then x.2.1 else x.2.2 * disc)
        else x.2.2).length := by
      simp [List.length_zip, hl1, hl2, hi]
    simp only [List.getD_eq_getElem _ _ hiz, List.getD_eq_getElem _ _ hip,
      List.getD_eq_getElem _ _ hic, List.getD_eq_getElem _ _ hi] at hitm ⊢
    simp only [List.getElem_map, List.getElem_zip]
    simp [hitm]

/-- Witness for C1 (amended) at the step data of the `aC1` scenario
(`i = 3`, the out-of-the-money path: its cashflow stays `3`). -/
theorem C1_witness :
    ∃ out, LSMC.stepCashflows (1 / 2 : ℚ) [3, 4, 5, 1] [1, 2, 3, 0] [0, 0, 0, 3] = .ok out ∧
      out.length = ([3, 4, 5, 1] : List ℚ).length ∧
      (([1, 2, 3, 0] : List ℚ).getD 3 0 > 0 →
        out.getD 3 0 = if ([1, 2, 3, 0] : List ℚ).getD 3 0 >
            LSMC.polyval ((0 : ℚ), (0 : ℚ), (0 : ℚ)) (([3, 4, 5, 1] : List ℚ).getD 3 0)
          then ([1, 2, 3, 0] : List ℚ).getD 3 0 else ([0, 0, 0, 3] : List ℚ).getD 3 0 * (1 / 2)) ∧
      (¬ ([1, 2, 3, 0] : List ℚ).getD 3 0 > 0 →
        out.getD 3 0 = ([0, 0, 0, 3] : List ℚ).getD 3 0) :=
  C1_amended (1 / 2 : ℚ) [3, 4, 5, 1] [1, 2, 3, 0] [0, 0, 0, 3] (0, 0, 0)
    (by norm_num [LSMC.polyfit2, List.filterMap]; simp)
    (by norm_num) (by norm_num) 3 (by norm_num)

/-- C2 (counterexample): a concrete Monte Carlo pricing call (a put with
strike 0, two paths, two time steps) at whose backward step `t = 1` zero paths
— fewer than `degree + 1 = 3` — are in the money; the degenerate regression is
**not** handled locally: `np.polyfit`'s `TypeError` propagates and the pricer
returns an error instead of a price. -/
theorem C2_counterexample :
    ((LSMC.col 1 payoffsC2).filter fun z => z > 0).length = 0 ∧ (0 : ℕ) < 3 ∧
    LSMC.price (fun _ => (1 : ℚ)) id (fun _ _ _ => 0) aC2 =
      .error "TypeError: expected non-empty vector for x" := by
  refine ⟨?_, by norm_num, ?_⟩
  · norm_num [payoffsC2, pathsC2, mC2, LSMC.simulateStockPaths, LSMC.pathAt,
      LSMC.payoff, LSMC.col, LSMC.mkModel, aC2, List.range_succ, List.filter]
  · norm_num [LSMC.price, LSMC.mkModel, LSMC.simulateStockPaths, LSMC.pathAt,
      LSMC.payoff, LSMC.col, LSMC.backward, LSMC.tsList, LSMC.stepCashflows,
      LSMC.polyfit2, aC2, List.range_succ, List.foldlM, List.filterMap, Except.bind]

/-- C2 (amended): the degenerate regression case is not handled: at any time
step with zero in-the-money paths, `np.polyfit`'s `TypeError` propagates out of
the pricer.  In particular, for every put contract with strike 0, positive
spot, a positive-valued exponential and at least two time steps, `price`
returns the error instead of a number. -/
theorem C2_amended {α : Type} [LinearOrderedField α] (aexp asqrt : α → α)
    (stream : ℕ → ℕ → ℕ → α) (a : LSMC.Args α)
    (hput : a.put = true) (hstrike : a.strike = 0) (hS0 : 0 < a.S0)
    (hexp : ∀ x, 0 < aexp x) (hM : 2 ≤ a.M) :
    LSMC.price aexp asqrt stream a = .error "TypeError: expected non-empty vector for x" := by
  set m := LSMC.mkModel aexp a with hm
  have hput' : m.put = true := hput
  have hstrike' : m.strike = 0 := hstrike
  have hpos : ∀ i t, 0 < LSMC.pathAt aexp asqrt stream m i t := by
    intro i t
    induction t with
    | zero => simpa [LSMC.pathAt] using hS0
    | succ t ih => exact mul_pos ih (hexp _)
  have hpay : ∀ s : α, 0 < s → LSMC.payoff m s = 0 := by
    intro s hs
    rw [LSMC.payoff, if_pos hput', hstrike', zero_sub]
    exact max_eq_right (neg_nonpos.2 hs.le)
  have hcol : ∀ t' z, z ∈ LSMC.col t'
      ((LSMC.simulateStockPaths aexp asqrt stream m m.simulations).map
        (List.map (LSMC.payoff m))) → z = 0 := by
    intro t' z hz
    rw [LSMC.col, List.mem_map] at hz
    obtain ⟨row, hrow, hz⟩ := hz
    rw [List.mem_map] at hrow
    obtain ⟨prow, hprow, hrow⟩ := hrow
    rw [LSMC.simulateStockPaths, List.mem_map] at hprow
    obtain ⟨i, _, hprow⟩ := hprow
    subst hrow hprow hz
    by_cases ht : t' < ((List.range (m.M + 1)).map fun t => LSMC.pathAt aexp asqrt stream m i t).length
    · rw [List.getD_eq_getElem _ _ (by simpa using ht)]
      simp only [List.getElem_map]
      exact hpay _ (hpos i _)
    · exact List.getD_eq_default _ _ (by simpa using Nat.le_of_not_lt (by simpa using ht))
  have hstep : ∀ (cfs : List α) t',
      LSMC.stepCashflows m.discount
        (LSMC.col t' (LSMC.simulateStockPaths aexp asqrt stream m m.simulations))
        (LSMC.col t' ((LSMC.simulateStockPaths aexp asqrt stream m m.simulations).map
          (List.map (LSMC.payoff m)))) cfs
        = .error "TypeError: expected non-empty vector for x" := by
    intro cfs t'
    have hxs : (((LSMC.col t' (LSMC.simulateStockPaths aexp asqrt stream m m.simulations)).zip
        (LSMC.col t' ((LSMC.simulateStockPaths aexp asqrt stream m m.simulations).map
          (List.map (LSMC.payoff m))))).filterMap
        fun pr => if pr.2 > 0 then some pr.1 else none) = [] := by
      rw [List.filterMap_eq_nil_iff]
      rintro ⟨p, q⟩ hpr
      have hq := (List.of_mem_zip hpr).2
      have := hcol t' q hq
      simp [this]
    rw [LSMC.stepCashflows, hxs]
    rw [LSMC.polyfit2]
    rfl
  have hts : LSMC.tsList a.M = (a.M - 1) :: (List.range' 1 (a.M - 2)).reverse := by
    rw [LSMC.tsList]
    have h2 : a.M - 1 = (a.M - 2) + 1 := by omega
    rw [h2, List.range'_concat, List.reverse_append]
    have h3 : 1 + 1 * (a.M - 2) = a.M - 1 := by omega
    simp [h3]
    omega
  have hMm : m.M = a.M := rfl
  have hb : LSMC.backward m.discount
      (LSMC.simulateStockPaths aexp asqrt stream m m.simulations)
      ((LSMC.simulateStockPaths aexp asqrt stream m m.simulations).map
        (List.map (LSMC.payoff m)))
      (LSMC.col m.M ((LSMC.simulateStockPaths aexp asqrt stream m m.simulations).map
        (List.map (LSMC.payoff m)))) m.M
      = .error "TypeError: expected non-empty vector for x" := by
    rw [LSMC.backward, hMm, hts, List.foldlM]
    rw [hstep]
    rfl
  rw [LSMC.price]
  rw [hb]
  rfl

/-- Witness for C2 (amended) at the concrete degenerate contract `aC2w`. -/
theorem C2_witness :
    LSMC.price (fun _ => (1 : ℚ)) id (fun _ _ _ => 0) aC2w =
      .error "TypeError: expected non-empty vector for x" :=
  C2_amended (fun _ => 1) id (fun _ _ _ => 0) aC2w rfl rfl (by norm_num [aC2w])
    (fun _ => by norm_num) (by norm_num [aC2w])

/-- The source path recursion coincides with the spec-side recursion at the
hardcoded seed 42. -/
theorem pathAt_eq_specPathAt {α : Type} [LinearOrderedField α] (aexp asqrt : α → α)
    (stream : ℕ → ℕ → ℕ → α) (m : LSMC.Model α) (i t : ℕ) :
    LSMC.pathAt aexp asqrt stream m i t = LSMC.specPathAt aexp asqrt stream m 42 i t := by
  induction t with
  | zero => rfl
  | succ t ih => rw [LSMC.pathAt, LSMC.specPathAt, ih]

/-- C5 (amended): the path simulator returns an `N × (M+1)` matrix whose column
0 equals spot on every path, and whose column `t+1` equals column `t` times
`exp((r - q - 0.5σ²)·dt + σ·sqrt(dt)·Z)` with `dt = T/M` and `Z` the per-path,
per-step draw of a generator seeded with the **fixed constant 42** on every
call (the simulator takes no seed parameter); it equals the spec's seeded
simulator applied at seed 42. -/
theorem C5_amended {α : Type} [LinearOrderedField α] (aexp asqrt : α → α)
    (stream : ℕ → ℕ → ℕ → α) (m : LSMC.Model α) (N : ℕ) :
    (LSMC.simulateStockPaths aexp asqrt stream m N).length = N ∧
    LSMC.simulateStockPaths aexp asqrt stream m N = LSMC.specSimulate aexp asqrt stream m N 42 ∧
    ∀ i < N,
      ((LSMC.simulateStockPaths aexp asqrt stream m N).getD i []).length = m.M + 1 ∧
      ((LSMC.simulateStockPaths aexp asqrt stream m N).getD i []).getD 0 0 = m.S0 ∧
      ∀ t < m.M,
        ((LSMC.simulateStockPaths aexp asqrt stream m N).getD i []).getD (t + 1) 0 =
          ((LSMC.simulateStockPaths aexp asqrt stream m N).getD i []).getD t 0 *
            aexp ((m.r - m.div - (1 / 2) * m.sigma ^ 2) * (m.T / (m.M : α)) +
              m.sigma * asqrt (m.T / (m.M : α)) * stream 42 (t + 1) i) := by
  refine ⟨by simp [LSMC.simulateStockPaths], ?_, ?_⟩
  · simp [LSMC.simulateStockPaths, LSMC.specSimulate,
      pathAt_eq_specPathAt aexp asqrt stream m]
  · intro i hi
    have hiN : i < (LSMC.simulateStockPaths aexp asqrt stream m N).length := by
      simpa [LSMC.simulateStockPaths] using hi
    rw [List.getD_eq_getElem _ _ hiN]
    simp only [LSMC.simulateStockPaths, List.getElem_map, List.getElem_range]
    refine ⟨by simp, by simp [LSMC.pathAt], ?_⟩
    intro t ht
    have h1 : t + 1 < ((List.range (m.M + 1)).map
        fun t => LSMC.pathAt aexp asqrt stream m i t).length := by simpa using by omega
    have h0 : t < ((List.range (m.M + 1)).map
        fun t => LSMC.pathAt aexp asqrt stream m i t).length := by simpa using by omega
    rw [List.getD_eq_getElem _ _ h1, List.getD_eq_getElem _ _ h0]
    simp only [List.getElem_map, List.getElem_range]
    rfl

/-- C5 (counterexample): with a draw stream that distinguishes seeds, the
simulator's output differs from the spec's contract at requested seed 7 — the
source hardcodes `np.random.seed(42)` and has no seed parameter, so paths are
not produced by a generator seeded from the given seed. -/
theorem C5_counterexample :
    LSMC.simulateStockPaths id id streamC5 mC5 1 ≠ LSMC.specSimulate id id streamC5 mC5 1 7 := by
  norm_num [LSMC.simulateStockPaths, LSMC.specSimulate, LSMC.pathAt, LSMC.specPathAt,
    mC5, LSMC.mkModel, streamC5, List.range_succ]

/-- Witness for C5 (amended): the recurrence instantiated on the concrete
one-path, one-step model at `i = 0`, `t = 0`. -/
theorem C5_witness :
    ((LSMC.simulateStockPaths id id streamC5 mC5 1).getD 0 []).getD 1 0 =
      ((LSMC.simulateStockPaths id id streamC5 mC5 1).getD 0 []).getD 0 0 *
        id ((mC5.r - mC5.div - (1 / 2) * mC5.sigma ^ 2) * (mC5.T / (mC5.M : ℚ)) +
          mC5.sigma * id (mC5.T / (mC5.M : ℚ)) * streamC5 42 1 0) :=
  (((C5_amended id id streamC5 mC5 1).2.2 0 (by norm_num)).2.2) 0 (by norm_num [mC5, LSMC.mkModel])

/-- C3 (counterexample): at `S=K=1, T=1, σ=1, n=1, r=2` the derived
risk-neutral probability is `p = (e² - e⁻¹)/(e - e⁻¹) > 1`, outside `[0,1]`,
yet construction succeeds (no `InvalidModelError` exists anywhere in the code)
and `price` computes a numeric value on the constructed model. -/
theorem C3_counterexample :
    CRR.mk Real.exp Real.sqrt (aC3 ℝ) = .ok (CRR.mkModel Real.exp Real.sqrt (aC3 ℝ)) ∧
    1 < (CRR.mkModel Real.exp Real.sqrt (aC3 ℝ)).p := by
  constructor
  · rw [CRR.mk]
    norm_num [aC3]
  · have hp : (CRR.mkModel Real.exp Real.sqrt (aC3 ℝ)).p =
        (Real.exp 2 - 1 / Real.exp 1) / (Real.exp 1 - 1 / Real.exp 1) := by
      simp [CRR.mkModel, aC3, Real.sqrt_one]
    rw [hp]
    have hE1 : (1 : ℝ) < Real.exp 1 := by
      have := Real.add_one_le_exp (1 : ℝ)
      linarith
    have hE2 : Real.exp 1 < Real.exp 2 := Real.exp_lt_exp.mpr (by norm_num)
    have hden : 0 < Real.exp 1 - 1 / Real.exp 1 := by
      have h0 : (0 : ℝ) < Real.exp 1 := Real.exp_pos 1
      have : 1 / Real.exp 1 < 1 := by
        rw [div_lt_one h0]; exact hE1
      linarith
    rw [lt_div_iff hden]
    linarith

/-- `headD` agrees with `getD 0`. -/
theorem headD_eq_getD {β : Type} (l : List β) (d : β) : l.headD d = l.getD 0 d := by
  cases l <;> rfl

/-- One backward-induction iteration peeled off the outside of the loop. -/
theorem CRR.loop_succ {α : Type} [LinearOrderedField α] (aexp : α → α) (m : CRR.Model α)
    (k : ℕ) (st : List α × List α) :
    CRR.loop aexp m (k + 1) st = CRR.step aexp m (CRR.loop aexp m k st) := by
  induction k generalizing st with
  | zero => rfl
  | succ k ih =>
    show CRR.loop aexp m (k + 1) (CRR.step aexp m st) = _
    rw [ih]
    rfl

/-- The stock-array component of one loop iteration. -/
theorem CRR.step_fst {α : Type} [LinearOrderedField α] (aexp : α → α) (m : CRR.Model α)
    (st : List α × List α) :
    (CRR.step aexp m st).1 = st.1.dropLast.map (· * m.u) := rfl

/-- The option-value component of one loop iteration. -/
theorem CRR.step_snd {α : Type} [LinearOrderedField α] (aexp : α → α) (m : CRR.Model α)
    (st : List α × List α) :
    (CRR.step aexp m st).2 =
      if m.american then
        List.zipWith (fun v s => max v (CRR.intrinsic m s))
          (List.zipWith (fun vUp vDown => aexp (-(m.r * m.dt)) * (m.p * vUp + m.oneMinusP * vDown))
            st.2.tail st.2.dropLast)
          (st.1.dropLast.map (· * m.u))
      else
        List.zipWith (fun vUp vDown => aexp (-(m.r * m.dt)) * (m.p * vUp + m.oneMinusP * vDown))
          st.2.tail st.2.dropLast := rfl

/-- The clamped payoff is the positive part of the unclamped intrinsic value. -/
theorem CRR.optionPayoff_eq_max_intrinsic {α : Type} [LinearOrderedField α]
    (m : CRR.Model α) (s : α) : CRR.optionPayoff m s = max (CRR.intrinsic m s) 0 := by
  rw [CRR.optionPayoff, CRR.intrinsic]
  split <;> rfl

/-- Clamping the second argument of `max` at 0 is invisible when the first is
nonnegative. -/
theorem max_max_zero_of_nonneg {α : Type} [LinearOrderedField α] {c x : α} (hc : 0 ≤ c) :
    max c (max x 0) = max c x := by
  rw [← max_assoc]
  exact max_eq_left (le_trans hc (le_max_left c x))

/-- Level `n - k` of the spec lattice has `n + 1 - k` nodes. -/
theorem CRR.specLevel_length {α : Type} [LinearOrderedField α] (aexp : α → α)
    (m : CRR.Model α) (k : ℕ) (hk : k ≤ m.n) :
    (CRR.specLevel aexp m k).length = m.n + 1 - k := by
  cases k with
  | zero => simp [CRR.specLevel]
  | succ k =>
    rw [CRR.specLevel]
    simp only [List.length_map, List.length_range]
    omega

/-- All spec-lattice node values are nonnegative under the model invariant
`0 ≤ p ≤ 1` and a nonnegative discount. -/
theorem CRR.specLevel_nonneg {α : Type} [LinearOrderedField α] (aexp : α → α)
    (m : CRR.Model α) (hq : m.oneMinusP = 1 - m.p)
    (hp0 : 0 ≤ m.p) (hp1 : m.p ≤ 1) (hdisc : 0 ≤ aexp (-(m.r * m.dt))) (k : ℕ) :
    ∀ x ∈ CRR.specLevel aexp m k, 0 ≤ x := by
  have hq0 : 0 ≤ m.oneMinusP := by rw [hq]; linarith
  induction k with
  | zero =>
    intro x hx
    simp only [CRR.specLevel, List.mem_map] at hx
    obtain ⟨s, _, hs⟩ := hx
    rw [← hs, CRR.optionPayoff]
    split <;> exact le_max_right _ _
  | succ k ih =>
    intro x hx
    simp only [CRR.specLevel, List.mem_map, List.mem_range] at hx
    obtain ⟨j, _, hj⟩ := hx
    have hcont : 0 ≤ aexp (-(m.r * m.dt)) *
        (m.p * (CRR.specLevel aexp m k).getD (j + 1) 0 +
          m.oneMinusP * (CRR.specLevel aexp m k).getD j 0) := by
      have h1 : 0 ≤ (CRR.specLevel aexp m k).getD (j + 1) 0 := by
        rcases Nat.lt_or_ge (j + 1) (CRR.specLevel aexp m k).length with h | h
        · rw [List.getD_eq_getElem _ _ h]
          exact ih _ (List.getElem_mem h)
        · rw [List.getD_eq_default _ _ h]
      have h2 : 0 ≤ (CRR.specLevel aexp m k).getD j 0 := by
        rcases Nat.lt_or_ge j (CRR.specLevel aexp m k).length with h | h
        · rw [List.getD_eq_getElem _ _ h]
          exact ih _ (List.getElem_mem h)
        · rw [List.getD_eq_default _ _ h]
      exact mul_nonneg hdisc (add_nonneg (mul_nonneg hp0 h1) (mul_nonneg hq0 h2))
    rw [← hj]
    split
    · refine le_trans hcont (le_max_left _ _)
    · exact hcont

/-- The source backward-induction state after `k` iterations: the stock array
is `S·u^(j+k)·d^(n-j)` for `j < n+1-k`, and the option values are exactly the
spec-side level `k`, given the derivation facts `d·u = 1`, `q = 1 - p` and the
model invariant `0 ≤ p ≤ 1`, `0 ≤ disc`. -/
theorem CRR.loop_eq_spec {α : Type} [LinearOrderedField α] (aexp : α → α) (m : CRR.Model α)
    (hud : m.d * m.u = 1) (hq : m.oneMinusP = 1 - m.p)
    (hp0 : 0 ≤ m.p) (hp1 : m.p ≤ 1) (hdisc : 0 ≤ aexp (-(m.r * m.dt)))
    (k : ℕ) (hk : k ≤ m.n) :
    (CRR.loop aexp m k (CRR.buildStockPriceTree m,
        (CRR.buildStockPriceTree m).map (CRR.optionPayoff m))).1
      = (List.range (m.n + 1 - k)).map (fun j => m.S * m.u ^ (j + k) * m.d ^ (m.n - j)) ∧
    (CRR.loop aexp m k (CRR.buildStockPriceTree m,
        (CRR.buildStockPriceTree m).map (CRR.optionPayoff m))).2
      = CRR.specLevel aexp m k := by
  have hq0 : 0 ≤ m.oneMinusP := by rw [hq]; linarith
  induction k with
  | zero =>
    exact ⟨by simp [CRR.loop, CRR.buildStockPriceTree], by rfl⟩
  | succ k ih =>
    have hk' : k ≤ m.n := by omega
    obtain ⟨ih1, ih2⟩ := ih hk'
    rw [CRR.loop_succ]
    have hlen2 : (CRR.specLevel aexp m k).length = m.n + 1 - k :=
      CRR.specLevel_length aexp m k hk'
    have hnn : ∀ x ∈ CRR.specLevel aexp m k, 0 ≤ x :=
      CRR.specLevel_nonneg aexp m hq hp0 hp1 hdisc k
    -- the collapsed stock array
    have hsp : (CRR.step aexp m (CRR.loop aexp m k (CRR.buildStockPriceTree m,
        (CRR.buildStockPriceTree m).map (CRR.optionPayoff m)))).1
        = (List.range (m.n + 1 - (k + 1))).map
            (fun j => m.S * m.u ^ (j + (k + 1)) * m.d ^ (m.n - j)) := by
      rw [CRR.step_fst, ih1]
      have hrs : m.n + 1 - k = (m.n - k) + 1 := by omega
      rw [hrs, List.range_succ]
      simp only [List.map_append, List.map_singleton, List.dropLast_concat, List.map_map]
      have hrs2 : m.n + 1 - (k + 1) = m.n - k := by omega
      rw [hrs2]
      refine List.map_congr_left ?_
      intro j _
      simp only [Function.comp_apply]
      have hje : j + (k + 1) = (j + k) + 1 := by omega
      rw [hje, pow_succ]
      ring
    refine ⟨hsp, ?_⟩
    -- the option values
    have hstock : ∀ j, j < m.n - k →
        m.S * m.u ^ (j + (k + 1)) * m.d ^ (m.n - j)
          = m.S * m.u ^ j * m.d ^ (m.n - (k + 1) - j) := by
      intro j hj
      have hud' : m.u * m.d = 1 := by rw [mul_comm]; exact hud
      have h1 : m.u ^ (j + (k + 1)) = m.u ^ j * m.u ^ (k + 1) := pow_add m.u j (k + 1)
      have h2 : m.d ^ (m.n - j) = m.d ^ (m.n - (k + 1) - j) * m.d ^ (k + 1) := by
        rw [← pow_add]
        congr 1
        omega
      have h3 : m.u ^ (k + 1) * m.d ^ (k + 1) = 1 := by rw [← mul_pow, hud', one_pow]
      calc m.S * m.u ^ (j + (k + 1)) * m.d ^ (m.n - j)
          = m.S * m.u ^ j * m.d ^ (m.n - (k + 1) - j) * (m.u ^ (k + 1) * m.d ^ (k + 1)) := by
            rw [h1, h2]; ring
        _ = m.S * m.u ^ j * m.d ^ (m.n - (k + 1) - j) := by rw [h3, mul_one]
    have hcd : ∀ j, j < m.n - k →
        0 ≤ aexp (-(m.r * m.dt)) *
          (m.p * (CRR.specLevel aexp m k).getD (j + 1) 0 +
            m.oneMinusP * (CRR.specLevel aexp m k).getD j 0) := by
      intro j hj
      have hb1 : j + 1 < (CRR.specLevel aexp m k).length := by omega
      have hb0 : j < (CRR.specLevel aexp m k).length := by omega
      rw [List.getD_eq_getElem _ _ hb1, List.getD_eq_getElem _ _ hb0]
      exact mul_nonneg hdisc (add_nonneg
        (mul_nonneg hp0 (hnn _ (List.getElem_mem hb1)))
        (mul_nonneg hq0 (hnn _ (List.getElem_mem hb0))))
    rw [CRR.step_snd, ih2, ih1]
    rw [CRR.specLevel]
    cases ham : m.american with
    | false =>
      simp only [Bool.false_eq_true, if_false]
      refine List.ext_getElem ?_ ?_
      · simp only [List.length_zipWith, List.length_tail, List.length_dropLast,
          List.length_map, List.length_range, hlen2]
        omega
      · intro j h1 h2
        have hj : j < m.n - k := by
          simp only [List.length_zipWith, List.length_tail, List.length_dropLast, hlen2] at h1
          omega
        have hb1 : j + 1 < (CRR.specLevel aexp m k).length := by omega
        have hb0 : j < (CRR.specLevel aexp m k).length := by omega
        simp only [List.getElem_zipWith, List.getElem_tail, List.getElem_dropLast,
          List.getElem_map, List.getElem_range]
        dsimp only
        rw [List.getD_eq_getElem _ _ hb1, List.getD_eq_getElem _ _ hb0]
    | true =>
      simp only [if_true]
      refine List.ext_getElem ?_ ?_
      · simp only [List.length_zipWith, List.length_tail, List.length_dropLast,
          List.length_map, List.length_range, hlen2]
        omega
      · intro j h1 h2
        have hj : j < m.n - k := by
          simp only [List.length_zipWith, List.length_tail, List.length_dropLast,
            List.length_map, List.length_range, hlen2] at h1
          omega
        have hb1 : j + 1 < (CRR.specLevel aexp m k).length := by omega
        have hb0 : j < (CRR.specLevel aexp m k).length := by omega
        have hjr : j < (List.range (m.n + 1 - k)).length := by
          simp only [List.length_range]; omega
        simp only [List.getElem_zipWith, List.getElem_tail, List.getElem_dropLast,
          List.getElem_map, List.getElem_range]
        dsimp only
        rw [List.getD_eq_getElem _ _ hb1, List.getD_eq_getElem _ _ hb0]
        have hje : j + (k + 1) = (j + k) + 1 := by omega
        have hs1 : m.S * m.u ^ (j + k) * m.d ^ (m.n - j) * m.u
            = m.S * m.u ^ j * m.d ^ (m.n - (k + 1) - j) := by
          rw [← hstock j hj, hje, pow_succ]
          ring
        rw [hs1, CRR.optionPayoff_eq_max_intrinsic]
        rw [max_max_zero_of_nonneg]
        have := hcd j hj
        rw [List.getD_eq_getElem _ _ hb1, List.getD_eq_getElem _ _ hb0] at this
        exact this

/-- C4 (amended): the lattice pricer computes exactly the spec's backward
induction once the collapse count is corrected: the array collapsed at the
iteration producing level `i` keeps the **lower `i+1`** prices (not `n-i`),
multiplied by `u`; terminal prices, payoffs, discounting
`exp(-r·dt)·(p·V_up + (1-p)·V_down)` and, in the American case, the max with
the intrinsic payoff at the node's stock price `S·u^j·d^(i-j)`, are as claimed;
the returned price is the root value.  Stated under the derivation facts
`d·u = 1`, `one_minus_p = 1-p` and the spec's model invariant `0 ≤ p ≤ 1`,
`0 ≤ exp(-r·dt)`. -/
theorem C4_amended {α : Type} [LinearOrderedField α] (aexp : α → α) (m : CRR.Model α)
    (hud : m.d * m.u = 1) (hq : m.oneMinusP = 1 - m.p)
    (hp0 : 0 ≤ m.p) (hp1 : m.p ≤ 1) (hdisc : 0 ≤ aexp (-(m.r * m.dt))) :
    CRR.price aexp m = CRR.specPrice aexp m := by
  obtain ⟨-, h2⟩ := CRR.loop_eq_spec aexp m hud hq hp0 hp1 hdisc m.n le_rfl
  show ((CRR.loop aexp m m.n (CRR.buildStockPriceTree m,
      (CRR.buildStockPriceTree m).map (CRR.optionPayoff m))).2).headD 0
    = (CRR.specLevel aexp m m.n).getD 0 0
  rw [h2, headD_eq_getD]

/-- C4 (counterexample): for the `n = 2` contract, the stock array left by the
first backward iteration — the one the claim labels `i = n-1 = 1` — has 2
(= `i+1`) entries, whereas the claim's "lower `n-i` prices" asserts `n-i = 1`;
the claimed count is wrong (the lengths do not depend on the real-number
entries). -/
theorem C4_counterexample :
    ((CRR.loop Real.exp (CRR.mkModel Real.exp Real.sqrt (aC4 ℝ)) 1
        (CRR.buildStockPriceTree (CRR.mkModel Real.exp Real.sqrt (aC4 ℝ)),
         (CRR.buildStockPriceTree (CRR.mkModel Real.exp Real.sqrt (aC4 ℝ))).map
           (CRR.optionPayoff (CRR.mkModel Real.exp Real.sqrt (aC4 ℝ))))).1).length = 2 ∧
    (2 : ℕ) ≠ (aC4 ℝ).n - 1 := by
  constructor
  · rw [CRR.loop_succ, CRR.step_fst]
    simp [CRR.loop, CRR.buildStockPriceTree, CRR.mkModel, aC4]
  · norm_num [aC4]

/-- Witness for C4 (amended) at the concrete rational model `wModel`. -/
theorem C4_witness :
    CRR.price id wModel = CRR.specPrice id wModel :=
  C4_amended id wModel (by norm_num [wModel]) (by norm_num [wModel]) (by norm_num [wModel])
    (by norm_num [wModel]) (by norm_num [wModel])

/-- Pointwise comparison of the European and American backward inductions:
same stock arrays, same lengths, and European node values bounded by American
ones, under the model invariant `0 ≤ p ≤ 1` and a nonnegative discount. -/
theorem CRR.loop_eu_le_am {α : Type} [LinearOrderedField α] (aexp : α → α) (m : CRR.Model α)
    (hq : m.oneMinusP = 1 - m.p) (hp0 : 0 ≤ m.p) (hp1 : m.p ≤ 1)
    (hdisc : 0 ≤ aexp (-(m.r * m.dt))) (k : ℕ) :
    (CRR.loop aexp { m with american := false } k
        (CRR.buildStockPriceTree m, (CRR.buildStockPriceTree m).map (CRR.optionPayoff m))).1
      = (CRR.loop aexp { m with american := true } k
        (CRR.buildStockPriceTree m, (CRR.buildStockPriceTree m).map (CRR.optionPayoff m))).1 ∧
    (CRR.loop aexp { m with american := false } k
        (CRR.buildStockPriceTree m, (CRR.buildStockPriceTree m).map (CRR.optionPayoff m))).1.length
      = m.n + 1 - k ∧
    (CRR.loop aexp { m with american := false } k
        (CRR.buildStockPriceTree m, (CRR.buildStockPriceTree m).map (CRR.optionPayoff m))).2.length
      = m.n + 1 - k ∧
    (CRR.loop aexp { m with american := true } k
        (CRR.buildStockPriceTree m, (CRR.buildStockPriceTree m).map (CRR.optionPayoff m))).2.length
      = m.n + 1 - k ∧
    ∀ j (h1 : j < (CRR.loop aexp { m with american := false } k
        (CRR.buildStockPriceTree m, (CRR.buildStockPriceTree m).map (CRR.optionPayoff m))).2.length)
      (h2 : j < (CRR.loop aexp { m with american := true } k
        (CRR.buildStockPriceTree m, (CRR.buildStockPriceTree m).map (CRR.optionPayoff m))).2.length),
      (CRR.loop aexp { m with american := false } k
        (CRR.buildStockPriceTree m, (CRR.buildStockPriceTree m).map (CRR.optionPayoff m))).2[j]
        ≤ (CRR.loop aexp { m with american := true } k
        (CRR.buildStockPriceTree m, (CRR.buildStockPriceTree m).map (CRR.optionPayoff m))).2[j] := by
  have hq0 : 0 ≤ m.oneMinusP := by rw [hq]; linarith
  induction k with
  | zero =>
    refine ⟨rfl, ?_, ?_, ?_, ?_⟩ <;>
      simp [CRR.loop, CRR.buildStockPriceTree]
  | succ k ih =>
    obtain ⟨ih1, ihl1, ihl2, ihl3, ihle⟩ := ih
    rw [CRR.loop_succ, CRR.loop_succ]
    refine ⟨?_, ?_, ?_, ?_, ?_⟩
    · rw [CRR.step_fst, CRR.step_fst, ih1]
    · rw [CRR.step_fst]
      simp only [List.length_map, List.length_dropLast, ihl1]
      omega
    · rw [CRR.step_snd]
      simp only [Bool.false_eq_true, if_false, List.length_zipWith, List.length_tail,
        List.length_dropLast, ihl2]
      omega
    · have ihl1A : (CRR.loop aexp { m with american := true } k
          (CRR.buildStockPriceTree m, (CRR.buildStockPriceTree m).map
            (CRR.optionPayoff m))).1.length = m.n + 1 - k := by
        rw [← ih1]
        exact ihl1
      rw [CRR.step_snd]
      simp only [if_true, List.length_zipWith, List.length_tail, List.length_dropLast,
        List.length_map, ihl3, ihl1A]
      omega
    · intro j h1 h2
      simp only [CRR.step_snd, Bool.false_eq_true, if_false, if_true] at h1 h2 ⊢
      have hjE : j < ((CRR.loop aexp { m with american := false } k
          (CRR.buildStockPriceTree m, (CRR.buildStockPriceTree m).map
            (CRR.optionPayoff m))).2.tail).length := by
        simp only [List.length_zipWith, List.length_tail, List.length_dropLast] at h1
        simp only [List.length_tail]
        omega
      have hjA : j < ((CRR.loop aexp { m with american := true } k
          (CRR.buildStockPriceTree m, (CRR.buildStockPriceTree m).map
            (CRR.optionPayoff m))).2.tail).length := by
        simp only [List.length_zipWith, List.length_tail, List.length_dropLast,
          List.length_map] at h2
        simp only [List.length_tail]
        omega
      have hbase : ∀ (a a' b b' : α), a ≤ a' → b ≤ b' →
          aexp (-(m.r * m.dt)) * (m.p * a + m.oneMinusP * b)
            ≤ aexp (-(m.r * m.dt)) * (m.p * a' + m.oneMinusP * b') := by
        intro a a' b b' ha hb
        refine mul_le_mul_of_nonneg_left ?_ hdisc
        exact add_le_add (mul_le_mul_of_nonneg_left ha hp0) (mul_le_mul_of_nonneg_left hb hq0)
      simp only [List.getElem_zipWith, List.getElem_tail, List.getElem_dropLast,
        List.getElem_map]
      refine le_trans (hbase _ _ _ _ ?_ ?_) (le_max_left _ _)
      · have hb1 : j + 1 < (CRR.loop aexp { m with american := false } k
            (CRR.buildStockPriceTree m, (CRR.buildStockPriceTree m).map
              (CRR.optionPayoff m))).2.length := by
          simp only [List.length_tail] at hjE
          omega
        have hb2 : j + 1 < (CRR.loop aexp { m with american := true } k
            (CRR.buildStockPriceTree m, (CRR.buildStockPriceTree m).map
              (CRR.optionPayoff m))).2.length := by
          simp only [List.length_tail] at hjA
          omega
        exact ihle (j + 1) hb1 hb2
      · have hEj : j < (CRR.loop aexp { m with american := false } k
            (CRR.buildStockPriceTree m, (CRR.buildStockPriceTree m).map
              (CRR.optionPayoff m))).2.length := by
          simp only [List.length_tail] at hjE
          omega
        have hAj : j < (CRR.loop aexp { m with american := true } k
            (CRR.buildStockPriceTree m, (CRR.buildStockPriceTree m).map
              (CRR.optionPayoff m))).2.length := by
          simp only [List.length_tail] at hjA
          omega
        exact ihle j hEj hAj

/-- C8 (amended): for every lattice model satisfying the spec's invariant
`0 ≤ p ≤ 1` (with `one_minus_p = 1 - p` and nonnegative discount, both true of
the real derivation when `p ∈ [0,1]`), the American-style price is at least
the European-style price with identical parameters. -/
theorem C8_amended {α : Type} [LinearOrderedField α] (aexp : α → α) (m : CRR.Model α)
    (hq : m.oneMinusP = 1 - m.p) (hp0 : 0 ≤ m.p) (hp1 : m.p ≤ 1)
    (hdisc : 0 ≤ aexp (-(m.r * m.dt))) :
    CRR.price aexp { m with american := false } ≤ CRR.price aexp { m with american := true } := by
  obtain ⟨-, -, hl2, hl3, hle⟩ := CRR.loop_eu_le_am aexp m hq hp0 hp1 hdisc m.n
  show ((CRR.loop aexp { m with american := false } m.n
      (CRR.buildStockPriceTree m, (CRR.buildStockPriceTree m).map (CRR.optionPayoff m))).2).headD 0
    ≤ ((CRR.loop aexp { m with american := true } m.n
      (CRR.buildStockPriceTree m, (CRR.buildStockPriceTree m).map (CRR.optionPayoff m))).2).headD 0
  rw [headD_eq_getD, headD_eq_getD]
  have h0E : 0 < (CRR.loop aexp { m with american := false } m.n
      (CRR.buildStockPriceTree m, (CRR.buildStockPriceTree m).map (CRR.optionPayoff m))).2.length := by
    omega
  have h0A : 0 < (CRR.loop aexp { m with american := true } m.n
      (CRR.buildStockPriceTree m, (CRR.buildStockPriceTree m).map (CRR.optionPayoff m))).2.length := by
    omega
  rw [List.getD_eq_getElem _ _ h0E, List.getD_eq_getElem _ _ h0A]
  exact hle 0 h0E h0A

/-- Witness for C8 (amended) at the concrete rational model `wModel`. -/
theorem C8_witness :
    CRR.price id { wModel with american := false } ≤ CRR.price id { wModel with american := true } :=
  C8_amended id wModel (by norm_num [wModel]) (by norm_num [wModel]) (by norm_num [wModel])
    (by norm_num [wModel])

/-- C8 (counterexample): for `S=K=1, T=2, r=2, σ=1, n=2` (a put), the derived
probability is `p = (e² - e⁻¹)/(e - e⁻¹) > 1` — arbitrage-inconsistent but
accepted by the code — and the American lattice value (which is 0) is
**strictly below** the European value (which is positive): without the model
invariant the claimed inequality fails on the code. -/
theorem C8_counterexample :
    CRR.price Real.exp (CRR.mkModel Real.exp Real.sqrt (aC8 ℝ)) <
    CRR.price Real.exp (CRR.mkModel Real.exp Real.sqrt { aC8 ℝ with american := false }) := by
  rw [CRR.price, CRR.price]
  norm_num [CRR.loop, CRR.step, CRR.buildStockPriceTree, CRR.optionPayoff, CRR.intrinsic,
    CRR.mkModel, aC8, List.range_succ, Real.sqrt_one]
  have hE1 : (1 : ℝ) < Real.exp 1 := by nlinarith [Real.add_one_le_exp (1 : ℝ)]
  have hE1pos : (0 : ℝ) < Real.exp 1 := Real.exp_pos 1
  have hE2 : Real.exp 1 < Real.exp 2 := Real.exp_lt_exp.mpr (by norm_num)
  have hE2pos : (0 : ℝ) < Real.exp 2 := Real.exp_pos 2
  have hEm2pos : (0 : ℝ) < Real.exp (-2) := Real.exp_pos _
  have hee : Real.exp 2 = Real.exp 1 * Real.exp 1 := by
    rw [← Real.exp_add]; norm_num
  have hinv1 : (Real.exp 1)⁻¹ < 1 := inv_lt_one hE1
  have hinv2 : (Real.exp 2)⁻¹ < 1 := inv_lt_one (lt_trans hE1 hE2)
  have hinv1pos : (0 : ℝ) < (Real.exp 1)⁻¹ := inv_pos.mpr hE1pos
  have hinv2pos : (0 : ℝ) < (Real.exp 2)⁻¹ := inv_pos.mpr hE2pos
  have hden : (0 : ℝ) < Real.exp 1 - (Real.exp 1)⁻¹ := by nlinarith
  have hP : 1 < (Real.exp 2 - (Real.exp 1)⁻¹) / (Real.exp 1 - (Real.exp 1)⁻¹) := by
    rw [lt_div_iff hden]; nlinarith
  have hq' : 1 - (Real.exp 2 - (Real.exp 1)⁻¹) / (Real.exp 1 - (Real.exp 1)⁻¹) < 0 := by
    linarith
  have hf0 : (0 : ℝ) < 1 - (Real.exp 2)⁻¹ := by linarith
  have hA : (1 - (Real.exp 2)⁻¹) ⊔ 0 = 1 - (Real.exp 2)⁻¹ := max_eq_left (le_of_lt hf0)
  rw [hA]
  have hd : (Real.exp 2)⁻¹ * Real.exp 1 = (Real.exp 1)⁻¹ := by
    rw [hee, mul_inv]
    field_simp
  rw [hd]
  have hXneg : Real.exp (-2) *
      ((1 - (Real.exp 2 - (Real.exp 1)⁻¹) / (Real.exp 1 - (Real.exp 1)⁻¹)) *
        (1 - (Real.exp 2)⁻¹)) < 0 :=
    mul_neg_of_pos_of_neg hEm2pos (mul_neg_of_neg_of_pos hq' hf0)
  have hY : (0 : ℝ) < 1 - (Real.exp 1)⁻¹ := by linarith
  have hXY : Real.exp (-2) *
      ((1 - (Real.exp 2 - (Real.exp 1)⁻¹) / (Real.exp 1 - (Real.exp 1)⁻¹)) *
        (1 - (Real.exp 2)⁻¹)) ⊔ (1 - (Real.exp 1)⁻¹) = 1 - (Real.exp 1)⁻¹ :=
    max_eq_right (le_of_lt (lt_trans hXneg hY))
  rw [hXY]
  have hL2 : (Real.exp 1)⁻¹ * Real.exp 1 = 1 := by field_simp
  have hRHSpos : 0 < Real.exp (-2) *
      ((1 - (Real.exp 2 - (Real.exp 1)⁻¹) / (Real.exp 1 - (Real.exp 1)⁻¹)) *
        (Real.exp (-2) *
          ((1 - (Real.exp 2 - (Real.exp 1)⁻¹) / (Real.exp 1 - (Real.exp 1)⁻¹)) *
            (1 - (Real.exp 2)⁻¹)))) :=
    mul_pos hEm2pos (mul_pos_of_neg_of_neg hq' hXneg)
  have hLHS1neg : Real.exp (-2) *
      ((1 - (Real.exp 2 - (Real.exp 1)⁻¹) / (Real.exp 1 - (Real.exp 1)⁻¹)) *
        (1 - (Real.exp 1)⁻¹)) < 0 :=
    mul_neg_of_pos_of_neg hEm2pos (mul_neg_of_neg_of_pos hq' hY)
  constructor
  · linarith
  · rw [hL2]
    linarith


/-! ### Interval-arithmetic soundness (used by C9) -/


namespace IV

theorem Sc_pos : (0 : ℝ) < (Sc : ℝ) := by norm_num [Sc]

theorem encl.nonneg {v : NInt} {x : ℝ} (h : encl v x) : 0 ≤ x := by
  have h1 : (0 : ℝ) ≤ x * (Sc : ℝ) := le_trans (by positivity) h.1
  nlinarith [Sc_pos]

theorem encl_one : encl ⟨Sc, Sc⟩ 1 := by
  constructor <;> simp

theorem encl_zero : encl ⟨0, 0⟩ 0 := by
  constructor <;> simp

theorem nat_ceil_div_ge (m : ℕ) : ((m : ℝ)) / (Sc : ℝ) ≤ (((m + (Sc - 1)) / Sc : ℕ) : ℝ) := by
  have hk : 0 < Sc := by norm_num [Sc]
  have h1 := Nat.div_add_mod (m + (Sc - 1)) Sc
  have h2 := Nat.mod_lt (m + (Sc - 1)) hk
  have h3 : m ≤ Sc * ((m + (Sc - 1)) / Sc) := by omega
  rw [div_le_iff Sc_pos]
  calc (m : ℝ) ≤ (Sc * ((m + (Sc - 1)) / Sc) : ℕ) := by exact_mod_cast h3
    _ = (((m + (Sc - 1)) / Sc : ℕ) : ℝ) * (Sc : ℝ) := by push_cast; ring

theorem encl.mul {a b : NInt} {x y : ℝ} (ha : encl a x) (hb : encl b y) :
    encl (a.mul b) (x * y) := by
  have hx0 : 0 ≤ x := ha.nonneg
  have hy0 : 0 ≤ y := hb.nonneg
  have hprod : (a.lo * b.lo : ℝ) ≤ (x * (Sc : ℝ)) * (y * (Sc : ℝ)) := by
    have := mul_le_mul ha.1 hb.1 (by positivity) (le_trans (by positivity) ha.1)
    calc (a.lo * b.lo : ℝ) = (a.lo : ℝ) * (b.lo : ℝ) := rfl
      _ ≤ _ := this
  have hprod2 : (x * (Sc : ℝ)) * (y * (Sc : ℝ)) ≤ (a.hi * b.hi : ℝ) := by
    have := mul_le_mul ha.2 hb.2 (by positivity) (by positivity)
    calc (x * (Sc : ℝ)) * (y * (Sc : ℝ)) ≤ (a.hi : ℝ) * (b.hi : ℝ) := this
      _ = (a.hi * b.hi : ℝ) := rfl
  have hSc := Sc_pos
  constructor
  · show ((a.lo * b.lo / Sc : ℕ) : ℝ) ≤ x * y * (Sc : ℝ)
    calc ((a.lo * b.lo / Sc : ℕ) : ℝ) ≤ ((a.lo * b.lo : ℕ) : ℝ) / (Sc : ℝ) := Nat.cast_div_le
      _ = (a.lo * b.lo : ℝ) / (Sc : ℝ) := by norm_cast
      _ ≤ ((x * (Sc : ℝ)) * (y * (Sc : ℝ))) / (Sc : ℝ) := by gcongr
      _ = x * y * (Sc : ℝ) := by rw [div_eq_iff (ne_of_gt hSc)]; ring
  · show x * y * (Sc : ℝ) ≤ (((a.hi * b.hi + (Sc - 1)) / Sc : ℕ) : ℝ)
    calc x * y * (Sc : ℝ) = ((x * (Sc : ℝ)) * (y * (Sc : ℝ))) / (Sc : ℝ) := by
          rw [eq_comm, div_eq_iff (ne_of_gt hSc)]; ring
      _ ≤ (a.hi * b.hi : ℝ) / (Sc : ℝ) := by gcongr
      _ = ((a.hi * b.hi : ℕ) : ℝ) / (Sc : ℝ) := by norm_cast
      _ ≤ _ := nat_ceil_div_ge _

theorem encl.add {a b : NInt} {x y : ℝ} (ha : encl a x) (hb : encl b y) :
    encl (a.add b) (x + y) := by
  constructor
  · show ((a.lo + b.lo : ℕ) : ℝ) ≤ (x + y) * (Sc : ℝ)
    push_cast
    have := ha.1; have := hb.1
    nlinarith
  · show (x + y) * (Sc : ℝ) ≤ ((a.hi + b.hi : ℕ) : ℝ)
    push_cast
    have := ha.2; have := hb.2
    nlinarith

theorem encl.max {a b : NInt} {x y : ℝ} (ha : encl a x) (hb : encl b y) :
    encl (a.max b) (Max.max x y) := by
  have hmax : (Max.max x y) * (Sc : ℝ) = Max.max (x * (Sc : ℝ)) (y * (Sc : ℝ)) :=
    max_mul_of_nonneg _ _ (le_of_lt Sc_pos)
  constructor
  · show ((Max.max a.lo b.lo : ℕ) : ℝ) ≤ _
    rw [hmax, Nat.cast_max]
    exact max_le_max ha.1 hb.1
  · show _ ≤ ((Max.max a.hi b.hi : ℕ) : ℝ)
    rw [hmax, Nat.cast_max]
    exact max_le_max ha.2 hb.2

theorem natSub_cast (a b : ℕ) : ((a - b : ℕ) : ℝ) = Max.max ((a : ℝ) - (b : ℝ)) 0 := by
  rcases le_total b a with h | h
  · rw [Nat.cast_sub h]
    rw [max_eq_left]
    have : (b : ℝ) ≤ (a : ℝ) := by exact_mod_cast h
    linarith
  · have h1 : a - b = 0 := by omega
    rw [h1]
    have : (a : ℝ) ≤ (b : ℝ) := by exact_mod_cast h
    rw [max_eq_right (by linarith)]
    norm_num

theorem encl.pay {s : NInt} {y K : ℝ} (hs : encl s y) (call : Bool) {KSc : ℕ}
    (hK : (KSc : ℝ) = K * (Sc : ℝ)) :
    encl (payI call KSc s) (Max.max ((if call then y - K else K - y)) 0) := by
  cases call with
  | true =>
    have hdist : (Max.max (y - K) 0) * (Sc : ℝ) = Max.max ((y - K) * (Sc : ℝ)) 0 := by
      rw [max_mul_of_nonneg _ _ (le_of_lt Sc_pos), zero_mul]
    simp only [if_true, payI]
    constructor
    · show ((s.lo - KSc : ℕ) : ℝ) ≤ _
      rw [hdist, natSub_cast]
      refine max_le_max ?_ le_rfl
      rw [hK, sub_mul]
      have := hs.1
      linarith
    · show _ ≤ ((s.hi - KSc : ℕ) : ℝ)
      rw [hdist, natSub_cast]
      refine max_le_max ?_ le_rfl
      rw [hK, sub_mul]
      have := hs.2
      linarith
  | false =>
    have hdist : (Max.max (K - y) 0) * (Sc : ℝ) = Max.max ((K - y) * (Sc : ℝ)) 0 := by
      rw [max_mul_of_nonneg _ _ (le_of_lt Sc_pos), zero_mul]
    simp only [Bool.false_eq_true, if_false, payI]
    constructor
    · show ((KSc - s.hi : ℕ) : ℝ) ≤ _
      rw [hdist, natSub_cast]
      refine max_le_max ?_ le_rfl
      rw [hK, sub_mul]
      have := hs.2
      linarith
    · show _ ≤ ((KSc - s.lo : ℕ) : ℝ)
      rw [hdist, natSub_cast]
      refine max_le_max ?_ le_rfl
      rw [hK, sub_mul]
      have := hs.1
      linarith

theorem encl.powAux {fuel : ℕ} {b : NInt} {x : ℝ} (hb : encl b x) (k : ℕ)
    (hk : k < 2 ^ fuel) : encl (NInt.powAux fuel b k) (x ^ k) := by
  induction fuel generalizing b x k with
  | zero =>
    have : k = 0 := by simpa using hk
    subst this
    simpa [NInt.powAux] using encl_one
  | succ fuel ih =>
    rw [NInt.powAux]
    by_cases hk0 : k = 0
    · subst hk0
      simpa using encl_one
    · rw [if_neg hk0]
      have hk2 : k / 2 < 2 ^ fuel := by
        rw [Nat.div_lt_iff_lt_mul (by norm_num)]
        calc k < 2 ^ (fuel + 1) := hk
          _ = 2 ^ fuel * 2 := by rw [pow_succ]
      have hsq : encl (b.mul b) (x * x) := hb.mul hb
      have hh := ih hsq (k / 2) hk2
      have hxx : (x * x) ^ (k / 2) = x ^ (2 * (k / 2)) := by
        rw [two_mul, pow_add]
        ring
      by_cases hpar : k % 2 = 1
      · rw [if_pos hpar]
        have hke : k = 2 * (k / 2) + 1 := by omega
        have : encl ((NInt.powAux fuel (b.mul b) (k / 2)).mul b) ((x * x) ^ (k / 2) * x) :=
          hh.mul hb
        rw [hxx] at this
        have hxk : x ^ (2 * (k / 2)) * x = x ^ k := by
          conv_rhs => rw [hke]
          rw [pow_succ]
        rwa [hxk] at this
      · rw [if_neg hpar]
        have hke : k = 2 * (k / 2) := by omega
        rw [hxx] at hh
        rwa [← hke] at hh

theorem encl.pow {b : NInt} {x : ℝ} (hb : encl b x) (k : ℕ) (hk : k < 65536) :
    encl (b.pow k) (x ^ k) :=
  hb.powAux k (by norm_num [hk])

end IV



namespace IV


theorem enclL.map_mul {l : List NInt} {L : List ℝ} (h : enclL l L) {b : NInt} {u : ℝ}
    (hb : encl b u) : enclL (l.map (·.mul b)) (L.map (· * u)) := by
  induction h with
  | nil => exact List.Forall₂.nil
  | cons hx _ ih => exact List.Forall₂.cons (hx.mul hb) ih

theorem enclL.map_pay {l : List NInt} {L : List ℝ} (h : enclL l L) (call : Bool) {KSc : ℕ}
    {K : ℝ} (hK : (KSc : ℝ) = K * (Sc : ℝ)) :
    enclL (l.map (payI call KSc)) (L.map fun y => Max.max (if call then y - K else K - y) 0) := by
  induction h with
  | nil => exact List.Forall₂.nil
  | cons hx _ ih => exact List.Forall₂.cons (hx.pay call hK) ih

theorem enclL.tail {l : List NInt} {L : List ℝ} (h : enclL l L) : enclL l.tail L.tail := by
  cases h with
  | nil => exact List.Forall₂.nil
  | cons _ ht => exact ht

theorem enclL.dropLast {l : List NInt} {L : List ℝ} (h : enclL l L) :
    enclL l.dropLast L.dropLast := by
  induction h with
  | nil => exact List.Forall₂.nil
  | @cons a x l' L' hx hl ih =>
    cases hl with
    | nil => exact List.Forall₂.nil
    | @cons b y l'' L'' hy hl' =>
      exact List.Forall₂.cons hx ih

theorem enclL.zipWith {l₁ l₂ : List NInt} {L₁ L₂ : List ℝ}
    (h₁ : enclL l₁ L₁) (h₂ : enclL l₂ L₂)
    {f : NInt → NInt → NInt} {g : ℝ → ℝ → ℝ}
    (hfg : ∀ a x b y, encl a x → encl b y → encl (f a b) (g x y)) :
    enclL (List.zipWith f l₁ l₂) (List.zipWith g L₁ L₂) := by
  induction h₁ generalizing l₂ L₂ with
  | nil => exact List.Forall₂.nil
  | @cons a x l' L' hx _ ih =>
    cases h₂ with
    | nil => exact List.Forall₂.nil
    | @cons b y l'' L'' hy hl' =>
      exact List.Forall₂.cons (hfg _ _ _ _ hx hy) (ih hl')

theorem enclL.headD {l : List NInt} {L : List ℝ} (h : enclL l L) :
    encl (l.headD ⟨0, 0⟩) (L.headD 0) := by
  cases h with
  | nil => exact encl_zero
  | cons hx _ => exact hx

theorem enclL.map_range {n : ℕ} {fI : ℕ → NInt} {f : ℕ → ℝ}
    (h : ∀ j, j < n → encl (fI j) (f j)) :
    enclL ((List.range n).map fI) ((List.range n).map f) := by
  induction n with
  | zero => exact List.Forall₂.nil
  | succ n ih =>
    rw [List.range_succ, List.map_append, List.map_append]
    exact List.rel_append (ih fun j hj => h j (by omega))
      (List.Forall₂.cons (h n (by omega)) List.Forall₂.nil)

/-- Soundness of one interval iteration against one source iteration, for an
American model whose parameters are enclosed. -/
theorem step_sound {uI pI qI discI : NInt} {m : CRR.Model ℝ}
    (ham : m.american = true)
    (hu : encl uI m.u) (hp : encl pI m.p) (hq : encl qI m.oneMinusP)
    (hdisc : encl discI (Real.exp (-(m.r * m.dt))))
    {KSc : ℕ} (hK : (KSc : ℝ) = m.K * (Sc : ℝ))
    {aI bI : List NInt} {A B : List ℝ}
    (h1 : enclL aI A) (h2 : enclL bI B) :
    enclL (step uI pI qI discI m.optionCall KSc (aI, bI)).1 (CRR.step Real.exp m (A, B)).1 ∧
    enclL (step uI pI qI discI m.optionCall KSc (aI, bI)).2 (CRR.step Real.exp m (A, B)).2 := by
  have hsp : enclL (aI.dropLast.map (·.mul uI)) (A.dropLast.map (· * m.u)) :=
    enclL.map_mul (enclL.dropLast h1) hu
  constructor
  · exact hsp
  · rw [CRR.step_snd, ham]
    rw [if_pos rfl]
    show enclL (List.zipWith _ (List.zipWith _ bI.tail bI.dropLast) _) _
    refine enclL.zipWith (enclL.zipWith (enclL.tail h2) (enclL.dropLast h2) ?_) hsp ?_
    · intro a x b y hx hy
      exact hdisc.mul ((hp.mul hx).add (hq.mul hy))
    · intro a x b y hx hy
      have hpay := encl.pay hy m.optionCall hK
      have hiden : Max.max x (CRR.intrinsic m y)
          = Max.max x (Max.max (if m.optionCall then y - m.K else m.K - y) 0) := by
        rw [CRR.intrinsic]
        rw [max_max_zero_of_nonneg hx.nonneg]
      rw [hiden]
      exact hx.max hpay

/-- Soundness of the plain interval loop. -/
theorem loop_sound {uI pI qI discI : NInt} {m : CRR.Model ℝ}
    (ham : m.american = true)
    (hu : encl uI m.u) (hp : encl pI m.p) (hq : encl qI m.oneMinusP)
    (hdisc : encl discI (Real.exp (-(m.r * m.dt))))
    {KSc : ℕ} (hK : (KSc : ℝ) = m.K * (Sc : ℝ)) (k : ℕ)
    {aI bI : List NInt} {A B : List ℝ}
    (h1 : enclL aI A) (h2 : enclL bI B) :
    enclL (loop uI pI qI discI m.optionCall KSc k (aI, bI)).1 (CRR.loop Real.exp m k (A, B)).1 ∧
    enclL (loop uI pI qI discI m.optionCall KSc k (aI, bI)).2 (CRR.loop Real.exp m k (A, B)).2 := by
  induction k generalizing aI bI A B with
  | zero => exact ⟨h1, h2⟩
  | succ k ih =>
    have hs := step_sound ham hu hp hq hdisc hK h1 h2
    exact ih hs.1 hs.2

theorem loopG_eq_loop (uI pI qI discI : NInt) (call : Bool) (KSc : ℕ) (k : ℕ)
    (st : List NInt × List NInt) :
    loopG uI pI qI discI call KSc k st = loop uI pI qI discI call KSc k st := by
  induction k generalizing st with
  | zero => rfl
  | succ k ih =>
    rw [loopG, loop, stepG, ite_self]
    exact ih _

/-- Soundness of the whole interval run against `CRR.price` on an American
model with enclosed parameters. -/
theorem root_sound {uI dI pI qI discI SI : NInt} {m : CRR.Model ℝ}
    (ham : m.american = true) (hn : m.n < 65536)
    (hu : encl uI m.u) (hd : encl dI m.d) (hp : encl pI m.p) (hq : encl qI m.oneMinusP)
    (hdisc : encl discI (Real.exp (-(m.r * m.dt))))
    {KSc : ℕ} (hK : (KSc : ℝ) = m.K * (Sc : ℝ))
    (hS : encl SI m.S) :
    encl (root uI dI pI qI discI SI m.optionCall KSc m.n) (CRR.price Real.exp m) := by
  have hsp0 : enclL (initSP uI dI SI m.n) (CRR.buildStockPriceTree m) := by
    rw [initSP, CRR.buildStockPriceTree]
    refine enclL.map_range ?_
    intro j hj
    exact (hS.mul (hu.pow j (by omega))).mul (hd.pow (m.n - j) (by omega))
  have hov0 : enclL ((initSP uI dI SI m.n).map (payI m.optionCall KSc))
      ((CRR.buildStockPriceTree m).map (CRR.optionPayoff m)) := by
    have h := enclL.map_pay hsp0 m.optionCall hK
    have : (CRR.optionPayoff m) = fun y => Max.max (if m.optionCall then y - m.K else m.K - y) 0 := by
      funext y
      rw [CRR.optionPayoff]
      split <;> simp_all
    rw [this]
    exact h
  have hrun := loop_sound ham hu hp hq hdisc hK m.n hsp0 hov0
  rw [root, loopG_eq_loop]
  show encl ((loop uI pI qI discI m.optionCall KSc m.n
      (initSP uI dI SI m.n, (initSP uI dI SI m.n).map (payI m.optionCall KSc))).2.headD ⟨0, 0⟩)
    (CRR.price Real.exp m)
  rw [CRR.price]
  exact enclL.headD hrun.2

end IV



/-- Two-sided Taylor bound for `exp` on `[0,1]` with 7 terms, from
`Real.exp_bound`. -/
theorem exp_taylor7 {q : ℝ} (hq0 : 0 ≤ q) (hq1 : q ≤ 1) :
    (∑ i in Finset.range 7, q ^ i / i.factorial) - q ^ 7 * (1 / 4410) ≤ Real.exp q ∧
    Real.exp q ≤ (∑ i in Finset.range 7, q ^ i / i.factorial) + q ^ 7 * (1 / 4410) := by
  have habs : |q| ≤ 1 := by rw [abs_of_nonneg hq0]; exact hq1
  have h := Real.exp_bound habs (by norm_num : 0 < 7)
  rw [abs_of_nonneg hq0] at h
  obtain ⟨h21, h22⟩ := abs_sub_le_iff.mp h
  norm_num [Nat.factorial] at h21 h22
  constructor <;> linarith

/-- Rational enclosure of `sqrt (1/200)`. -/
theorem sqrt_inv200_bounds :
    (70710678118654 / 10 ^ 15 : ℝ) ≤ Real.sqrt (1 / 200) ∧
    Real.sqrt (1 / 200) ≤ 70710678118656 / 10 ^ 15 := by
  constructor
  · rw [Real.le_sqrt (by norm_num) (by norm_num)]
    norm_num
  · rw [Real.sqrt_le_iff]
    norm_num

/-- Rational enclosure of `u = exp(0.2·sqrt(1/200))` for the C9 scenario. -/
theorem u9_bounds :
    (10142426086996 / 10 ^ 13 : ℝ) ≤ Real.exp (2 / 10 * Real.sqrt (1 / 200)) ∧
    Real.exp (2 / 10 * Real.sqrt (1 / 200)) ≤ 10142426086997 / 10 ^ 13 := by
  obtain ⟨hs1, hs2⟩ := sqrt_inv200_bounds
  have hx1 : (141421356237308 / 10 ^ 16 : ℝ) ≤ 2 / 10 * Real.sqrt (1 / 200) := by
    nlinarith
  have hx2 : 2 / 10 * Real.sqrt (1 / 200) ≤ 141421356237312 / 10 ^ 16 := by
    nlinarith
  obtain ⟨hTl, -⟩ := @exp_taylor7 (141421356237308 / 10 ^ 16 : ℝ)
    (by norm_num) (by norm_num)
  obtain ⟨-, hTu⟩ := @exp_taylor7 (141421356237312 / 10 ^ 16 : ℝ)
    (by norm_num) (by norm_num)
  constructor
  · refine le_trans ?_ (Real.exp_le_exp.mpr hx1)
    refine le_trans ?_ hTl
    simp only [Finset.sum_range_succ, Finset.sum_range_zero, Nat.factorial]
    norm_num
  · refine le_trans (Real.exp_le_exp.mpr hx2) ?_
    refine le_trans hTu ?_
    simp only [Finset.sum_range_succ, Finset.sum_range_zero, Nat.factorial]
    norm_num

/-- Rational enclosure of `exp(1/4000)` (i.e. `exp(r·dt)`) for the C9 scenario. -/
theorem e9_bounds :
    (10002500312526 / 10 ^ 13 : ℝ) ≤ Real.exp (1 / 4000) ∧
    Real.exp (1 / 4000) ≤ 10002500312527 / 10 ^ 13 := by
  obtain ⟨hTl, hTu⟩ := @exp_taylor7 (1 / 4000 : ℝ) (by norm_num) (by norm_num)
  constructor
  · refine le_trans ?_ hTl
    simp only [Finset.sum_range_succ, Finset.sum_range_zero, Nat.factorial]
    norm_num
  · refine le_trans hTu ?_
    simp only [Finset.sum_range_succ, Finset.sum_range_zero, Nat.factorial]
    norm_num



set_option maxHeartbeats 2000000 in
/-- All interval parameters of the C9 scenario enclose the corresponding real
model quantities, so the interval run encloses the real lattice price. -/
theorem c9_root_encl {m : CRR.Model ℝ}
    (hS : m.S = 100) (hK : m.K = 100) (hn : m.n = 200) (ham : m.american = true)
    (hu : m.u = Real.exp (2 / 10 * Real.sqrt (1 / 200)))
    (hd : m.d = 1 / m.u)
    (hp : m.p = (Real.exp (1 / 4000) - m.d) / (m.u - m.d))
    (hq : m.oneMinusP = 1 - m.p)
    (hrdt : m.r * m.dt = 1 / 4000) :
    IV.encl (IV.root IV.uI9 IV.dI9 IV.pI9 IV.qI9 IV.discI9 IV.SI9 m.optionCall IV.KSc9 200)
      (CRR.price Real.exp m) := by
  obtain ⟨hu1, hu2⟩ := u9_bounds
  obtain ⟨he1, he2⟩ := e9_bounds
  rw [← hu] at hu1 hu2
  have hupos : 0 < m.u := by rw [hu]; exact Real.exp_pos _
  have hSc : ((IV.Sc : ℕ) : ℝ) = 10 ^ 9 := by norm_num [IV.Sc]
  have hd1 : (10 ^ 13 / 10142426086997 : ℝ) ≤ m.d := by
    rw [hd]
    calc (10 ^ 13 / 10142426086997 : ℝ) = 1 / (10142426086997 / 10 ^ 13) := by norm_num
      _ ≤ 1 / m.u := one_div_le_one_div_of_le hupos hu2
  have hd2 : m.d ≤ (10 ^ 13 / 10142426086996 : ℝ) := by
    rw [hd]
    calc 1 / m.u ≤ 1 / (10142426086996 / 10 ^ 13 : ℝ) :=
          one_div_le_one_div_of_le (by norm_num) hu1
      _ = (10 ^ 13 / 10142426086996 : ℝ) := by norm_num
  have hencl_u : IV.encl IV.uI9 m.u := by
    constructor
    · show ((IV.uI9.lo : ℕ) : ℝ) ≤ m.u * ((IV.Sc : ℕ) : ℝ)
      rw [hSc]
      norm_num [IV.uI9]
      linarith
    · show m.u * ((IV.Sc : ℕ) : ℝ) ≤ ((IV.uI9.hi : ℕ) : ℝ)
      rw [hSc]
      norm_num [IV.uI9]
      linarith
  have hencl_d : IV.encl IV.dI9 m.d := by
    constructor
    · show ((IV.dI9.lo : ℕ) : ℝ) ≤ m.d * ((IV.Sc : ℕ) : ℝ)
      rw [hSc]
      norm_num [IV.dI9]
      linarith
    · show m.d * ((IV.Sc : ℕ) : ℝ) ≤ ((IV.dI9.hi : ℕ) : ℝ)
      rw [hSc]
      norm_num [IV.dI9]
      linarith
  have hWpos : (0 : ℝ) < m.u - m.d := by linarith
  have hN1 : (10002500312526 / 10 ^ 13 - 10 ^ 13 / 10142426086996 : ℝ)
      ≤ Real.exp (1 / 4000) - m.d := by linarith
  have hN2 : Real.exp (1 / 4000) - m.d
      ≤ (10002500312527 / 10 ^ 13 - 10 ^ 13 / 10142426086997 : ℝ) := by linarith
  have hW1 : (10142426086996 / 10 ^ 13 - 10 ^ 13 / 10142426086996 : ℝ) ≤ m.u - m.d := by
    linarith
  have hW2 : m.u - m.d ≤ (10142426086997 / 10 ^ 13 - 10 ^ 13 / 10142426086997 : ℝ) := by
    linarith
  have hp1 : ((10002500312526 / 10 ^ 13 - 10 ^ 13 / 10142426086996) /
      (10142426086997 / 10 ^ 13 - 10 ^ 13 / 10142426086997) : ℝ) ≤ m.p := by
    rw [hp]
    exact div_le_div (by linarith) hN1 hWpos hW2
  have hp2 : m.p ≤ ((10002500312527 / 10 ^ 13 - 10 ^ 13 / 10142426086997) /
      (10142426086996 / 10 ^ 13 - 10 ^ 13 / 10142426086996) : ℝ) := by
    rw [hp]
    exact div_le_div (by norm_num) hN2 (by norm_num) hW1
  have hencl_p : IV.encl IV.pI9 m.p := by
    constructor
    · show ((IV.pI9.lo : ℕ) : ℝ) ≤ m.p * ((IV.Sc : ℕ) : ℝ)
      rw [hSc]
      norm_num [IV.pI9]
      linarith
    · show m.p * ((IV.Sc : ℕ) : ℝ) ≤ ((IV.pI9.hi : ℕ) : ℝ)
      rw [hSc]
      norm_num [IV.pI9]
      linarith
  have hencl_q : IV.encl IV.qI9 m.oneMinusP := by
    rw [hq]
    constructor
    · show ((IV.qI9.lo : ℕ) : ℝ) ≤ (1 - m.p) * ((IV.Sc : ℕ) : ℝ)
      rw [hSc]
      norm_num [IV.qI9]
      linarith
    · show (1 - m.p) * ((IV.Sc : ℕ) : ℝ) ≤ ((IV.qI9.hi : ℕ) : ℝ)
      rw [hSc]
      norm_num [IV.qI9]
      linarith
  have hdisc1 : (10 ^ 13 / 10002500312527 : ℝ) ≤ Real.exp (-(m.r * m.dt)) := by
    rw [hrdt, Real.exp_neg]
    calc (10 ^ 13 / 10002500312527 : ℝ) = 1 / (10002500312527 / 10 ^ 13) := by norm_num
      _ ≤ 1 / Real.exp (1 / 4000) := one_div_le_one_div_of_le (Real.exp_pos _) he2
      _ = (Real.exp (1 / 4000))⁻¹ := one_div _
  have hdisc2 : Real.exp (-(m.r * m.dt)) ≤ (10 ^ 13 / 10002500312526 : ℝ) := by
    rw [hrdt, Real.exp_neg]
    calc (Real.exp (1 / 4000))⁻¹ = 1 / Real.exp (1 / 4000) := (one_div _).symm
      _ ≤ 1 / (10002500312526 / 10 ^ 13 : ℝ) := one_div_le_one_div_of_le (by norm_num) he1
      _ = (10 ^ 13 / 10002500312526 : ℝ) := by norm_num
  have hencl_disc : IV.encl IV.discI9 (Real.exp (-(m.r * m.dt))) := by
    constructor
    · show ((IV.discI9.lo : ℕ) : ℝ) ≤ _ * ((IV.Sc : ℕ) : ℝ)
      rw [hSc]
      norm_num [IV.discI9]
      linarith
    · show _ * ((IV.Sc : ℕ) : ℝ) ≤ ((IV.discI9.hi : ℕ) : ℝ)
      rw [hSc]
      norm_num [IV.discI9]
      linarith
  have hencl_S : IV.encl IV.SI9 m.S := by
    rw [hS]
    constructor
    · show ((IV.SI9.lo : ℕ) : ℝ) ≤ (100 : ℝ) * ((IV.Sc : ℕ) : ℝ)
      norm_num [IV.SI9, IV.Sc]
    · show (100 : ℝ) * ((IV.Sc : ℕ) : ℝ) ≤ ((IV.SI9.hi : ℕ) : ℝ)
      norm_num [IV.SI9, IV.Sc]
  have hKSc : ((IV.KSc9 : ℕ) : ℝ) = m.K * ((IV.Sc : ℕ) : ℝ) := by
    rw [hK]
    norm_num [IV.KSc9, IV.Sc]
  have := IV.root_sound ham (by omega) hencl_u hencl_d hencl_p hencl_q
    hencl_disc hKSc hencl_S
  rwa [hn] at this



/-- Splitting a guarded interval run: `k + m` iterations are `k` iterations
followed by `m` more. -/
theorem IV.loopG_add (uI pI qI discI : IV.NInt) (call : Bool) (KSc : ℕ) (k m : ℕ)
    (st : List IV.NInt × List IV.NInt) :
    IV.loopG uI pI qI discI call KSc (k + m) st
      = IV.loopG uI pI qI discI call KSc m (IV.loopG uI pI qI discI call KSc k st) := by
  induction k generalizing st with
  | zero => rw [Nat.zero_add]; rfl
  | succ k ih =>
    rw [Nat.succ_add]
    show IV.loopG uI pI qI discI call KSc (k + m) (IV.stepG uI pI qI discI call KSc st) = _
    rw [ih]
    rfl

set_option maxHeartbeats 1000000 in
/-- Literal value of the interval stock-price tree for the C9 scenario. -/
theorem IV.initLit : IV.initSP IV.uI9 IV.dI9 IV.SI9 200 = [IV.NInt.mk 5910573000 5910575700, IV.NInt.mk 6080135844 6080138893, IV.NInt.mk 6254563246 6254566248, IV.NInt.mk 6433994583 6433997641, IV.NInt.mk 6618573498 6618576612, IV.NInt.mk 6808447588 6808450866, IV.NInt.mk 7003768849 7003772084, IV.NInt.mk 7204693373 7204696777, IV.NInt.mk 7411382198 7411385552, IV.NInt.mk 7624000259 7624004136, IV.NInt.mk 7842718166 7842721990, IV.NInt.mk 8067710655 8067714430, IV.NInt.mk 8299157728 8299161577, IV.NInt.mk 8537244484 8537248523, IV.NInt.mk 8782161574 8782165691, IV.NInt.mk 9034104783 9034109105, IV.NInt.mk 9293275898 9293280178, IV.NInt.mk 9559881883 9559886621, IV.NInt.mk 9834136513 9834141212, IV.NInt.mk 10116258817 10116263737, IV.NInt.mk 10406474873 10406479762, IV.NInt.mk 10705016577 10705021559, IV.NInt.mk 11012122847 11012127924, IV.NInt.mk 11328039307 11328044620, IV.NInt.mk 11653019000 11653024290, IV.NInt.mk 11987321659 11987327200, IV.NInt.mk 12331214811 12331220457, IV.NInt.mk 12684973487 12684979385, IV.NInt.mk 13048880973 13048886841, IV.NInt.mk 13423228161 13423234149, IV.NInt.mk 13808314678 13808320788, IV.NInt.mk 14204448513 14204454901, IV.NInt.mk 14611946833 14611953182, IV.NInt.mk 15031135205 15031142002, IV.NInt.mk 15462349493 15462356434, IV.NInt.mk 15905934323 15905941566, IV.NInt.mk 16362245013 16362252233, IV.NInt.mk 16831646277 16831653808, IV.NInt.mk 17314513779 17314521296, IV.NInt.mk 17811233686 17811241525, IV.NInt.mk 18322203681 18322211529, IV.NInt.mk 18847832023 18847840928, IV.NInt.mk 19388540037 19388548941, IV.NInt.mk 19944759667 19944768936, IV.NInt.mk 20516936464 20516945744, IV.NInt.mk 21105527617 21105537275, IV.NInt.mk 21711004617 21711014289, IV.NInt.mk 22333851509 22333861387, IV.NInt.mk 22974566643 22974576720, IV.NInt.mk 23633662577 23633673057, IV.NInt.mk 24311666821 24311677319, IV.NInt.mk 25009121487 25009132413, IV.NInt.mk 25726585078 25726596050, IV.NInt.mk 26464631156 26464642571, IV.NInt.mk 27223850298 27223861964, IV.NInt.mk 28004849915 28004862042, IV.NInt.mk 28808255155 28808267351, IV.NInt.mk 29634707850 29634721209, IV.NInt.mk 30484870569 30484883985, IV.NInt.mk 31359422617 31359436549, IV.NInt.mk 32259064036 32259078044, IV.NInt.mk 33184514425 33184528730, IV.NInt.mk 34136514056 34136528692, IV.NInt.mk 35115824665 35115839855, IV.NInt.mk 36123230007 36123245327, IV.NInt.mk 37159535556 37159551463, IV.NInt.mk 38225571039 38225587038, IV.NInt.mk 39322188838 39322205445, IV.NInt.mk 40450266742 40450283494, IV.NInt.mk 41610706723 41610724105, IV.NInt.mk 42804437536 42804455324, IV.NInt.mk 44032414382 44032432552, IV.NInt.mk 45295619320 45295637978, IV.NInt.mk 46595062921 46595082556, IV.NInt.mk 47931785280 47931805380, IV.NInt.mk 49306855680 49306876526, IV.NInt.mk 50721374378 50721395418, IV.NInt.mk 52176472732 52176494527, IV.NInt.mk 53673315047 53673337384, IV.NInt.mk 55213098596 55213121737, IV.NInt.mk 56797056001 56797079437, IV.NInt.mk 58426453509 58426478093, IV.NInt.mk 60102595881 60102620741, IV.NInt.mk 61826823498 61826848923, IV.NInt.mk 63600515760 63600541837, IV.NInt.mk 65425091627 65425118978, IV.NInt.mk 67302011342 67302039003, IV.NInt.mk 69232776228 69232804527, IV.NInt.mk 71218930844 71218959935, IV.NInt.mk 73262064291 73262094750, IV.NInt.mk 75363811568 75363842799, IV.NInt.mk 77525853713 77525886029, IV.NInt.mk 79749920978 79749953756, IV.NInt.mk 82037791859 82037826135, IV.NInt.mk 84391297946 84391332712, IV.NInt.mk 86812321475 86812357053, IV.NInt.mk 89302799525 89302835681, IV.NInt.mk 91864724328 91864761720, IV.NInt.mk 94500145994 94500184344, IV.NInt.mk 97211172432 97211212093, IV.NInt.mk 99999973586 100000013911, IV.NInt.mk 102868780080 102868821373, IV.NInt.mk 105819886713 105819929070, IV.NInt.mk 108855654931 108855698752, IV.NInt.mk 111978513564 111978558217, IV.NInt.mk 115190960241 115191007297, IV.NInt.mk 118495566635 118495614470, IV.NInt.mk 121894975841 121895024840, IV.NInt.mk 125391907454 125391957777, IV.NInt.mk 128989159057 128989211089, IV.NInt.mk 132689609198 132689662113, IV.NInt.mk 136496217901 136496272590, IV.NInt.mk 140412030953 140412086769, IV.NInt.mk 144440181083 144440238278, IV.NInt.mk 148583890886 148583949606, IV.NInt.mk 152846476143 152846536331, IV.NInt.mk 157231346313 157231408213, IV.NInt.mk 161742010191 161742074144, IV.NInt.mk 166382076071 166382141782, IV.NInt.mk 171155256689 171155324035, IV.NInt.mk 176065370799 176065439688, IV.NInt.mk 181116345657 181116417940, IV.NInt.mk 186312224092 186312297806, IV.NInt.mk 191657162332 191657237903, IV.NInt.mk 197155436104 197155513844, IV.NInt.mk 202811445389 202811524516, IV.NInt.mk 208629714142 208629795449, IV.NInt.mk 214614898064 214614981455, IV.NInt.mk 220771784878 220771871010, IV.NInt.mk 227105300214 227105389839, IV.NInt.mk 233620513179 233620604640, IV.NInt.mk 240322634979 240322728799, IV.NInt.mk 247217027606 247217123568, IV.NInt.mk 254309206979 254309305432, IV.NInt.mk 261604847504 261604948109, IV.NInt.mk 269109785632 269109889541, IV.NInt.mk 276830025614 276830132260, IV.NInt.mk 284771744196 284771855021, IV.NInt.mk 292941295658 292941409684, IV.NInt.mk 301345216187 301345332516, IV.NInt.mk 309990228601 309990348470, IV.NInt.mk 318883250485 318883372803, IV.NInt.mk 328031395238 328031520403, IV.NInt.mk 337441982646 337442111912, IV.NInt.mk 347122541354 347122674186, IV.NInt.mk 357080817320 357080953790, IV.NInt.mk 367324776717 367324916345, IV.NInt.mk 377862615246 377862758660, IV.NInt.mk 388702764433 388702911570, IV.NInt.mk 399853896781 399854047958, IV.NInt.mk 411324932777 411325088474, IV.NInt.mk 423125050660 423125210675, IV.NInt.mk 435263691382 435263856014, IV.NInt.mk 447750565658 447750735768, IV.NInt.mk 460595665382 460595839693, IV.NInt.mk 473809265948 473809445123, IV.NInt.mk 487401938818 487402122750, IV.NInt.mk 501384560145 501384748280, IV.NInt.mk 515768315089 515768508061, IV.NInt.mk 530564712571 530564910979, IV.NInt.mk 545785589208 545785793741, IV.NInt.mk 561443123415 561443334774, IV.NInt.mk 577549842664 577550059492, IV.NInt.mk 594118633162 594118855156, IV.NInt.mk 611162749423 611162977709, IV.NInt.mk 628695828849 628696063679, IV.NInt.mk 646731898651 646732139737, IV.NInt.mk 665285389266 665285636235, IV.NInt.mk 684371141640 684371396394, IV.NInt.mk 704004429365 704004691553, IV.NInt.mk 724200956616 724201225945, IV.NInt.mk 744976884527 744977160551, IV.NInt.mk 766348832867 766349117001, IV.NInt.mk 788333901518 788334192844, IV.NInt.mk 810949679282 810949978709, IV.NInt.mk 834214259610 834214567936, IV.NInt.mk 858146255678 858146572822, IV.NInt.mk 882764815475 882765140826, IV.NInt.mk 908089633529 908089968062, IV.NInt.mk 934140972879 934141314939, IV.NInt.mk 960939673259 960940025773, IV.NInt.mk 988507178568 988507539096, IV.NInt.mk 1016865540294 1016865911313, IV.NInt.mk 1046037450338 1046037831286, IV.NInt.mk 1076046243508 1076046637385, IV.NInt.mk 1106915933299 1106916336439, IV.NInt.mk 1138671213644 1138671628603, IV.NInt.mk 1171337493401 1171337919686, IV.NInt.mk 1204940904122 1204941342483, IV.NInt.mk 1239508332319 1239508784114, IV.NInt.mk 1275067433100 1275067896986, IV.NInt.mk 1311646657454 1311647132716, IV.NInt.mk 1349275265503 1349275756836, IV.NInt.mk 1387983369059 1387983874099, IV.NInt.mk 1427801931445 1427802450400, IV.NInt.mk 1468762813330 1468763345375, IV.NInt.mk 1510898781827 1510899329592, IV.NInt.mk 1554243552085 1554244113801, IV.NInt.mk 1598831798133 1598832375642, IV.NInt.mk 1644699196740 1644699789194, IV.NInt.mk 1691882438400 1691883052200] := by decide

set_option maxHeartbeats 1000000 in
/-- Literal terminal payoffs of the C9 call. -/
theorem IV.payLit_call : List.map (IV.payI true IV.KSc9) [IV.NInt.mk 5910573000 5910575700, IV.NInt.mk 6080135844 6080138893, IV.NInt.mk 6254563246 6254566248, IV.NInt.mk 6433994583 6433997641, IV.NInt.mk 6618573498 6618576612, IV.NInt.mk 6808447588 6808450866, IV.NInt.mk 7003768849 7003772084, IV.NInt.mk 7204693373 7204696777, IV.NInt.mk 7411382198 7411385552, IV.NInt.mk 7624000259 7624004136, IV.NInt.mk 7842718166 7842721990, IV.NInt.mk 8067710655 8067714430, IV.NInt.mk 8299157728 8299161577, IV.NInt.mk 8537244484 8537248523, IV.NInt.mk 8782161574 8782165691, IV.NInt.mk 9034104783 9034109105, IV.NInt.mk 9293275898 9293280178, IV.NInt.mk 9559881883 9559886621, IV.NInt.mk 9834136513 9834141212, IV.NInt.mk 10116258817 10116263737, IV.NInt.mk 10406474873 10406479762, IV.NInt.mk 10705016577 10705021559, IV.NInt.mk 11012122847 11012127924, IV.NInt.mk 11328039307 11328044620, IV.NInt.mk 11653019000 11653024290, IV.NInt.mk 11987321659 11987327200, IV.NInt.mk 12331214811 12331220457, IV.NInt.mk 12684973487 12684979385, IV.NInt.mk 13048880973 13048886841, IV.NInt.mk 13423228161 13423234149, IV.NInt.mk 13808314678 13808320788, IV.NInt.mk 14204448513 14204454901, IV.NInt.mk 14611946833 14611953182, IV.NInt.mk 15031135205 15031142002, IV.NInt.mk 15462349493 15462356434, IV.NInt.mk 15905934323 15905941566, IV.NInt.mk 16362245013 16362252233, IV.NInt.mk 16831646277 16831653808, IV.NInt.mk 17314513779 17314521296, IV.NInt.mk 17811233686 17811241525, IV.NInt.mk 18322203681 18322211529, IV.NInt.mk 18847832023 18847840928, IV.NInt.mk 19388540037 19388548941, IV.NInt.mk 19944759667 19944768936, IV.NInt.mk 20516936464 20516945744, IV.NInt.mk 21105527617 21105537275, IV.NInt.mk 21711004617 21711014289, IV.NInt.mk 22333851509 22333861387, IV.NInt.mk 22974566643 22974576720, IV.NInt.mk 23633662577 23633673057, IV.NInt.mk 24311666821 24311677319, IV.NInt.mk 25009121487 25009132413, IV.NInt.mk 25726585078 25726596050, IV.NInt.mk 26464631156 26464642571, IV.NInt.mk 27223850298 27223861964, IV.NInt.mk 28004849915 28004862042, IV.NInt.mk 28808255155 28808267351, IV.NInt.mk 29634707850 29634721209, IV.NInt.mk 30484870569 30484883985, IV.NInt.mk 31359422617 31359436549, IV.NInt.mk 32259064036 32259078044, IV.NInt.mk 33184514425 33184528730, IV.NInt.mk 34136514056 34136528692, IV.NInt.mk 35115824665 35115839855, IV.NInt.mk 36123230007 36123245327, IV.NInt.mk 37159535556 37159551463, IV.NInt.mk 38225571039 38225587038, IV.NInt.mk 39322188838 39322205445, IV.NInt.mk 40450266742 40450283494, IV.NInt.mk 41610706723 41610724105, IV.NInt.mk 42804437536 42804455324, IV.NInt.mk 44032414382 44032432552, IV.NInt.mk 45295619320 45295637978, IV.NInt.mk 46595062921 46595082556, IV.NInt.mk 47931785280 47931805380, IV.NInt.mk 49306855680 49306876526, IV.NInt.mk 50721374378 50721395418, IV.NInt.mk 52176472732 52176494527, IV.NInt.mk 53673315047 53673337384, IV.NInt.mk 55213098596 55213121737, IV.NInt.mk 56797056001 56797079437, IV.NInt.mk 58426453509 58426478093, IV.NInt.mk 60102595881 60102620741, IV.NInt.mk 61826823498 61826848923, IV.NInt.mk 63600515760 63600541837, IV.NInt.mk 65425091627 65425118978, IV.NInt.mk 67302011342 67302039003, IV.NInt.mk 69232776228 69232804527, IV.NInt.mk 71218930844 71218959935, IV.NInt.mk 73262064291 73262094750, IV.NInt.mk 75363811568 75363842799, IV.NInt.mk 77525853713 77525886029, IV.NInt.mk 79749920978 79749953756, IV.NInt.mk 82037791859 82037826135, IV.NInt.mk 84391297946 84391332712, IV.NInt.mk 86812321475 86812357053, IV.NInt.mk 89302799525 89302835681, IV.NInt.mk 91864724328 91864761720, IV.NInt.mk 94500145994 94500184344, IV.NInt.mk 97211172432 97211212093, IV.NInt.mk 99999973586 100000013911, IV.NInt.mk 102868780080 102868821373, IV.NInt.mk 105819886713 105819929070, IV.NInt.mk 108855654931 108855698752, IV.NInt.mk 111978513564 111978558217, IV.NInt.mk 115190960241 115191007297, IV.NInt.mk 118495566635 118495614470, IV.NInt.mk 121894975841 121895024840, IV.NInt.mk 125391907454 125391957777, IV.NInt.mk 128989159057 128989211089, IV.NInt.mk 132689609198 132689662113, IV.NInt.mk 136496217901 136496272590, IV.NInt.mk 140412030953 140412086769, IV.NInt.mk 144440181083 144440238278, IV.NInt.mk 148583890886 148583949606, IV.NInt.mk 152846476143 152846536331, IV.NInt.mk 157231346313 157231408213, IV.NInt.mk 161742010191 161742074144, IV.NInt.mk 166382076071 166382141782, IV.NInt.mk 171155256689 171155324035, IV.NInt.mk 176065370799 176065439688, IV.NInt.mk 181116345657 181116417940, IV.NInt.mk 186312224092 186312297806, IV.NInt.mk 191657162332 191657237903, IV.NInt.mk 197155436104 197155513844, IV.NInt.mk 202811445389 202811524516, IV.NInt.mk 208629714142 208629795449, IV.NInt.mk 214614898064 214614981455, IV.NInt.mk 220771784878 220771871010, IV.NInt.mk 227105300214 227105389839, IV.NInt.mk 233620513179 233620604640, IV.NInt.mk 240322634979 240322728799, IV.NInt.mk 247217027606 247217123568, IV.NInt.mk 254309206979 254309305432, IV.NInt.mk 261604847504 261604948109, IV.NInt.mk 269109785632 269109889541, IV.NInt.mk 276830025614 276830132260, IV.NInt.mk 284771744196 284771855021, IV.NInt.mk 292941295658 292941409684, IV.NInt.mk 301345216187 301345332516, IV.NInt.mk 309990228601 309990348470, IV.NInt.mk 318883250485 318883372803, IV.NInt.mk 328031395238 328031520403, IV.NInt.mk 337441982646 337442111912, IV.NInt.mk 347122541354 347122674186, IV.NInt.mk 357080817320 357080953790, IV.NInt.mk 367324776717 367324916345, IV.NInt.mk 377862615246 377862758660, IV.NInt.mk 388702764433 388702911570, IV.NInt.mk 399853896781 399854047958, IV.NInt.mk 411324932777 411325088474, IV.NInt.mk 423125050660 423125210675, IV.NInt.mk 435263691382 435263856014, IV.NInt.mk 447750565658 447750735768, IV.NInt.mk 460595665382 460595839693, IV.NInt.mk 473809265948 473809445123, IV.NInt.mk 487401938818 487402122750, IV.NInt.mk 501384560145 501384748280, IV.NInt.mk 515768315089 515768508061, IV.NInt.mk 530564712571 530564910979, IV.NInt.mk 545785589208 545785793741, IV.NInt.mk 561443123415 561443334774, IV.NInt.mk 577549842664 577550059492, IV.NInt.mk 594118633162 594118855156, IV.NInt.mk 611162749423 611162977709, IV.NInt.mk 628695828849 628696063679, IV.NInt.mk 646731898651 646732139737, IV.NInt.mk 665285389266 665285636235, IV.NInt.mk 684371141640 684371396394, IV.NInt.mk 704004429365 704004691553, IV.NInt.mk 724200956616 724201225945, IV.NInt.mk 744976884527 744977160551, IV.NInt.mk 766348832867 766349117001, IV.NInt.mk 788333901518 788334192844, IV.NInt.mk 810949679282 810949978709, IV.NInt.mk 834214259610 834214567936, IV.NInt.mk 858146255678 858146572822, IV.NInt.mk 882764815475 882765140826, IV.NInt.mk 908089633529 908089968062, IV.NInt.mk 934140972879 934141314939, IV.NInt.mk 960939673259 960940025773, IV.NInt.mk 988507178568 988507539096, IV.NInt.mk 1016865540294 1016865911313, IV.NInt.mk 1046037450338 1046037831286, IV.NInt.mk 1076046243508 1076046637385, IV.NInt.mk 1106915933299 1106916336439, IV.NInt.mk 1138671213644 1138671628603, IV.NInt.mk 1171337493401 1171337919686, IV.NInt.mk 1204940904122 1204941342483, IV.NInt.mk 1239508332319 1239508784114, IV.NInt.mk 1275067433100 1275067896986, IV.NInt.mk 1311646657454 1311647132716, IV.NInt.mk 1349275265503 1349275756836, IV.NInt.mk 1387983369059 1387983874099, IV.NInt.mk 1427801931445 1427802450400, IV.NInt.mk 1468762813330 1468763345375, IV.NInt.mk 1510898781827 1510899329592, IV.NInt.mk 1554243552085 1554244113801, IV.NInt.mk 1598831798133 1598832375642, IV.NInt.mk 1644699196740 1644699789194, IV.NInt.mk 1691882438400 1691883052200] = [IV.NInt.mk 0 0, IV.NInt.mk 0 0, IV.NInt.mk 0 0, IV.NInt.mk 0 0, IV.NInt.mk 0 0, IV.NInt.mk 0 0, IV.NInt.mk 0 0, IV.NInt.mk 0 0, IV.NInt.mk 0 0, IV.NInt.mk 0 0, IV.NInt.mk 0 0, IV.NInt.mk 0 0, IV.NInt.mk 0 0, IV.NInt.mk 0 0, IV.NInt.mk 0 0, IV.NInt.mk 0 0, IV.NInt.mk 0 0, IV.NInt.mk 0 0, IV.NInt.mk 0 0, IV.NInt.mk 0 0, IV.NInt.mk 0 0, IV.NInt.mk 0 0, IV.NInt.mk 0 0, IV.NInt.mk 0 0, IV.NInt.mk 0 0, IV.NInt.mk 0 0, IV.NInt.mk 0 0, IV.NInt.mk 0 0, IV.NInt.mk 0 0, IV.NInt.mk 0 0, IV.NInt.mk 0 0, IV.NInt.mk 0 0, IV.NInt.mk 0 0, IV.NInt.mk 0 0, IV.NInt.mk 0 0, IV.NInt.mk 0 0, IV.NInt.mk 0 0, IV.NInt.mk 0 0, IV.NInt.mk 0 0, IV.NInt.mk 0 0, IV.NInt.mk 0 0, IV.NInt.mk 0 0, IV.NInt.mk 0 0, IV.NInt.mk 0 0, IV.NInt.mk 0 0, IV.NInt.mk 0 0, IV.NInt.mk 0 0, IV.NInt.mk 0 0, IV.NInt.mk 0 0, IV.NInt.mk 0 0, IV.NInt.mk 0 0, IV.NInt.mk 0 0, IV.NInt.mk 0 0, IV.NInt.mk 0 0, IV.NInt.mk 0 0, IV.NInt.mk 0 0, IV.NInt.mk 0 0, IV.NInt.mk 0 0, IV.NInt.mk 0 0, IV.NInt.mk 0 0, IV.NInt.mk 0 0, IV.NInt.mk 0 0, IV.NInt.mk 0 0, IV.NInt.mk 0 0, IV.NInt.mk 0 0, IV.NInt.mk 0 0, IV.NInt.mk 0 0, IV.NInt.mk 0 0, IV.NInt.mk 0 0, IV.NInt.mk 0 0, IV.NInt.mk 0 0, IV.NInt.mk 0 0, IV.NInt.mk 0 0, IV.NInt.mk 0 0, IV.NInt.mk 0 0, IV.NInt.mk 0 0, IV.NInt.mk 0 0, IV.NInt.mk 0 0, IV.NInt.mk 0 0, IV.NInt.mk 0 0, IV.NInt.mk 0 0, IV.NInt.mk 0 0, IV.NInt.mk 0 0, IV.NInt.mk 0 0, IV.NInt.mk 0 0, IV.NInt.mk 0 0, IV.NInt.mk 0 0, IV.NInt.mk 0 0, IV.NInt.mk 0 0, IV.NInt.mk 0 0, IV.NInt.mk 0 0, IV.NInt.mk 0 0, IV.NInt.mk 0 0, IV.NInt.mk 0 0, IV.NInt.mk 0 0, IV.NInt.mk 0 0, IV.NInt.mk 0 0, IV.NInt.mk 0 0, IV.NInt.mk 0 0, IV.NInt.mk 0 0, IV.NInt.mk 0 13911, IV.NInt.mk 2868780080 2868821373, IV.NInt.mk 5819886713 5819929070, IV.NInt.mk 8855654931 8855698752, IV.NInt.mk 11978513564 11978558217, IV.NInt.mk 15190960241 15191007297, IV.NInt.mk 18495566635 18495614470, IV.NInt.mk 21894975841 21895024840, IV.NInt.mk 25391907454 25391957777, IV.NInt.mk 28989159057 28989211089, IV.NInt.mk 32689609198 32689662113, IV.NInt.mk 36496217901 36496272590, IV.NInt.mk 40412030953 40412086769, IV.NInt.mk 44440181083 44440238278, IV.NInt.mk 48583890886 48583949606, IV.NInt.mk 52846476143 52846536331, IV.NInt.mk 57231346313 57231408213, IV.NInt.mk 61742010191 61742074144, IV.NInt.mk 66382076071 66382141782, IV.NInt.mk 71155256689 71155324035, IV.NInt.mk 76065370799 76065439688, IV.NInt.mk 81116345657 81116417940, IV.NInt.mk 86312224092 86312297806, IV.NInt.mk 91657162332 91657237903, IV.NInt.mk 97155436104 97155513844, IV.NInt.mk 102811445389 102811524516, IV.NInt.mk 108629714142 108629795449, IV.NInt.mk 114614898064 114614981455, IV.NInt.mk 120771784878 120771871010, IV.NInt.mk 127105300214 127105389839, IV.NInt.mk 133620513179 133620604640, IV.NInt.mk 140322634979 140322728799, IV.NInt.mk 147217027606 147217123568, IV.NInt.mk 154309206979 154309305432, IV.NInt.mk 161604847504 161604948109, IV.NInt.mk 169109785632 169109889541, IV.NInt.mk 176830025614 176830132260, IV.NInt.mk 184771744196 184771855021, IV.NInt.mk 192941295658 192941409684, IV.NInt.mk 201345216187 201345332516, IV.NInt.mk 209990228601 209990348470, IV.NInt.mk 218883250485 218883372803, IV.NInt.mk 228031395238 228031520403, IV.NInt.mk 237441982646 237442111912, IV.NInt.mk 247122541354 247122674186, IV.NInt.mk 257080817320 257080953790, IV.NInt.mk 267324776717 267324916345, IV.NInt.mk 277862615246 277862758660, IV.NInt.mk 288702764433 288702911570, IV.NInt.mk 299853896781 299854047958, IV.NInt.mk 311324932777 311325088474, IV.NInt.mk 323125050660 323125210675, IV.NInt.mk 335263691382 335263856014, IV.NInt.mk 347750565658 347750735768, IV.NInt.mk 360595665382 360595839693, IV.NInt.mk 373809265948 373809445123, IV.NInt.mk 387401938818 387402122750, IV.NInt.mk 401384560145 401384748280, IV.NInt.mk 415768315089 415768508061, IV.NInt.mk 430564712571 430564910979, IV.NInt.mk 445785589208 445785793741, IV.NInt.mk 461443123415 461443334774, IV.NInt.mk 477549842664 477550059492, IV.NInt.mk 494118633162 494118855156, IV.NInt.mk 511162749423 511162977709, IV.NInt.mk 528695828849 528696063679, IV.NInt.mk 546731898651 546732139737, IV.NInt.mk 565285389266 565285636235, IV.NInt.mk 584371141640 584371396394, IV.NInt.mk 604004429365 604004691553, IV.NInt.mk 624200956616 624201225945, IV.NInt.mk 644976884527 644977160551, IV.NInt.mk 666348832867 666349117001, IV.NInt.mk 688333901518 688334192844, IV.NInt.mk 710949679282 710949978709, IV.NInt.mk 734214259610 734214567936, IV.NInt.mk 758146255678 758146572822, IV.NInt.mk 782764815475 782765140826, IV.NInt.mk 808089633529 808089968062, IV.NInt.mk 834140972879 834141314939, IV.NInt.mk 860939673259 860940025773, IV.NInt.mk 888507178568 888507539096, IV.NInt.mk 916865540294 916865911313, IV.NInt.mk 946037450338 946037831286, IV.NInt.mk 976046243508 976046637385, IV.NInt.mk 1006915933299 1006916336439, IV.NInt.mk 1038671213644 1038671628603, IV.NInt.mk 1071337493401 1071337919686, IV.NInt.mk 1104940904122 1104941342483, IV.NInt.mk 1139508332319 1139508784114, IV.NInt.mk 1175067433100 1175067896986, IV.NInt.mk 1211646657454 1211647132716, IV.NInt.mk 1249275265503 1249275756836, IV.NInt.mk 1287983369059 1287983874099, IV.NInt.mk 1327801931445 1327802450400, IV.NInt.mk 1368762813330 1368763345375, IV.NInt.mk 1410898781827 1410899329592, IV.NInt.mk 1454243552085 1454244113801, IV.NInt.mk 1498831798133 1498832375642, IV.NInt.mk 1544699196740 1544699789194, IV.NInt.mk 1591882438400 1591883052200] := by decide

set_option maxRecDepth 100000 in
set_option maxHeartbeats 1000000 in
/-- Chunk 1 of the kernel evaluation of the C9 call lattice (9 steps). -/
theorem IV.callChunk1 : IV.loopG IV.uI9 IV.pI9 IV.qI9 IV.discI9 true IV.KSc9 9 ([IV.NInt.mk 5910573000 5910575700, IV.NInt.mk 6080135844 6080138893, IV.NInt.mk 6254563246 6254566248, IV.NInt.mk 6433994583 6433997641, IV.NInt.mk 6618573498 6618576612, IV.NInt.mk 6808447588 6808450866, IV.NInt.mk 7003768849 7003772084, IV.NInt.mk 7204693373 7204696777, IV.NInt.mk 7411382198 7411385552, IV.NInt.mk 7624000259 7624004136, IV.NInt.mk 7842718166 7842721990, IV.NInt.mk 8067710655 8067714430, IV.NInt.mk 8299157728 8299161577, IV.NInt.mk 8537244484 8537248523, IV.NInt.mk 8782161574 8782165691, IV.NInt.mk 9034104783 9034109105, IV.NInt.mk 9293275898 9293280178, IV.NInt.mk 9559881883 9559886621, IV.NInt.mk 9834136513 9834141212, IV.NInt.mk 10116258817 10116263737, IV.NInt.mk 10406474873 10406479762, IV.NInt.mk 10705016577 10705021559, IV.NInt.mk 11012122847 11012127924, IV.NInt.mk 11328039307 11328044620, IV.NInt.mk 11653019000 11653024290, IV.NInt.mk 11987321659 11987327200, IV.NInt.mk 12331214811 12331220457, IV.NInt.mk 12684973487 12684979385, IV.NInt.mk 13048880973 13048886841, IV.NInt.mk 13423228161 13423234149, IV.NInt.mk 13808314678 13808320788, IV.NInt.mk 14204448513 14204454901, IV.NInt.mk 14611946833 14611953182, IV.NInt.mk 15031135205 15031142002, IV.NInt.mk 15462349493 15462356434, IV.NInt.mk 15905934323 15905941566, IV.NInt.mk 16362245013 16362252233, IV.NInt.mk 16831646277 16831653808, IV.NInt.mk 17314513779 17314521296, IV.NInt.mk 17811233686 17811241525, IV.NInt.mk 18322203681 18322211529, IV.NInt.mk 18847832023 18847840928, IV.NInt.mk 19388540037 19388548941, IV.NInt.mk 19944759667 19944768936, IV.NInt.mk 20516936464 20516945744, IV.NInt.mk 21105527617 21105537275, IV.NInt.mk 21711004617 21711014289, IV.NInt.mk 22333851509 22333861387, IV.NInt.mk 22974566643 22974576720, IV.NInt.mk 23633662577 23633673057, IV.NInt.mk 24311666821 24311677319, IV.NInt.mk 25009121487 25009132413, IV.NInt.mk 25726585078 25726596050, IV.NInt.mk 26464631156 26464642571, IV.NInt.mk 27223850298 27223861964, IV.NInt.mk 28004849915 28004862042, IV.NInt.mk 28808255155 28808267351, IV.NInt.mk 29634707850 29634721209, IV.NInt.mk 30484870569 30484883985, IV.NInt.mk 31359422617 31359436549, IV.NInt.mk 32259064036 32259078044, IV.NInt.mk 33184514425 33184528730, IV.NInt.mk 34136514056 34136528692, IV.NInt.mk 35115824665 35115839855, IV.NInt.mk 36123230007 36123245327, IV.NInt.mk 37159535556 37159551463, IV.NInt.mk 38225571039 38225587038, IV.NInt.mk 39322188838 39322205445, IV.NInt.mk 40450266742 40450283494, IV.NInt.mk 41610706723 41610724105, IV.NInt.mk 42804437536 42804455324, IV.NInt.mk 44032414382 44032432552, IV.NInt.mk 45295619320 45295637978, IV.NInt.mk 46595062921 46595082556, IV.NInt.mk 47931785280 47931805380, IV.NInt.mk 49306855680 49306876526, IV.NInt.mk 50721374378 50721395418, IV.NInt.mk 52176472732 52176494527, IV.NInt.mk 53673315047 53673337384, IV.NInt.mk 55213098596 55213121737, IV.NInt.mk 56797056001 56797079437, IV.NInt.mk 58426453509 58426478093, IV.NInt.mk 60102595881 60102620741, IV.NInt.mk 61826823498 61826848923, IV.NInt.mk 63600515760 63600541837, IV.NInt.mk 65425091627 65425118978, IV.NInt.mk 67302011342 67302039003, IV.NInt.mk 69232776228 69232804527, IV.NInt.mk 71218930844 71218959935, IV.NInt.mk 73262064291 73262094750, IV.NInt.mk 75363811568 75363842799, IV.NInt.mk 77525853713 77525886029, IV.NInt.mk 79749920978 79749953756, IV.NInt.mk 82037791859 82037826135, IV.NInt.mk 84391297946 84391332712, IV.NInt.mk 86812321475 86812357053, IV.NInt.mk 89302799525 89302835681, IV.NInt.mk 91864724328 91864761720, IV.NInt.mk 94500145994 94500184344, IV.NInt.mk 97211172432 97211212093, IV.NInt.mk 99999973586 100000013911, IV.NInt.mk 102868780080 102868821373, IV.NInt.mk 105819886713 105819929070, IV.NInt.mk 108855654931 108855698752, IV.NInt.mk 111978513564 111978558217, IV.NInt.mk 115190960241 115191007297, IV.NInt.mk 118495566635 118495614470, IV.NInt.mk 121894975841 121895024840, IV.NInt.mk 125391907454 125391957777, IV.NInt.mk 128989159057 128989211089, IV.NInt.mk 132689609198 132689662113, IV.NInt.mk 136496217901 136496272590, IV.NInt.mk 140412030953 140412086769, IV.NInt.mk 144440181083 144440238278, IV.NInt.mk 148583890886 148583949606, IV.NInt.mk 152846476143 152846536331, IV.NInt.mk 157231346313 157231408213, IV.NInt.mk 161742010191 161742074144, IV.NInt.mk 166382076071 166382141782, IV.NInt.mk 171155256689 171155324035, IV.NInt.mk 176065370799 176065439688, IV.NInt.mk 181116345657 181116417940, IV.NInt.mk 186312224092 186312297806, IV.NInt.mk 191657162332 191657237903, IV.NInt.mk 197155436104 197155513844, IV.NInt.mk 202811445389 202811524516, IV.NInt.mk 208629714142 208629795449, IV.NInt.mk 214614898064 214614981455, IV.NInt.mk 220771784878 220771871010, IV.NInt.mk 227105300214 227105389839, IV.NInt.mk 233620513179 233620604640, IV.NInt.mk 240322634979 240322728799, IV.NInt.mk 247217027606 247217123568, IV.NInt.mk 254309206979 254309305432, IV.NInt.mk 261604847504 261604948109, IV.NInt.mk 269109785632 269109889541, IV.NInt.mk 276830025614 276830132260, IV.NInt.mk 284771744196 284771855021, IV.NInt.mk 292941295658 292941409684, IV.NInt.mk 301345216187 301345332516, IV.NInt.mk 309990228601 309990348470, IV.NInt.mk 318883250485 318883372803, IV.NInt.mk 328031395238 328031520403, IV.NInt.mk 337441982646 337442111912, IV.NInt.mk 347122541354 347122674186, IV.NInt.mk 357080817320 357080953790, IV.NInt.mk 367324776717 367324916345, IV.NInt.mk 377862615246 377862758660, IV.NInt.mk 388702764433 388702911570, IV.NInt.mk 399853896781 399854047958, IV.NInt.mk 411324932777 411325088474, IV.NInt.mk 423125050660 423125210675, IV.NInt.mk 435263691382 435263856014, IV.NInt.mk 447750565658 447750735768, IV.NInt.mk 460595665382 460595839693, IV.NInt.mk 473809265948 473809445123, IV.NInt.mk 487401938818 487402122750, IV.NInt.mk 501384560145 501384748280, IV.NInt.mk 515768315089 515768508061, IV.NInt.mk 530564712571 530564910979, IV.NInt.mk 545785589208 545785793741, IV.NInt.mk 561443123415 561443334774, IV.NInt.mk 577549842664 577550059492, IV.NInt.mk 594118633162 594118855156, IV.NInt.mk 611162749423 611162977709, IV.NInt.mk 628695828849 628696063679, IV.NInt.mk 646731898651 646732139737, IV.NInt.mk 665285389266 665285636235, IV.NInt.mk 684371141640 684371396394, IV.NInt.mk 704004429365 704004691553, IV.NInt.mk 724200956616 724201225945, IV.NInt.mk 744976884527 744977160551, IV.NInt.mk 766348832867 766349117001, IV.NInt.mk 788333901518 788334192844, IV.NInt.mk 810949679282 810949978709, IV.NInt.mk 834214259610 834214567936, IV.NInt.mk 858146255678 858146572822, IV.NInt.mk 882764815475 882765140826, IV.NInt.mk 908089633529 908089968062, IV.NInt.mk 934140972879 934141314939, IV.NInt.mk 960939673259 960940025773, IV.NInt.mk 988507178568 988507539096, IV.NInt.mk 1016865540294 1016865911313, IV.NInt.mk 1046037450338 1046037831286, IV.NInt.mk 1076046243508 1076046637385, IV.NInt.mk 1106915933299 1106916336439, IV.NInt.mk 1138671213644 1138671628603, IV.NInt.mk 1171337493401 1171337919686, IV.NInt.mk 1204940904122 1204941342483, IV.NInt.mk 1239508332319 1239508784114, IV.NInt.mk 1275067433100 1275067896986, IV.NInt.mk 1311646657454 1311647132716, IV.NInt.mk 1349275265503 1349275756836, IV.NInt.mk 1387983369059 1387983874099, IV.NInt.mk 1427801931445 1427802450400, IV.NInt.mk 1468762813330 1468763345375, IV.NInt.mk 1510898781827 1510899329592, IV.NInt.mk 1554243552085 1554244113801, IV.NInt.mk 1598831798133 1598832375642, IV.NInt.mk 1644699196740 1644699789194, IV.NInt.mk 1691882438400 1691883052200], [IV.NInt.mk 0 0, IV.NInt.mk 0 0, IV.NInt.mk 0 0, IV.NInt.mk 0 0, IV.NInt.mk 0 0, IV.NInt.mk 0 0, IV.NInt.mk 0 0, IV.NInt.mk 0 0, IV.NInt.mk 0 0, IV.NInt.mk 0 0, IV.NInt.mk 0 0, IV.NInt.mk 0 0, IV.NInt.mk 0 0, IV.NInt.mk 0 0, IV.NInt.mk 0 0, IV.NInt.mk 0 0, IV.NInt.mk 0 0, IV.NInt.mk 0 0, IV.NInt.mk 0 0, IV.NInt.mk 0 0, IV.NInt.mk 0 0, IV.NInt.mk 0 0, IV.NInt.mk 0 0, IV.NInt.mk 0 0, IV.NInt.mk 0 0, IV.NInt.mk 0 0, IV.NInt.mk 0 0, IV.NInt.mk 0 0, IV.NInt.mk 0 0, IV.NInt.mk 0 0, IV.NInt.mk 0 0, IV.NInt.mk 0 0, IV.NInt.mk 0 0, IV.NInt.mk 0 0, IV.NInt.mk 0 0, IV.NInt.mk 0 0, IV.NInt.mk 0 0, IV.NInt.mk 0 0, IV.NInt.mk 0 0, IV.NInt.mk 0 0, IV.NInt.mk 0 0, IV.NInt.mk 0 0, IV.NInt.mk 0 0, IV.NInt.mk 0 0, IV.NInt.mk 0 0, IV.NInt.mk 0 0, IV.NInt.mk 0 0, IV.NInt.mk 0 0, IV.NInt.mk 0 0, IV.NInt.mk 0 0, IV.NInt.mk 0 0, IV.NInt.mk 0 0, IV.NInt.mk 0 0, IV.NInt.mk 0 0, IV.NInt.mk 0 0, IV.NInt.mk 0 0, IV.NInt.mk 0 0, IV.NInt.mk 0 0, IV.NInt.mk 0 0, IV.NInt.mk 0 0, IV.NInt.mk 0 0, IV.NInt.mk 0 0, IV.NInt.mk 0 0, IV.NInt.mk 0 0, IV.NInt.mk 0 0, IV.NInt.mk 0 0, IV.NInt.mk 0 0, IV.NInt.mk 0 0, IV.NInt.mk 0 0, IV.NInt.mk 0 0, IV.NInt.mk 0 0, IV.NInt.mk 0 0, IV.NInt.mk 0 0, IV.NInt.mk 0 0, IV.NInt.mk 0 0, IV.NInt.mk 0 0, IV.NInt.mk 0 0, IV.NInt.mk 0 0, IV.NInt.mk 0 0, IV.NInt.mk 0 0, IV.NInt.mk 0 0, IV.NInt.mk 0 0, IV.NInt.mk 0 0, IV.NInt.mk 0 0, IV.NInt.mk 0 0, IV.NInt.mk 0 0, IV.NInt.mk 0 0, IV.NInt.mk 0 0, IV.NInt.mk 0 0, IV.NInt.mk 0 0, IV.NInt.mk 0 0, IV.NInt.mk 0 0, IV.NInt.mk 0 0, IV.NInt.mk 0 0, IV.NInt.mk 0 0, IV.NInt.mk 0 0, IV.NInt.mk 0 0, IV.NInt.mk 0 0, IV.NInt.mk 0 0, IV.NInt.mk 0 0, IV.NInt.mk 0 13911, IV.NInt.mk 2868780080 2868821373, IV.NInt.mk 5819886713 5819929070, IV.NInt.mk 8855654931 8855698752, IV.NInt.mk 11978513564 11978558217, IV.NInt.mk 15190960241 15191007297, IV.NInt.mk 18495566635 18495614470, IV.NInt.mk 21894975841 21895024840, IV.NInt.mk 25391907454 25391957777, IV.NInt.mk 28989159057 28989211089, IV.NInt.mk 32689609198 32689662113, IV.NInt.mk 36496217901 36496272590, IV.NInt.mk 40412030953 40412086769, IV.NInt.mk 44440181083 44440238278, IV.NInt.mk 48583890886 48583949606, IV.NInt.mk 52846476143 52846536331, IV.NInt.mk 57231346313 57231408213, IV.NInt.mk 61742010191 61742074144, IV.NInt.mk 66382076071 66382141782, IV.NInt.mk 71155256689 71155324035, IV.NInt.mk 76065370799 76065439688, IV.NInt.mk 81116345657 81116417940, IV.NInt.mk 86312224092 86312297806, IV.NInt.mk 91657162332 91657237903, IV.NInt.mk 97155436104 97155513844, IV.NInt.mk 102811445389 102811524516, IV.NInt.mk 108629714142 108629795449, IV.NInt.mk 114614898064 114614981455, IV.NInt.mk 120771784878 120771871010, IV.NInt.mk 127105300214 127105389839, IV.NInt.mk 133620513179 133620604640, IV.NInt.mk 140322634979 140322728799, IV.NInt.mk 147217027606 147217123568, IV.NInt.mk 154309206979 154309305432, IV.NInt.mk 161604847504 161604948109, IV.NInt.mk 169109785632 169109889541, IV.NInt.mk 176830025614 176830132260, IV.NInt.mk 184771744196 184771855021, IV.NInt.mk 192941295658 192941409684, IV.NInt.mk 201345216187 201345332516, IV.NInt.mk 209990228601 209990348470, IV.NInt.mk 218883250485 218883372803, IV.NInt.mk 228031395238 228031520403, IV.NInt.mk 237441982646 237442111912, IV.NInt.mk 247122541354 247122674186, IV.NInt.mk 257080817320 257080953790, IV.NInt.mk 267324776717 267324916345, IV.NInt.mk 277862615246 277862758660, IV.NInt.mk 288702764433 288702911570, IV.NInt.mk 299853896781 299854047958, IV.NInt.mk 311324932777 311325088474, IV.NInt.mk 323125050660 323125210675, IV.NInt.mk 335263691382 335263856014, IV.NInt.mk 347750565658 347750735768, IV.NInt.mk 360595665382 360595839693, IV.NInt.mk 373809265948 373809445123, IV.NInt.mk 387401938818 387402122750, IV.NInt.mk 401384560145 401384748280, IV.NInt.mk 415768315089 415768508061, IV.NInt.mk 430564712571 430564910979, IV.NInt.mk 445785589208 445785793741, IV.NInt.mk 461443123415 461443334774, IV.NInt.mk 477549842664 477550059492, IV.NInt.mk 494118633162 494118855156, IV.NInt.mk 511162749423 511162977709, IV.NInt.mk 528695828849 528696063679, IV.NInt.mk 546731898651 546732139737, IV.NInt.mk 565285389266 565285636235, IV.NInt.mk 584371141640 584371396394, IV.NInt.mk 604004429365 604004691553, IV.NInt.mk 624200956616 624201225945, IV.NInt.mk 644976884527 644977160551, IV.NInt.mk 666348832867 666349117001, IV.NInt.mk 688333901518 688334192844, IV.NInt.mk 710949679282 710949978709, IV.NInt.mk 734214259610 734214567936, IV.NInt.mk 758146255678 758146572822, IV.NInt.mk 782764815475 782765140826, IV.NInt.mk 808089633529 808089968062, IV.NInt.mk 834140972879 834141314939, IV.NInt.mk 860939673259 860940025773, IV.NInt.mk 888507178568 888507539096, IV.NInt.mk 916865540294 916865911313, IV.NInt.mk 946037450338 946037831286, IV.NInt.mk 976046243508 976046637385, IV.NInt.mk 1006915933299 1006916336439, IV.NInt.mk 1038671213644 1038671628603, IV.NInt.mk 1071337493401 1071337919686, IV.NInt.mk 1104940904122 1104941342483, IV.NInt.mk 1139508332319 1139508784114, IV.NInt.mk 1175067433100 1175067896986, IV.NInt.mk 1211646657454 1211647132716, IV.NInt.mk 1249275265503 1249275756836, IV.NInt.mk 1287983369059 1287983874099, IV.NInt.mk 1327801931445 1327802450400, IV.NInt.mk 1368762813330 1368763345375, IV.NInt.mk 1410898781827 1410899329592, IV.NInt.mk 1454243552085 1454244113801, IV.NInt.mk 1498831798133 1498832375642, IV.NInt.mk 1544699196740 1544699789194, IV.NInt.mk 1591882438400 1591883052200]) = ([IV.NInt.mk 6712839224 6712842360, IV.NInt.mk 6905417525 6905421057, IV.NInt.mk 7103520672 7103524155, IV.NInt.mk 7307306957 7307310503, IV.NInt.mk 7516939523 7516943135, IV.NInt.mk 7732586001 7732589800, IV.NInt.mk 7954419014 7954422767, IV.NInt.mk 8182615845 8182619792, IV.NInt.mk 8417359390 8417363282, IV.NInt.mk 8658836967 8658841456, IV.NInt.mk 8907242349 8907246782, IV.NInt.mk 9162773989 9162778368, IV.NInt.mk 9425636319 9425640785, IV.NInt.mk 9696039564 9696044245, IV.NInt.mk 9974200251 9974205025, IV.NInt.mk 10260340741 10260345750, IV.NInt.mk 10554690212 10554695176, IV.NInt.mk 10857483718 10857489204, IV.NInt.mk 11168964047 11168969494, IV.NInt.mk 11489379964 11489385665, IV.NInt.mk 11818988233 11818993899, IV.NInt.mk 12158052222 12158057998, IV.NInt.mk 12506843281 12506849167, IV.NInt.mk 12865640374 12865646530, IV.NInt.mk 13234730889 13234737022, IV.NInt.mk 13614409813 13614416237, IV.NInt.mk 14004980986 14004987535, IV.NInt.mk 14406756776 14406763611, IV.NInt.mk 14820058910 14820065717, IV.NInt.mk 15245217772 15245224719, IV.NInt.mk 15682573658 15682580745, IV.NInt.mk 16132476356 16132483764, IV.NInt.mk 16595286087 16595293455, IV.NInt.mk 17071372611 17071380493, IV.NInt.mk 17561117376 17561125424, IV.NInt.mk 18064911789 18064920185, IV.NInt.mk 18583159393 18583167769, IV.NInt.mk 19116274409 19116283142, IV.NInt.mk 19664683492 19664692213, IV.NInt.mk 20228825220 20228834313, IV.NInt.mk 20809151262 20809160369, IV.NInt.mk 21406125287 21406135600, IV.NInt.mk 22020225810 22020236126, IV.NInt.mk 22651943403 22651954141, IV.NInt.mk 23301784096 23301794851, IV.NInt.mk 23970267130 23970278321, IV.NInt.mk 24657927999 24657939211, IV.NInt.mk 25365316445 25365327897, IV.NInt.mk 26092998461 26093010148, IV.NInt.mk 26841556180 26841568332, IV.NInt.mk 27611588711 27611600889, IV.NInt.mk 28403711750 28403724421, IV.NInt.mk 29218559607 29218572336, IV.NInt.mk 30056783693 30056796935, IV.NInt.mk 30919054755 30919068286, IV.NInt.mk 31806062640 31806076704, IV.NInt.mk 32718517357 32718531507, IV.NInt.mk 33657147855 33657163334, IV.NInt.mk 34622706633 34622722187, IV.NInt.mk 35615965204 35615981353, IV.NInt.mk 36637718631 36637734874, IV.NInt.mk 37688784182 37688800773, IV.NInt.mk 38770002614 38770019591, IV.NInt.mk 39882239057 39882256669, IV.NInt.mk 41026383639 41026401414, IV.NInt.mk 42203351175 42203369628, IV.NInt.mk 43414084012 43414102578, IV.NInt.mk 44659550227 44659569493, IV.NInt.mk 45940746754 45940766198, IV.NInt.mk 47258697997 47258718168, IV.NInt.mk 48614458772 48614479414, IV.NInt.mk 50009113936 50009135026, IV.NInt.mk 51443778840 51443800498, IV.NInt.mk 52919601232 52919624013, IV.NInt.mk 54437762381 54437785702, IV.NInt.mk 55999476706 55999500890, IV.NInt.mk 57605993807 57606018223, IV.NInt.mk 59258598608 59258623899, IV.NInt.mk 60958613448 60958639370, IV.NInt.mk 62707398111 62707424958, IV.NInt.mk 64506352527 64506379725, IV.NInt.mk 66356914820 66356943338, IV.NInt.mk 68260566843 68260595694, IV.NInt.mk 70218830921 70218860431, IV.NInt.mk 72233273684 72233303951, IV.NInt.mk 74305506689 74305538423, IV.NInt.mk 76437188388 76437220490, IV.NInt.mk 78630023883 78630056730, IV.NInt.mk 80885767383 80885801148, IV.NInt.mk 83206223681 83206259023, IV.NInt.mk 85593249707 85593285946, IV.NInt.mk 88048754668 88048792163, IV.NInt.mk 90574703672 90574741713, IV.NInt.mk 93173116618 93173156383, IV.NInt.mk 95846073704 95846114049, IV.NInt.mk 98595712651 98595753943, IV.NInt.mk 101424233465 101424275439, IV.NInt.mk 104333898792 104333942195, IV.NInt.mk 107327037010 107327081529, IV.NInt.mk 110406042148 110406088182, IV.NInt.mk 113573378679 113573425497, IV.NInt.mk 116831580003 116831627948, IV.NInt.mk 120183252401 120183301582, IV.NInt.mk 123631077847 123631128721, IV.NInt.mk 127177814843 127177866693, IV.NInt.mk 130826300033 130826354651, IV.NInt.mk 134579454162 134579509694, IV.NInt.mk 138440279071 138440335959, IV.NInt.mk 142411863503 142411921929, IV.NInt.mk 146497384767 146497445171, IV.NInt.mk 150700112130 150700173573, IV.NInt.mk 155023407390 155023470887, IV.NInt.mk 159470729749 159470794566, IV.NInt.mk 164045637159 164045703582, IV.NInt.mk 168751789629 168751857827, IV.NInt.mk 173592953004 173593022909, IV.NInt.mk 178572999521 178573071418, IV.NInt.mk 183695914242 183695988514, IV.NInt.mk 188965795226 188965871543, IV.NInt.mk 194386859157 194386937379, IV.NInt.mk 199963443120 199963523144, IV.NInt.mk 205700007441 205700091371, IV.NInt.mk 211601143690 211601229297, IV.NInt.mk 217671572240 217671660010, IV.NInt.mk 223916149182 223916239471, IV.NInt.mk 230339871725 230339963643, IV.NInt.mk 236947877872 236947972327, IV.NInt.mk 243745455269 243745552150, IV.NInt.mk 250738041492 250738141549, IV.NInt.mk 257931230747 257931334837, IV.NInt.mk 265330780195 265330886438, IV.NInt.mk 272942608379 272942717363, IV.NInt.mk 280772805093 280772916582, IV.NInt.mk 288827634957 288827749344, IV.NInt.mk 297113542586 297113659494, IV.NInt.mk 305637156638 305637277372, IV.NInt.mk 314405296344 314405420265, IV.NInt.mk 323424976847 323425105593, IV.NInt.mk 332703414916 332703547380, IV.NInt.mk 342248033924 342248169088, IV.NInt.mk 352066469203 352066608476, IV.NInt.mk 362166577292 362166719436, IV.NInt.mk 372556437118 372556582586, IV.NInt.mk 383244362015 383244512238, IV.NInt.mk 394238902519 394239056889, IV.NInt.mk 405548855979 405549014582, IV.NInt.mk 417183269850 417183432143, IV.NInt.mk 429151452268 429151618967, IV.NInt.mk 441462979207 441463150242, IV.NInt.mk 454127700321 454127876057, IV.NInt.mk 467155746914 467155927900, IV.NInt.mk 480557543023 480557729031, IV.NInt.mk 494343811059 494344002434, IV.NInt.mk 508525579811 508525777533, IV.NInt.mk 523114197417 523114400039, IV.NInt.mk 538121333990 538121542269, IV.NInt.mk 553558995898 553559209719, IV.NInt.mk 569439535562 569439754297, IV.NInt.mk 585775656348 585775880722, IV.NInt.mk 602580429332 602580660029, IV.NInt.mk 619867297762 619867535566, IV.NInt.mk 637650093075 637650338790, IV.NInt.mk 655943043153 655943295243, IV.NInt.mk 674760783299 674761041422, IV.NInt.mk 694118367117 694118632557, IV.NInt.mk 714031283068 714031556117, IV.NInt.mk 734515462335 734515742673, IV.NInt.mk 755587294056 755587581261, IV.NInt.mk 777263633599 777263929841, IV.NInt.mk 799561827705 799562132585, IV.NInt.mk 822499712140 822500025334, IV.NInt.mk 846095641654 846095962661, IV.NInt.mk 870368491885 870368822321, IV.NInt.mk 895337683755 895338022578, IV.NInt.mk 921023193460 921023541714, IV.NInt.mk 947445570355 947445928950, IV.NInt.mk 974625954054 974626322905, IV.NInt.mk 1002586091586 1002586470004, IV.NInt.mk 1031348350693 1031348739794, IV.NInt.mk 1060935744801 1060936142714, IV.NInt.mk 1091371942304 1091372352361, IV.NInt.mk 1122681297773 1122681717208, IV.NInt.mk 1154888855831 1154889287468, IV.NInt.mk 1188020388447 1188020831653, IV.NInt.mk 1222102397754 1222102855947, IV.NInt.mk 1257162156699 1257162625724, IV.NInt.mk 1293227711026 1293228193792, IV.NInt.mk 1330327918435 1330328414395, IV.NInt.mk 1368492457425 1368492967438, IV.NInt.mk 1407751863922 1407752389542, IV.NInt.mk 1448137546777 1448138086487, IV.NInt.mk 1489681818744 1489682371746], [IV.NInt.mk 0 0, IV.NInt.mk 0 0, IV.NInt.mk 0 0, IV.NInt.mk 0 0, IV.NInt.mk 0 0, IV.NInt.mk 0 0, IV.NInt.mk 0 0, IV.NInt.mk 0 0, IV.NInt.mk 0 0, IV.NInt.mk 0 0, IV.NInt.mk 0 0, IV.NInt.mk 0 0, IV.NInt.mk 0 0, IV.NInt.mk 0 0, IV.NInt.mk 0 0, IV.NInt.mk 0 0, IV.NInt.mk 0 0, IV.NInt.mk 0 0, IV.NInt.mk 0 0, IV.NInt.mk 0 0, IV.NInt.mk 0 0, IV.NInt.mk 0 0, IV.NInt.mk 0 0, IV.NInt.mk 0 0, IV.NInt.mk 0 0, IV.NInt.mk 0 0, IV.NInt.mk 0 0, IV.NInt.mk 0 0, IV.NInt.mk 0 0, IV.NInt.mk 0 0, IV.NInt.mk 0 0, IV.NInt.mk 0 0, IV.NInt.mk 0 0, IV.NInt.mk 0 0, IV.NInt.mk 0 0, IV.NInt.mk 0 0, IV.NInt.mk 0 0, IV.NInt.mk 0 0, IV.NInt.mk 0 0, IV.NInt.mk 0 0, IV.NInt.mk 0 0, IV.NInt.mk 0 0, IV.NInt.mk 0 0, IV.NInt.mk 0 0, IV.NInt.mk 0 0, IV.NInt.mk 0 0, IV.NInt.mk 0 0, IV.NInt.mk 0 0, IV.NInt.mk 0 0, IV.NInt.mk 0 0, IV.NInt.mk 0 0, IV.NInt.mk 0 0, IV.NInt.mk 0 0, IV.NInt.mk 0 0, IV.NInt.mk 0 0, IV.NInt.mk 0 0, IV.NInt.mk 0 0, IV.NInt.mk 0 0, IV.NInt.mk 0 0, IV.NInt.mk 0 0, IV.NInt.mk 0 0, IV.NInt.mk 0 0, IV.NInt.mk 0 0, IV.NInt.mk 0 0, IV.NInt.mk 0 0, IV.NInt.mk 0 0, IV.NInt.mk 0 0, IV.NInt.mk 0 0, IV.NInt.mk 0 0, IV.NInt.mk 0 0, IV.NInt.mk 0 0, IV.NInt.mk 0 0, IV.NInt.mk 0 0, IV.NInt.mk 0 0, IV.NInt.mk 0 0, IV.NInt.mk 0 0, IV.NInt.mk 0 0, IV.NInt.mk 0 0, IV.NInt.mk 0 0, IV.NInt.mk 0 0, IV.NInt.mk 0 0, IV.NInt.mk 0 0, IV.NInt.mk 0 0, IV.NInt.mk 0 0, IV.NInt.mk 0 0, IV.NInt.mk 0 0, IV.NInt.mk 0 0, IV.NInt.mk 0 0, IV.NInt.mk 0 0, IV.NInt.mk 0 0, IV.NInt.mk 0 0, IV.NInt.mk 0 31, IV.NInt.mk 6147462 6147819, IV.NInt.mk 66636984 66638898, IV.NInt.mk 340976307 340982629, IV.NInt.mk 1107729866 1107744399, IV.NInt.mk 2608038930 2608063984, IV.NInt.mk 4848011553 4848046142, IV.NInt.mk 7606911961 7606952846, IV.NInt.mk 10635727966 10635772197, IV.NInt.mk 13798126362 13798172495, IV.NInt.mk 17056327171 17056374793, IV.NInt.mk 20407999592 20408048614, IV.NInt.mk 23855825076 23855875494, IV.NInt.mk 27402562034 27402613874, IV.NInt.mk 31051048028 31051101319, IV.NInt.mk 34804202043 34804256793, IV.NInt.mk 38665026797 38665083014, IV.NInt.mk 42636611151 42636668865, IV.NInt.mk 46722132588 46722191858, IV.NInt.mk 50924859750 50924920670, IV.NInt.mk 55248155036 55248217717, IV.NInt.mk 59695477304 59695541842, IV.NInt.mk 64270384650 64270451100, IV.NInt.mk 68976537239 68976605657, IV.NInt.mk 73817700227 73817770719, IV.NInt.mk 78797746802 78797819479, IV.NInt.mk 83920661309 83920736197, IV.NInt.mk 89190542403 89190619427, IV.NInt.mk 94611606281 94611685361, IV.NInt.mk 100188190051 100188271180, IV.NInt.mk 105924755221 105924838506, IV.NInt.mk 111825891287 111825976934, IV.NInt.mk 117896319435 117896407682, IV.NInt.mk 124140896395 124140987374, IV.NInt.mk 130564618290 130564711966, IV.NInt.mk 137172624514 137172720767, IV.NInt.mk 143970201795 143970300555, IV.NInt.mk 150962788482 150962889795, IV.NInt.mk 158155978951 158156082975, IV.NInt.mk 165555528079 165555635062, IV.NInt.mk 173167355875 173167466082, IV.NInt.mk 180997552241 180997665855, IV.NInt.mk 189052381845 189052498883, IV.NInt.mk 197338289060 197338409412, IV.NInt.mk 205861903065 205862026630, IV.NInt.mk 214630043151 214630169928, IV.NInt.mk 223649724213 223649854341, IV.NInt.mk 232928162441 232928296133, IV.NInt.mk 242472781107 242472918542, IV.NInt.mk 252291216471 252291357717, IV.NInt.mk 262391323828 262391468902, IV.NInt.mk 272781183793 272781332761, IV.NInt.mk 283469108789 283469261803, IV.NInt.mk 294463649685 294463806960, IV.NInt.mk 305773602637 305773764400, IV.NInt.mk 317408016179 317408182657, IV.NInt.mk 329376198513 329376369898, IV.NInt.mk 341687724916 341687901339, IV.NInt.mk 354352445341 354352626842, IV.NInt.mk 367380492259 367380678809, IV.NInt.mk 380782288772 380782480341, IV.NInt.mk 394568556988 394568753623, IV.NInt.mk 408750326583 408750528487, IV.NInt.mk 423338943640 423339151185, IV.NInt.mk 438346079806 438346293393, IV.NInt.mk 453783741663 453783961546, IV.NInt.mk 469664280297 469664506516, IV.NInt.mk 486000401049 486000633582, IV.NInt.mk 502805173664 502805412593, IV.NInt.mk 520092042833 520092288340, IV.NInt.mk 537874838967 537875091260, IV.NInt.mk 556167789212 556168048538, IV.NInt.mk 574985528838 574985795497, IV.NInt.mk 594343113020 594343387273, IV.NInt.mk 614256028893 614256310883, IV.NInt.mk 634740207882 634740497696, IV.NInt.mk 655812038420 655812336204, IV.NInt.mk 677488379068 677488685071, IV.NInt.mk 699786572017 699786886568, IV.NInt.mk 722724457006 722724780437, IV.NInt.mk 746320385621 746320718172, IV.NInt.mk 770593235949 770593577735, IV.NInt.mk 795562427609 795562778690, IV.NInt.mk 821247937263 821248297760, IV.NInt.mk 847670314637 847670684772, IV.NInt.mk 874850698982 874851079099, IV.NInt.mk 902810835974 902811226548, IV.NInt.mk 931573095144 931573496726, IV.NInt.mk 961160487847 961160900902, IV.NInt.mk 991596685687 991597110513, IV.NInt.mk 1022906039373 1022906476204, IV.NInt.mk 1055113598081 1055114047255, IV.NInt.mk 1088245129512 1088245591457, IV.NInt.mk 1122327140618 1122327615714, IV.NInt.mk 1157386898814 1157387387392, IV.NInt.mk 1193452453746 1193452956214, IV.NInt.mk 1230552659754 1230553176624, IV.NInt.mk 1268717199032 1268717730724, IV.NInt.mk 1307976605331 1307977152057, IV.NInt.mk 1348362288292 1348362850198, IV.NInt.mk 1389906558580 1389907135937]) := by decide

set_option maxRecDepth 100000 in
set_option maxHeartbeats 1000000 in
/-- Chunk 2 of the kernel evaluation of the C9 call lattice (10 steps). -/
theorem IV.callChunk2 : IV.loopG IV.uI9 IV.pI9 IV.qI9 IV.discI9 true IV.KSc9 10 ([IV.NInt.mk 6712839224 6712842360, IV.NInt.mk 6905417525 6905421057, IV.NInt.mk 7103520672 7103524155, IV.NInt.mk 7307306957 7307310503, IV.NInt.mk 7516939523 7516943135, IV.NInt.mk 7732586001 7732589800, IV.NInt.mk 7954419014 7954422767, IV.NInt.mk 8182615845 8182619792, IV.NInt.mk 8417359390 8417363282, IV.NInt.mk 8658836967 8658841456, IV.NInt.mk 8907242349 8907246782, IV.NInt.mk 9162773989 9162778368, IV.NInt.mk 9425636319 9425640785, IV.NInt.mk 9696039564 9696044245, IV.NInt.mk 9974200251 9974205025, IV.NInt.mk 10260340741 10260345750, IV.NInt.mk 10554690212 10554695176, IV.NInt.mk 10857483718 10857489204, IV.NInt.mk 11168964047 11168969494, IV.NInt.mk 11489379964 11489385665, IV.NInt.mk 11818988233 11818993899, IV.NInt.mk 12158052222 12158057998, IV.NInt.mk 12506843281 12506849167, IV.NInt.mk 12865640374 12865646530, IV.NInt.mk 13234730889 13234737022, IV.NInt.mk 13614409813 13614416237, IV.NInt.mk 14004980986 14004987535, IV.NInt.mk 14406756776 14406763611, IV.NInt.mk 14820058910 14820065717, IV.NInt.mk 15245217772 15245224719, IV.NInt.mk 15682573658 15682580745, IV.NInt.mk 16132476356 16132483764, IV.NInt.mk 16595286087 16595293455, IV.NInt.mk 17071372611 17071380493, IV.NInt.mk 17561117376 17561125424, IV.NInt.mk 18064911789 18064920185, IV.NInt.mk 18583159393 18583167769, IV.NInt.mk 19116274409 19116283142, IV.NInt.mk 19664683492 19664692213, IV.NInt.mk 20228825220 20228834313, IV.NInt.mk 20809151262 20809160369, IV.NInt.mk 21406125287 21406135600, IV.NInt.mk 22020225810 22020236126, IV.NInt.mk 22651943403 22651954141, IV.NInt.mk 23301784096 23301794851, IV.NInt.mk 23970267130 23970278321, IV.NInt.mk 24657927999 24657939211, IV.NInt.mk 25365316445 25365327897, IV.NInt.mk 26092998461 26093010148, IV.NInt.mk 26841556180 26841568332, IV.NInt.mk 27611588711 27611600889, IV.NInt.mk 28403711750 28403724421, IV.NInt.mk 29218559607 29218572336, IV.NInt.mk 30056783693 30056796935, IV.NInt.mk 30919054755 30919068286, IV.NInt.mk 31806062640 31806076704, IV.NInt.mk 32718517357 32718531507, IV.NInt.mk 33657147855 33657163334, IV.NInt.mk 34622706633 34622722187, IV.NInt.mk 35615965204 35615981353, IV.NInt.mk 36637718631 36637734874, IV.NInt.mk 37688784182 37688800773, IV.NInt.mk 38770002614 38770019591, IV.NInt.mk 39882239057 39882256669, IV.NInt.mk 41026383639 41026401414, IV.NInt.mk 42203351175 42203369628, IV.NInt.mk 43414084012 43414102578, IV.NInt.mk 44659550227 44659569493, IV.NInt.mk 45940746754 45940766198, IV.NInt.mk 47258697997 47258718168, IV.NInt.mk 48614458772 48614479414, IV.NInt.mk 50009113936 50009135026, IV.NInt.mk 51443778840 51443800498, IV.NInt.mk 52919601232 52919624013, IV.NInt.mk 54437762381 54437785702, IV.NInt.mk 55999476706 55999500890, IV.NInt.mk 57605993807 57606018223, IV.NInt.mk 59258598608 59258623899, IV.NInt.mk 60958613448 60958639370, IV.NInt.mk 62707398111 62707424958, IV.NInt.mk 64506352527 64506379725, IV.NInt.mk 66356914820 66356943338, IV.NInt.mk 68260566843 68260595694, IV.NInt.mk 70218830921 70218860431, IV.NInt.mk 72233273684 72233303951, IV.NInt.mk 74305506689 74305538423, IV.NInt.mk 76437188388 76437220490, IV.NInt.mk 78630023883 78630056730, IV.NInt.mk 80885767383 80885801148, IV.NInt.mk 83206223681 83206259023, IV.NInt.mk 85593249707 85593285946, IV.NInt.mk 88048754668 88048792163, IV.NInt.mk 90574703672 90574741713, IV.NInt.mk 93173116618 93173156383, IV.NInt.mk 95846073704 95846114049, IV.NInt.mk 98595712651 98595753943, IV.NInt.mk 101424233465 101424275439, IV.NInt.mk 104333898792 104333942195, IV.NInt.mk 107327037010 107327081529, IV.NInt.mk 110406042148 110406088182, IV.NInt.mk 113573378679 113573425497, IV.NInt.mk 116831580003 116831627948, IV.NInt.mk 120183252401 120183301582, IV.NInt.mk 123631077847 123631128721, IV.NInt.mk 127177814843 127177866693, IV.NInt.mk 130826300033 130826354651, IV.NInt.mk 134579454162 134579509694, IV.NInt.mk 138440279071 138440335959, IV.NInt.mk 142411863503 142411921929, IV.NInt.mk 146497384767 146497445171, IV.NInt.mk 150700112130 150700173573, IV.NInt.mk 155023407390 155023470887, IV.NInt.mk 159470729749 159470794566, IV.NInt.mk 164045637159 164045703582, IV.NInt.mk 168751789629 168751857827, IV.NInt.mk 173592953004 173593022909, IV.NInt.mk 178572999521 178573071418, IV.NInt.mk 183695914242 183695988514, IV.NInt.mk 188965795226 188965871543, IV.NInt.mk 194386859157 194386937379, IV.NInt.mk 199963443120 199963523144, IV.NInt.mk 205700007441 205700091371, IV.NInt.mk 211601143690 211601229297, IV.NInt.mk 217671572240 217671660010, IV.NInt.mk 223916149182 223916239471, IV.NInt.mk 230339871725 230339963643, IV.NInt.mk 236947877872 236947972327, IV.NInt.mk 243745455269 243745552150, IV.NInt.mk 250738041492 250738141549, IV.NInt.mk 257931230747 257931334837, IV.NInt.mk 265330780195 265330886438, IV.NInt.mk 272942608379 272942717363, IV.NInt.mk 280772805093 280772916582, IV.NInt.mk 288827634957 288827749344, IV.NInt.mk 297113542586 297113659494, IV.NInt.mk 305637156638 305637277372, IV.NInt.mk 314405296344 314405420265, IV.NInt.mk 323424976847 323425105593, IV.NInt.mk 332703414916 332703547380, IV.NInt.mk 342248033924 342248169088, IV.NInt.mk 352066469203 352066608476, IV.NInt.mk 362166577292 362166719436, IV.NInt.mk 372556437118 372556582586, IV.NInt.mk 383244362015 383244512238, IV.NInt.mk 394238902519 394239056889, IV.NInt.mk 405548855979 405549014582, IV.NInt.mk 417183269850 417183432143, IV.NInt.mk 429151452268 429151618967, IV.NInt.mk 441462979207 441463150242, IV.NInt.mk 454127700321 454127876057, IV.NInt.mk 467155746914 467155927900, IV.NInt.mk 480557543023 480557729031, IV.NInt.mk 494343811059 494344002434, IV.NInt.mk 508525579811 508525777533, IV.NInt.mk 523114197417 523114400039, IV.NInt.mk 538121333990 538121542269, IV.NInt.mk 553558995898 553559209719, IV.NInt.mk 569439535562 569439754297, IV.NInt.mk 585775656348 585775880722, IV.NInt.mk 602580429332 602580660029, IV.NInt.mk 619867297762 619867535566, IV.NInt.mk 637650093075 637650338790, IV.NInt.mk 655943043153 655943295243, IV.NInt.mk 674760783299 674761041422, IV.NInt.mk 694118367117 694118632557, IV.NInt.mk 714031283068 714031556117, IV.NInt.mk 734515462335 734515742673, IV.NInt.mk 755587294056 755587581261, IV.NInt.mk 777263633599 777263929841, IV.NInt.mk 799561827705 799562132585, IV.NInt.mk 822499712140 822500025334, IV.NInt.mk 846095641654 846095962661, IV.NInt.mk 870368491885 870368822321, IV.NInt.mk 895337683755 895338022578, IV.NInt.mk 921023193460 921023541714, IV.NInt.mk 947445570355 947445928950, IV.NInt.mk 974625954054 974626322905, IV.NInt.mk 1002586091586 1002586470004, IV.NInt.mk 1031348350693 1031348739794, IV.NInt.mk 1060935744801 1060936142714, IV.NInt.mk 1091371942304 1091372352361, IV.NInt.mk 1122681297773 1122681717208, IV.NInt.mk 1154888855831 1154889287468, IV.NInt.mk 1188020388447 1188020831653, IV.NInt.mk 1222102397754 1222102855947, IV.NInt.mk 1257162156699 1257162625724, IV.NInt.mk 1293227711026 1293228193792, IV.NInt.mk 1330327918435 1330328414395, IV.NInt.mk 1368492457425 1368492967438, IV.NInt.mk 1407751863922 1407752389542, IV.NInt.mk 1448137546777 1448138086487, IV.NInt.mk 1489681818744 1489682371746], [IV.NInt.mk 0 0, IV.NInt.mk 0 0, IV.NInt.mk 0 0, IV.NInt.mk 0 0, IV.NInt.mk 0 0, IV.NInt.mk 0 0, IV.NInt.mk 0 0, IV.NInt.mk 0 0, IV.NInt.mk 0 0, IV.NInt.mk 0 0, IV.NInt.mk 0 0, IV.NInt.mk 0 0, IV.NInt.mk 0 0, IV.NInt.mk 0 0, IV.NInt.mk 0 0, IV.NInt.mk 0 0, IV.NInt.mk 0 0, IV.NInt.mk 0 0, IV.NInt.mk 0 0, IV.NInt.mk 0 0, IV.NInt.mk 0 0, IV.NInt.mk 0 0, IV.NInt.mk 0 0, IV.NInt.mk 0 0, IV.NInt.mk 0 0, IV.NInt.mk 0 0, IV.NInt.mk 0 0, IV.NInt.mk 0 0, IV.NInt.mk 0 0, IV.NInt.mk 0 0, IV.NInt.mk 0 0, IV.NInt.mk 0 0, IV.NInt.mk 0 0, IV.NInt.mk 0 0, IV.NInt.mk 0 0, IV.NInt.mk 0 0, IV.NInt.mk 0 0, IV.NInt.mk 0 0, IV.NInt.mk 0 0, IV.NInt.mk 0 0, IV.NInt.mk 0 0, IV.NInt.mk 0 0, IV.NInt.mk 0 0, IV.NInt.mk 0 0, IV.NInt.mk 0 0, IV.NInt.mk 0 0, IV.NInt.mk 0 0, IV.NInt.mk 0 0, IV.NInt.mk 0 0, IV.NInt.mk 0 0, IV.NInt.mk 0 0, IV.NInt.mk 0 0, IV.NInt.mk 0 0, IV.NInt.mk 0 0, IV.NInt.mk 0 0, IV.NInt.mk 0 0, IV.NInt.mk 0 0, IV.NInt.mk 0 0, IV.NInt.mk 0 0, IV.NInt.mk 0 0, IV.NInt.mk 0 0, IV.NInt.mk 0 0, IV.NInt.mk 0 0, IV.NInt.mk 0 0, IV.NInt.mk 0 0, IV.NInt.mk 0 0, IV.NInt.mk 0 0, IV.NInt.mk 0 0, IV.NInt.mk 0 0, IV.NInt.mk 0 0, IV.NInt.mk 0 0, IV.NInt.mk 0 0, IV.NInt.mk 0 0, IV.NInt.mk 0 0, IV.NInt.mk 0 0, IV.NInt.mk 0 0, IV.NInt.mk 0 0, IV.NInt.mk 0 0, IV.NInt.mk 0 0, IV.NInt.mk 0 0, IV.NInt.mk 0 0, IV.NInt.mk 0 0, IV.NInt.mk 0 0, IV.NInt.mk 0 0, IV.NInt.mk 0 0, IV.NInt.mk 0 0, IV.NInt.mk 0 0, IV.NInt.mk 0 0, IV.NInt.mk 0 0, IV.NInt.mk 0 0, IV.NInt.mk 0 0, IV.NInt.mk 0 31, IV.NInt.mk 6147462 6147819, IV.NInt.mk 66636984 66638898, IV.NInt.mk 340976307 340982629, IV.NInt.mk 1107729866 1107744399, IV.NInt.mk 2608038930 2608063984, IV.NInt.mk 4848011553 4848046142, IV.NInt.mk 7606911961 7606952846, IV.NInt.mk 10635727966 10635772197, IV.NInt.mk 13798126362 13798172495, IV.NInt.mk 17056327171 17056374793, IV.NInt.mk 20407999592 20408048614, IV.NInt.mk 23855825076 23855875494, IV.NInt.mk 27402562034 27402613874, IV.NInt.mk 31051048028 31051101319, IV.NInt.mk 34804202043 34804256793, IV.NInt.mk 38665026797 38665083014, IV.NInt.mk 42636611151 42636668865, IV.NInt.mk 46722132588 46722191858, IV.NInt.mk 50924859750 50924920670, IV.NInt.mk 55248155036 55248217717, IV.NInt.mk 59695477304 59695541842, IV.NInt.mk 64270384650 64270451100, IV.NInt.mk 68976537239 68976605657, IV.NInt.mk 73817700227 73817770719, IV.NInt.mk 78797746802 78797819479, IV.NInt.mk 83920661309 83920736197, IV.NInt.mk 89190542403 89190619427, IV.NInt.mk 94611606281 94611685361, IV.NInt.mk 100188190051 100188271180, IV.NInt.mk 105924755221 105924838506, IV.NInt.mk 111825891287 111825976934, IV.NInt.mk 117896319435 117896407682, IV.NInt.mk 124140896395 124140987374, IV.NInt.mk 130564618290 130564711966, IV.NInt.mk 137172624514 137172720767, IV.NInt.mk 143970201795 143970300555, IV.NInt.mk 150962788482 150962889795, IV.NInt.mk 158155978951 158156082975, IV.NInt.mk 165555528079 165555635062, IV.NInt.mk 173167355875 173167466082, IV.NInt.mk 180997552241 180997665855, IV.NInt.mk 189052381845 189052498883, IV.NInt.mk 197338289060 197338409412, IV.NInt.mk 205861903065 205862026630, IV.NInt.mk 214630043151 214630169928, IV.NInt.mk 223649724213 223649854341, IV.NInt.mk 232928162441 232928296133, IV.NInt.mk 242472781107 242472918542, IV.NInt.mk 252291216471 252291357717, IV.NInt.mk 262391323828 262391468902, IV.NInt.mk 272781183793 272781332761, IV.NInt.mk 283469108789 283469261803, IV.NInt.mk 294463649685 294463806960, IV.NInt.mk 305773602637 305773764400, IV.NInt.mk 317408016179 317408182657, IV.NInt.mk 329376198513 329376369898, IV.NInt.mk 341687724916 341687901339, IV.NInt.mk 354352445341 354352626842, IV.NInt.mk 367380492259 367380678809, IV.NInt.mk 380782288772 380782480341, IV.NInt.mk 394568556988 394568753623, IV.NInt.mk 408750326583 408750528487, IV.NInt.mk 423338943640 423339151185, IV.NInt.mk 438346079806 438346293393, IV.NInt.mk 453783741663 453783961546, IV.NInt.mk 469664280297 469664506516, IV.NInt.mk 486000401049 486000633582, IV.NInt.mk 502805173664 502805412593, IV.NInt.mk 520092042833 520092288340, IV.NInt.mk 537874838967 537875091260, IV.NInt.mk 556167789212 556168048538, IV.NInt.mk 574985528838 574985795497, IV.NInt.mk 594343113020 594343387273, IV.NInt.mk 614256028893 614256310883, IV.NInt.mk 634740207882 634740497696, IV.NInt.mk 655812038420 655812336204, IV.NInt.mk 677488379068 677488685071, IV.NInt.mk 699786572017 699786886568, IV.NInt.mk 722724457006 722724780437, IV.NInt.mk 746320385621 746320718172, IV.NInt.mk 770593235949 770593577735, IV.NInt.mk 795562427609 795562778690, IV.NInt.mk 821247937263 821248297760, IV.NInt.mk 847670314637 847670684772, IV.NInt.mk 874850698982 874851079099, IV.NInt.mk 902810835974 902811226548, IV.NInt.mk 931573095144 931573496726, IV.NInt.mk 961160487847 961160900902, IV.NInt.mk 991596685687 991597110513, IV.NInt.mk 1022906039373 1022906476204, IV.NInt.mk 1055113598081 1055114047255, IV.NInt.mk 1088245129512 1088245591457, IV.NInt.mk 1122327140618 1122327615714, IV.NInt.mk 1157386898814 1157387387392, IV.NInt.mk 1193452453746 1193452956214, IV.NInt.mk 1230552659754 1230553176624, IV.NInt.mk 1268717199032 1268717730724, IV.NInt.mk 1307976605331 1307977152057, IV.NInt.mk 1348362288292 1348362850198, IV.NInt.mk 1389906558580 1389907135937]) = ([IV.NInt.mk 7732585968 7732589670, IV.NInt.mk 7954418819 7954422979, IV.NInt.mk 8182615797 8182619901, IV.NInt.mk 8417359239 8417363417, IV.NInt.mk 8658837065 8658841322, IV.NInt.mk 8907242380 8907246855, IV.NInt.mk 9162774024 9162778448, IV.NInt.mk 9425636212 9425640864, IV.NInt.mk 9696039625 9696044218, IV.NInt.mk 9974200038 9974205319, IV.NInt.mk 10260340659 10260345877, IV.NInt.mk 10554690085 10554695243, IV.NInt.mk 10857483806 10857489067, IV.NInt.mk 11168963980 11168969495, IV.NInt.mk 11489380030 11489385654, IV.NInt.mk 11818988096 11818993991, IV.NInt.mk 12158052166 12158058014, IV.NInt.mk 12506843003 12506849455, IV.NInt.mk 12865640279 12865646689, IV.NInt.mk 13234730546 13234737253, IV.NInt.mk 13614409574 13614416245, IV.NInt.mk 14004980741 14004987543, IV.NInt.mk 14406756615 14406763549, IV.NInt.mk 14820058538 14820065789, IV.NInt.mk 15245217560 15245224785, IV.NInt.mk 15682573471 15682581037, IV.NInt.mk 16132476272 16132483986, IV.NInt.mk 16595285783 16595293832, IV.NInt.mk 17071372603 17071380625, IV.NInt.mk 17561117308 17561125493, IV.NInt.mk 18064911883 18064920237, IV.NInt.mk 18583159256 18583167982, IV.NInt.mk 19116274370 19116283054, IV.NInt.mk 19664683150 19664692434, IV.NInt.mk 20228824993 20228834475, IV.NInt.mk 20809150766 20809160655, IV.NInt.mk 21406125313 21406135185, IV.NInt.mk 22020225778 22020236068, IV.NInt.mk 22651943633 22651953914, IV.NInt.mk 23301784075 23301794792, IV.NInt.mk 23970267390 23970278127, IV.NInt.mk 24657927683 24657939814, IV.NInt.mk 25365316155 25365328298, IV.NInt.mk 26092997906 26093010542, IV.NInt.mk 26841555834 26841568499, IV.NInt.mk 27611588059 27611601233, IV.NInt.mk 28403711426 28403724631, IV.NInt.mk 29218559182 29218572671, IV.NInt.mk 30056783301 30056797071, IV.NInt.mk 30919054349 30919068662, IV.NInt.mk 31806062447 31806076800, IV.NInt.mk 32718516821 32718531749, IV.NInt.mk 33657148134 33657163141, IV.NInt.mk 34622706760 34622722367, IV.NInt.mk 35615965335 35615981282, IV.NInt.mk 36637718499 36637735073, IV.NInt.mk 37688784126 37688800806, IV.NInt.mk 38770001890 38770020113, IV.NInt.mk 39882238606 39882256928, IV.NInt.mk 41026382990 41026402006, IV.NInt.mk 42203350881 42203370019, IV.NInt.mk 43414083695 43414103247, IV.NInt.mk 44659549915 44659569922, IV.NInt.mk 45940746088 45940766839, IV.NInt.mk 47258697559 47258718511, IV.NInt.mk 48614458120 48614479866, IV.NInt.mk 50009113264 50009135153, IV.NInt.mk 51443778130 51443800841, IV.NInt.mk 52919601098 52919624026, IV.NInt.mk 54437762184 54437785967, IV.NInt.mk 55999476445 55999500786, IV.NInt.mk 57605993540 57606018414, IV.NInt.mk 59258598249 59258623789, IV.NInt.mk 60958612675 60958639531, IV.NInt.mk 62707397536 62707425029, IV.NInt.mk 64506351733 64506380238, IV.NInt.mk 66356914689 66356943477, IV.NInt.mk 68260566524 68260596340, IV.NInt.mk 70218830452 70218861013, IV.NInt.mk 72233272819 72233304471, IV.NInt.mk 74305506226 74305538300, IV.NInt.mk 76437187255 76437220870, IV.NInt.mk 78630022872 78630056890, IV.NInt.mk 80885766656 80885801455, IV.NInt.mk 83206223222 83206258916, IV.NInt.mk 85593248939 85593286349, IV.NInt.mk 88048754196 88048792054, IV.NInt.mk 90574703118 90574741857, IV.NInt.mk 93173116391 93173156216, IV.NInt.mk 95846072980 95846114645, IV.NInt.mk 98595711897 98595754622, IV.NInt.mk 101424232376 101424276576, IV.NInt.mk 104333898046 104333942903, IV.NInt.mk 107327035648 107327082522, IV.NInt.mk 110406041383 110406088955, IV.NInt.mk 113573377715 113573426409, IV.NInt.mk 116831578848 116831628361, IV.NInt.mk 120183251151 120183302342, IV.NInt.mk 123631076702 123631129213, IV.NInt.mk 127177813211 127177867502, IV.NInt.mk 130826299522 130826354755, IV.NInt.mk 134579453891 134579510458, IV.NInt.mk 138440278518 138440336545, IV.NInt.mk 142411862789 142411922808, IV.NInt.mk 146497384256 146497445438, IV.NInt.mk 150700110474 150700174885, IV.NInt.mk 155023405879 155023471386, IV.NInt.mk 159470728324 159470795435, IV.NInt.mk 164045635757 164045704687, IV.NInt.mk 168751788158 168751859412, IV.NInt.mk 173592951426 173593023922, IV.NInt.mk 178572998045 178573072958, IV.NInt.mk 183695912709 183695989192, IV.NInt.mk 188965793855 188965872242, IV.NInt.mk 194386857485 194386937972, IV.NInt.mk 199963441515 199963524020, IV.NInt.mk 205700006414 205700091269, IV.NInt.mk 211601142608 211601230258, IV.NInt.mk 217671570698 217671660764, IV.NInt.mk 223916147920 223916240242, IV.NInt.mk 230339870205 230339964670, IV.NInt.mk 236947875455 236947974480, IV.NInt.mk 243745452733 243745553758, IV.NInt.mk 250738039492 250738143077, IV.NInt.mk 257931229505 257931336064, IV.NInt.mk 265330779113 265330887620, IV.NInt.mk 272942606826 272942718332, IV.NInt.mk 280772803539 280772917918, IV.NInt.mk 288827632852 288827750969, IV.NInt.mk 297113538785 297113661627, IV.NInt.mk 305637153064 305637278474, IV.NInt.mk 314405293323 314405421975, IV.NInt.mk 323424974458 323425106082, IV.NInt.mk 332703412735 332703547791, IV.NInt.mk 342248031784 342248169836, IV.NInt.mk 352066467214 352066609771, IV.NInt.mk 362166574164 362166720492, IV.NInt.mk 372556433451 372556585438, IV.NInt.mk 383244358138 383244514516, IV.NInt.mk 394238899287 394239058882, IV.NInt.mk 405548852109 405549016549, IV.NInt.mk 417183266631 417183434490, IV.NInt.mk 429151449047 429151620856, IV.NInt.mk 441462975571 441463152978, IV.NInt.mk 454127695649 454127877956, IV.NInt.mk 467155743032 467155930345, IV.NInt.mk 480557539577 480557731273, IV.NInt.mk 494343807416 494344004323, IV.NInt.mk 508525577208 508525779250, IV.NInt.mk 523114194867 523114402468, IV.NInt.mk 538121330744 538121544542, IV.NInt.mk 553558992391 553559212123, IV.NInt.mk 569439531058 569439757127, IV.NInt.mk 585775650913 585775884456, IV.NInt.mk 602580423993 602580663345, IV.NInt.mk 619867293214 619867539259, IV.NInt.mk 637650088835 637650341432, IV.NInt.mk 655943039725 655943298166, IV.NInt.mk 674760779023 674761044144, IV.NInt.mk 694118363428 694118636024, IV.NInt.mk 714031278351 714031559330, IV.NInt.mk 734515456359 734515746656, IV.NInt.mk 755587286696 755587584543, IV.NInt.mk 777263627909 777263932918, IV.NInt.mk 799561820391 799562134048, IV.NInt.mk 822499705457 822500028107, IV.NInt.mk 846095634395 846095965671, IV.NInt.mk 870368486012 870368825438, IV.NInt.mk 895337676176 895338026257, IV.NInt.mk 921023186766 921023547054, IV.NInt.mk 947445562984 947445933108, IV.NInt.mk 974625947844 974626327233, IV.NInt.mk 1002586084379 1002586474909, IV.NInt.mk 1031348343746 1031348744218, IV.NInt.mk 1060935736719 1060936148347, IV.NInt.mk 1091371934303 1091372358145, IV.NInt.mk 1122681287433 1122681723396, IV.NInt.mk 1154888846722 1154889294023, IV.NInt.mk 1188020377799 1188020837733, IV.NInt.mk 1222102390052 1222102860473, IV.NInt.mk 1257162147342 1257162632098, IV.NInt.mk 1293227703940 1293228199852], [IV.NInt.mk 0 0, IV.NInt.mk 0 0, IV.NInt.mk 0 0, IV.NInt.mk 0 0, IV.NInt.mk 0 0, IV.NInt.mk 0 0, IV.NInt.mk 0 0, IV.NInt.mk 0 0, IV.NInt.mk 0 0, IV.NInt.mk 0 0, IV.NInt.mk 0 0, IV.NInt.mk 0 0, IV.NInt.mk 0 0, IV.NInt.mk 0 0, IV.NInt.mk 0 0, IV.NInt.mk 0 0, IV.NInt.mk 0 0, IV.NInt.mk 0 0, IV.NInt.mk 0 0, IV.NInt.mk 0 0, IV.NInt.mk 0 0, IV.NInt.mk 0 0, IV.NInt.mk 0 0, IV.NInt.mk 0 0, IV.NInt.mk 0 0, IV.NInt.mk 0 0, IV.NInt.mk 0 0, IV.NInt.mk 0 0, IV.NInt.mk 0 0, IV.NInt.mk 0 0, IV.NInt.mk 0 0, IV.NInt.mk 0 0, IV.NInt.mk 0 0, IV.NInt.mk 0 0, IV.NInt.mk 0 0, IV.NInt.mk 0 0, IV.NInt.mk 0 0, IV.NInt.mk 0 0, IV.NInt.mk 0 0, IV.NInt.mk 0 0, IV.NInt.mk 0 0, IV.NInt.mk 0 0, IV.NInt.mk 0 0, IV.NInt.mk 0 0, IV.NInt.mk 0 0, IV.NInt.mk 0 0, IV.NInt.mk 0 0, IV.NInt.mk 0 0, IV.NInt.mk 0 0, IV.NInt.mk 0 0, IV.NInt.mk 0 0, IV.NInt.mk 0 0, IV.NInt.mk 0 0, IV.NInt.mk 0 0, IV.NInt.mk 0 0, IV.NInt.mk 0 0, IV.NInt.mk 0 0, IV.NInt.mk 0 0, IV.NInt.mk 0 0, IV.NInt.mk 0 0, IV.NInt.mk 0 0, IV.NInt.mk 0 0, IV.NInt.mk 0 0, IV.NInt.mk 0 0, IV.NInt.mk 0 0, IV.NInt.mk 0 0, IV.NInt.mk 0 0, IV.NInt.mk 0 0, IV.NInt.mk 0 0, IV.NInt.mk 0 0, IV.NInt.mk 0 0, IV.NInt.mk 0 0, IV.NInt.mk 0 0, IV.NInt.mk 0 0, IV.NInt.mk 0 0, IV.NInt.mk 0 0, IV.NInt.mk 0 0, IV.NInt.mk 0 0, IV.NInt.mk 0 0, IV.NInt.mk 0 0, IV.NInt.mk 0 0, IV.NInt.mk 0 2, IV.NInt.mk 6653 6659, IV.NInt.mk 137284 137303, IV.NInt.mk 1362364 1362430, IV.NInt.mk 8673487 8673732, IV.NInt.mk 39889825 39890644, IV.NInt.mk 141595789 141598067, IV.NInt.mk 405196723 405201981, IV.NInt.mk 965405240 965415459, IV.NInt.mk 1966151335 1966168358, IV.NInt.mk 3503508243 3503533034, IV.NInt.mk 5582208285 5582240528, IV.NInt.mk 8118834216 8118872562, IV.NInt.mk 10988185248 10988227999, IV.NInt.mk 14076889598 14076935340, IV.NInt.mk 17311700433 17311748294, IV.NInt.mk 20658075366 20658124934, IV.NInt.mk 24105043828 24105094962, IV.NInt.mk 27651692617 27651745289, IV.NInt.mk 31300174237 31300228459, IV.NInt.mk 35053328200 35053383993, IV.NInt.mk 38914152903 38914210300, IV.NInt.mk 42885737209 42885796253, IV.NInt.mk 46971258598 46971319352, IV.NInt.mk 51173985703 51174048249, IV.NInt.mk 55497280929 55497345354, IV.NInt.mk 59944603137 59944669528, IV.NInt.mk 64519510418 64519578860, IV.NInt.mk 69225662940 69225733512, IV.NInt.mk 74066825877 74066898653, IV.NInt.mk 79046872426 79046947464, IV.NInt.mk 84169786911 84169864232, IV.NInt.mk 89439667952 89439747555, IV.NInt.mk 94860731734 94860813619, IV.NInt.mk 100437315378 100437399586, IV.NInt.mk 106173880418 106173967047, IV.NInt.mk 112075016390 112075105576, IV.NInt.mk 118145444523 118145536395, IV.NInt.mk 124390021513 124390116160, IV.NInt.mk 130813743399 130813840851, IV.NInt.mk 137421749532 137421849785, IV.NInt.mk 144219326665 144219429731, IV.NInt.mk 151211913190 151212019140, IV.NInt.mk 158405103509 158405212473, IV.NInt.mk 165804652521 165804764678, IV.NInt.mk 173416480258 173416595782, IV.NInt.mk 181246676609 181246795625, IV.NInt.mk 189301506187 189301628748, IV.NInt.mk 197587413317 197587539427, IV.NInt.mk 206111027172 206111156833, IV.NInt.mk 214879167080 214879300334, IV.NInt.mk 223898847995 223898984937, IV.NInt.mk 233177286124 233177426885, IV.NInt.mk 242721904714 242722049424, IV.NInt.mk 252540339981 252540488751, IV.NInt.mk 262640447210 262640600141, IV.NInt.mk 273030307020 273030464229, IV.NInt.mk 283718231834 283718393474, IV.NInt.mk 294712772540 294712938794, IV.NInt.mk 306022725330 306022896406, IV.NInt.mk 317657138772 317657314868, IV.NInt.mk 329625321042 329625502328, IV.NInt.mk 341936847368 341937033966, IV.NInt.mk 354601567667 354601759649, IV.NInt.mk 367629614404 367629811821, IV.NInt.mk 381031410696 381031613617, IV.NInt.mk 394817678661 394817887211, IV.NInt.mk 408999448003 408999662387, IV.NInt.mk 423588064861 423588285342, IV.NInt.mk 438595200906 438595427755, IV.NInt.mk 454032862682 454033096113, IV.NInt.mk 469913401189 469913641358, IV.NInt.mk 486249521749 486249768769, IV.NInt.mk 503054294141 503054548141, IV.NInt.mk 520341163075 520341424223, IV.NInt.mk 538123958946 538124227455, IV.NInt.mk 556416908912 556417185026, IV.NInt.mk 575234648284 575234932250, IV.NInt.mk 594592232246 594592524291, IV.NInt.mk 614505147894 614505448219, IV.NInt.mk 634989326627 634989635426, IV.NInt.mk 656061156880 656061474362, IV.NInt.mk 677737497233 677737823646, IV.NInt.mk 700035689911 700036025530, IV.NInt.mk 722973574667 722973919766, IV.NInt.mk 746569503066 746569857875, IV.NInt.mk 770842353139 770842717849, IV.NInt.mk 795811544479 795811919268, IV.NInt.mk 821497053765 821497438836, IV.NInt.mk 847919430739 847919826369, IV.NInt.mk 875099814665 875100221213, IV.NInt.mk 903059951251 903060369147, IV.NInt.mk 931822210081 931822639777, IV.NInt.mk 961409602512 961410044438, IV.NInt.mk 991845800081 991846254628, IV.NInt.mk 1023155153417 1023155620949, IV.NInt.mk 1055362711696 1055363192585, IV.NInt.mk 1088494242679 1088494737311, IV.NInt.mk 1122576253335 1122576762117, IV.NInt.mk 1157636011071 1157636534422, IV.NInt.mk 1193701565547 1193702103901]) := by decide

set_option maxRecDepth 100000 in
set_option maxHeartbeats 1000000 in
/-- Chunk 3 of the kernel evaluation of the C9 call lattice (10 steps). -/
theorem IV.callChunk3 : IV.loopG IV.uI9 IV.pI9 IV.qI9 IV.discI9 true IV.KSc9 10 ([IV.NInt.mk 7732585968 7732589670, IV.NInt.mk 7954418819 7954422979, IV.NInt.mk 8182615797 8182619901, IV.NInt.mk 8417359239 8417363417, IV.NInt.mk 8658837065 8658841322, IV.NInt.mk 8907242380 8907246855, IV.NInt.mk 9162774024 9162778448, IV.NInt.mk 9425636212 9425640864, IV.NInt.mk 9696039625 9696044218, IV.NInt.mk 9974200038 9974205319, IV.NInt.mk 10260340659 10260345877, IV.NInt.mk 10554690085 10554695243, IV.NInt.mk 10857483806 10857489067, IV.NInt.mk 11168963980 11168969495, IV.NInt.mk 11489380030 11489385654, IV.NInt.mk 11818988096 11818993991, IV.NInt.mk 12158052166 12158058014, IV.NInt.mk 12506843003 12506849455, IV.NInt.mk 12865640279 12865646689, IV.NInt.mk 13234730546 13234737253, IV.NInt.mk 13614409574 13614416245, IV.NInt.mk 14004980741 14004987543, IV.NInt.mk 14406756615 14406763549, IV.NInt.mk 14820058538 14820065789, IV.NInt.mk 15245217560 15245224785, IV.NInt.mk 15682573471 15682581037, IV.NInt.mk 16132476272 16132483986, IV.NInt.mk 16595285783 16595293832, IV.NInt.mk 17071372603 17071380625, IV.NInt.mk 17561117308 17561125493, IV.NInt.mk 18064911883 18064920237, IV.NInt.mk 18583159256 18583167982, IV.NInt.mk 19116274370 19116283054, IV.NInt.mk 19664683150 19664692434, IV.NInt.mk 20228824993 20228834475, IV.NInt.mk 20809150766 20809160655, IV.NInt.mk 21406125313 21406135185, IV.NInt.mk 22020225778 22020236068, IV.NInt.mk 22651943633 22651953914, IV.NInt.mk 23301784075 23301794792, IV.NInt.mk 23970267390 23970278127, IV.NInt.mk 24657927683 24657939814, IV.NInt.mk 25365316155 25365328298, IV.NInt.mk 26092997906 26093010542, IV.NInt.mk 26841555834 26841568499, IV.NInt.mk 27611588059 27611601233, IV.NInt.mk 28403711426 28403724631, IV.NInt.mk 29218559182 29218572671, IV.NInt.mk 30056783301 30056797071, IV.NInt.mk 30919054349 30919068662, IV.NInt.mk 31806062447 31806076800, IV.NInt.mk 32718516821 32718531749, IV.NInt.mk 33657148134 33657163141, IV.NInt.mk 34622706760 34622722367, IV.NInt.mk 35615965335 35615981282, IV.NInt.mk 36637718499 36637735073, IV.NInt.mk 37688784126 37688800806, IV.NInt.mk 38770001890 38770020113, IV.NInt.mk 39882238606 39882256928, IV.NInt.mk 41026382990 41026402006, IV.NInt.mk 42203350881 42203370019, IV.NInt.mk 43414083695 43414103247, IV.NInt.mk 44659549915 44659569922, IV.NInt.mk 45940746088 45940766839, IV.NInt.mk 47258697559 47258718511, IV.NInt.mk 48614458120 48614479866, IV.NInt.mk 50009113264 50009135153, IV.NInt.mk 51443778130 51443800841, IV.NInt.mk 52919601098 52919624026, IV.NInt.mk 54437762184 54437785967, IV.NInt.mk 55999476445 55999500786, IV.NInt.mk 57605993540 57606018414, IV.NInt.mk 59258598249 59258623789, IV.NInt.mk 60958612675 60958639531, IV.NInt.mk 62707397536 62707425029, IV.NInt.mk 64506351733 64506380238, IV.NInt.mk 66356914689 66356943477, IV.NInt.mk 68260566524 68260596340, IV.NInt.mk 70218830452 70218861013, IV.NInt.mk 72233272819 72233304471, IV.NInt.mk 74305506226 74305538300, IV.NInt.mk 76437187255 76437220870, IV.NInt.mk 78630022872 78630056890, IV.NInt.mk 80885766656 80885801455, IV.NInt.mk 83206223222 83206258916, IV.NInt.mk 85593248939 85593286349, IV.NInt.mk 88048754196 88048792054, IV.NInt.mk 90574703118 90574741857, IV.NInt.mk 93173116391 93173156216, IV.NInt.mk 95846072980 95846114645, IV.NInt.mk 98595711897 98595754622, IV.NInt.mk 101424232376 101424276576, IV.NInt.mk 104333898046 104333942903, IV.NInt.mk 107327035648 107327082522, IV.NInt.mk 110406041383 110406088955, IV.NInt.mk 113573377715 113573426409, IV.NInt.mk 116831578848 116831628361, IV.NInt.mk 120183251151 120183302342, IV.NInt.mk 123631076702 123631129213, IV.NInt.mk 127177813211 127177867502, IV.NInt.mk 130826299522 130826354755, IV.NInt.mk 134579453891 134579510458, IV.NInt.mk 138440278518 138440336545, IV.NInt.mk 142411862789 142411922808, IV.NInt.mk 146497384256 146497445438, IV.NInt.mk 150700110474 150700174885, IV.NInt.mk 155023405879 155023471386, IV.NInt.mk 159470728324 159470795435, IV.NInt.mk 164045635757 164045704687, IV.NInt.mk 168751788158 168751859412, IV.NInt.mk 173592951426 173593023922, IV.NInt.mk 178572998045 178573072958, IV.NInt.mk 183695912709 183695989192, IV.NInt.mk 188965793855 188965872242, IV.NInt.mk 194386857485 194386937972, IV.NInt.mk 199963441515 199963524020, IV.NInt.mk 205700006414 205700091269, IV.NInt.mk 211601142608 211601230258, IV.NInt.mk 217671570698 217671660764, IV.NInt.mk 223916147920 223916240242, IV.NInt.mk 230339870205 230339964670, IV.NInt.mk 236947875455 236947974480, IV.NInt.mk 243745452733 243745553758, IV.NInt.mk 250738039492 250738143077, IV.NInt.mk 257931229505 257931336064, IV.NInt.mk 265330779113 265330887620, IV.NInt.mk 272942606826 272942718332, IV.NInt.mk 280772803539 280772917918, IV.NInt.mk 288827632852 288827750969, IV.NInt.mk 297113538785 297113661627, IV.NInt.mk 305637153064 305637278474, IV.NInt.mk 314405293323 314405421975, IV.NInt.mk 323424974458 323425106082, IV.NInt.mk 332703412735 332703547791, IV.NInt.mk 342248031784 342248169836, IV.NInt.mk 352066467214 352066609771, IV.NInt.mk 362166574164 362166720492, IV.NInt.mk 372556433451 372556585438, IV.NInt.mk 383244358138 383244514516, IV.NInt.mk 394238899287 394239058882, IV.NInt.mk 405548852109 405549016549, IV.NInt.mk 417183266631 417183434490, IV.NInt.mk 429151449047 429151620856, IV.NInt.mk 441462975571 441463152978, IV.NInt.mk 454127695649 454127877956, IV.NInt.mk 467155743032 467155930345, IV.NInt.mk 480557539577 480557731273, IV.NInt.mk 494343807416 494344004323, IV.NInt.mk 508525577208 508525779250, IV.NInt.mk 523114194867 523114402468, IV.NInt.mk 538121330744 538121544542, IV.NInt.mk 553558992391 553559212123, IV.NInt.mk 569439531058 569439757127, IV.NInt.mk 585775650913 585775884456, IV.NInt.mk 602580423993 602580663345, IV.NInt.mk 619867293214 619867539259, IV.NInt.mk 637650088835 637650341432, IV.NInt.mk 655943039725 655943298166, IV.NInt.mk 674760779023 674761044144, IV.NInt.mk 694118363428 694118636024, IV.NInt.mk 714031278351 714031559330, IV.NInt.mk 734515456359 734515746656, IV.NInt.mk 755587286696 755587584543, IV.NInt.mk 777263627909 777263932918, IV.NInt.mk 799561820391 799562134048, IV.NInt.mk 822499705457 822500028107, IV.NInt.mk 846095634395 846095965671, IV.NInt.mk 870368486012 870368825438, IV.NInt.mk 895337676176 895338026257, IV.NInt.mk 921023186766 921023547054, IV.NInt.mk 947445562984 947445933108, IV.NInt.mk 974625947844 974626327233, IV.NInt.mk 1002586084379 1002586474909, IV.NInt.mk 1031348343746 1031348744218, IV.NInt.mk 1060935736719 1060936148347, IV.NInt.mk 1091371934303 1091372358145, IV.NInt.mk 1122681287433 1122681723396, IV.NInt.mk 1154888846722 1154889294023, IV.NInt.mk 1188020377799 1188020837733, IV.NInt.mk 1222102390052 1222102860473, IV.NInt.mk 1257162147342 1257162632098, IV.NInt.mk 1293227703940 1293228199852], [IV.NInt.mk 0 0, IV.NInt.mk 0 0, IV.NInt.mk 0 0, IV.NInt.mk 0 0, IV.NInt.mk 0 0, IV.NInt.mk 0 0, IV.NInt.mk 0 0, IV.NInt.mk 0 0, IV.NInt.mk 0 0, IV.NInt.mk 0 0, IV.NInt.mk 0 0, IV.NInt.mk 0 0, IV.NInt.mk 0 0, IV.NInt.mk 0 0, IV.NInt.mk 0 0, IV.NInt.mk 0 0, IV.NInt.mk 0 0, IV.NInt.mk 0 0, IV.NInt.mk 0 0, IV.NInt.mk 0 0, IV.NInt.mk 0 0, IV.NInt.mk 0 0, IV.NInt.mk 0 0, IV.NInt.mk 0 0, IV.NInt.mk 0 0, IV.NInt.mk 0 0, IV.NInt.mk 0 0, IV.NInt.mk 0 0, IV.NInt.mk 0 0, IV.NInt.mk 0 0, IV.NInt.mk 0 0, IV.NInt.mk 0 0, IV.NInt.mk 0 0, IV.NInt.mk 0 0, IV.NInt.mk 0 0, IV.NInt.mk 0 0, IV.NInt.mk 0 0, IV.NInt.mk 0 0, IV.NInt.mk 0 0, IV.NInt.mk 0 0, IV.NInt.mk 0 0, IV.NInt.mk 0 0, IV.NInt.mk 0 0, IV.NInt.mk 0 0, IV.NInt.mk 0 0, IV.NInt.mk 0 0, IV.NInt.mk 0 0, IV.NInt.mk 0 0, IV.NInt.mk 0 0, IV.NInt.mk 0 0, IV.NInt.mk 0 0, IV.NInt.mk 0 0, IV.NInt.mk 0 0, IV.NInt.mk 0 0, IV.NInt.mk 0 0, IV.NInt.mk 0 0, IV.NInt.mk 0 0, IV.NInt.mk 0 0, IV.NInt.mk 0 0, IV.NInt.mk 0 0, IV.NInt.mk 0 0, IV.NInt.mk 0 0, IV.NInt.mk 0 0, IV.NInt.mk 0 0, IV.NInt.mk 0 0, IV.NInt.mk 0 0, IV.NInt.mk 0 0, IV.NInt.mk 0 0, IV.NInt.mk 0 0, IV.NInt.mk 0 0, IV.NInt.mk 0 0, IV.NInt.mk 0 0, IV.NInt.mk 0 0, IV.NInt.mk 0 0, IV.NInt.mk 0 0, IV.NInt.mk 0 0, IV.NInt.mk 0 0, IV.NInt.mk 0 0, IV.NInt.mk 0 0, IV.NInt.mk 0 0, IV.NInt.mk 0 0, IV.NInt.mk 0 2, IV.NInt.mk 6653 6659, IV.NInt.mk 137284 137303, IV.NInt.mk 1362364 1362430, IV.NInt.mk 8673487 8673732, IV.NInt.mk 39889825 39890644, IV.NInt.mk 141595789 141598067, IV.NInt.mk 405196723 405201981, IV.NInt.mk 965405240 965415459, IV.NInt.mk 1966151335 1966168358, IV.NInt.mk 3503508243 3503533034, IV.NInt.mk 5582208285 5582240528, IV.NInt.mk 8118834216 8118872562, IV.NInt.mk 10988185248 10988227999, IV.NInt.mk 14076889598 14076935340, IV.NInt.mk 17311700433 17311748294, IV.NInt.mk 20658075366 20658124934, IV.NInt.mk 24105043828 24105094962, IV.NInt.mk 27651692617 27651745289, IV.NInt.mk 31300174237 31300228459, IV.NInt.mk 35053328200 35053383993, IV.NInt.mk 38914152903 38914210300, IV.NInt.mk 42885737209 42885796253, IV.NInt.mk 46971258598 46971319352, IV.NInt.mk 51173985703 51174048249, IV.NInt.mk 55497280929 55497345354, IV.NInt.mk 59944603137 59944669528, IV.NInt.mk 64519510418 64519578860, IV.NInt.mk 69225662940 69225733512, IV.NInt.mk 74066825877 74066898653, IV.NInt.mk 79046872426 79046947464, IV.NInt.mk 84169786911 84169864232, IV.NInt.mk 89439667952 89439747555, IV.NInt.mk 94860731734 94860813619, IV.NInt.mk 100437315378 100437399586, IV.NInt.mk 106173880418 106173967047, IV.NInt.mk 112075016390 112075105576, IV.NInt.mk 118145444523 118145536395, IV.NInt.mk 124390021513 124390116160, IV.NInt.mk 130813743399 130813840851, IV.NInt.mk 137421749532 137421849785, IV.NInt.mk 144219326665 144219429731, IV.NInt.mk 151211913190 151212019140, IV.NInt.mk 158405103509 158405212473, IV.NInt.mk 165804652521 165804764678, IV.NInt.mk 173416480258 173416595782, IV.NInt.mk 181246676609 181246795625, IV.NInt.mk 189301506187 189301628748, IV.NInt.mk 197587413317 197587539427, IV.NInt.mk 206111027172 206111156833, IV.NInt.mk 214879167080 214879300334, IV.NInt.mk 223898847995 223898984937, IV.NInt.mk 233177286124 233177426885, IV.NInt.mk 242721904714 242722049424, IV.NInt.mk 252540339981 252540488751, IV.NInt.mk 262640447210 262640600141, IV.NInt.mk 273030307020 273030464229, IV.NInt.mk 283718231834 283718393474, IV.NInt.mk 294712772540 294712938794, IV.NInt.mk 306022725330 306022896406, IV.NInt.mk 317657138772 317657314868, IV.NInt.mk 329625321042 329625502328, IV.NInt.mk 341936847368 341937033966, IV.NInt.mk 354601567667 354601759649, IV.NInt.mk 367629614404 367629811821, IV.NInt.mk 381031410696 381031613617, IV.NInt.mk 394817678661 394817887211, IV.NInt.mk 408999448003 408999662387, IV.NInt.mk 423588064861 423588285342, IV.NInt.mk 438595200906 438595427755, IV.NInt.mk 454032862682 454033096113, IV.NInt.mk 469913401189 469913641358, IV.NInt.mk 486249521749 486249768769, IV.NInt.mk 503054294141 503054548141, IV.NInt.mk 520341163075 520341424223, IV.NInt.mk 538123958946 538124227455, IV.NInt.mk 556416908912 556417185026, IV.NInt.mk 575234648284 575234932250, IV.NInt.mk 594592232246 594592524291, IV.NInt.mk 614505147894 614505448219, IV.NInt.mk 634989326627 634989635426, IV.NInt.mk 656061156880 656061474362, IV.NInt.mk 677737497233 677737823646, IV.NInt.mk 700035689911 700036025530, IV.NInt.mk 722973574667 722973919766, IV.NInt.mk 746569503066 746569857875, IV.NInt.mk 770842353139 770842717849, IV.NInt.mk 795811544479 795811919268, IV.NInt.mk 821497053765 821497438836, IV.NInt.mk 847919430739 847919826369, IV.NInt.mk 875099814665 875100221213, IV.NInt.mk 903059951251 903060369147, IV.NInt.mk 931822210081 931822639777, IV.NInt.mk 961409602512 961410044438, IV.NInt.mk 991845800081 991846254628, IV.NInt.mk 1023155153417 1023155620949, IV.NInt.mk 1055362711696 1055363192585, IV.NInt.mk 1088494242679 1088494737311, IV.NInt.mk 1122576253335 1122576762117, IV.NInt.mk 1157636011071 1157636534422, IV.NInt.mk 1193701565547 1193702103901]) = ([IV.NInt.mk 8907242341 8907246704, IV.NInt.mk 9162773800 9162778691, IV.NInt.mk 9425636158 9425640987, IV.NInt.mk 9696039454 9696044372, IV.NInt.mk 9974200151 9974205164, IV.NInt.mk 10260340695 10260345961, IV.NInt.mk 10554690127 10554695335, IV.NInt.mk 10857483681 10857489159, IV.NInt.mk 11168964050 11168969463, IV.NInt.mk 11489379786 11489385992, IV.NInt.mk 11818987999 11818994137, IV.NInt.mk 12158052019 12158058091, IV.NInt.mk 12506843103 12506849298, IV.NInt.mk 12865640201 12865646691, IV.NInt.mk 13234730622 13234737242, IV.NInt.mk 13614409417 13614416352, IV.NInt.mk 14004980676 14004987562, IV.NInt.mk 14406756294 14406763880, IV.NInt.mk 14820058431 14820065971, IV.NInt.mk 15245217165 15245225050, IV.NInt.mk 15682573195 15682581046, IV.NInt.mk 16132475990 16132483995, IV.NInt.mk 16595285600 16595293762, IV.NInt.mk 17071372177 17071380708, IV.NInt.mk 17561117062 17561125569, IV.NInt.mk 18064911666 18064920572, IV.NInt.mk 18583159158 18583168240, IV.NInt.mk 19116274020 19116283489, IV.NInt.mk 19664683142 19664692587, IV.NInt.mk 20228824915 20228834553, IV.NInt.mk 20809150876 20809160714, IV.NInt.mk 21406125154 21406135430, IV.NInt.mk 22020225736 22020235967, IV.NInt.mk 22651943240 22651954166, IV.NInt.mk 23301783815 23301794977, IV.NInt.mk 23970266820 23970278456, IV.NInt.mk 24657927710 24657939336, IV.NInt.mk 25365316116 25365328231, IV.NInt.mk 26092998170 26093010281, IV.NInt.mk 26841555811 26841568430, IV.NInt.mk 27611588359 27611601010, IV.NInt.mk 28403711063 28403725325, IV.NInt.mk 29218558845 29218573133, IV.NInt.mk 30056782661 30056797523, IV.NInt.mk 30919053950 30919068857, IV.NInt.mk 31806061695 31806077197, IV.NInt.mk 32718516446 32718531992, IV.NInt.mk 33657147645 33657163527, IV.NInt.mk 34622706308 34622722524, IV.NInt.mk 35615964869 35615981715, IV.NInt.mk 36637718277 36637735183, IV.NInt.mk 37688783508 37688801085, IV.NInt.mk 38770002213 38770019891, IV.NInt.mk 39882238753 39882257135, IV.NInt.mk 41026383142 41026401925, IV.NInt.mk 42203350729 42203370247, IV.NInt.mk 43414083635 43414103285, IV.NInt.mk 44659549081 44659570522, IV.NInt.mk 45940745567 45940767138, IV.NInt.mk 47258696813 47258719194, IV.NInt.mk 48614457782 48614480315, IV.NInt.mk 50009112900 50009135924, IV.NInt.mk 51443777770 51443801333, IV.NInt.mk 52919600329 52919624765, IV.NInt.mk 54437761678 54437786360, IV.NInt.mk 55999475694 55999501305, IV.NInt.mk 57605992764 57606018560, IV.NInt.mk 59258597430 59258624186, IV.NInt.mk 60958612520 60958639544, IV.NInt.mk 62707397310 62707425334, IV.NInt.mk 64506351432 64506380115, IV.NInt.mk 66356914379 66356943699, IV.NInt.mk 68260566109 68260596213, IV.NInt.mk 70218829560 70218861200, IV.NInt.mk 72233272160 72233304553, IV.NInt.mk 74305505313 74305538890, IV.NInt.mk 76437187106 76437221032, IV.NInt.mk 78630022505 78630057637, IV.NInt.mk 80885766116 80885802126, IV.NInt.mk 83206222225 83206259517, IV.NInt.mk 85593248408 85593286207, IV.NInt.mk 88048752893 88048792490, IV.NInt.mk 90574701953 90574742043, IV.NInt.mk 93173115556 93173156570, IV.NInt.mk 95846072451 95846114523, IV.NInt.mk 98595711012 98595755086, IV.NInt.mk 101424231833 101424276452, IV.NInt.mk 104333897407 104333943071, IV.NInt.mk 107327035386 107327082331, IV.NInt.mk 110406040550 110406089645, IV.NInt.mk 113573376845 113573427193, IV.NInt.mk 116831577592 116831629671, IV.NInt.mk 120183250291 120183303157, IV.NInt.mk 123631075134 123631130359, IV.NInt.mk 127177812329 127177868394, IV.NInt.mk 130826298415 130826355805, IV.NInt.mk 134579452563 134579510934, IV.NInt.mk 138440277077 138440337421, IV.NInt.mk 142411861471 142411923370, IV.NInt.mk 146497382376 146497446367, IV.NInt.mk 150700109885 150700175005, IV.NInt.mk 155023405567 155023472265, IV.NInt.mk 159470727686 159470796111, IV.NInt.mk 164045634934 164045705700, IV.NInt.mk 168751787568 168751859720, IV.NInt.mk 173592949516 173593025433, IV.NInt.mk 178572996303 178573073531, IV.NInt.mk 183695911065 183695990193, IV.NInt.mk 188965792241 188965873513, IV.NInt.mk 194386855793 194386939797, IV.NInt.mk 199963439698 199963525189, IV.NInt.mk 205700004713 205700093045, IV.NInt.mk 211601140841 211601231041, IV.NInt.mk 217671569117 217671661571, IV.NInt.mk 223916145994 223916240926, IV.NInt.mk 230339868357 230339965678, IV.NInt.mk 236947874270 236947974362, IV.NInt.mk 243745451486 243745554866, IV.NInt.mk 250738037714 250738143944, IV.NInt.mk 257931228052 257931336951, IV.NInt.mk 265330777360 265330888802, IV.NInt.mk 272942604043 272942720811, IV.NInt.mk 280772800620 280772919771, IV.NInt.mk 288827630550 288827752727, IV.NInt.mk 297113537354 297113663040, IV.NInt.mk 305637151820 305637279833, IV.NInt.mk 314405291537 314405423092, IV.NInt.mk 323424972665 323425107620, IV.NInt.mk 332703410313 332703549663, IV.NInt.mk 342248027407 342248172293, IV.NInt.mk 352066463097 352066611041, IV.NInt.mk 362166570685 362166722462, IV.NInt.mk 372556430699 372556586002, IV.NInt.mk 383244355626 383244514990, IV.NInt.mk 394238896824 394239059745, IV.NInt.mk 405548849820 405549018041, IV.NInt.mk 417183263029 417183435708, IV.NInt.mk 429151444824 429151624142, IV.NInt.mk 441462971104 441463155601, IV.NInt.mk 454127691925 454127880253, IV.NInt.mk 467155738574 467155932612, IV.NInt.mk 480557535867 480557733975, IV.NInt.mk 494343803705 494344006498, IV.NInt.mk 508525573021 508525782401, IV.NInt.mk 523114189487 523114404656, IV.NInt.mk 538121326272 538121547356, IV.NInt.mk 553558988420 553559214706, IV.NInt.mk 569439526861 569439759305, IV.NInt.mk 585775647916 585775886435, IV.NInt.mk 602580421055 602580666144, IV.NInt.mk 619867289477 619867541874, IV.NInt.mk 637650084796 637650344204, IV.NInt.mk 655943034537 655943301426, IV.NInt.mk 674760772762 674761048446, IV.NInt.mk 694118357278 694118639843, IV.NInt.mk 714031273113 714031563583, IV.NInt.mk 734515451475 734515749697, IV.NInt.mk 755587282748 755587587909, IV.NInt.mk 777263622983 777263936054, IV.NInt.mk 799561816141 799562138043, IV.NInt.mk 822499700024 822500031806, IV.NInt.mk 846095627511 846095970260, IV.NInt.mk 870368477533 870368829218, IV.NInt.mk 895337669621 895338029803, IV.NInt.mk 921023178344 921023548738, IV.NInt.mk 947445555286 947445936302, IV.NInt.mk 974625939482 974626330703, IV.NInt.mk 1002586077615 1002586478499, IV.NInt.mk 1031348335016 1031348748456, IV.NInt.mk 1060935729007 1060936154497, IV.NInt.mk 1091371925811 1091372362934, IV.NInt.mk 1122681280280 1122681728382], [IV.NInt.mk 0 0, IV.NInt.mk 0 0, IV.NInt.mk 0 0, IV.NInt.mk 0 0, IV.NInt.mk 0 0, IV.NInt.mk 0 0, IV.NInt.mk 0 0, IV.NInt.mk 0 0, IV.NInt.mk 0 0, IV.NInt.mk 0 0, IV.NInt.mk 0 0, IV.NInt.mk 0 0, IV.NInt.mk 0 0, IV.NInt.mk 0 0, IV.NInt.mk 0 0, IV.NInt.mk 0 0, IV.NInt.mk 0 0, IV.NInt.mk 0 0, IV.NInt.mk 0 0, IV.NInt.mk 0 0, IV.NInt.mk 0 0, IV.NInt.mk 0 0, IV.NInt.mk 0 0, IV.NInt.mk 0 0, IV.NInt.mk 0 0, IV.NInt.mk 0 0, IV.NInt.mk 0 0, IV.NInt.mk 0 0, IV.NInt.mk 0 0, IV.NInt.mk 0 0, IV.NInt.mk 0 0, IV.NInt.mk 0 0, IV.NInt.mk 0 0, IV.NInt.mk 0 0, IV.NInt.mk 0 0, IV.NInt.mk 0 0, IV.NInt.mk 0 0, IV.NInt.mk 0 0, IV.NInt.mk 0 0, IV.NInt.mk 0 0, IV.NInt.mk 0 0, IV.NInt.mk 0 0, IV.NInt.mk 0 0, IV.NInt.mk 0 0, IV.NInt.mk 0 0, IV.NInt.mk 0 0, IV.NInt.mk 0 0, IV.NInt.mk 0 0, IV.NInt.mk 0 0, IV.NInt.mk 0 0, IV.NInt.mk 0 0, IV.NInt.mk 0 0, IV.NInt.mk 0 0, IV.NInt.mk 0 0, IV.NInt.mk 0 0, IV.NInt.mk 0 0, IV.NInt.mk 0 0, IV.NInt.mk 0 0, IV.NInt.mk 0 0, IV.NInt.mk 0 0, IV.NInt.mk 0 0, IV.NInt.mk 0 0, IV.NInt.mk 0 0, IV.NInt.mk 0 0, IV.NInt.mk 0 0, IV.NInt.mk 0 0, IV.NInt.mk 0 0, IV.NInt.mk 0 0, IV.NInt.mk 0 0, IV.NInt.mk 0 0, IV.NInt.mk 0 0, IV.NInt.mk 0 2, IV.NInt.mk 4 10, IV.NInt.mk 213 225, IV.NInt.mk 3231 3250, IV.NInt.mk 31038 31063, IV.NInt.mk 216824 216860, IV.NInt.mk 1177358 1177422, IV.NInt.mk 5178502 5178651, IV.NInt.mk 18986642 18987018, IV.NInt.mk 59284933 59285862, IV.NInt.mk 160347154 160349248, IV.NInt.mk 381021620 381025850, IV.NInt.mk 805389801 805397452, IV.NInt.mk 1531761859 1531774320, IV.NInt.mk 2650023504 2650041926, IV.NInt.mk 4215522388 4215547356, IV.NInt.mk 6232373584 6232404964, IV.NInt.mk 8655254635 8655291677, IV.NInt.mk 11408302149 11408343774, IV.NInt.mk 14410453879 14410499016, IV.NInt.mk 17595157195 17595205003, IV.NInt.mk 20918424285 20918474218, IV.NInt.mk 24356833793 24356885561, IV.NInt.mk 27900935045 27900988527, IV.NInt.mk 31548810467 31548865635, IV.NInt.mk 35301850560 35301907427, IV.NInt.mk 39162658802 39162717405, IV.NInt.mk 43134241342 43134301729, IV.NInt.mk 47219762562 47219824801, IV.NInt.mk 51422489609 51422553774, IV.NInt.mk 55745784776 55745850952, IV.NInt.mk 60193106926 60193175196, IV.NInt.mk 64768014148 64768084599, IV.NInt.mk 69474166614 69474239324, IV.NInt.mk 74315329503 74315404536, IV.NInt.mk 79295376010 79295453419, IV.NInt.mk 84418290445 84418370266, IV.NInt.mk 89688171418 89688253684, IV.NInt.mk 95109235116 95109319861, IV.NInt.mk 100685818664 100685905949, IV.NInt.mk 106422383612 106422473526, IV.NInt.mk 112323519515 112323612159, IV.NInt.mk 118393947604 118394043074, IV.NInt.mk 124638524560 124638622935, IV.NInt.mk 131062246396 131062347735, IV.NInt.mk 137670252447 137670356795, IV.NInt.mk 144467829466 144467936883, IV.NInt.mk 151460415865 151460526434, IV.NInt.mk 158653606061 158653719905, IV.NInt.mk 166053154975 166053272228, IV.NInt.mk 173664982637 173665103436, IV.NInt.mk 181495178927 181495303382, IV.NInt.mk 189550008437 189550136624, IV.NInt.mk 197835915474 197836047447, IV.NInt.mk 206359529209 206359665017, IV.NInt.mk 215127668987 215127808695, IV.NInt.mk 224147349773 224147493472, IV.NInt.mk 233425787787 233425935584, IV.NInt.mk 242970406266 242970558287, IV.NInt.mk 252788841419 252788997787, IV.NInt.mk 262888948517 262889109362, IV.NInt.mk 273278808180 273278973645, IV.NInt.mk 283966732835 283966903084, IV.NInt.mk 294961273385 294961448595, IV.NInt.mk 306271226035 306271406398, IV.NInt.mk 317905639359 317905825054, IV.NInt.mk 329873821523 329874012712, IV.NInt.mk 342185347736 342185544552, IV.NInt.mk 354850067896 354850270447, IV.NInt.mk 367878114460 367878322849, IV.NInt.mk 381279910550 381280124897, IV.NInt.mk 395066178300 395066398761, IV.NInt.mk 409247947434 409248174207, IV.NInt.mk 423836564112 423836797421, IV.NInt.mk 438843700002 438843940082, IV.NInt.mk 454281361635 454281608697, IV.NInt.mk 470161899990 470162154221, IV.NInt.mk 486498020369 486498281940, IV.NInt.mk 503302792554 503303061636, IV.NInt.mk 520589661255 520589938041, IV.NInt.mk 538372456878 538372741584, IV.NInt.mk 556665406593 556665699452, IV.NInt.mk 575483145717 575483446969, IV.NInt.mk 594840729433 594841039315, IV.NInt.mk 614753644833 614753963578, IV.NInt.mk 635237823311 635238151152, IV.NInt.mk 656309653296 656309990477, IV.NInt.mk 677985993383 677986340157, IV.NInt.mk 700284185801 700284542434, IV.NInt.mk 723222070303 723222437060, IV.NInt.mk 746817998442 746818375571, IV.NInt.mk 771090848234 771091235970, IV.NInt.mk 796060039260 796060437841, IV.NInt.mk 821745548192 821745957890, IV.NInt.mk 848167924790 848168345917, IV.NInt.mk 875348308333 875348741258, IV.NInt.mk 903308444552 903308889685, IV.NInt.mk 932070703039 932071160816, IV.NInt.mk 961658095145 961658565998, IV.NInt.mk 992094292385 992094776736, IV.NInt.mk 1023403645363 1023404143625]) := by decide

set_option maxRecDepth 100000 in
set_option maxHeartbeats 1000000 in
/-- Chunk 4 of the kernel evaluation of the C9 call lattice (11 steps). -/
theorem IV.callChunk4 : IV.loopG IV.uI9 IV.pI9 IV.qI9 IV.discI9 true IV.KSc9 11 ([IV.NInt.mk 8907242341 8907246704, IV.NInt.mk 9162773800 9162778691, IV.NInt.mk 9425636158 9425640987, IV.NInt.mk 9696039454 9696044372, IV.NInt.mk 9974200151 9974205164, IV.NInt.mk 10260340695 10260345961, IV.NInt.mk 10554690127 10554695335, IV.NInt.mk 10857483681 10857489159, IV.NInt.mk 11168964050 11168969463, IV.NInt.mk 11489379786 11489385992, IV.NInt.mk 11818987999 11818994137, IV.NInt.mk 12158052019 12158058091, IV.NInt.mk 12506843103 12506849298, IV.NInt.mk 12865640201 12865646691, IV.NInt.mk 13234730622 13234737242, IV.NInt.mk 13614409417 13614416352, IV.NInt.mk 14004980676 14004987562, IV.NInt.mk 14406756294 14406763880, IV.NInt.mk 14820058431 14820065971, IV.NInt.mk 15245217165 15245225050, IV.NInt.mk 15682573195 15682581046, IV.NInt.mk 16132475990 16132483995, IV.NInt.mk 16595285600 16595293762, IV.NInt.mk 17071372177 17071380708, IV.NInt.mk 17561117062 17561125569, IV.NInt.mk 18064911666 18064920572, IV.NInt.mk 18583159158 18583168240, IV.NInt.mk 19116274020 19116283489, IV.NInt.mk 19664683142 19664692587, IV.NInt.mk 20228824915 20228834553, IV.NInt.mk 20809150876 20809160714, IV.NInt.mk 21406125154 21406135430, IV.NInt.mk 22020225736 22020235967, IV.NInt.mk 22651943240 22651954166, IV.NInt.mk 23301783815 23301794977, IV.NInt.mk 23970266820 23970278456, IV.NInt.mk 24657927710 24657939336, IV.NInt.mk 25365316116 25365328231, IV.NInt.mk 26092998170 26093010281, IV.NInt.mk 26841555811 26841568430, IV.NInt.mk 27611588359 27611601010, IV.NInt.mk 28403711063 28403725325, IV.NInt.mk 29218558845 29218573133, IV.NInt.mk 30056782661 30056797523, IV.NInt.mk 30919053950 30919068857, IV.NInt.mk 31806061695 31806077197, IV.NInt.mk 32718516446 32718531992, IV.NInt.mk 33657147645 33657163527, IV.NInt.mk 34622706308 34622722524, IV.NInt.mk 35615964869 35615981715, IV.NInt.mk 36637718277 36637735183, IV.NInt.mk 37688783508 37688801085, IV.NInt.mk 38770002213 38770019891, IV.NInt.mk 39882238753 39882257135, IV.NInt.mk 41026383142 41026401925, IV.NInt.mk 42203350729 42203370247, IV.NInt.mk 43414083635 43414103285, IV.NInt.mk 44659549081 44659570522, IV.NInt.mk 45940745567 45940767138, IV.NInt.mk 47258696813 47258719194, IV.NInt.mk 48614457782 48614480315, IV.NInt.mk 50009112900 50009135924, IV.NInt.mk 51443777770 51443801333, IV.NInt.mk 52919600329 52919624765, IV.NInt.mk 54437761678 54437786360, IV.NInt.mk 55999475694 55999501305, IV.NInt.mk 57605992764 57606018560, IV.NInt.mk 59258597430 59258624186, IV.NInt.mk 60958612520 60958639544, IV.NInt.mk 62707397310 62707425334, IV.NInt.mk 64506351432 64506380115, IV.NInt.mk 66356914379 66356943699, IV.NInt.mk 68260566109 68260596213, IV.NInt.mk 70218829560 70218861200, IV.NInt.mk 72233272160 72233304553, IV.NInt.mk 74305505313 74305538890, IV.NInt.mk 76437187106 76437221032, IV.NInt.mk 78630022505 78630057637, IV.NInt.mk 80885766116 80885802126, IV.NInt.mk 83206222225 83206259517, IV.NInt.mk 85593248408 85593286207, IV.NInt.mk 88048752893 88048792490, IV.NInt.mk 90574701953 90574742043, IV.NInt.mk 93173115556 93173156570, IV.NInt.mk 95846072451 95846114523, IV.NInt.mk 98595711012 98595755086, IV.NInt.mk 101424231833 101424276452, IV.NInt.mk 104333897407 104333943071, IV.NInt.mk 107327035386 107327082331, IV.NInt.mk 110406040550 110406089645, IV.NInt.mk 113573376845 113573427193, IV.NInt.mk 116831577592 116831629671, IV.NInt.mk 120183250291 120183303157, IV.NInt.mk 123631075134 123631130359, IV.NInt.mk 127177812329 127177868394, IV.NInt.mk 130826298415 130826355805, IV.NInt.mk 134579452563 134579510934, IV.NInt.mk 138440277077 138440337421, IV.NInt.mk 142411861471 142411923370, IV.NInt.mk 146497382376 146497446367, IV.NInt.mk 150700109885 150700175005, IV.NInt.mk 155023405567 155023472265, IV.NInt.mk 159470727686 159470796111, IV.NInt.mk 164045634934 164045705700, IV.NInt.mk 168751787568 168751859720, IV.NInt.mk 173592949516 173593025433, IV.NInt.mk 178572996303 178573073531, IV.NInt.mk 183695911065 183695990193, IV.NInt.mk 188965792241 188965873513, IV.NInt.mk 194386855793 194386939797, IV.NInt.mk 199963439698 199963525189, IV.NInt.mk 205700004713 205700093045, IV.NInt.mk 211601140841 211601231041, IV.NInt.mk 217671569117 217671661571, IV.NInt.mk 223916145994 223916240926, IV.NInt.mk 230339868357 230339965678, IV.NInt.mk 236947874270 236947974362, IV.NInt.mk 243745451486 243745554866, IV.NInt.mk 250738037714 250738143944, IV.NInt.mk 257931228052 257931336951, IV.NInt.mk 265330777360 265330888802, IV.NInt.mk 272942604043 272942720811, IV.NInt.mk 280772800620 280772919771, IV.NInt.mk 288827630550 288827752727, IV.NInt.mk 297113537354 297113663040, IV.NInt.mk 305637151820 305637279833, IV.NInt.mk 314405291537 314405423092, IV.NInt.mk 323424972665 323425107620, IV.NInt.mk 332703410313 332703549663, IV.NInt.mk 342248027407 342248172293, IV.NInt.mk 352066463097 352066611041, IV.NInt.mk 362166570685 362166722462, IV.NInt.mk 372556430699 372556586002, IV.NInt.mk 383244355626 383244514990, IV.NInt.mk 394238896824 394239059745, IV.NInt.mk 405548849820 405549018041, IV.NInt.mk 417183263029 417183435708, IV.NInt.mk 429151444824 429151624142, IV.NInt.mk 441462971104 441463155601, IV.NInt.mk 454127691925 454127880253, IV.NInt.mk 467155738574 467155932612, IV.NInt.mk 480557535867 480557733975, IV.NInt.mk 494343803705 494344006498, IV.NInt.mk 508525573021 508525782401, IV.NInt.mk 523114189487 523114404656, IV.NInt.mk 538121326272 538121547356, IV.NInt.mk 553558988420 553559214706, IV.NInt.mk 569439526861 569439759305, IV.NInt.mk 585775647916 585775886435, IV.NInt.mk 602580421055 602580666144, IV.NInt.mk 619867289477 619867541874, IV.NInt.mk 637650084796 637650344204, IV.NInt.mk 655943034537 655943301426, IV.NInt.mk 674760772762 674761048446, IV.NInt.mk 694118357278 694118639843, IV.NInt.mk 714031273113 714031563583, IV.NInt.mk 734515451475 734515749697, IV.NInt.mk 755587282748 755587587909, IV.NInt.mk 777263622983 777263936054, IV.NInt.mk 799561816141 799562138043, IV.NInt.mk 822499700024 822500031806, IV.NInt.mk 846095627511 846095970260, IV.NInt.mk 870368477533 870368829218, IV.NInt.mk 895337669621 895338029803, IV.NInt.mk 921023178344 921023548738, IV.NInt.mk 947445555286 947445936302, IV.NInt.mk 974625939482 974626330703, IV.NInt.mk 1002586077615 1002586478499, IV.NInt.mk 1031348335016 1031348748456, IV.NInt.mk 1060935729007 1060936154497, IV.NInt.mk 1091371925811 1091372362934, IV.NInt.mk 1122681280280 1122681728382], [IV.NInt.mk 0 0, IV.NInt.mk 0 0, IV.NInt.mk 0 0, IV.NInt.mk 0 0, IV.NInt.mk 0 0, IV.NInt.mk 0 0, IV.NInt.mk 0 0, IV.NInt.mk 0 0, IV.NInt.mk 0 0, IV.NInt.mk 0 0, IV.NInt.mk 0 0, IV.NInt.mk 0 0, IV.NInt.mk 0 0, IV.NInt.mk 0 0, IV.NInt.mk 0 0, IV.NInt.mk 0 0, IV.NInt.mk 0 0, IV.NInt.mk 0 0, IV.NInt.mk 0 0, IV.NInt.mk 0 0, IV.NInt.mk 0 0, IV.NInt.mk 0 0, IV.NInt.mk 0 0, IV.NInt.mk 0 0, IV.NInt.mk 0 0, IV.NInt.mk 0 0, IV.NInt.mk 0 0, IV.NInt.mk 0 0, IV.NInt.mk 0 0, IV.NInt.mk 0 0, IV.NInt.mk 0 0, IV.NInt.mk 0 0, IV.NInt.mk 0 0, IV.NInt.mk 0 0, IV.NInt.mk 0 0, IV.NInt.mk 0 0, IV.NInt.mk 0 0, IV.NInt.mk 0 0, IV.NInt.mk 0 0, IV.NInt.mk 0 0, IV.NInt.mk 0 0, IV.NInt.mk 0 0, IV.NInt.mk 0 0, IV.NInt.mk 0 0, IV.NInt.mk 0 0, IV.NInt.mk 0 0, IV.NInt.mk 0 0, IV.NInt.mk 0 0, IV.NInt.mk 0 0, IV.NInt.mk 0 0, IV.NInt.mk 0 0, IV.NInt.mk 0 0, IV.NInt.mk 0 0, IV.NInt.mk 0 0, IV.NInt.mk 0 0, IV.NInt.mk 0 0, IV.NInt.mk 0 0, IV.NInt.mk 0 0, IV.NInt.mk 0 0, IV.NInt.mk 0 0, IV.NInt.mk 0 0, IV.NInt.mk 0 0, IV.NInt.mk 0 0, IV.NInt.mk 0 0, IV.NInt.mk 0 0, IV.NInt.mk 0 0, IV.NInt.mk 0 0, IV.NInt.mk 0 0, IV.NInt.mk 0 0, IV.NInt.mk 0 0, IV.NInt.mk 0 0, IV.NInt.mk 0 2, IV.NInt.mk 4 10, IV.NInt.mk 213 225, IV.NInt.mk 3231 3250, IV.NInt.mk 31038 31063, IV.NInt.mk 216824 216860, IV.NInt.mk 1177358 1177422, IV.NInt.mk 5178502 5178651, IV.NInt.mk 18986642 18987018, IV.NInt.mk 59284933 59285862, IV.NInt.mk 160347154 160349248, IV.NInt.mk 381021620 381025850, IV.NInt.mk 805389801 805397452, IV.NInt.mk 1531761859 1531774320, IV.NInt.mk 2650023504 2650041926, IV.NInt.mk 4215522388 4215547356, IV.NInt.mk 6232373584 6232404964, IV.NInt.mk 8655254635 8655291677, IV.NInt.mk 11408302149 11408343774, IV.NInt.mk 14410453879 14410499016, IV.NInt.mk 17595157195 17595205003, IV.NInt.mk 20918424285 20918474218, IV.NInt.mk 24356833793 24356885561, IV.NInt.mk 27900935045 27900988527, IV.NInt.mk 31548810467 31548865635, IV.NInt.mk 35301850560 35301907427, IV.NInt.mk 39162658802 39162717405, IV.NInt.mk 43134241342 43134301729, IV.NInt.mk 47219762562 47219824801, IV.NInt.mk 51422489609 51422553774, IV.NInt.mk 55745784776 55745850952, IV.NInt.mk 60193106926 60193175196, IV.NInt.mk 64768014148 64768084599, IV.NInt.mk 69474166614 69474239324, IV.NInt.mk 74315329503 74315404536, IV.NInt.mk 79295376010 79295453419, IV.NInt.mk 84418290445 84418370266, IV.NInt.mk 89688171418 89688253684, IV.NInt.mk 95109235116 95109319861, IV.NInt.mk 100685818664 100685905949, IV.NInt.mk 106422383612 106422473526, IV.NInt.mk 112323519515 112323612159, IV.NInt.mk 118393947604 118394043074, IV.NInt.mk 124638524560 124638622935, IV.NInt.mk 131062246396 131062347735, IV.NInt.mk 137670252447 137670356795, IV.NInt.mk 144467829466 144467936883, IV.NInt.mk 151460415865 151460526434, IV.NInt.mk 158653606061 158653719905, IV.NInt.mk 166053154975 166053272228, IV.NInt.mk 173664982637 173665103436, IV.NInt.mk 181495178927 181495303382, IV.NInt.mk 189550008437 189550136624, IV.NInt.mk 197835915474 197836047447, IV.NInt.mk 206359529209 206359665017, IV.NInt.mk 215127668987 215127808695, IV.NInt.mk 224147349773 224147493472, IV.NInt.mk 233425787787 233425935584, IV.NInt.mk 242970406266 242970558287, IV.NInt.mk 252788841419 252788997787, IV.NInt.mk 262888948517 262889109362, IV.NInt.mk 273278808180 273278973645, IV.NInt.mk 283966732835 283966903084, IV.NInt.mk 294961273385 294961448595, IV.NInt.mk 306271226035 306271406398, IV.NInt.mk 317905639359 317905825054, IV.NInt.mk 329873821523 329874012712, IV.NInt.mk 342185347736 342185544552, IV.NInt.mk 354850067896 354850270447, IV.NInt.mk 367878114460 367878322849, IV.NInt.mk 381279910550 381280124897, IV.NInt.mk 395066178300 395066398761, IV.NInt.mk 409247947434 409248174207, IV.NInt.mk 423836564112 423836797421, IV.NInt.mk 438843700002 438843940082, IV.NInt.mk 454281361635 454281608697, IV.NInt.mk 470161899990 470162154221, IV.NInt.mk 486498020369 486498281940, IV.NInt.mk 503302792554 503303061636, IV.NInt.mk 520589661255 520589938041, IV.NInt.mk 538372456878 538372741584, IV.NInt.mk 556665406593 556665699452, IV.NInt.mk 575483145717 575483446969, IV.NInt.mk 594840729433 594841039315, IV.NInt.mk 614753644833 614753963578, IV.NInt.mk 635237823311 635238151152, IV.NInt.mk 656309653296 656309990477, IV.NInt.mk 677985993383 677986340157, IV.NInt.mk 700284185801 700284542434, IV.NInt.mk 723222070303 723222437060, IV.NInt.mk 746817998442 746818375571, IV.NInt.mk 771090848234 771091235970, IV.NInt.mk 796060039260 796060437841, IV.NInt.mk 821745548192 821745957890, IV.NInt.mk 848167924790 848168345917, IV.NInt.mk 875348308333 875348741258, IV.NInt.mk 903308444552 903308889685, IV.NInt.mk 932070703039 932071160816, IV.NInt.mk 961658095145 961658565998, IV.NInt.mk 992094292385 992094776736, IV.NInt.mk 1023403645363 1023404143625]) = ([IV.NInt.mk 10406474658 10406479881, IV.NInt.mk 10705016175 10705022019, IV.NInt.mk 11012122501 11012128275, IV.NInt.mk 11328039028 11328044907, IV.NInt.mk 11653018650 11653024645, IV.NInt.mk 11987321254 11987327548, IV.NInt.mk 12331214435 12331220666, IV.NInt.mk 12684973021 12684979570, IV.NInt.mk 13048880553 13048887029, IV.NInt.mk 13423227417 13423234825, IV.NInt.mk 13808313998 13808321332, IV.NInt.mk 14204447954 14204455213, IV.NInt.mk 14611946195 14611953602, IV.NInt.mk 15031134623 15031142379, IV.NInt.mk 15462348906 15462356817, IV.NInt.mk 15905933755 15905942043, IV.NInt.mk 16362244445 16362252681, IV.NInt.mk 16831645372 16831654427, IV.NInt.mk 17314512914 17314521920, IV.NInt.mk 17811232706 17811242125, IV.NInt.mk 18322202799 18322212183, IV.NInt.mk 18847831480 18847841049, IV.NInt.mk 19388539402 19388549159, IV.NInt.mk 19944759015 19944769210, IV.NInt.mk 20516935851 20516946025, IV.NInt.mk 21105527201 21105537845, IV.NInt.mk 21711004092 21711014949, IV.NInt.mk 22333850770 22333862086, IV.NInt.mk 22974565977 22974577274, IV.NInt.mk 23633661897 23633673425, IV.NInt.mk 24311666061 24311677830, IV.NInt.mk 25009120724 25009133012, IV.NInt.mk 25726584323 25726596565, IV.NInt.mk 26464630055 26464643119, IV.NInt.mk 27223849265 27223862612, IV.NInt.mk 28004848721 28004862631, IV.NInt.mk 28808254012 28808267922, IV.NInt.mk 29634707282 29634721768, IV.NInt.mk 30484869943 30484884435, IV.NInt.mk 31359421888 31359436986, IV.NInt.mk 32259063315 32259078456, IV.NInt.mk 33184513026 33184530058, IV.NInt.mk 34136512809 34136529887, IV.NInt.mk 35115823194 35115840949, IV.NInt.mk 36123228627 36123246444, IV.NInt.mk 37159534058 37159552583, IV.NInt.mk 38225569637 38225588228, IV.NInt.mk 39322187584 39322206577, IV.NInt.mk 40450265316 40450284713, IV.NInt.mk 41610705289 41610725433, IV.NInt.mk 42804436250 42804456475, IV.NInt.mk 44032412685 44032433708, IV.NInt.mk 45295617909 45295639067, IV.NInt.mk 46595061768 46595083763, IV.NInt.mk 47931784082 47931806559, IV.NInt.mk 49306854267 49306877619, IV.NInt.mk 50721373020 50721396540, IV.NInt.mk 52176470357 52176495985, IV.NInt.mk 53673312845 53673338638, IV.NInt.mk 55213096506 55213123265, IV.NInt.mk 56797053879 56797080833, IV.NInt.mk 58426451914 58426479458, IV.NInt.mk 60102593982 60102622177, IV.NInt.mk 61826821245 61826850476, IV.NInt.mk 63600513596 63600543133, IV.NInt.mk 65425089229 65425119873, IV.NInt.mk 67302008993 67302039873, IV.NInt.mk 69232773637 69232805662, IV.NInt.mk 71218928643 71218961000, IV.NInt.mk 73262062075 73262095623, IV.NInt.mk 75363809144 75363843482, IV.NInt.mk 77525851634 77525886744, IV.NInt.mk 79749918605 79749954655, IV.NInt.mk 82037789331 82037827199, IV.NInt.mk 84391295060 84391333833, IV.NInt.mk 86812318422 86812358604, IV.NInt.mk 89302796588 89302837207, IV.NInt.mk 91864721496 91864763553, IV.NInt.mk 94500143084 94500186191, IV.NInt.mk 97211169324 97211213959, IV.NInt.mk 99999970452 100000015710, IV.NInt.mk 102868775886 102868823273, IV.NInt.mk 105819882848 105819930845, IV.NInt.mk 108855651304 108855700413, IV.NInt.mk 111978509887 111978560269, IV.NInt.mk 115190956897 115191009650, IV.NInt.mk 118495563322 118495616748, IV.NInt.mk 121894972468 121895027151, IV.NInt.mk 125391903766 125391959985, IV.NInt.mk 128989155083 128989213854, IV.NInt.mk 132689605081 132689665355, IV.NInt.mk 136496213482 136496275819, IV.NInt.mk 140412026669 140412089969, IV.NInt.mk 144440175955 144440242054, IV.NInt.mk 148583886136 148583953258, IV.NInt.mk 152846471181 152846539903, IV.NInt.mk 157231341614 157231411525, IV.NInt.mk 161742005062 161742077331, IV.NInt.mk 166382071066 166382145202, IV.NInt.mk 171155250933 171155327562, IV.NInt.mk 176065365157 176065443160, IV.NInt.mk 181116341123 181116421024, IV.NInt.mk 186312219172 186312301146, IV.NInt.mk 191657156983 191657241749, IV.NInt.mk 197155430889 197155517336, IV.NInt.mk 202811438354 202811529259, IV.NInt.mk 208629707210 208629799711, IV.NInt.mk 214614891023 214614985809, IV.NInt.mk 220771778063 220771875419, IV.NInt.mk 227105293910 227105394528, IV.NInt.mk 233620506685 233620609113, IV.NInt.mk 240322627971 240322733790, IV.NInt.mk 247217020339 247217128413, IV.NInt.mk 254309199447 254309310233, IV.NInt.mk 261604839172 261604952933, IV.NInt.mk 269109777451 269109894085, IV.NInt.mk 276830017172 276830137126, IV.NInt.mk 284771736099 284771859979, IV.NInt.mk 292941287194 292941414493, IV.NInt.mk 301345207301 301345337810, IV.NInt.mk 309990219914 309990353487, IV.NInt.mk 318883239604 318883379497, IV.NInt.mk 328031384359 328031527135, IV.NInt.mk 337441971876 337442118289, IV.NInt.mk 347122530226 347122680845, IV.NInt.mk 357080806267 357080959710, IV.NInt.mk 367324765094 367324922789, IV.NInt.mk 377862603806 377862765584, IV.NInt.mk 388702751924 388702918954, IV.NInt.mk 399853881773 399854055394, IV.NInt.mk 411324918301 411325095619, IV.NInt.mk 423125036644 423125218566, IV.NInt.mk 435263677409 435263863586, IV.NInt.mk 447750552215 447750743269, IV.NInt.mk 460595651744 460595847094, IV.NInt.mk 473809251957 473809453645, IV.NInt.mk 487401924265 487402131308, IV.NInt.mk 501384543785 501384758732, IV.NInt.mk 515768298194 515768519351, IV.NInt.mk 530564695476 530564921267, IV.NInt.mk 545785572170 545785804800, IV.NInt.mk 561443107763 561443345315, IV.NInt.mk 577549826485 577550069688, IV.NInt.mk 594118615950 594118867029, IV.NInt.mk 611162731496 611162989520, IV.NInt.mk 628695811067 628696076192, IV.NInt.mk 646731880353 646732151754, IV.NInt.mk 665285369145 665285647941, IV.NInt.mk 684371122442 684371408541, IV.NInt.mk 704004409514 704004703501, IV.NInt.mk 724200936269 724201239015, IV.NInt.mk 744976862404 744977173564, IV.NInt.mk 766348810164 766349130299, IV.NInt.mk 788333876764 788334207410, IV.NInt.mk 810949654476 810949993406, IV.NInt.mk 834214234709 834214583131, IV.NInt.mk 858146230157 858146587893, IV.NInt.mk 882764789961 882765156073, IV.NInt.mk 908089607321 908089982948, IV.NInt.mk 934140945465 934141331692, IV.NInt.mk 960939644583 960940042643], [IV.NInt.mk 0 0, IV.NInt.mk 0 0, IV.NInt.mk 0 0, IV.NInt.mk 0 0, IV.NInt.mk 0 0, IV.NInt.mk 0 0, IV.NInt.mk 0 0, IV.NInt.mk 0 0, IV.NInt.mk 0 0, IV.NInt.mk 0 0, IV.NInt.mk 0 0, IV.NInt.mk 0 0, IV.NInt.mk 0 0, IV.NInt.mk 0 0, IV.NInt.mk 0 0, IV.NInt.mk 0 0, IV.NInt.mk 0 0, IV.NInt.mk 0 0, IV.NInt.mk 0 0, IV.NInt.mk 0 0, IV.NInt.mk 0 0, IV.NInt.mk 0 0, IV.NInt.mk 0 0, IV.NInt.mk 0 0, IV.NInt.mk 0 0, IV.NInt.mk 0 0, IV.NInt.mk 0 0, IV.NInt.mk 0 0, IV.NInt.mk 0 0, IV.NInt.mk 0 0, IV.NInt.mk 0 0, IV.NInt.mk 0 0, IV.NInt.mk 0 0, IV.NInt.mk 0 0, IV.NInt.mk 0 0, IV.NInt.mk 0 0, IV.NInt.mk 0 0, IV.NInt.mk 0 0, IV.NInt.mk 0 0, IV.NInt.mk 0 0, IV.NInt.mk 0 0, IV.NInt.mk 0 0, IV.NInt.mk 0 0, IV.NInt.mk 0 0, IV.NInt.mk 0 0, IV.NInt.mk 0 0, IV.NInt.mk 0 0, IV.NInt.mk 0 0, IV.NInt.mk 0 0, IV.NInt.mk 0 0, IV.NInt.mk 0 0, IV.NInt.mk 0 0, IV.NInt.mk 0 0, IV.NInt.mk 0 0, IV.NInt.mk 0 0, IV.NInt.mk 0 0, IV.NInt.mk 0 0, IV.NInt.mk 0 0, IV.NInt.mk 0 0, IV.NInt.mk 0 0, IV.NInt.mk 0 2, IV.NInt.mk 0 4, IV.NInt.mk 0 6, IV.NInt.mk 0 10, IV.NInt.mk 33 51, IV.NInt.mk 399 427, IV.NInt.mk 3110 3144, IV.NInt.mk 19212 19255, IV.NInt.mk 99092 99142, IV.NInt.mk 436947 437011, IV.NInt.mk 1674515 1674607, IV.NInt.mk 5648723 5648883, IV.NInt.mk 16949027 16949346, IV.NInt.mk 45636812 45637484, IV.NInt.mk 111127768 111129136, IV.NInt.mk 246431122 246433746, IV.NInt.mk 500895615 500900287, IV.NInt.mk 939003078 939010779, IV.NInt.mk 1633407256 1633419034, IV.NInt.mk 2652625152 2652641934, IV.NInt.mk 4046704673 4046727078, IV.NInt.mk 5836062507 5836090718, IV.NInt.mk 8008016748 8008050502, IV.NInt.mk 10522365206 10522403893, IV.NInt.mk 13323440891 13323483737, IV.NInt.mk 16353688129 16353734368, IV.NInt.mk 19564108989 19564157990, IV.NInt.mk 22919294663 22919345979, IV.NInt.mk 26397468187 26397521546, IV.NInt.mk 29987575480 29987630747, IV.NInt.mk 33685598758 33685655887, IV.NInt.mk 37491478301 37491537300, IV.NInt.mk 41407099252 41407160159, IV.NInt.mk 45435205469 45435268341, IV.NInt.mk 49578906742 49578971650, IV.NInt.mk 53841490150 53841557170, IV.NInt.mk 58226360070 58226429287, IV.NInt.mk 62737023601 62737095098, IV.NInt.mk 67377089370 67377163228, IV.NInt.mk 72150269662 72150345952, IV.NInt.mk 77060383281 77060462066, IV.NInt.mk 82111358583 82111439916, IV.NInt.mk 87307236623 87307320553, IV.NInt.mk 92652174377 92652260955, IV.NInt.mk 98150448077 98150537368, IV.NInt.mk 103806456629 103806548708, IV.NInt.mk 109624725141 109624820094, IV.NInt.mk 115609908540 115610006455, IV.NInt.mk 121766795296 121766896260, IV.NInt.mk 128100311261 128100415349, IV.NInt.mk 134615523589 134615630877, IV.NInt.mk 141317644804 141317755368, IV.NInt.mk 148212036951 148212150878, IV.NInt.mk 155304215903 155304333300, IV.NInt.mk 162599855773 162599976758, IV.NInt.mk 170104793454 170104918151, IV.NInt.mk 177825033302 177825161820, IV.NInt.mk 185766751924 185766884366, IV.NInt.mk 193936303129 193936439580, IV.NInt.mk 202340222998 202340363534, IV.NInt.mk 210985235117 210985379818, IV.NInt.mk 219878255951 219878404907, IV.NInt.mk 229026400390 229026553707, IV.NInt.mk 238436987431 238437145228, IV.NInt.mk 248117546042 248117708447, IV.NInt.mk 258075821182 258075988337, IV.NInt.mk 268319779999 268319952057, IV.NInt.mk 278857618201 278857795323, IV.NInt.mk 289697766614 289697948974, IV.NInt.mk 300848897928 300849085709, IV.NInt.mk 312319933648 312320127030, IV.NInt.mk 324120051220 324120250374, IV.NInt.mk 336258691381 336258896465, IV.NInt.mk 348745565704 348745776858, IV.NInt.mk 361590664360 361590881722, IV.NInt.mk 374804264112 374804487828, IV.NInt.mk 388396936538 388397166770, IV.NInt.mk 402379556485 402379793421, IV.NInt.mk 416763310789 416763554637, IV.NInt.mk 431559707216 431559958197, IV.NInt.mk 446780583681 446780842013, IV.NInt.mk 462438117711 462438383608, IV.NInt.mk 478544836181 478545109848, IV.NInt.mk 495113625340 495113906980, IV.NInt.mk 512157741108 512158030929, IV.NInt.mk 529690819681 529691117907, IV.NInt.mk 547726888451 547727195313, IV.NInt.mk 566280377222 566280692966, IV.NInt.mk 585366129764 585366454639, IV.NInt.mk 604999415687 604999749946, IV.NInt.mk 625195942660 625196286560, IV.NInt.mk 645971868982 645972222783, IV.NInt.mk 667343816501 667344180473, IV.NInt.mk 689328883921 689329258336, IV.NInt.mk 711944660475 711945045607, IV.NInt.mk 735209240001 735209636127, IV.NInt.mk 759141235414 759141642805, IV.NInt.mk 783759793588 783760212526, IV.NInt.mk 809084610682 809085041465, IV.NInt.mk 835135947890 835136390847, IV.NInt.mk 861934647654 861935103150]) := by decide

set_option maxRecDepth 100000 in
set_option maxHeartbeats 1000000 in
/-- Chunk 5 of the kernel evaluation of the C9 call lattice (12 steps). -/
theorem IV.callChunk5 : IV.loopG IV.uI9 IV.pI9 IV.qI9 IV.discI9 true IV.KSc9 12 ([IV.NInt.mk 10406474658 10406479881, IV.NInt.mk 10705016175 10705022019, IV.NInt.mk 11012122501 11012128275, IV.NInt.mk 11328039028 11328044907, IV.NInt.mk 11653018650 11653024645, IV.NInt.mk 11987321254 11987327548, IV.NInt.mk 12331214435 12331220666, IV.NInt.mk 12684973021 12684979570, IV.NInt.mk 13048880553 13048887029, IV.NInt.mk 13423227417 13423234825, IV.NInt.mk 13808313998 13808321332, IV.NInt.mk 14204447954 14204455213, IV.NInt.mk 14611946195 14611953602, IV.NInt.mk 15031134623 15031142379, IV.NInt.mk 15462348906 15462356817, IV.NInt.mk 15905933755 15905942043, IV.NInt.mk 16362244445 16362252681, IV.NInt.mk 16831645372 16831654427, IV.NInt.mk 17314512914 17314521920, IV.NInt.mk 17811232706 17811242125, IV.NInt.mk 18322202799 18322212183, IV.NInt.mk 18847831480 18847841049, IV.NInt.mk 19388539402 19388549159, IV.NInt.mk 19944759015 19944769210, IV.NInt.mk 20516935851 20516946025, IV.NInt.mk 21105527201 21105537845, IV.NInt.mk 21711004092 21711014949, IV.NInt.mk 22333850770 22333862086, IV.NInt.mk 22974565977 22974577274, IV.NInt.mk 23633661897 23633673425, IV.NInt.mk 24311666061 24311677830, IV.NInt.mk 25009120724 25009133012, IV.NInt.mk 25726584323 25726596565, IV.NInt.mk 26464630055 26464643119, IV.NInt.mk 27223849265 27223862612, IV.NInt.mk 28004848721 28004862631, IV.NInt.mk 28808254012 28808267922, IV.NInt.mk 29634707282 29634721768, IV.NInt.mk 30484869943 30484884435, IV.NInt.mk 31359421888 31359436986, IV.NInt.mk 32259063315 32259078456, IV.NInt.mk 33184513026 33184530058, IV.NInt.mk 34136512809 34136529887, IV.NInt.mk 35115823194 35115840949, IV.NInt.mk 36123228627 36123246444, IV.NInt.mk 37159534058 37159552583, IV.NInt.mk 38225569637 38225588228, IV.NInt.mk 39322187584 39322206577, IV.NInt.mk 40450265316 40450284713, IV.NInt.mk 41610705289 41610725433, IV.NInt.mk 42804436250 42804456475, IV.NInt.mk 44032412685 44032433708, IV.NInt.mk 45295617909 45295639067, IV.NInt.mk 46595061768 46595083763, IV.NInt.mk 47931784082 47931806559, IV.NInt.mk 49306854267 49306877619, IV.NInt.mk 50721373020 50721396540, IV.NInt.mk 52176470357 52176495985, IV.NInt.mk 53673312845 53673338638, IV.NInt.mk 55213096506 55213123265, IV.NInt.mk 56797053879 56797080833, IV.NInt.mk 58426451914 58426479458, IV.NInt.mk 60102593982 60102622177, IV.NInt.mk 61826821245 61826850476, IV.NInt.mk 63600513596 63600543133, IV.NInt.mk 65425089229 65425119873, IV.NInt.mk 67302008993 67302039873, IV.NInt.mk 69232773637 69232805662, IV.NInt.mk 71218928643 71218961000, IV.NInt.mk 73262062075 73262095623, IV.NInt.mk 75363809144 75363843482, IV.NInt.mk 77525851634 77525886744, IV.NInt.mk 79749918605 79749954655, IV.NInt.mk 82037789331 82037827199, IV.NInt.mk 84391295060 84391333833, IV.NInt.mk 86812318422 86812358604, IV.NInt.mk 89302796588 89302837207, IV.NInt.mk 91864721496 91864763553, IV.NInt.mk 94500143084 94500186191, IV.NInt.mk 97211169324 97211213959, IV.NInt.mk 99999970452 100000015710, IV.NInt.mk 102868775886 102868823273, IV.NInt.mk 105819882848 105819930845, IV.NInt.mk 108855651304 108855700413, IV.NInt.mk 111978509887 111978560269, IV.NInt.mk 115190956897 115191009650, IV.NInt.mk 118495563322 118495616748, IV.NInt.mk 121894972468 121895027151, IV.NInt.mk 125391903766 125391959985, IV.NInt.mk 128989155083 128989213854, IV.NInt.mk 132689605081 132689665355, IV.NInt.mk 136496213482 136496275819, IV.NInt.mk 140412026669 140412089969, IV.NInt.mk 144440175955 144440242054, IV.NInt.mk 148583886136 148583953258, IV.NInt.mk 152846471181 152846539903, IV.NInt.mk 157231341614 157231411525, IV.NInt.mk 161742005062 161742077331, IV.NInt.mk 166382071066 166382145202, IV.NInt.mk 171155250933 171155327562, IV.NInt.mk 176065365157 176065443160, IV.NInt.mk 181116341123 181116421024, IV.NInt.mk 186312219172 186312301146, IV.NInt.mk 191657156983 191657241749, IV.NInt.mk 197155430889 197155517336, IV.NInt.mk 202811438354 202811529259, IV.NInt.mk 208629707210 208629799711, IV.NInt.mk 214614891023 214614985809, IV.NInt.mk 220771778063 220771875419, IV.NInt.mk 227105293910 227105394528, IV.NInt.mk 233620506685 233620609113, IV.NInt.mk 240322627971 240322733790, IV.NInt.mk 247217020339 247217128413, IV.NInt.mk 254309199447 254309310233, IV.NInt.mk 261604839172 261604952933, IV.NInt.mk 269109777451 269109894085, IV.NInt.mk 276830017172 276830137126, IV.NInt.mk 284771736099 284771859979, IV.NInt.mk 292941287194 292941414493, IV.NInt.mk 301345207301 301345337810, IV.NInt.mk 309990219914 309990353487, IV.NInt.mk 318883239604 318883379497, IV.NInt.mk 328031384359 328031527135, IV.NInt.mk 337441971876 337442118289, IV.NInt.mk 347122530226 347122680845, IV.NInt.mk 357080806267 357080959710, IV.NInt.mk 367324765094 367324922789, IV.NInt.mk 377862603806 377862765584, IV.NInt.mk 388702751924 388702918954, IV.NInt.mk 399853881773 399854055394, IV.NInt.mk 411324918301 411325095619, IV.NInt.mk 423125036644 423125218566, IV.NInt.mk 435263677409 435263863586, IV.NInt.mk 447750552215 447750743269, IV.NInt.mk 460595651744 460595847094, IV.NInt.mk 473809251957 473809453645, IV.NInt.mk 487401924265 487402131308, IV.NInt.mk 501384543785 501384758732, IV.NInt.mk 515768298194 515768519351, IV.NInt.mk 530564695476 530564921267, IV.NInt.mk 545785572170 545785804800, IV.NInt.mk 561443107763 561443345315, IV.NInt.mk 577549826485 577550069688, IV.NInt.mk 594118615950 594118867029, IV.NInt.mk 611162731496 611162989520, IV.NInt.mk 628695811067 628696076192, IV.NInt.mk 646731880353 646732151754, IV.NInt.mk 665285369145 665285647941, IV.NInt.mk 684371122442 684371408541, IV.NInt.mk 704004409514 704004703501, IV.NInt.mk 724200936269 724201239015, IV.NInt.mk 744976862404 744977173564, IV.NInt.mk 766348810164 766349130299, IV.NInt.mk 788333876764 788334207410, IV.NInt.mk 810949654476 810949993406, IV.NInt.mk 834214234709 834214583131, IV.NInt.mk 858146230157 858146587893, IV.NInt.mk 882764789961 882765156073, IV.NInt.mk 908089607321 908089982948, IV.NInt.mk 934140945465 934141331692, IV.NInt.mk 960939644583 960940042643], [IV.NInt.mk 0 0, IV.NInt.mk 0 0, IV.NInt.mk 0 0, IV.NInt.mk 0 0, IV.NInt.mk 0 0, IV.NInt.mk 0 0, IV.NInt.mk 0 0, IV.NInt.mk 0 0, IV.NInt.mk 0 0, IV.NInt.mk 0 0, IV.NInt.mk 0 0, IV.NInt.mk 0 0, IV.NInt.mk 0 0, IV.NInt.mk 0 0, IV.NInt.mk 0 0, IV.NInt.mk 0 0, IV.NInt.mk 0 0, IV.NInt.mk 0 0, IV.NInt.mk 0 0, IV.NInt.mk 0 0, IV.NInt.mk 0 0, IV.NInt.mk 0 0, IV.NInt.mk 0 0, IV.NInt.mk 0 0, IV.NInt.mk 0 0, IV.NInt.mk 0 0, IV.NInt.mk 0 0, IV.NInt.mk 0 0, IV.NInt.mk 0 0, IV.NInt.mk 0 0, IV.NInt.mk 0 0, IV.NInt.mk 0 0, IV.NInt.mk 0 0, IV.NInt.mk 0 0, IV.NInt.mk 0 0, IV.NInt.mk 0 0, IV.NInt.mk 0 0, IV.NInt.mk 0 0, IV.NInt.mk 0 0, IV.NInt.mk 0 0, IV.NInt.mk 0 0, IV.NInt.mk 0 0, IV.NInt.mk 0 0, IV.NInt.mk 0 0, IV.NInt.mk 0 0, IV.NInt.mk 0 0, IV.NInt.mk 0 0, IV.NInt.mk 0 0, IV.NInt.mk 0 0, IV.NInt.mk 0 0, IV.NInt.mk 0 0, IV.NInt.mk 0 0, IV.NInt.mk 0 0, IV.NInt.mk 0 0, IV.NInt.mk 0 0, IV.NInt.mk 0 0, IV.NInt.mk 0 0, IV.NInt.mk 0 0, IV.NInt.mk 0 0, IV.NInt.mk 0 0, IV.NInt.mk 0 2, IV.NInt.mk 0 4, IV.NInt.mk 0 6, IV.NInt.mk 0 10, IV.NInt.mk 33 51, IV.NInt.mk 399 427, IV.NInt.mk 3110 3144, IV.NInt.mk 19212 19255, IV.NInt.mk 99092 99142, IV.NInt.mk 436947 437011, IV.NInt.mk 1674515 1674607, IV.NInt.mk 5648723 5648883, IV.NInt.mk 16949027 16949346, IV.NInt.mk 45636812 45637484, IV.NInt.mk 111127768 111129136, IV.NInt.mk 246431122 246433746, IV.NInt.mk 500895615 500900287, IV.NInt.mk 939003078 939010779, IV.NInt.mk 1633407256 1633419034, IV.NInt.mk 2652625152 2652641934, IV.NInt.mk 4046704673 4046727078, IV.NInt.mk 5836062507 5836090718, IV.NInt.mk 8008016748 8008050502, IV.NInt.mk 10522365206 10522403893, IV.NInt.mk 13323440891 13323483737, IV.NInt.mk 16353688129 16353734368, IV.NInt.mk 19564108989 19564157990, IV.NInt.mk 22919294663 22919345979, IV.NInt.mk 26397468187 26397521546, IV.NInt.mk 29987575480 29987630747, IV.NInt.mk 33685598758 33685655887, IV.NInt.mk 37491478301 37491537300, IV.NInt.mk 41407099252 41407160159, IV.NInt.mk 45435205469 45435268341, IV.NInt.mk 49578906742 49578971650, IV.NInt.mk 53841490150 53841557170, IV.NInt.mk 58226360070 58226429287, IV.NInt.mk 62737023601 62737095098, IV.NInt.mk 67377089370 67377163228, IV.NInt.mk 72150269662 72150345952, IV.NInt.mk 77060383281 77060462066, IV.NInt.mk 82111358583 82111439916, IV.NInt.mk 87307236623 87307320553, IV.NInt.mk 92652174377 92652260955, IV.NInt.mk 98150448077 98150537368, IV.NInt.mk 103806456629 103806548708, IV.NInt.mk 109624725141 109624820094, IV.NInt.mk 115609908540 115610006455, IV.NInt.mk 121766795296 121766896260, IV.NInt.mk 128100311261 128100415349, IV.NInt.mk 134615523589 134615630877, IV.NInt.mk 141317644804 141317755368, IV.NInt.mk 148212036951 148212150878, IV.NInt.mk 155304215903 155304333300, IV.NInt.mk 162599855773 162599976758, IV.NInt.mk 170104793454 170104918151, IV.NInt.mk 177825033302 177825161820, IV.NInt.mk 185766751924 185766884366, IV.NInt.mk 193936303129 193936439580, IV.NInt.mk 202340222998 202340363534, IV.NInt.mk 210985235117 210985379818, IV.NInt.mk 219878255951 219878404907, IV.NInt.mk 229026400390 229026553707, IV.NInt.mk 238436987431 238437145228, IV.NInt.mk 248117546042 248117708447, IV.NInt.mk 258075821182 258075988337, IV.NInt.mk 268319779999 268319952057, IV.NInt.mk 278857618201 278857795323, IV.NInt.mk 289697766614 289697948974, IV.NInt.mk 300848897928 300849085709, IV.NInt.mk 312319933648 312320127030, IV.NInt.mk 324120051220 324120250374, IV.NInt.mk 336258691381 336258896465, IV.NInt.mk 348745565704 348745776858, IV.NInt.mk 361590664360 361590881722, IV.NInt.mk 374804264112 374804487828, IV.NInt.mk 388396936538 388397166770, IV.NInt.mk 402379556485 402379793421, IV.NInt.mk 416763310789 416763554637, IV.NInt.mk 431559707216 431559958197, IV.NInt.mk 446780583681 446780842013, IV.NInt.mk 462438117711 462438383608, IV.NInt.mk 478544836181 478545109848, IV.NInt.mk 495113625340 495113906980, IV.NInt.mk 512157741108 512158030929, IV.NInt.mk 529690819681 529691117907, IV.NInt.mk 547726888451 547727195313, IV.NInt.mk 566280377222 566280692966, IV.NInt.mk 585366129764 585366454639, IV.NInt.mk 604999415687 604999749946, IV.NInt.mk 625195942660 625196286560, IV.NInt.mk 645971868982 645972222783, IV.NInt.mk 667343816501 667344180473, IV.NInt.mk 689328883921 689329258336, IV.NInt.mk 711944660475 711945045607, IV.NInt.mk 735209240001 735209636127, IV.NInt.mk 759141235414 759141642805, IV.NInt.mk 783759793588 783760212526, IV.NInt.mk 809084610682 809085041465, IV.NInt.mk 835135947890 835136390847, IV.NInt.mk 861934647654 861935103150]) = ([IV.NInt.mk 12331214283 12331220633, IV.NInt.mk 12684972838 12684979924, IV.NInt.mk 13048880313 13048887321, IV.NInt.mk 13423227489 13423234625, IV.NInt.mk 13808314032 13808321311, IV.NInt.mk 14204447898 14204455537, IV.NInt.mk 14611946178 14611953746, IV.NInt.mk 15031134527 15031142478, IV.NInt.mk 15462348929 15462356800, IV.NInt.mk 15905933482 15905942459, IV.NInt.mk 16362244125 16362253021, IV.NInt.mk 16831645422 16831654234, IV.NInt.mk 17314512895 17314521890, IV.NInt.mk 17811232726 17811242139, IV.NInt.mk 18322202665 18322212271, IV.NInt.mk 18847831181 18847841241, IV.NInt.mk 19388539259 19388549259, IV.NInt.mk 19944758691 19944769670, IV.NInt.mk 20516935468 20516946395, IV.NInt.mk 21105526553 21105537975, IV.NInt.mk 21711003615 21711015005, IV.NInt.mk 22333850461 22333862075, IV.NInt.mk 22974565543 22974577386, IV.NInt.mk 23633661294 23633673665, IV.NInt.mk 24311665649 24311678007, IV.NInt.mk 25009120487 25009133408, IV.NInt.mk 25726583944 25726597125, IV.NInt.mk 26464629832 26464643570, IV.NInt.mk 27223849144 27223862866, IV.NInt.mk 28004848790 28004862795, IV.NInt.mk 28808253873 28808268173, IV.NInt.mk 29634706941 29634721866, IV.NInt.mk 30484869717 30484884599, IV.NInt.mk 31359421414 31359437280, IV.NInt.mk 32259062752 32259078962, IV.NInt.mk 33184512721 33184529609, IV.NInt.mk 34136512620 34136529519, IV.NInt.mk 35115823358 35115840949, IV.NInt.mk 36123228679 36123246290, IV.NInt.mk 37159534230 37159552572, IV.NInt.mk 38225569709 38225588115, IV.NInt.mk 39322186872 39322207531, IV.NInt.mk 40450264699 40450285429, IV.NInt.mk 41610704389 41610725932, IV.NInt.mk 42804435472 42804457104, IV.NInt.mk 44032411783 44032434267, IV.NInt.mk 45295617006 45295639585, IV.NInt.mk 46595060991 46595084063, IV.NInt.mk 47931783435 47931807001, IV.NInt.mk 49306853711 49306878179, IV.NInt.mk 50721372342 50721396923, IV.NInt.mk 52176470352 52176495894, IV.NInt.mk 53673312927 53673338646, IV.NInt.mk 55213096687 55213123416, IV.NInt.mk 56797053777 56797081095, IV.NInt.mk 58426451404 58426479778, IV.NInt.mk 60102593847 60102622439, IV.NInt.mk 61826820125 61826851238, IV.NInt.mk 63600512568 63600543897, IV.NInt.mk 65425088416 65425120909, IV.NInt.mk 67302008163 67302040912, IV.NInt.mk 69232773094 69232806566, IV.NInt.mk 71218927646 71218961913, IV.NInt.mk 73262061039 73262096556, IV.NInt.mk 75363808380 75363844288, IV.NInt.mk 77525850174 77525887416, IV.NInt.mk 79749917455 79749955005, IV.NInt.mk 82037788552 82037827484, IV.NInt.mk 84391294785 84391334140, IV.NInt.mk 86812317947 86812358741, IV.NInt.mk 89302795689 89302837447, IV.NInt.mk 91864720847 91864763553, IV.NInt.mk 94500142285 94500186135, IV.NInt.mk 97211168365 97211214402, IV.NInt.mk 99999969034 100000016173, IV.NInt.mk 102868775124 102868823967, IV.NInt.mk 105819882100 105819931495, IV.NInt.mk 108855650316 108855701456, IV.NInt.mk 111978508866 111978561284, IV.NInt.mk 115190955599 115191009866, IV.NInt.mk 118495562151 118495617193, IV.NInt.mk 121894970281 121895027887, IV.NInt.mk 125391902099 125391960469, IV.NInt.mk 128989154059 128989213791, IV.NInt.mk 132689603985 132689665271, IV.NInt.mk 136496212252 136496276392, IV.NInt.mk 140412025371 140412090352, IV.NInt.mk 144440175538 144440242057, IV.NInt.mk 148583885161 148583953550, IV.NInt.mk 152846469592 152846541056, IV.NInt.mk 157231339917 157231413210, IV.NInt.mk 161742003273 161742079064, IV.NInt.mk 166382069493 166382146483, IV.NInt.mk 171155249045 171155329405, IV.NInt.mk 176065363169 176065444799, IV.NInt.mk 181116338771 181116422359, IV.NInt.mk 186312217174 186312302234, IV.NInt.mk 191657154765 191657242680, IV.NInt.mk 197155428686 197155518879, IV.NInt.mk 202811436676 202811529888, IV.NInt.mk 208629705845 208629800755, IV.NInt.mk 214614889978 214614987210, IV.NInt.mk 220771776701 220771876461, IV.NInt.mk 227105292678 227105395824, IV.NInt.mk 233620505176 233620610390, IV.NInt.mk 240322624997 240322735573, IV.NInt.mk 247217017424 247217129974, IV.NInt.mk 254309196726 254309312067, IV.NInt.mk 261604836790 261604955260, IV.NInt.mk 269109774215 269109896642, IV.NInt.mk 276830014499 276830139159, IV.NInt.mk 284771733140 284771861916, IV.NInt.mk 292941284548 292941416091, IV.NInt.mk 301345204537 301345339389, IV.NInt.mk 309990216394 309990354875, IV.NInt.mk 318883237824 318883379816, IV.NInt.mk 328031381986 328031528020, IV.NInt.mk 337441969253 337442120049, IV.NInt.mk 347122527609 347122682572, IV.NInt.mk 357080802927 357080961810, IV.NInt.mk 367324762248 367324924884, IV.NInt.mk 377862599033 377862769283, IV.NInt.mk 388702747793 388702921589, IV.NInt.mk 399853879669 399854057905, IV.NInt.mk 411324915093 411325098451, IV.NInt.mk 423125033754 423125220597, IV.NInt.mk 435263673942 435263865966, IV.NInt.mk 447750548853 447750745864, IV.NInt.mk 460595647100 460595850486, IV.NInt.mk 473809245007 473809456360, IV.NInt.mk 487401918241 487402134133, IV.NInt.mk 501384538937 501384760452, IV.NInt.mk 515768293799 515768520527, IV.NInt.mk 530564690667 530564923349, IV.NInt.mk 545785568064 545785806016, IV.NInt.mk 561443102544 561443348191, IV.NInt.mk 577549820766 577550072949, IV.NInt.mk 594118609266 594118871011, IV.NInt.mk 611162724950 611162994254, IV.NInt.mk 628695804267 628696079271, IV.NInt.mk 646731872998 646732156320, IV.NInt.mk 665285363303 665285652674, IV.NInt.mk 684371115837 684371412132, IV.NInt.mk 704004401858 704004707718, IV.NInt.mk 724200928354 724201242687, IV.NInt.mk 744976855696 744977178683, IV.NInt.mk 766348803702 766349134380, IV.NInt.mk 788333871042 788334210743, IV.NInt.mk 810949648386 810949997007], [IV.NInt.mk 0 0, IV.NInt.mk 0 0, IV.NInt.mk 0 0, IV.NInt.mk 0 0, IV.NInt.mk 0 0, IV.NInt.mk 0 0, IV.NInt.mk 0 0, IV.NInt.mk 0 0, IV.NInt.mk 0 0, IV.NInt.mk 0 0, IV.NInt.mk 0 0, IV.NInt.mk 0 0, IV.NInt.mk 0 0, IV.NInt.mk 0 0, IV.NInt.mk 0 0, IV.NInt.mk 0 0, IV.NInt.mk 0 0, IV.NInt.mk 0 0, IV.NInt.mk 0 0, IV.NInt.mk 0 0, IV.NInt.mk 0 0, IV.NInt.mk 0 0, IV.NInt.mk 0 0, IV.NInt.mk 0 0, IV.NInt.mk 0 0, IV.NInt.mk 0 0, IV.NInt.mk 0 0, IV.NInt.mk 0 0, IV.NInt.mk 0 0, IV.NInt.mk 0 0, IV.NInt.mk 0 0, IV.NInt.mk 0 0, IV.NInt.mk 0 0, IV.NInt.mk 0 0, IV.NInt.mk 0 0, IV.NInt.mk 0 0, IV.NInt.mk 0 0, IV.NInt.mk 0 0, IV.NInt.mk 0 0, IV.NInt.mk 0 0, IV.NInt.mk 0 0, IV.NInt.mk 0 0, IV.NInt.mk 0 0, IV.NInt.mk 0 0, IV.NInt.mk 0 0, IV.NInt.mk 0 0, IV.NInt.mk 0 0, IV.NInt.mk 0 0, IV.NInt.mk 0 2, IV.NInt.mk 0 4, IV.NInt.mk 0 6, IV.NInt.mk 0 8, IV.NInt.mk 0 10, IV.NInt.mk 0 12, IV.NInt.mk 0 16, IV.NInt.mk 15 39, IV.NInt.mk 155 191, IV.NInt.mk 993 1039, IV.NInt.mk 5166 5220, IV.NInt.mk 23387 23448, IV.NInt.mk 94188 94262, IV.NInt.mk 341161 341245, IV.NInt.mk 1119780 1119882, IV.NInt.mk 3351332 3351473, IV.NInt.mk 9195000 9195220, IV.NInt.mk 23239030 23239420, IV.NInt.mk 54339312 54340031, IV.NInt.mk 118033518 118034836, IV.NInt.mk 239093426 239095759, IV.NInt.mk 453340918 453344844, IV.NInt.mk 807572751 807579002, IV.NInt.mk 1356597557 1356606954, IV.NInt.mk 2157139842 2157153201, IV.NInt.mk 3259552574 3259570591, IV.NInt.mk 4699406606 4699429745, IV.NInt.mk 6491477604 6491506021, IV.NInt.mk 8628069511 8628103060, IV.NInt.mk 11082167314 11082205591, IV.NInt.mk 13814253981 13814296440, IV.NInt.mk 16780526833 16780572885, IV.NInt.mk 19940148410 19940197523, IV.NInt.mk 23259962522 23260014271, IV.NInt.mk 26716281796 26716335886, IV.NInt.mk 30294332570 30294388821, IV.NInt.mk 33986397684 33986456011, IV.NInt.mk 37789636073 37789696459, IV.NInt.mk 41704206783 41704269248, IV.NInt.mk 45731938724 45732003318, IV.NInt.mk 49875520667 49875587455, IV.NInt.mk 54138070108 54138139171, IV.NInt.mk 58522931403 58523002819, IV.NInt.mk 63033592960 63033666811, IV.NInt.mk 67673658289 67673734656, IV.NInt.mk 72446838454 72446917410, IV.NInt.mk 77356951997 77357033610, IV.NInt.mk 82407927225 82408011560, IV.NInt.mk 87603805187 87603892304, IV.NInt.mk 92948742857 92948832823, IV.NInt.mk 98447016470 98447109359, IV.NInt.mk 104103024937 104103120825, IV.NInt.mk 109921293367 109921392340, IV.NInt.mk 115906476683 115906578830, IV.NInt.mk 122063363363 122063468766, IV.NInt.mk 128396879241 128396987992, IV.NInt.mk 134912091477 134912203662, IV.NInt.mk 141614212586 141614328298, IV.NInt.mk 148508604620 148508723961, IV.NInt.mk 155600783457 155600906533, IV.NInt.mk 162896423211 162896550140, IV.NInt.mk 170401360784 170401491679, IV.NInt.mk 178121600525 178121735499, IV.NInt.mk 186063319038 186063458200, IV.NInt.mk 194232870129 194233013579, IV.NInt.mk 202636789875 202636937710, IV.NInt.mk 211281801864 211281954179, IV.NInt.mk 220174822561 220174979464, IV.NInt.mk 229322966858 229323128464, IV.NInt.mk 238733553754 238733720190, IV.NInt.mk 248414112214 248414283620, IV.NInt.mk 258372387200 258372563726, IV.NInt.mk 268616345857 268616527665, IV.NInt.mk 279154183892 279154371154, IV.NInt.mk 289994332140 289994525033, IV.NInt.mk 301145463292 301145662000, IV.NInt.mk 312616498851 312616703556, IV.NInt.mk 324416616263 324416827142, IV.NInt.mk 336555256259 336555473480, IV.NInt.mk 349042130405 349042354133, IV.NInt.mk 361887228869 361887459270, IV.NInt.mk 375100828418 375101065661, IV.NInt.mk 388693500628 388693744897, IV.NInt.mk 402676120358 402676371852, IV.NInt.mk 417059874444 417060133379, IV.NInt.mk 431856270661 431856537255, IV.NInt.mk 447077146919 447077421398, IV.NInt.mk 462734680736 462734963328, IV.NInt.mk 478841398985 478841689918, IV.NInt.mk 495410187906 495410487406, IV.NInt.mk 512454303419 512454611717, IV.NInt.mk 529987381723 529987699061, IV.NInt.mk 548023450213 548023776838, IV.NInt.mk 566576938694 566577274866, IV.NInt.mk 585662690939 585663036928, IV.NInt.mk 605295976561 605296332636, IV.NInt.mk 625492503232 625492869668, IV.NInt.mk 646268429247 646268806328, IV.NInt.mk 667640376454 667640764470, IV.NInt.mk 689625443557 689625842796, IV.NInt.mk 712241219791 712241630548]) := by decide

set_option maxRecDepth 100000 in
set_option maxHeartbeats 1000000 in
/-- Chunk 6 of the kernel evaluation of the C9 call lattice (13 steps). -/
theorem IV.callChunk6 : IV.loopG IV.uI9 IV.pI9 IV.qI9 IV.discI9 true IV.KSc9 13 ([IV.NInt.mk 12331214283 12331220633, IV.NInt.mk 12684972838 12684979924, IV.NInt.mk 13048880313 13048887321, IV.NInt.mk 13423227489 13423234625, IV.NInt.mk 13808314032 13808321311, IV.NInt.mk 14204447898 14204455537, IV.NInt.mk 14611946178 14611953746, IV.NInt.mk 15031134527 15031142478, IV.NInt.mk 15462348929 15462356800, IV.NInt.mk 15905933482 15905942459, IV.NInt.mk 16362244125 16362253021, IV.NInt.mk 16831645422 16831654234, IV.NInt.mk 17314512895 17314521890, IV.NInt.mk 17811232726 17811242139, IV.NInt.mk 18322202665 18322212271, IV.NInt.mk 18847831181 18847841241, IV.NInt.mk 19388539259 19388549259, IV.NInt.mk 19944758691 19944769670, IV.NInt.mk 20516935468 20516946395, IV.NInt.mk 21105526553 21105537975, IV.NInt.mk 21711003615 21711015005, IV.NInt.mk 22333850461 22333862075, IV.NInt.mk 22974565543 22974577386, IV.NInt.mk 23633661294 23633673665, IV.NInt.mk 24311665649 24311678007, IV.NInt.mk 25009120487 25009133408, IV.NInt.mk 25726583944 25726597125, IV.NInt.mk 26464629832 26464643570, IV.NInt.mk 27223849144 27223862866, IV.NInt.mk 28004848790 28004862795, IV.NInt.mk 28808253873 28808268173, IV.NInt.mk 29634706941 29634721866, IV.NInt.mk 30484869717 30484884599, IV.NInt.mk 31359421414 31359437280, IV.NInt.mk 32259062752 32259078962, IV.NInt.mk 33184512721 33184529609, IV.NInt.mk 34136512620 34136529519, IV.NInt.mk 35115823358 35115840949, IV.NInt.mk 36123228679 36123246290, IV.NInt.mk 37159534230 37159552572, IV.NInt.mk 38225569709 38225588115, IV.NInt.mk 39322186872 39322207531, IV.NInt.mk 40450264699 40450285429, IV.NInt.mk 41610704389 41610725932, IV.NInt.mk 42804435472 42804457104, IV.NInt.mk 44032411783 44032434267, IV.NInt.mk 45295617006 45295639585, IV.NInt.mk 46595060991 46595084063, IV.NInt.mk 47931783435 47931807001, IV.NInt.mk 49306853711 49306878179, IV.NInt.mk 50721372342 50721396923, IV.NInt.mk 52176470352 52176495894, IV.NInt.mk 53673312927 53673338646, IV.NInt.mk 55213096687 55213123416, IV.NInt.mk 56797053777 56797081095, IV.NInt.mk 58426451404 58426479778, IV.NInt.mk 60102593847 60102622439, IV.NInt.mk 61826820125 61826851238, IV.NInt.mk 63600512568 63600543897, IV.NInt.mk 65425088416 65425120909, IV.NInt.mk 67302008163 67302040912, IV.NInt.mk 69232773094 69232806566, IV.NInt.mk 71218927646 71218961913, IV.NInt.mk 73262061039 73262096556, IV.NInt.mk 75363808380 75363844288, IV.NInt.mk 77525850174 77525887416, IV.NInt.mk 79749917455 79749955005, IV.NInt.mk 82037788552 82037827484, IV.NInt.mk 84391294785 84391334140, IV.NInt.mk 86812317947 86812358741, IV.NInt.mk 89302795689 89302837447, IV.NInt.mk 91864720847 91864763553, IV.NInt.mk 94500142285 94500186135, IV.NInt.mk 97211168365 97211214402, IV.NInt.mk 99999969034 100000016173, IV.NInt.mk 102868775124 102868823967, IV.NInt.mk 105819882100 105819931495, IV.NInt.mk 108855650316 108855701456, IV.NInt.mk 111978508866 111978561284, IV.NInt.mk 115190955599 115191009866, IV.NInt.mk 118495562151 118495617193, IV.NInt.mk 121894970281 121895027887, IV.NInt.mk 125391902099 125391960469, IV.NInt.mk 128989154059 128989213791, IV.NInt.mk 132689603985 132689665271, IV.NInt.mk 136496212252 136496276392, IV.NInt.mk 140412025371 140412090352, IV.NInt.mk 144440175538 144440242057, IV.NInt.mk 148583885161 148583953550, IV.NInt.mk 152846469592 152846541056, IV.NInt.mk 157231339917 157231413210, IV.NInt.mk 161742003273 161742079064, IV.NInt.mk 166382069493 166382146483, IV.NInt.mk 171155249045 171155329405, IV.NInt.mk 176065363169 176065444799, IV.NInt.mk 181116338771 181116422359, IV.NInt.mk 186312217174 186312302234, IV.NInt.mk 191657154765 191657242680, IV.NInt.mk 197155428686 197155518879, IV.NInt.mk 202811436676 202811529888, IV.NInt.mk 208629705845 208629800755, IV.NInt.mk 214614889978 214614987210, IV.NInt.mk 220771776701 220771876461, IV.NInt.mk 227105292678 227105395824, IV.NInt.mk 233620505176 233620610390, IV.NInt.mk 240322624997 240322735573, IV.NInt.mk 247217017424 247217129974, IV.NInt.mk 254309196726 254309312067, IV.NInt.mk 261604836790 261604955260, IV.NInt.mk 269109774215 269109896642, IV.NInt.mk 276830014499 276830139159, IV.NInt.mk 284771733140 284771861916, IV.NInt.mk 292941284548 292941416091, IV.NInt.mk 301345204537 301345339389, IV.NInt.mk 309990216394 309990354875, IV.NInt.mk 318883237824 318883379816, IV.NInt.mk 328031381986 328031528020, IV.NInt.mk 337441969253 337442120049, IV.NInt.mk 347122527609 347122682572, IV.NInt.mk 357080802927 357080961810, IV.NInt.mk 367324762248 367324924884, IV.NInt.mk 377862599033 377862769283, IV.NInt.mk 388702747793 388702921589, IV.NInt.mk 399853879669 399854057905, IV.NInt.mk 411324915093 411325098451, IV.NInt.mk 423125033754 423125220597, IV.NInt.mk 435263673942 435263865966, IV.NInt.mk 447750548853 447750745864, IV.NInt.mk 460595647100 460595850486, IV.NInt.mk 473809245007 473809456360, IV.NInt.mk 487401918241 487402134133, IV.NInt.mk 501384538937 501384760452, IV.NInt.mk 515768293799 515768520527, IV.NInt.mk 530564690667 530564923349, IV.NInt.mk 545785568064 545785806016, IV.NInt.mk 561443102544 561443348191, IV.NInt.mk 577549820766 577550072949, IV.NInt.mk 594118609266 594118871011, IV.NInt.mk 611162724950 611162994254, IV.NInt.mk 628695804267 628696079271, IV.NInt.mk 646731872998 646732156320, IV.NInt.mk 665285363303 665285652674, IV.NInt.mk 684371115837 684371412132, IV.NInt.mk 704004401858 704004707718, IV.NInt.mk 724200928354 724201242687, IV.NInt.mk 744976855696 744977178683, IV.NInt.mk 766348803702 766349134380, IV.NInt.mk 788333871042 788334210743, IV.NInt.mk 810949648386 810949997007], [IV.NInt.mk 0 0, IV.NInt.mk 0 0, IV.NInt.mk 0 0, IV.NInt.mk 0 0, IV.NInt.mk 0 0, IV.NInt.mk 0 0, IV.NInt.mk 0 0, IV.NInt.mk 0 0, IV.NInt.mk 0 0, IV.NInt.mk 0 0, IV.NInt.mk 0 0, IV.NInt.mk 0 0, IV.NInt.mk 0 0, IV.NInt.mk 0 0, IV.NInt.mk 0 0, IV.NInt.mk 0 0, IV.NInt.mk 0 0, IV.NInt.mk 0 0, IV.NInt.mk 0 0, IV.NInt.mk 0 0, IV.NInt.mk 0 0, IV.NInt.mk 0 0, IV.NInt.mk 0 0, IV.NInt.mk 0 0, IV.NInt.mk 0 0, IV.NInt.mk 0 0, IV.NInt.mk 0 0, IV.NInt.mk 0 0, IV.NInt.mk 0 0, IV.NInt.mk 0 0, IV.NInt.mk 0 0, IV.NInt.mk 0 0, IV.NInt.mk 0 0, IV.NInt.mk 0 0, IV.NInt.mk 0 0, IV.NInt.mk 0 0, IV.NInt.mk 0 0, IV.NInt.mk 0 0, IV.NInt.mk 0 0, IV.NInt.mk 0 0, IV.NInt.mk 0 0, IV.NInt.mk 0 0, IV.NInt.mk 0 0, IV.NInt.mk 0 0, IV.NInt.mk 0 0, IV.NInt.mk 0 0, IV.NInt.mk 0 0, IV.NInt.mk 0 0, IV.NInt.mk 0 2, IV.NInt.mk 0 4, IV.NInt.mk 0 6, IV.NInt.mk 0 8, IV.NInt.mk 0 10, IV.NInt.mk 0 12, IV.NInt.mk 0 16, IV.NInt.mk 15 39, IV.NInt.mk 155 191, IV.NInt.mk 993 1039, IV.NInt.mk 5166 5220, IV.NInt.mk 23387 23448, IV.NInt.mk 94188 94262, IV.NInt.mk 341161 341245, IV.NInt.mk 1119780 1119882, IV.NInt.mk 3351332 3351473, IV.NInt.mk 9195000 9195220, IV.NInt.mk 23239030 23239420, IV.NInt.mk 54339312 54340031, IV.NInt.mk 118033518 118034836, IV.NInt.mk 239093426 239095759, IV.NInt.mk 453340918 453344844, IV.NInt.mk 807572751 807579002, IV.NInt.mk 1356597557 1356606954, IV.NInt.mk 2157139842 2157153201, IV.NInt.mk 3259552574 3259570591, IV.NInt.mk 4699406606 4699429745, IV.NInt.mk 6491477604 6491506021, IV.NInt.mk 8628069511 8628103060, IV.NInt.mk 11082167314 11082205591, IV.NInt.mk 13814253981 13814296440, IV.NInt.mk 16780526833 16780572885, IV.NInt.mk 19940148410 19940197523, IV.NInt.mk 23259962522 23260014271, IV.NInt.mk 26716281796 26716335886, IV.NInt.mk 30294332570 30294388821, IV.NInt.mk 33986397684 33986456011, IV.NInt.mk 37789636073 37789696459, IV.NInt.mk 41704206783 41704269248, IV.NInt.mk 45731938724 45732003318, IV.NInt.mk 49875520667 49875587455, IV.NInt.mk 54138070108 54138139171, IV.NInt.mk 58522931403 58523002819, IV.NInt.mk 63033592960 63033666811, IV.NInt.mk 67673658289 67673734656, IV.NInt.mk 72446838454 72446917410, IV.NInt.mk 77356951997 77357033610, IV.NInt.mk 82407927225 82408011560, IV.NInt.mk 87603805187 87603892304, IV.NInt.mk 92948742857 92948832823, IV.NInt.mk 98447016470 98447109359, IV.NInt.mk 104103024937 104103120825, IV.NInt.mk 109921293367 109921392340, IV.NInt.mk 115906476683 115906578830, IV.NInt.mk 122063363363 122063468766, IV.NInt.mk 128396879241 128396987992, IV.NInt.mk 134912091477 134912203662, IV.NInt.mk 141614212586 141614328298, IV.NInt.mk 148508604620 148508723961, IV.NInt.mk 155600783457 155600906533, IV.NInt.mk 162896423211 162896550140, IV.NInt.mk 170401360784 170401491679, IV.NInt.mk 178121600525 178121735499, IV.NInt.mk 186063319038 186063458200, IV.NInt.mk 194232870129 194233013579, IV.NInt.mk 202636789875 202636937710, IV.NInt.mk 211281801864 211281954179, IV.NInt.mk 220174822561 220174979464, IV.NInt.mk 229322966858 229323128464, IV.NInt.mk 238733553754 238733720190, IV.NInt.mk 248414112214 248414283620, IV.NInt.mk 258372387200 258372563726, IV.NInt.mk 268616345857 268616527665, IV.NInt.mk 279154183892 279154371154, IV.NInt.mk 289994332140 289994525033, IV.NInt.mk 301145463292 301145662000, IV.NInt.mk 312616498851 312616703556, IV.NInt.mk 324416616263 324416827142, IV.NInt.mk 336555256259 336555473480, IV.NInt.mk 349042130405 349042354133, IV.NInt.mk 361887228869 361887459270, IV.NInt.mk 375100828418 375101065661, IV.NInt.mk 388693500628 388693744897, IV.NInt.mk 402676120358 402676371852, IV.NInt.mk 417059874444 417060133379, IV.NInt.mk 431856270661 431856537255, IV.NInt.mk 447077146919 447077421398, IV.NInt.mk 462734680736 462734963328, IV.NInt.mk 478841398985 478841689918, IV.NInt.mk 495410187906 495410487406, IV.NInt.mk 512454303419 512454611717, IV.NInt.mk 529987381723 529987699061, IV.NInt.mk 548023450213 548023776838, IV.NInt.mk 566576938694 566577274866, IV.NInt.mk 585662690939 585663036928, IV.NInt.mk 605295976561 605296332636, IV.NInt.mk 625492503232 625492869668, IV.NInt.mk 646268429247 646268806328, IV.NInt.mk 667640376454 667640764470, IV.NInt.mk 689625443557 689625842796, IV.NInt.mk 712241219791 712241630548]) = ([IV.NInt.mk 14820058214 14820066049, IV.NInt.mk 15245216862 15245225588, IV.NInt.mk 15682572816 15682581451, IV.NInt.mk 16132475542 16132484339, IV.NInt.mk 16595285196 16595294169, IV.NInt.mk 17071371880 17071381295, IV.NInt.mk 17561116695 17561126029, IV.NInt.mk 18064911017 18064920819, IV.NInt.mk 18583158645 18583168356, IV.NInt.mk 19116273125 19116284173, IV.NInt.mk 19664682237 19664693197, IV.NInt.mk 20228824129 20228834994, IV.NInt.mk 20809150113 20809161206, IV.NInt.mk 21406124317 21406135918, IV.NInt.mk 22020224767 22020236608, IV.NInt.mk 22651942377 22651954771, IV.NInt.mk 23301783098 23301795431, IV.NInt.mk 23970265876 23970279393, IV.NInt.mk 24657926713 24657940178, IV.NInt.mk 25365314807 25365328875, IV.NInt.mk 26092997020 26093011058, IV.NInt.mk 26841554809 26841569126, IV.NInt.mk 27611587232 27611601837, IV.NInt.mk 28403710149 28403725397, IV.NInt.mk 29218558044 29218573285, IV.NInt.mk 30056782172 30056798101, IV.NInt.mk 30919053309 30919069565, IV.NInt.mk 31806061094 31806078025, IV.NInt.mk 32718515791 32718532718, IV.NInt.mk 33657146813 33657164087, IV.NInt.mk 34622705420 34622723064, IV.NInt.mk 35615963854 35615982263, IV.NInt.mk 36637717391 36637735763, IV.NInt.mk 37688782336 37688801904, IV.NInt.mk 38770000836 38770020832, IV.NInt.mk 39882236998 39882257821, IV.NInt.mk 41026381734 41026402585, IV.NInt.mk 42203349534 42203371232, IV.NInt.mk 43414082328 43414104064, IV.NInt.mk 44659548366 44659570999, IV.NInt.mk 45940744809 45940767534, IV.NInt.mk 47258695321 47258720771, IV.NInt.mk 48614456296 48614481850, IV.NInt.mk 50009110819 50009137365, IV.NInt.mk 51443776032 51443802700, IV.NInt.mk 52919598282 52919625997, IV.NInt.mk 54437759796 54437787645, IV.NInt.mk 55999474245 55999502705, IV.NInt.mk 57605991170 57606020245, IV.NInt.mk 59258595779 59258625959, IV.NInt.mk 60958610716 60958641053, IV.NInt.mk 62707395281 62707426798, IV.NInt.mk 64506349838 64506381589, IV.NInt.mk 66356912521 66356945508, IV.NInt.mk 68260564159 68260597882, IV.NInt.mk 70218827727 70218862743, IV.NInt.mk 72233270752 72233306055, IV.NInt.mk 74305502507 74305540867, IV.NInt.mk 76437184327 76437222971, IV.NInt.mk 78630019492 78630059563, IV.NInt.mk 80885763270 80885803682, IV.NInt.mk 83206219961 83206261272, IV.NInt.mk 85593245719 85593288012, IV.NInt.mk 88048750515 88048794343, IV.NInt.mk 90574699482 90574743811, IV.NInt.mk 93173112302 93173158268, IV.NInt.mk 95846069388 95846115758, IV.NInt.mk 98595707991 98595756062, IV.NInt.mk 101424229061 101424277676, IV.NInt.mk 104333894192 104333944570, IV.NInt.mk 107327032117 107327083694, IV.NInt.mk 110406037894 110406090650, IV.NInt.mk 113573373913 113573428081, IV.NInt.mk 116831574070 116831630913, IV.NInt.mk 120183246286 120183304495, IV.NInt.mk 123631071645 123631131944, IV.NInt.mk 127177808905 127177869917, IV.NInt.mk 130826294827 130826357981, IV.NInt.mk 134579448773 134579513509, IV.NInt.mk 138440272735 138440339747, IV.NInt.mk 142411857399 142411925390, IV.NInt.mk 146497377709 146497448833, IV.NInt.mk 150700105191 150700177286, IV.NInt.mk 155023400713 155023474502, IV.NInt.mk 159470722939 159470798650, IV.NInt.mk 164045629742 164045708946, IV.NInt.mk 168751782525 168751862799, IV.NInt.mk 173592945661 173593027844, IV.NInt.mk 178572991945 178573076441, IV.NInt.mk 183695905877 183695994135, IV.NInt.mk 188965787010 188965877532, IV.NInt.mk 194386850339 194386943933, IV.NInt.mk 199963434282 199963529388, IV.NInt.mk 205699998193 205700097424, IV.NInt.mk 211601134572 211601235405, IV.NInt.mk 217671562900 217671666162, IV.NInt.mk 223916140171 223916245285, IV.NInt.mk 230339861670 230339970295, IV.NInt.mk 236947867804 236947979254, IV.NInt.mk 243745443924 243745559086, IV.NInt.mk 250738030855 250738148146, IV.NInt.mk 257931221667 257931341845, IV.NInt.mk 265330770295 265330893604, IV.NInt.mk 272942597757 272942725234, IV.NInt.mk 280772794064 280772924128, IV.NInt.mk 288827621730 288827758341, IV.NInt.mk 297113528928 297113668017, IV.NInt.mk 305637142885 305637285436, IV.NInt.mk 314405282666 314405429090, IV.NInt.mk 323424962888 323425114185, IV.NInt.mk 332703401158 332703555257, IV.NInt.mk 342248019387 342248178555, IV.NInt.mk 352066454518 352066617135, IV.NInt.mk 362166561503 362166728228, IV.NInt.mk 372556420612 372556591833, IV.NInt.mk 383244345772 383244521348, IV.NInt.mk 394238885805 394239066382, IV.NInt.mk 405548838580 405549025023, IV.NInt.mk 417183251474 417183443075, IV.NInt.mk 429151433733 429151630197, IV.NInt.mk 441462960405 441463161540, IV.NInt.mk 454127678665 454127889111, IV.NInt.mk 467155725383 467155940256, IV.NInt.mk 480557521817 480557742201, IV.NInt.mk 494343788843 494344015560, IV.NInt.mk 508525558908 508525789996, IV.NInt.mk 523114175260 523114412760, IV.NInt.mk 538121311537 538121555222, IV.NInt.mk 553558972380 553559223925, IV.NInt.mk 569439508214 569439769537, IV.NInt.mk 585775629222 585775896213, IV.NInt.mk 602580401895 602580675857, IV.NInt.mk 619867270781 619867551230, IV.NInt.mk 637650066380 637650354212, IV.NInt.mk 655943016611 655943311013, IV.NInt.mk 674760755669 674761059557], [IV.NInt.mk 0 0, IV.NInt.mk 0 0, IV.NInt.mk 0 0, IV.NInt.mk 0 0, IV.NInt.mk 0 0, IV.NInt.mk 0 0, IV.NInt.mk 0 0, IV.NInt.mk 0 0, IV.NInt.mk 0 0, IV.NInt.mk 0 0, IV.NInt.mk 0 0, IV.NInt.mk 0 0, IV.NInt.mk 0 0, IV.NInt.mk 0 0, IV.NInt.mk 0 0, IV.NInt.mk 0 0, IV.NInt.mk 0 0, IV.NInt.mk 0 0, IV.NInt.mk 0 0, IV.NInt.mk 0 0, IV.NInt.mk 0 0, IV.NInt.mk 0 0, IV.NInt.mk 0 0, IV.NInt.mk 0 0, IV.NInt.mk 0 0, IV.NInt.mk 0 0, IV.NInt.mk 0 0, IV.NInt.mk 0 0, IV.NInt.mk 0 0, IV.NInt.mk 0 0, IV.NInt.mk 0 0, IV.NInt.mk 0 0, IV.NInt.mk 0 0, IV.NInt.mk 0 0, IV.NInt.mk 0 0, IV.NInt.mk 0 2, IV.NInt.mk 0 4, IV.NInt.mk 0 6, IV.NInt.mk 0 8, IV.NInt.mk 0 10, IV.NInt.mk 0 12, IV.NInt.mk 0 14, IV.NInt.mk 0 16, IV.NInt.mk 0 18, IV.NInt.mk 0 20, IV.NInt.mk 0 26, IV.NInt.mk 17 55, IV.NInt.mk 144 193, IV.NInt.mk 751 810, IV.NInt.mk 3270 3339, IV.NInt.mk 12745 12824, IV.NInt.mk 45408 45497, IV.NInt.mk 149115 149213, IV.NInt.mk 453622 453734, IV.NInt.mk 1283327 1283457, IV.NInt.mk 3387573 3387737, IV.NInt.mk 8368494 8368722, IV.NInt.mk 19400561 19400911, IV.NInt.mk 42317545 42318124, IV.NInt.mk 87065859 87066841, IV.NInt.mk 169374312 169375963, IV.NInt.mk 312288346 312291045, IV.NInt.mk 547027773 547032021, IV.NInt.mk 912555790 912562195, IV.NInt.mk 1453395135 1453404377, IV.NInt.mk 2215629316 2215642076, IV.NInt.mk 3241599010 3241615900, IV.NInt.mk 4564346270 4564367754, IV.NInt.mk 6203130842 6203157179, IV.NInt.mk 8161181159 8161212381, IV.NInt.mk 10426262219 10426298150, IV.NInt.mk 12973848169 12973888472, IV.NInt.mk 15771984062 15772028305, IV.NInt.mk 18786566929 18786614669, IV.NInt.mk 21985864569 21985915395, IV.NInt.mk 25343523119 25343576698, IV.NInt.mk 28839874411 28839930505, IV.NInt.mk 32461821085 32461879542, IV.NInt.mk 36201823480 36201884225, IV.NInt.mk 40056528554 40056591568, IV.NInt.mk 44025444517 44025509821, IV.NInt.mk 48109878010 48109945657, IV.NInt.mk 52312191322 52312261376, IV.NInt.mk 56635340024 56635412560, IV.NInt.mk 61082613990 61082689091, IV.NInt.mk 65657506462 65657584210, IV.NInt.mk 70363654666 70363735143, IV.NInt.mk 75204816314 75204899595, IV.NInt.mk 80184862371 80184948528, IV.NInt.mk 85307776534 85307865638, IV.NInt.mk 90577657258 90577749386, IV.NInt.mk 95998720695 95998815924, IV.NInt.mk 101575303977 101575402387, IV.NInt.mk 107311868669 107311970346, IV.NInt.mk 113213004329 113213109362, IV.NInt.mk 119283432182 119283540665, IV.NInt.mk 125528008898 125528120926, IV.NInt.mk 131951730473 131951846141, IV.NInt.mk 138559736226 138559855636, IV.NInt.mk 145357312916 145357436173, IV.NInt.mk 152349898965 152350026181, IV.NInt.mk 159543088811 159543220100, IV.NInt.mk 166942637386 166942772868, IV.NInt.mk 174554464728 174554604518, IV.NInt.mk 182384660700 182384804918, IV.NInt.mk 190439489880 190439638638, IV.NInt.mk 198725396563 198725549972, IV.NInt.mk 207249009918 207249168091, IV.NInt.mk 216017149290 216017312344, IV.NInt.mk 225036829654 225036997715, IV.NInt.mk 234315267237 234315440436, IV.NInt.mk 243859885279 243860063761, IV.NInt.mk 253678319978 253678503898, IV.NInt.mk 263778426604 263778616126, IV.NInt.mk 274168285775 274168481076, IV.NInt.mk 284856209931 284856411194, IV.NInt.mk 295850749983 295850957393, IV.NInt.mk 307160702145 307160915893, IV.NInt.mk 318795114991 318795335263, IV.NInt.mk 330763296672 330763523654, IV.NInt.mk 343074822379 343075056257, IV.NInt.mk 355739541989 355739782947, IV.NInt.mk 368767587958 368767836184, IV.NInt.mk 382169383415 382169639107, IV.NInt.mk 395955650510 395955913873, IV.NInt.mk 410137418989 410137690244, IV.NInt.mk 424726035023 424726314398, IV.NInt.mk 439733170289 439733458017, IV.NInt.mk 455170831299 455171127620, IV.NInt.mk 471051369008 471051674166, IV.NInt.mk 487387488700 487387802943, IV.NInt.mk 504192260145 504192583722, IV.NInt.mk 521479128059 521479461226, IV.NInt.mk 539261922853 539262265878, IV.NInt.mk 557554871709 557555224864, IV.NInt.mk 576372609954 576372973521]) := by decide

set_option maxRecDepth 100000 in
set_option maxHeartbeats 1000000 in
/-- Chunk 7 of the kernel evaluation of the C9 call lattice (14 steps). -/
theorem IV.callChunk7 : IV.loopG IV.uI9 IV.pI9 IV.qI9 IV.discI9 true IV.KSc9 14 ([IV.NInt.mk 14820058214 14820066049, IV.NInt.mk 15245216862 15245225588, IV.NInt.mk 15682572816 15682581451, IV.NInt.mk 16132475542 16132484339, IV.NInt.mk 16595285196 16595294169, IV.NInt.mk 17071371880 17071381295, IV.NInt.mk 17561116695 17561126029, IV.NInt.mk 18064911017 18064920819, IV.NInt.mk 18583158645 18583168356, IV.NInt.mk 19116273125 19116284173, IV.NInt.mk 19664682237 19664693197, IV.NInt.mk 20228824129 20228834994, IV.NInt.mk 20809150113 20809161206, IV.NInt.mk 21406124317 21406135918, IV.NInt.mk 22020224767 22020236608, IV.NInt.mk 22651942377 22651954771, IV.NInt.mk 23301783098 23301795431, IV.NInt.mk 23970265876 23970279393, IV.NInt.mk 24657926713 24657940178, IV.NInt.mk 25365314807 25365328875, IV.NInt.mk 26092997020 26093011058, IV.NInt.mk 26841554809 26841569126, IV.NInt.mk 27611587232 27611601837, IV.NInt.mk 28403710149 28403725397, IV.NInt.mk 29218558044 29218573285, IV.NInt.mk 30056782172 30056798101, IV.NInt.mk 30919053309 30919069565, IV.NInt.mk 31806061094 31806078025, IV.NInt.mk 32718515791 32718532718, IV.NInt.mk 33657146813 33657164087, IV.NInt.mk 34622705420 34622723064, IV.NInt.mk 35615963854 35615982263, IV.NInt.mk 36637717391 36637735763, IV.NInt.mk 37688782336 37688801904, IV.NInt.mk 38770000836 38770020832, IV.NInt.mk 39882236998 39882257821, IV.NInt.mk 41026381734 41026402585, IV.NInt.mk 42203349534 42203371232, IV.NInt.mk 43414082328 43414104064, IV.NInt.mk 44659548366 44659570999, IV.NInt.mk 45940744809 45940767534, IV.NInt.mk 47258695321 47258720771, IV.NInt.mk 48614456296 48614481850, IV.NInt.mk 50009110819 50009137365, IV.NInt.mk 51443776032 51443802700, IV.NInt.mk 52919598282 52919625997, IV.NInt.mk 54437759796 54437787645, IV.NInt.mk 55999474245 55999502705, IV.NInt.mk 57605991170 57606020245, IV.NInt.mk 59258595779 59258625959, IV.NInt.mk 60958610716 60958641053, IV.NInt.mk 62707395281 62707426798, IV.NInt.mk 64506349838 64506381589, IV.NInt.mk 66356912521 66356945508, IV.NInt.mk 68260564159 68260597882, IV.NInt.mk 70218827727 70218862743, IV.NInt.mk 72233270752 72233306055, IV.NInt.mk 74305502507 74305540867, IV.NInt.mk 76437184327 76437222971, IV.NInt.mk 78630019492 78630059563, IV.NInt.mk 80885763270 80885803682, IV.NInt.mk 83206219961 83206261272, IV.NInt.mk 85593245719 85593288012, IV.NInt.mk 88048750515 88048794343, IV.NInt.mk 90574699482 90574743811, IV.NInt.mk 93173112302 93173158268, IV.NInt.mk 95846069388 95846115758, IV.NInt.mk 98595707991 98595756062, IV.NInt.mk 101424229061 101424277676, IV.NInt.mk 104333894192 104333944570, IV.NInt.mk 107327032117 107327083694, IV.NInt.mk 110406037894 110406090650, IV.NInt.mk 113573373913 113573428081, IV.NInt.mk 116831574070 116831630913, IV.NInt.mk 120183246286 120183304495, IV.NInt.mk 123631071645 123631131944, IV.NInt.mk 127177808905 127177869917, IV.NInt.mk 130826294827 130826357981, IV.NInt.mk 134579448773 134579513509, IV.NInt.mk 138440272735 138440339747, IV.NInt.mk 142411857399 142411925390, IV.NInt.mk 146497377709 146497448833, IV.NInt.mk 150700105191 150700177286, IV.NInt.mk 155023400713 155023474502, IV.NInt.mk 159470722939 159470798650, IV.NInt.mk 164045629742 164045708946, IV.NInt.mk 168751782525 168751862799, IV.NInt.mk 173592945661 173593027844, IV.NInt.mk 178572991945 178573076441, IV.NInt.mk 183695905877 183695994135, IV.NInt.mk 188965787010 188965877532, IV.NInt.mk 194386850339 194386943933, IV.NInt.mk 199963434282 199963529388, IV.NInt.mk 205699998193 205700097424, IV.NInt.mk 211601134572 211601235405, IV.NInt.mk 217671562900 217671666162, IV.NInt.mk 223916140171 223916245285, IV.NInt.mk 230339861670 230339970295, IV.NInt.mk 236947867804 236947979254, IV.NInt.mk 243745443924 243745559086, IV.NInt.mk 250738030855 250738148146, IV.NInt.mk 257931221667 257931341845, IV.NInt.mk 265330770295 265330893604, IV.NInt.mk 272942597757 272942725234, IV.NInt.mk 280772794064 280772924128, IV.NInt.mk 288827621730 288827758341, IV.NInt.mk 297113528928 297113668017, IV.NInt.mk 305637142885 305637285436, IV.NInt.mk 314405282666 314405429090, IV.NInt.mk 323424962888 323425114185, IV.NInt.mk 332703401158 332703555257, IV.NInt.mk 342248019387 342248178555, IV.NInt.mk 352066454518 352066617135, IV.NInt.mk 362166561503 362166728228, IV.NInt.mk 372556420612 372556591833, IV.NInt.mk 383244345772 383244521348, IV.NInt.mk 394238885805 394239066382, IV.NInt.mk 405548838580 405549025023, IV.NInt.mk 417183251474 417183443075, IV.NInt.mk 429151433733 429151630197, IV.NInt.mk 441462960405 441463161540, IV.NInt.mk 454127678665 454127889111, IV.NInt.mk 467155725383 467155940256, IV.NInt.mk 480557521817 480557742201, IV.NInt.mk 494343788843 494344015560, IV.NInt.mk 508525558908 508525789996, IV.NInt.mk 523114175260 523114412760, IV.NInt.mk 538121311537 538121555222, IV.NInt.mk 553558972380 553559223925, IV.NInt.mk 569439508214 569439769537, IV.NInt.mk 585775629222 585775896213, IV.NInt.mk 602580401895 602580675857, IV.NInt.mk 619867270781 619867551230, IV.NInt.mk 637650066380 637650354212, IV.NInt.mk 655943016611 655943311013, IV.NInt.mk 674760755669 674761059557], [IV.NInt.mk 0 0, IV.NInt.mk 0 0, IV.NInt.mk 0 0, IV.NInt.mk 0 0, IV.NInt.mk 0 0, IV.NInt.mk 0 0, IV.NInt.mk 0 0, IV.NInt.mk 0 0, IV.NInt.mk 0 0, IV.NInt.mk 0 0, IV.NInt.mk 0 0, IV.NInt.mk 0 0, IV.NInt.mk 0 0, IV.NInt.mk 0 0, IV.NInt.mk 0 0, IV.NInt.mk 0 0, IV.NInt.mk 0 0, IV.NInt.mk 0 0, IV.NInt.mk 0 0, IV.NInt.mk 0 0, IV.NInt.mk 0 0, IV.NInt.mk 0 0, IV.NInt.mk 0 0, IV.NInt.mk 0 0, IV.NInt.mk 0 0, IV.NInt.mk 0 0, IV.NInt.mk 0 0, IV.NInt.mk 0 0, IV.NInt.mk 0 0, IV.NInt.mk 0 0, IV.NInt.mk 0 0, IV.NInt.mk 0 0, IV.NInt.mk 0 0, IV.NInt.mk 0 0, IV.NInt.mk 0 0, IV.NInt.mk 0 2, IV.NInt.mk 0 4, IV.NInt.mk 0 6, IV.NInt.mk 0 8, IV.NInt.mk 0 10, IV.NInt.mk 0 12, IV.NInt.mk 0 14, IV.NInt.mk 0 16, IV.NInt.mk 0 18, IV.NInt.mk 0 20, IV.NInt.mk 0 26, IV.NInt.mk 17 55, IV.NInt.mk 144 193, IV.NInt.mk 751 810, IV.NInt.mk 3270 3339, IV.NInt.mk 12745 12824, IV.NInt.mk 45408 45497, IV.NInt.mk 149115 149213, IV.NInt.mk 453622 453734, IV.NInt.mk 1283327 1283457, IV.NInt.mk 3387573 3387737, IV.NInt.mk 8368494 8368722, IV.NInt.mk 19400561 19400911, IV.NInt.mk 42317545 42318124, IV.NInt.mk 87065859 87066841, IV.NInt.mk 169374312 169375963, IV.NInt.mk 312288346 312291045, IV.NInt.mk 547027773 547032021, IV.NInt.mk 912555790 912562195, IV.NInt.mk 1453395135 1453404377, IV.NInt.mk 2215629316 2215642076, IV.NInt.mk 3241599010 3241615900, IV.NInt.mk 4564346270 4564367754, IV.NInt.mk 6203130842 6203157179, IV.NInt.mk 8161181159 8161212381, IV.NInt.mk 10426262219 10426298150, IV.NInt.mk 12973848169 12973888472, IV.NInt.mk 15771984062 15772028305, IV.NInt.mk 18786566929 18786614669, IV.NInt.mk 21985864569 21985915395, IV.NInt.mk 25343523119 25343576698, IV.NInt.mk 28839874411 28839930505, IV.NInt.mk 32461821085 32461879542, IV.NInt.mk 36201823480 36201884225, IV.NInt.mk 40056528554 40056591568, IV.NInt.mk 44025444517 44025509821, IV.NInt.mk 48109878010 48109945657, IV.NInt.mk 52312191322 52312261376, IV.NInt.mk 56635340024 56635412560, IV.NInt.mk 61082613990 61082689091, IV.NInt.mk 65657506462 65657584210, IV.NInt.mk 70363654666 70363735143, IV.NInt.mk 75204816314 75204899595, IV.NInt.mk 80184862371 80184948528, IV.NInt.mk 85307776534 85307865638, IV.NInt.mk 90577657258 90577749386, IV.NInt.mk 95998720695 95998815924, IV.NInt.mk 101575303977 101575402387, IV.NInt.mk 107311868669 107311970346, IV.NInt.mk 113213004329 113213109362, IV.NInt.mk 119283432182 119283540665, IV.NInt.mk 125528008898 125528120926, IV.NInt.mk 131951730473 131951846141, IV.NInt.mk 138559736226 138559855636, IV.NInt.mk 145357312916 145357436173, IV.NInt.mk 152349898965 152350026181, IV.NInt.mk 159543088811 159543220100, IV.NInt.mk 166942637386 166942772868, IV.NInt.mk 174554464728 174554604518, IV.NInt.mk 182384660700 182384804918, IV.NInt.mk 190439489880 190439638638, IV.NInt.mk 198725396563 198725549972, IV.NInt.mk 207249009918 207249168091, IV.NInt.mk 216017149290 216017312344, IV.NInt.mk 225036829654 225036997715, IV.NInt.mk 234315267237 234315440436, IV.NInt.mk 243859885279 243860063761, IV.NInt.mk 253678319978 253678503898, IV.NInt.mk 263778426604 263778616126, IV.NInt.mk 274168285775 274168481076, IV.NInt.mk 284856209931 284856411194, IV.NInt.mk 295850749983 295850957393, IV.NInt.mk 307160702145 307160915893, IV.NInt.mk 318795114991 318795335263, IV.NInt.mk 330763296672 330763523654, IV.NInt.mk 343074822379 343075056257, IV.NInt.mk 355739541989 355739782947, IV.NInt.mk 368767587958 368767836184, IV.NInt.mk 382169383415 382169639107, IV.NInt.mk 395955650510 395955913873, IV.NInt.mk 410137418989 410137690244, IV.NInt.mk 424726035023 424726314398, IV.NInt.mk 439733170289 439733458017, IV.NInt.mk 455170831299 455171127620, IV.NInt.mk 471051369008 471051674166, IV.NInt.mk 487387488700 487387802943, IV.NInt.mk 504192260145 504192583722, IV.NInt.mk 521479128059 521479461226, IV.NInt.mk 539261922853 539262265878, IV.NInt.mk 557554871709 557555224864, IV.NInt.mk 576372609954 576372973521]) = ([IV.NInt.mk 18064910974 18064920790, IV.NInt.mk 18583158137 18583169047, IV.NInt.mk 19116273210 19116284014, IV.NInt.mk 19664682167 19664693176, IV.NInt.mk 20228824027 20228835260, IV.NInt.mk 20809149923 20809161703, IV.NInt.mk 21406124401 21406136087, IV.NInt.mk 22020224524 22020236791, IV.NInt.mk 22651942505 22651954670, IV.NInt.mk 23301782437 23301796242, IV.NInt.mk 23970265765 23970279469, IV.NInt.mk 24657926561 24657940163, IV.NInt.mk 25365314959 25365328848, IV.NInt.mk 26092996705 26093011224, IV.NInt.mk 26841554493 26841569313, IV.NInt.mk 27611586718 27611602221, IV.NInt.mk 28403710110 28403725550, IV.NInt.mk 29218557236 29218574133, IV.NInt.mk 30056781464 30056798302, IV.NInt.mk 30919052228 30919069817, IV.NInt.mk 31806060511 31806078078, IV.NInt.mk 32718515081 32718532999, IV.NInt.mk 33657146154 33657164438, IV.NInt.mk 34622704439 34622723518, IV.NInt.mk 35615963337 35615982424, IV.NInt.mk 36637716698 36637736634, IV.NInt.mk 37688782160 37688802508, IV.NInt.mk 38770000360 38770021547, IV.NInt.mk 39882237076 39882258273, IV.NInt.mk 41026381423 41026403062, IV.NInt.mk 42203349155 42203371260, IV.NInt.mk 43414081592 43414104645, IV.NInt.mk 44659548135 44659571162, IV.NInt.mk 45940743823 45940768327, IV.NInt.mk 47258695189 47258720231, IV.NInt.mk 48614455534 48614481606, IV.NInt.mk 50009110842 50009136961, IV.NInt.mk 51443775821 51443802995, IV.NInt.mk 52919598645 52919625885, IV.NInt.mk 54437759557 54437787913, IV.NInt.mk 55999474049 55999502539, IV.NInt.mk 57605989918 57606021749, IV.NInt.mk 59258594853 59258626832, IV.NInt.mk 60958609078 60958642293, IV.NInt.mk 62707394338 62707427728, IV.NInt.mk 64506347972 64506382661, IV.NInt.mk 66356911054 66356945933, IV.NInt.mk 68260562989 68260598639, IV.NInt.mk 70218826906 70218863331, IV.NInt.mk 72233269409 72233307207, IV.NInt.mk 74305502733 74305540754, IV.NInt.mk 76437183799 76437223289, IV.NInt.mk 78630019581 78630059385, IV.NInt.mk 80885763089 80885804434, IV.NInt.mk 83206219389 83206261657, IV.NInt.mk 85593244899 85593288778, IV.NInt.mk 88048750362 88048794627, IV.NInt.mk 90574697404 90574745428, IV.NInt.mk 93173111105 93173159512, IV.NInt.mk 95846067682 95846117865, IV.NInt.mk 98595706716 98595757351, IV.NInt.mk 101424227561 101424279328, IV.NInt.mk 104333892772 104333945783, IV.NInt.mk 107327030512 107327085431, IV.NInt.mk 110406036180 110406091754, IV.NInt.mk 113573371664 113573429278, IV.NInt.mk 116831572890 116831631041, IV.NInt.mk 120183245055 120183305325, IV.NInt.mk 123631071011 123631131990, IV.NInt.mk 127177807521 127177870699, IV.NInt.mk 130826293203 130826357893, IV.NInt.mk 134579447508 134579513686, IV.NInt.mk 138440271965 138440339919, IV.NInt.mk 142411855273 142411926543, IV.NInt.mk 146497376351 146497449344, IV.NInt.mk 150700103309 150700178907, IV.NInt.mk 155023398939 155023475464, IV.NInt.mk 159470721105 159470800303, IV.NInt.mk 164045628366 164045709557, IV.NInt.mk 168751780002 168751864030, IV.NInt.mk 173592943403 173593028690, IV.NInt.mk 178572988666 178573077843, IV.NInt.mk 183695903620 183695994054, IV.NInt.mk 188965784994 188965877566, IV.NInt.mk 194386848731 194386943717, IV.NInt.mk 199963431692 199963531013, IV.NInt.mk 205699996952 205700097658, IV.NInt.mk 211601133093 211601236205, IV.NInt.mk 217671560854 217671666869, IV.NInt.mk 223916137143 223916247831, IV.NInt.mk 230339859115 230339972652, IV.NInt.mk 236947864635 236947982008, IV.NInt.mk 243745442016 243745561327, IV.NInt.mk 250738026992 250738151427, IV.NInt.mk 257931217590 257931344075, IV.NInt.mk 265330766619 265330896168, IV.NInt.mk 272942594515 272942726426, IV.NInt.mk 280772790280 280772926579, IV.NInt.mk 288827619812 288827759667, IV.NInt.mk 297113525692 297113670189, IV.NInt.mk 305637140016 305637287221, IV.NInt.mk 314405280455 314405431298, IV.NInt.mk 323424960761 323425115551, IV.NInt.mk 332703398374 332703558370, IV.NInt.mk 342248016703 342248179985, IV.NInt.mk 352066449439 352066620840, IV.NInt.mk 362166556593 362166731153, IV.NInt.mk 372556416415 372556595336, IV.NInt.mk 383244341007 383244524798, IV.NInt.mk 394238880836 394239070717, IV.NInt.mk 405548833807 405549027257, IV.NInt.mk 417183246855 417183446649, IV.NInt.mk 429151429036 429151633196, IV.NInt.mk 441462955142 441463164480, IV.NInt.mk 454127674619 454127889615, IV.NInt.mk 467155721733 467155942215, IV.NInt.mk 480557517065 480557743830, IV.NInt.mk 494343784780 494344018884, IV.NInt.mk 508525553181 508525793767, IV.NInt.mk 523114169771 523114416487, IV.NInt.mk 538121306061 538121558674, IV.NInt.mk 553558965255 553559229435], [IV.NInt.mk 0 0, IV.NInt.mk 0 0, IV.NInt.mk 0 0, IV.NInt.mk 0 0, IV.NInt.mk 0 0, IV.NInt.mk 0 0, IV.NInt.mk 0 0, IV.NInt.mk 0 0, IV.NInt.mk 0 0, IV.NInt.mk 0 0, IV.NInt.mk 0 0, IV.NInt.mk 0 0, IV.NInt.mk 0 0, IV.NInt.mk 0 0, IV.NInt.mk 0 0, IV.NInt.mk 0 0, IV.NInt.mk 0 0, IV.NInt.mk 0 0, IV.NInt.mk 0 0, IV.NInt.mk 0 0, IV.NInt.mk 0 0, IV.NInt.mk 0 2, IV.NInt.mk 0 4, IV.NInt.mk 0 6, IV.NInt.mk 0 8, IV.NInt.mk 0 10, IV.NInt.mk 0 12, IV.NInt.mk 0 14, IV.NInt.mk 0 16, IV.NInt.mk 0 18, IV.NInt.mk 0 20, IV.NInt.mk 0 22, IV.NInt.mk 0 24, IV.NInt.mk 0 26, IV.NInt.mk 0 28, IV.NInt.mk 0 32, IV.NInt.mk 4 46, IV.NInt.mk 47 104, IV.NInt.mk 259 328, IV.NInt.mk 1077 1156, IV.NInt.mk 3932 4021, IV.NInt.mk 13194 13294, IV.NInt.mk 41299 41411, IV.NInt.mk 121313 121433, IV.NInt.mk 335508 335642, IV.NInt.mk 875841 875990, IV.NInt.mk 2162644 2162817, IV.NInt.mk 5060736 5060949, IV.NInt.mk 11243176 11243457, IV.NInt.mk 23754906 23755313, IV.NInt.mk 47810727 47811351, IV.NInt.mk 91814154 91815140, IV.NInt.mk 168501959 168503522, IV.NInt.mk 296014136 296016579, IV.NInt.mk 498589708 498593423, IV.NInt.mk 806540244 806545711, IV.NInt.mk 1255200878 1255208650, IV.NInt.mk 1882727493 1882738155, IV.NInt.mk 2726879904 2726894025, IV.NInt.mk 3821235867 3821253948, IV.NInt.mk 5191517632 5191540054, IV.NInt.mk 6852784194 6852811182, IV.NInt.mk 8808099823 8808131432, IV.NInt.mk 11048960895 11048997020, IV.NInt.mk 13557348447 13557388857, IV.NInt.mk 16308906799 16308951181, IV.NInt.mk 19276542189 19276590195, IV.NInt.mk 22433738614 22433789913, IV.NInt.mk 25757072488 25757126790, IV.NInt.mk 29227687870 29227744949, IV.NInt.mk 32831769210 32831828908, IV.NInt.mk 36560241819 36560304050, IV.NInt.mk 40408010915 40408075642, IV.NInt.mk 44373031184 44373098414, IV.NInt.mk 48455419747 48455489519, IV.NInt.mk 52656729351 52656801723, IV.NInt.mk 56979417337 56979492379, IV.NInt.mk 61426493555 61426571346, IV.NInt.mk 66001306675 66001387301, IV.NInt.mk 70707425110 70707508654, IV.NInt.mk 75548576302 75548662845, IV.NInt.mk 80528618895 80528708520, IV.NInt.mk 85651531945 85651624734, IV.NInt.mk 90921412291 90921508322, IV.NInt.mk 96342475562 96342574919, IV.NInt.mk 101919058730 101919161507, IV.NInt.mk 107655623322 107655729608, IV.NInt.mk 113556758881 113556868773, IV.NInt.mk 119627186633 119627300229, IV.NInt.mk 125871763244 125871880645, IV.NInt.mk 132295484711 132295606023, IV.NInt.mk 138903490351 138903615684, IV.NInt.mk 145701066922 145701196391, IV.NInt.mk 152693652846 152693786568, IV.NInt.mk 159886842564 159886980661, IV.NInt.mk 167286391012 167286533606, IV.NInt.mk 174898218223 174898365438, IV.NInt.mk 182728414062 182728566022, IV.NInt.mk 190783243105 190783399934, IV.NInt.mk 199069149647 199069311470, IV.NInt.mk 207592762853 207592929799, IV.NInt.mk 216360902072 216361074270, IV.NInt.mk 225380582276 225380759867, IV.NInt.mk 234659019694 234659202822, IV.NInt.mk 244203637563 244203826386, IV.NInt.mk 254022072085 254022266769, IV.NInt.mk 264122178530 264122379250, IV.NInt.mk 274512037517 274512244457, IV.NInt.mk 285199961486 285200174839, IV.NInt.mk 296194501348 296194721305, IV.NInt.mk 307504453319 307504680081, IV.NInt.mk 319138865969 319139099733, IV.NInt.mk 331107047451 331107288416, IV.NInt.mk 343418572950 343418821317, IV.NInt.mk 356083292344 356083548321, IV.NInt.mk 369111338087 369111601881, IV.NInt.mk 382513133309 382513405138, IV.NInt.mk 396299400164 396299680250, IV.NInt.mk 410481168399 410481456976, IV.NInt.mk 425069784187 425070081496, IV.NInt.mk 440076919198 440077225492, IV.NInt.mk 455514579949 455514895481]) := by decide

set_option maxRecDepth 100000 in
set_option maxHeartbeats 1000000 in
/-- Chunk 8 of the kernel evaluation of the C9 call lattice (16 steps). -/
theorem IV.callChunk8 : IV.loopG IV.uI9 IV.pI9 IV.qI9 IV.discI9 true IV.KSc9 16 ([IV.NInt.mk 18064910974 18064920790, IV.NInt.mk 18583158137 18583169047, IV.NInt.mk 19116273210 19116284014, IV.NInt.mk 19664682167 19664693176, IV.NInt.mk 20228824027 20228835260, IV.NInt.mk 20809149923 20809161703, IV.NInt.mk 21406124401 21406136087, IV.NInt.mk 22020224524 22020236791, IV.NInt.mk 22651942505 22651954670, IV.NInt.mk 23301782437 23301796242, IV.NInt.mk 23970265765 23970279469, IV.NInt.mk 24657926561 24657940163, IV.NInt.mk 25365314959 25365328848, IV.NInt.mk 26092996705 26093011224, IV.NInt.mk 26841554493 26841569313, IV.NInt.mk 27611586718 27611602221, IV.NInt.mk 28403710110 28403725550, IV.NInt.mk 29218557236 29218574133, IV.NInt.mk 30056781464 30056798302, IV.NInt.mk 30919052228 30919069817, IV.NInt.mk 31806060511 31806078078, IV.NInt.mk 32718515081 32718532999, IV.NInt.mk 33657146154 33657164438, IV.NInt.mk 34622704439 34622723518, IV.NInt.mk 35615963337 35615982424, IV.NInt.mk 36637716698 36637736634, IV.NInt.mk 37688782160 37688802508, IV.NInt.mk 38770000360 38770021547, IV.NInt.mk 39882237076 39882258273, IV.NInt.mk 41026381423 41026403062, IV.NInt.mk 42203349155 42203371260, IV.NInt.mk 43414081592 43414104645, IV.NInt.mk 44659548135 44659571162, IV.NInt.mk 45940743823 45940768327, IV.NInt.mk 47258695189 47258720231, IV.NInt.mk 48614455534 48614481606, IV.NInt.mk 50009110842 50009136961, IV.NInt.mk 51443775821 51443802995, IV.NInt.mk 52919598645 52919625885, IV.NInt.mk 54437759557 54437787913, IV.NInt.mk 55999474049 55999502539, IV.NInt.mk 57605989918 57606021749, IV.NInt.mk 59258594853 59258626832, IV.NInt.mk 60958609078 60958642293, IV.NInt.mk 62707394338 62707427728, IV.NInt.mk 64506347972 64506382661, IV.NInt.mk 66356911054 66356945933, IV.NInt.mk 68260562989 68260598639, IV.NInt.mk 70218826906 70218863331, IV.NInt.mk 72233269409 72233307207, IV.NInt.mk 74305502733 74305540754, IV.NInt.mk 76437183799 76437223289, IV.NInt.mk 78630019581 78630059385, IV.NInt.mk 80885763089 80885804434, IV.NInt.mk 83206219389 83206261657, IV.NInt.mk 85593244899 85593288778, IV.NInt.mk 88048750362 88048794627, IV.NInt.mk 90574697404 90574745428, IV.NInt.mk 93173111105 93173159512, IV.NInt.mk 95846067682 95846117865, IV.NInt.mk 98595706716 98595757351, IV.NInt.mk 101424227561 101424279328, IV.NInt.mk 104333892772 104333945783, IV.NInt.mk 107327030512 107327085431, IV.NInt.mk 110406036180 110406091754, IV.NInt.mk 113573371664 113573429278, IV.NInt.mk 116831572890 116831631041, IV.NInt.mk 120183245055 120183305325, IV.NInt.mk 123631071011 123631131990, IV.NInt.mk 127177807521 127177870699, IV.NInt.mk 130826293203 130826357893, IV.NInt.mk 134579447508 134579513686, IV.NInt.mk 138440271965 138440339919, IV.NInt.mk 142411855273 142411926543, IV.NInt.mk 146497376351 146497449344, IV.NInt.mk 150700103309 150700178907, IV.NInt.mk 155023398939 155023475464, IV.NInt.mk 159470721105 159470800303, IV.NInt.mk 164045628366 164045709557, IV.NInt.mk 168751780002 168751864030, IV.NInt.mk 173592943403 173593028690, IV.NInt.mk 178572988666 178573077843, IV.NInt.mk 183695903620 183695994054, IV.NInt.mk 188965784994 188965877566, IV.NInt.mk 194386848731 194386943717, IV.NInt.mk 199963431692 199963531013, IV.NInt.mk 205699996952 205700097658, IV.NInt.mk 211601133093 211601236205, IV.NInt.mk 217671560854 217671666869, IV.NInt.mk 223916137143 223916247831, IV.NInt.mk 230339859115 230339972652, IV.NInt.mk 236947864635 236947982008, IV.NInt.mk 243745442016 243745561327, IV.NInt.mk 250738026992 250738151427, IV.NInt.mk 257931217590 257931344075, IV.NInt.mk 265330766619 265330896168, IV.NInt.mk 272942594515 272942726426, IV.NInt.mk 280772790280 280772926579, IV.NInt.mk 288827619812 288827759667, IV.NInt.mk 297113525692 297113670189, IV.NInt.mk 305637140016 305637287221, IV.NInt.mk 314405280455 314405431298, IV.NInt.mk 323424960761 323425115551, IV.NInt.mk 332703398374 332703558370, IV.NInt.mk 342248016703 342248179985, IV.NInt.mk 352066449439 352066620840, IV.NInt.mk 362166556593 362166731153, IV.NInt.mk 372556416415 372556595336, IV.NInt.mk 383244341007 383244524798, IV.NInt.mk 394238880836 394239070717, IV.NInt.mk 405548833807 405549027257, IV.NInt.mk 417183246855 417183446649, IV.NInt.mk 429151429036 429151633196, IV.NInt.mk 441462955142 441463164480, IV.NInt.mk 454127674619 454127889615, IV.NInt.mk 467155721733 467155942215, IV.NInt.mk 480557517065 480557743830, IV.NInt.mk 494343784780 494344018884, IV.NInt.mk 508525553181 508525793767, IV.NInt.mk 523114169771 523114416487, IV.NInt.mk 538121306061 538121558674, IV.NInt.mk 553558965255 553559229435], [IV.NInt.mk 0 0, IV.NInt.mk 0 0, IV.NInt.mk 0 0, IV.NInt.mk 0 0, IV.NInt.mk 0 0, IV.NInt.mk 0 0, IV.NInt.mk 0 0, IV.NInt.mk 0 0, IV.NInt.mk 0 0, IV.NInt.mk 0 0, IV.NInt.mk 0 0, IV.NInt.mk 0 0, IV.NInt.mk 0 0, IV.NInt.mk 0 0, IV.NInt.mk 0 0, IV.NInt.mk 0 0, IV.NInt.mk 0 0, IV.NInt.mk 0 0, IV.NInt.mk 0 0, IV.NInt.mk 0 0, IV.NInt.mk 0 0, IV.NInt.mk 0 2, IV.NInt.mk 0 4, IV.NInt.mk 0 6, IV.NInt.mk 0 8, IV.NInt.mk 0 10, IV.NInt.mk 0 12, IV.NInt.mk 0 14, IV.NInt.mk 0 16, IV.NInt.mk 0 18, IV.NInt.mk 0 20, IV.NInt.mk 0 22, IV.NInt.mk 0 24, IV.NInt.mk 0 26, IV.NInt.mk 0 28, IV.NInt.mk 0 32, IV.NInt.mk 4 46, IV.NInt.mk 47 104, IV.NInt.mk 259 328, IV.NInt.mk 1077 1156, IV.NInt.mk 3932 4021, IV.NInt.mk 13194 13294, IV.NInt.mk 41299 41411, IV.NInt.mk 121313 121433, IV.NInt.mk 335508 335642, IV.NInt.mk 875841 875990, IV.NInt.mk 2162644 2162817, IV.NInt.mk 5060736 5060949, IV.NInt.mk 11243176 11243457, IV.NInt.mk 23754906 23755313, IV.NInt.mk 47810727 47811351, IV.NInt.mk 91814154 91815140, IV.NInt.mk 168501959 168503522, IV.NInt.mk 296014136 296016579, IV.NInt.mk 498589708 498593423, IV.NInt.mk 806540244 806545711, IV.NInt.mk 1255200878 1255208650, IV.NInt.mk 1882727493 1882738155, IV.NInt.mk 2726879904 2726894025, IV.NInt.mk 3821235867 3821253948, IV.NInt.mk 5191517632 5191540054, IV.NInt.mk 6852784194 6852811182, IV.NInt.mk 8808099823 8808131432, IV.NInt.mk 11048960895 11048997020, IV.NInt.mk 13557348447 13557388857, IV.NInt.mk 16308906799 16308951181, IV.NInt.mk 19276542189 19276590195, IV.NInt.mk 22433738614 22433789913, IV.NInt.mk 25757072488 25757126790, IV.NInt.mk 29227687870 29227744949, IV.NInt.mk 32831769210 32831828908, IV.NInt.mk 36560241819 36560304050, IV.NInt.mk 40408010915 40408075642, IV.NInt.mk 44373031184 44373098414, IV.NInt.mk 48455419747 48455489519, IV.NInt.mk 52656729351 52656801723, IV.NInt.mk 56979417337 56979492379, IV.NInt.mk 61426493555 61426571346, IV.NInt.mk 66001306675 66001387301, IV.NInt.mk 70707425110 70707508654, IV.NInt.mk 75548576302 75548662845, IV.NInt.mk 80528618895 80528708520, IV.NInt.mk 85651531945 85651624734, IV.NInt.mk 90921412291 90921508322, IV.NInt.mk 96342475562 96342574919, IV.NInt.mk 101919058730 101919161507, IV.NInt.mk 107655623322 107655729608, IV.NInt.mk 113556758881 113556868773, IV.NInt.mk 119627186633 119627300229, IV.NInt.mk 125871763244 125871880645, IV.NInt.mk 132295484711 132295606023, IV.NInt.mk 138903490351 138903615684, IV.NInt.mk 145701066922 145701196391, IV.NInt.mk 152693652846 152693786568, IV.NInt.mk 159886842564 159886980661, IV.NInt.mk 167286391012 167286533606, IV.NInt.mk 174898218223 174898365438, IV.NInt.mk 182728414062 182728566022, IV.NInt.mk 190783243105 190783399934, IV.NInt.mk 199069149647 199069311470, IV.NInt.mk 207592762853 207592929799, IV.NInt.mk 216360902072 216361074270, IV.NInt.mk 225380582276 225380759867, IV.NInt.mk 234659019694 234659202822, IV.NInt.mk 244203637563 244203826386, IV.NInt.mk 254022072085 254022266769, IV.NInt.mk 264122178530 264122379250, IV.NInt.mk 274512037517 274512244457, IV.NInt.mk 285199961486 285200174839, IV.NInt.mk 296194501348 296194721305, IV.NInt.mk 307504453319 307504680081, IV.NInt.mk 319138865969 319139099733, IV.NInt.mk 331107047451 331107288416, IV.NInt.mk 343418572950 343418821317, IV.NInt.mk 356083292344 356083548321, IV.NInt.mk 369111338087 369111601881, IV.NInt.mk 382513133309 382513405138, IV.NInt.mk 396299400164 396299680250, IV.NInt.mk 410481168399 410481456976, IV.NInt.mk 425069784187 425070081496, IV.NInt.mk 440076919198 440077225492, IV.NInt.mk 455514579949 455514895481]) = ([IV.NInt.mk 22651942164 22651954848, IV.NInt.mk 23301782333 23301796397, IV.NInt.mk 23970265659 23970279603, IV.NInt.mk 24657926287 24657940497, IV.NInt.mk 25365314702 25365329207, IV.NInt.mk 26092996599 26093011795, IV.NInt.mk 26841554472 26841569568, IV.NInt.mk 27611586522 27611602358, IV.NInt.mk 28403709952 28403725670, IV.NInt.mk 29218556843 29218574629, IV.NInt.mk 30056781050 30056798726, IV.NInt.mk 30919052255 30919069817, IV.NInt.mk 31806060285 31806078221, IV.NInt.mk 32718514537 32718533277, IV.NInt.mk 33657145664 33657164797, IV.NInt.mk 34622704003 34622724007, IV.NInt.mk 35615962884 35615982827, IV.NInt.mk 36637715498 36637737279, IV.NInt.mk 37688781111 37688802837, IV.NInt.mk 38769999142 38770021828, IV.NInt.mk 39882236028 39882258702, IV.NInt.mk 41026380509 41026403640, IV.NInt.mk 42203348213 42203371822, IV.NInt.mk 43414080469 43414105094, IV.NInt.mk 44659547062 44659571718, IV.NInt.mk 45940743412 45940769155, IV.NInt.mk 47258694779 47258721056, IV.NInt.mk 48614455247 48614482597, IV.NInt.mk 50009110432 50009137819, IV.NInt.mk 51443775213 51443803177, IV.NInt.mk 52919597878 52919626447, IV.NInt.mk 54437758758 54437788541, IV.NInt.mk 55999473406 55999503183, IV.NInt.mk 57605989521 57606021177, IV.NInt.mk 59258594298 59258626653, IV.NInt.mk 60958608489 60958642158, IV.NInt.mk 62707393821 62707427582, IV.NInt.mk 64506348060 64506383168, IV.NInt.mk 66356910916 66356946136, IV.NInt.mk 68260562323 68260598976, IV.NInt.mk 70218826408 70218863255, IV.NInt.mk 72233267810 72233308878, IV.NInt.mk 74305501183 74305542471, IV.NInt.mk 76437181983 76437224859, IV.NInt.mk 78630017734 78630060861, IV.NInt.mk 80885760578 80885805372, IV.NInt.mk 83206217513 83206262580, IV.NInt.mk 85593243589 85593289660, IV.NInt.mk 88048748686 88048795771, IV.NInt.mk 90574697205 90574746046, IV.NInt.mk 93173110752 93173159916, IV.NInt.mk 95846066979 95846118025, IV.NInt.mk 98595706287 98595757771, IV.NInt.mk 101424226815 101424280275, IV.NInt.mk 104333891966 104333946631, IV.NInt.mk 107327029540 107327086272, IV.NInt.mk 110406035457 110406092720, IV.NInt.mk 113573369434 113573431461, IV.NInt.mk 116831570760 116831633318, IV.NInt.mk 120183242844 120183307685, IV.NInt.mk 123631068550 123631134009, IV.NInt.mk 127177805686 127177872620, IV.NInt.mk 130826291316 130826359868, IV.NInt.mk 134579444768 134579515773, IV.NInt.mk 138440269681 138440341570, IV.NInt.mk 142411853065 142411927571, IV.NInt.mk 146497374760 146497450010, IV.NInt.mk 150700101485 150700179452, IV.NInt.mk 155023397310 155023476234, IV.NInt.mk 159470718992 159470800746, IV.NInt.mk 164045625942 164045709662, IV.NInt.mk 168751778899 168751864564, IV.NInt.mk 173592941554 173593029519, IV.NInt.mk 178572986881 178573079080, IV.NInt.mk 183695900980 183695995428, IV.NInt.mk 188965781811 188965879606, IV.NInt.mk 194386846036 194386945078, IV.NInt.mk 199963429541 199963532024, IV.NInt.mk 205699994471 205700099540, IV.NInt.mk 211601129264 211601237983, IV.NInt.mk 217671557929 217671668325, IV.NInt.mk 223916133253 223916248624, IV.NInt.mk 230339855657 230339972705, IV.NInt.mk 236947862102 236947981934, IV.NInt.mk 243745439043 243745562012, IV.NInt.mk 250738024554 250738153069, IV.NInt.mk 257931214973 257931345338, IV.NInt.mk 265330764015 265330897513, IV.NInt.mk 272942591095 272942728352, IV.NInt.mk 280772786398 280772929637, IV.NInt.mk 288827615943 288827762882, IV.NInt.mk 297113522201 297113674083, IV.NInt.mk 305637136293 305637290739, IV.NInt.mk 314405274192 314405435201, IV.NInt.mk 323424955367 323425119089, IV.NInt.mk 332703393384 332703561094, IV.NInt.mk 342248011985 342248182810, IV.NInt.mk 352066446296 352066622774, IV.NInt.mk 362166553236 362166734336, IV.NInt.mk 372556411294 372556598378, IV.NInt.mk 383244336580 383244527228, IV.NInt.mk 394238877903 394239073287, IV.NInt.mk 405548829943 405549030452, IV.NInt.mk 417183242788 417183450007, IV.NInt.mk 429151424796 429151636323, IV.NInt.mk 441462947994 441463169900], [IV.NInt.mk 0 0, IV.NInt.mk 0 0, IV.NInt.mk 0 0, IV.NInt.mk 0 0, IV.NInt.mk 0 0, IV.NInt.mk 0 2, IV.NInt.mk 0 4, IV.NInt.mk 0 6, IV.NInt.mk 0 8, IV.NInt.mk 0 10, IV.NInt.mk 0 12, IV.NInt.mk 0 14, IV.NInt.mk 0 16, IV.NInt.mk 0 18, IV.NInt.mk 0 20, IV.NInt.mk 0 22, IV.NInt.mk 0 24, IV.NInt.mk 0 26, IV.NInt.mk 0 28, IV.NInt.mk 0 30, IV.NInt.mk 0 32, IV.NInt.mk 0 34, IV.NInt.mk 0 36, IV.NInt.mk 0 38, IV.NInt.mk 0 41, IV.NInt.mk 0 50, IV.NInt.mk 18 83, IV.NInt.mk 113 191, IV.NInt.mk 460 552, IV.NInt.mk 1592 1697, IV.NInt.mk 5026 5140, IV.NInt.mk 14860 14988, IV.NInt.mk 41593 41732, IV.NInt.mk 110664 110813, IV.NInt.mk 280549 280711, IV.NInt.mk 678859 679034, IV.NInt.mk 1570074 1570267, IV.NInt.mk 3475219 3475441, IV.NInt.mk 7370242 7370510, IV.NInt.mk 14993962 14994306, IV.NInt.mk 29293548 29294022, IV.NInt.mk 55021008 55021694, IV.NInt.mk 99463773 99464798, IV.NInt.mk 173246106 173247645, IV.NInt.mk 291081260 291083561, IV.NInt.mk 472301442 472304820, IV.NInt.mk 740963269 740968114, IV.NInt.mk 1125342032 1125348798, IV.NInt.mk 1656701919 1656711097, IV.NInt.mk 2367358821 2367370914, IV.NInt.mk 3288214027 3288229516, IV.NInt.mk 4446089715 4446109019, IV.NInt.mk 5861293060 5861316502, IV.NInt.mk 7545837820 7545865602, IV.NInt.mk 9502648767 9502680961, IV.NInt.mk 11725886882 11725923441, IV.NInt.mk 14202310690 14202351462, IV.NInt.mk 16913392138 16913436903, IV.NInt.mk 19837785351 19837833852, IV.NInt.mk 22953728480 22953780453, IV.NInt.mk 26241035637 26241090845, IV.NInt.mk 29682474052 29682532297, IV.NInt.mk 33264475575 33264536711, IV.NInt.mk 36977260760 36977324696, IV.NInt.mk 40814533016 40814599704, IV.NInt.mk 44772924668 44772994102, IV.NInt.mk 48851357208 48851429417, IV.NInt.mk 53050433359 53050508392, IV.NInt.mk 57371927794 57372005717, IV.NInt.mk 61818400054 61818480945, IV.NInt.mk 66392923741 66393007686, IV.NInt.mk 71098910802 71098997889, IV.NInt.mk 75940005508 75940095819, IV.NInt.mk 80920025079 80920118704, IV.NInt.mk 86042929213 86043026243, IV.NInt.mk 91312806251 91312906775, IV.NInt.mk 96733868311 96733972427, IV.NInt.mk 102310451015 102310558816, IV.NInt.mk 108047015386 108047126974, IV.NInt.mk 113948150802 113948266278, IV.NInt.mk 120018578428 120018697900, IV.NInt.mk 126263154917 126263278497, IV.NInt.mk 132686876256 132687004057, IV.NInt.mk 139294881766 139295013906, IV.NInt.mk 146092458201 146092594803, IV.NInt.mk 153085043986 153085185176, IV.NInt.mk 160278233562 160278379468, IV.NInt.mk 167677781863 167677932617, IV.NInt.mk 175289608924 175289764656, IV.NInt.mk 183119804609 183119965454, IV.NInt.mk 191174633495 191174799589, IV.NInt.mk 199460539872 199460711356, IV.NInt.mk 207984152910 207984329926, IV.NInt.mk 216752291951 216752474645, IV.NInt.mk 225771971975 225772160499, IV.NInt.mk 235050409203 235050603721, IV.NInt.mk 244595026878 244595227557, IV.NInt.mk 254413461200 254413668219, IV.NInt.mk 264513567439 264513780986, IV.NInt.mk 274903426217 274903646486, IV.NInt.mk 285591349974 285591577168, IV.NInt.mk 296585889619 296586123943, IV.NInt.mk 307895841371 307896083033, IV.NInt.mk 319530253796 319530503011, IV.NInt.mk 331498435044 331498692030, IV.NInt.mk 343809960302 343810225278]) := by decide

set_option maxRecDepth 100000 in
set_option maxHeartbeats 1000000 in
/-- Chunk 9 of the kernel evaluation of the C9 call lattice (18 steps). -/
theorem IV.callChunk9 : IV.loopG IV.uI9 IV.pI9 IV.qI9 IV.discI9 true IV.KSc9 18 ([IV.NInt.mk 22651942164 22651954848, IV.NInt.mk 23301782333 23301796397, IV.NInt.mk 23970265659 23970279603, IV.NInt.mk 24657926287 24657940497, IV.NInt.mk 25365314702 25365329207, IV.NInt.mk 26092996599 26093011795, IV.NInt.mk 26841554472 26841569568, IV.NInt.mk 27611586522 27611602358, IV.NInt.mk 28403709952 28403725670, IV.NInt.mk 29218556843 29218574629, IV.NInt.mk 30056781050 30056798726, IV.NInt.mk 30919052255 30919069817, IV.NInt.mk 31806060285 31806078221, IV.NInt.mk 32718514537 32718533277, IV.NInt.mk 33657145664 33657164797, IV.NInt.mk 34622704003 34622724007, IV.NInt.mk 35615962884 35615982827, IV.NInt.mk 36637715498 36637737279, IV.NInt.mk 37688781111 37688802837, IV.NInt.mk 38769999142 38770021828, IV.NInt.mk 39882236028 39882258702, IV.NInt.mk 41026380509 41026403640, IV.NInt.mk 42203348213 42203371822, IV.NInt.mk 43414080469 43414105094, IV.NInt.mk 44659547062 44659571718, IV.NInt.mk 45940743412 45940769155, IV.NInt.mk 47258694779 47258721056, IV.NInt.mk 48614455247 48614482597, IV.NInt.mk 50009110432 50009137819, IV.NInt.mk 51443775213 51443803177, IV.NInt.mk 52919597878 52919626447, IV.NInt.mk 54437758758 54437788541, IV.NInt.mk 55999473406 55999503183, IV.NInt.mk 57605989521 57606021177, IV.NInt.mk 59258594298 59258626653, IV.NInt.mk 60958608489 60958642158, IV.NInt.mk 62707393821 62707427582, IV.NInt.mk 64506348060 64506383168, IV.NInt.mk 66356910916 66356946136, IV.NInt.mk 68260562323 68260598976, IV.NInt.mk 70218826408 70218863255, IV.NInt.mk 72233267810 72233308878, IV.NInt.mk 74305501183 74305542471, IV.NInt.mk 76437181983 76437224859, IV.NInt.mk 78630017734 78630060861, IV.NInt.mk 80885760578 80885805372, IV.NInt.mk 83206217513 83206262580, IV.NInt.mk 85593243589 85593289660, IV.NInt.mk 88048748686 88048795771, IV.NInt.mk 90574697205 90574746046, IV.NInt.mk 93173110752 93173159916, IV.NInt.mk 95846066979 95846118025, IV.NInt.mk 98595706287 98595757771, IV.NInt.mk 101424226815 101424280275, IV.NInt.mk 104333891966 104333946631, IV.NInt.mk 107327029540 107327086272, IV.NInt.mk 110406035457 110406092720, IV.NInt.mk 113573369434 113573431461, IV.NInt.mk 116831570760 116831633318, IV.NInt.mk 120183242844 120183307685, IV.NInt.mk 123631068550 123631134009, IV.NInt.mk 127177805686 127177872620, IV.NInt.mk 130826291316 130826359868, IV.NInt.mk 134579444768 134579515773, IV.NInt.mk 138440269681 138440341570, IV.NInt.mk 142411853065 142411927571, IV.NInt.mk 146497374760 146497450010, IV.NInt.mk 150700101485 150700179452, IV.NInt.mk 155023397310 155023476234, IV.NInt.mk 159470718992 159470800746, IV.NInt.mk 164045625942 164045709662, IV.NInt.mk 168751778899 168751864564, IV.NInt.mk 173592941554 173593029519, IV.NInt.mk 178572986881 178573079080, IV.NInt.mk 183695900980 183695995428, IV.NInt.mk 188965781811 188965879606, IV.NInt.mk 194386846036 194386945078, IV.NInt.mk 199963429541 199963532024, IV.NInt.mk 205699994471 205700099540, IV.NInt.mk 211601129264 211601237983, IV.NInt.mk 217671557929 217671668325, IV.NInt.mk 223916133253 223916248624, IV.NInt.mk 230339855657 230339972705, IV.NInt.mk 236947862102 236947981934, IV.NInt.mk 243745439043 243745562012, IV.NInt.mk 250738024554 250738153069, IV.NInt.mk 257931214973 257931345338, IV.NInt.mk 265330764015 265330897513, IV.NInt.mk 272942591095 272942728352, IV.NInt.mk 280772786398 280772929637, IV.NInt.mk 288827615943 288827762882, IV.NInt.mk 297113522201 297113674083, IV.NInt.mk 305637136293 305637290739, IV.NInt.mk 314405274192 314405435201, IV.NInt.mk 323424955367 323425119089, IV.NInt.mk 332703393384 332703561094, IV.NInt.mk 342248011985 342248182810, IV.NInt.mk 352066446296 352066622774, IV.NInt.mk 362166553236 362166734336, IV.NInt.mk 372556411294 372556598378, IV.NInt.mk 383244336580 383244527228, IV.NInt.mk 394238877903 394239073287, IV.NInt.mk 405548829943 405549030452, IV.NInt.mk 417183242788 417183450007, IV.NInt.mk 429151424796 429151636323, IV.NInt.mk 441462947994 441463169900], [IV.NInt.mk 0 0, IV.NInt.mk 0 0, IV.NInt.mk 0 0, IV.NInt.mk 0 0, IV.NInt.mk 0 0, IV.NInt.mk 0 2, IV.NInt.mk 0 4, IV.NInt.mk 0 6, IV.NInt.mk 0 8, IV.NInt.mk 0 10, IV.NInt.mk 0 12, IV.NInt.mk 0 14, IV.NInt.mk 0 16, IV.NInt.mk 0 18, IV.NInt.mk 0 20, IV.NInt.mk 0 22, IV.NInt.mk 0 24, IV.NInt.mk 0 26, IV.NInt.mk 0 28, IV.NInt.mk 0 30, IV.NInt.mk 0 32, IV.NInt.mk 0 34, IV.NInt.mk 0 36, IV.NInt.mk 0 38, IV.NInt.mk 0 41, IV.NInt.mk 0 50, IV.NInt.mk 18 83, IV.NInt.mk 113 191, IV.NInt.mk 460 552, IV.NInt.mk 1592 1697, IV.NInt.mk 5026 5140, IV.NInt.mk 14860 14988, IV.NInt.mk 41593 41732, IV.NInt.mk 110664 110813, IV.NInt.mk 280549 280711, IV.NInt.mk 678859 679034, IV.NInt.mk 1570074 1570267, IV.NInt.mk 3475219 3475441, IV.NInt.mk 7370242 7370510, IV.NInt.mk 14993962 14994306, IV.NInt.mk 29293548 29294022, IV.NInt.mk 55021008 55021694, IV.NInt.mk 99463773 99464798, IV.NInt.mk 173246106 173247645, IV.NInt.mk 291081260 291083561, IV.NInt.mk 472301442 472304820, IV.NInt.mk 740963269 740968114, IV.NInt.mk 1125342032 1125348798, IV.NInt.mk 1656701919 1656711097, IV.NInt.mk 2367358821 2367370914, IV.NInt.mk 3288214027 3288229516, IV.NInt.mk 4446089715 4446109019, IV.NInt.mk 5861293060 5861316502, IV.NInt.mk 7545837820 7545865602, IV.NInt.mk 9502648767 9502680961, IV.NInt.mk 11725886882 11725923441, IV.NInt.mk 14202310690 14202351462, IV.NInt.mk 16913392138 16913436903, IV.NInt.mk 19837785351 19837833852, IV.NInt.mk 22953728480 22953780453, IV.NInt.mk 26241035637 26241090845, IV.NInt.mk 29682474052 29682532297, IV.NInt.mk 33264475575 33264536711, IV.NInt.mk 36977260760 36977324696, IV.NInt.mk 40814533016 40814599704, IV.NInt.mk 44772924668 44772994102, IV.NInt.mk 48851357208 48851429417, IV.NInt.mk 53050433359 53050508392, IV.NInt.mk 57371927794 57372005717, IV.NInt.mk 61818400054 61818480945, IV.NInt.mk 66392923741 66393007686, IV.NInt.mk 71098910802 71098997889, IV.NInt.mk 75940005508 75940095819, IV.NInt.mk 80920025079 80920118704, IV.NInt.mk 86042929213 86043026243, IV.NInt.mk 91312806251 91312906775, IV.NInt.mk 96733868311 96733972427, IV.NInt.mk 102310451015 102310558816, IV.NInt.mk 108047015386 108047126974, IV.NInt.mk 113948150802 113948266278, IV.NInt.mk 120018578428 120018697900, IV.NInt.mk 126263154917 126263278497, IV.NInt.mk 132686876256 132687004057, IV.NInt.mk 139294881766 139295013906, IV.NInt.mk 146092458201 146092594803, IV.NInt.mk 153085043986 153085185176, IV.NInt.mk 160278233562 160278379468, IV.NInt.mk 167677781863 167677932617, IV.NInt.mk 175289608924 175289764656, IV.NInt.mk 183119804609 183119965454, IV.NInt.mk 191174633495 191174799589, IV.NInt.mk 199460539872 199460711356, IV.NInt.mk 207984152910 207984329926, IV.NInt.mk 216752291951 216752474645, IV.NInt.mk 225771971975 225772160499, IV.NInt.mk 235050409203 235050603721, IV.NInt.mk 244595026878 244595227557, IV.NInt.mk 254413461200 254413668219, IV.NInt.mk 264513567439 264513780986, IV.NInt.mk 274903426217 274903646486, IV.NInt.mk 285591349974 285591577168, IV.NInt.mk 296585889619 296586123943, IV.NInt.mk 307895841371 307896083033, IV.NInt.mk 319530253796 319530503011, IV.NInt.mk 331498435044 331498692030, IV.NInt.mk 343809960302 343810225278]) = ([IV.NInt.mk 29218557068 29218573969, IV.NInt.mk 30056780648 30056799346, IV.NInt.mk 30919051888 30919070444, IV.NInt.mk 31806059772 31806078688, IV.NInt.mk 32718514369 32718533682, IV.NInt.mk 33657145369 33657165585, IV.NInt.mk 34622704116 34622724224, IV.NInt.mk 35615962233 35615983309, IV.NInt.mk 36637715840 36637736785, IV.NInt.mk 37688780259 37688803890, IV.NInt.mk 38769998885 38770022398, IV.NInt.mk 39882235542 39882258925, IV.NInt.mk 41026380030 41026403916, IV.NInt.mk 42203347394 42203372338, IV.NInt.mk 43414080098 43414105567, IV.NInt.mk 44659545994 44659572610, IV.NInt.mk 45940742595 45940769154, IV.NInt.mk 47258693030 47258721985, IV.NInt.mk 48614454069 48614482977, IV.NInt.mk 50009108464 50009138637, IV.NInt.mk 51443773836 51443804014, IV.NInt.mk 52919596551 52919627348, IV.NInt.mk 54437757678 54437789116, IV.NInt.mk 55999471427 55999504204, IV.NInt.mk 57605988719 57606021563, IV.NInt.mk 59258593532 59258627809, IV.NInt.mk 60958608346 60958643342, IV.NInt.mk 62707392812 62707429226, IV.NInt.mk 64506347262 64506383754, IV.NInt.mk 66356909766 66356947034, IV.NInt.mk 68260561491 68260599574, IV.NInt.mk 70218824938 70218864620, IV.NInt.mk 72233268036 72233307748, IV.NInt.mk 74305500185 74305542357, IV.NInt.mk 76437181729 76437224841, IV.NInt.mk 78630016287 78630061136, IV.NInt.mk 80885760354 80885805355, IV.NInt.mk 83206216885 83206263665, IV.NInt.mk 85593242949 85593289919, IV.NInt.mk 88048747511 88048796372, IV.NInt.mk 90574696525 90574745683, IV.NInt.mk 93173108205 93173162849, IV.NInt.mk 95846065278 95846120256, IV.NInt.mk 98595703108 98595760184, IV.NInt.mk 101424224218 101424281669, IV.NInt.mk 104333888679 104333948327, IV.NInt.mk 107327027321 107327087378, IV.NInt.mk 110406032957 110406094366, IV.NInt.mk 113573369133 113573431903, IV.NInt.mk 116831569708 116831634803, IV.NInt.mk 120183242336 120183307904, IV.NInt.mk 123631066965 123631135025, IV.NInt.mk 127177804482 127177873166, IV.NInt.mk 130826290245 130826361546, IV.NInt.mk 134579443801 134579516721, IV.NInt.mk 138440267761 138440343417, IV.NInt.mk 142411852602 142411929012, IV.NInt.mk 146497371094 146497453726, IV.NInt.mk 150700098646 150700182033, IV.NInt.mk 155023393373 155023479782, IV.NInt.mk 159470715878 159470803165, IV.NInt.mk 164045623438 164045712710, IV.NInt.mk 168751775559 168751866997, IV.NInt.mk 173592937854 173593032545, IV.NInt.mk 178572984699 178573080618, IV.NInt.mk 183695898001 183695997385, IV.NInt.mk 188965779403 188965879847, IV.NInt.mk 194386842638 194386946674, IV.NInt.mk 199963426971 199963532343, IV.NInt.mk 205699991257 205700100378, IV.NInt.mk 211601126746 211601238511, IV.NInt.mk 217671555400 217671669785, IV.NInt.mk 223916131975 223916249434, IV.NInt.mk 230339852182 230339975215, IV.NInt.mk 236947857663 236947983717, IV.NInt.mk 243745434347 243745564837, IV.NInt.mk 250738021265 250738153488, IV.NInt.mk 257931211249 257931348038, IV.NInt.mk 265330759977 265330900236, IV.NInt.mk 272942586039 272942731144, IV.NInt.mk 280772782903 280772930307, IV.NInt.mk 288827610133 288827764094, IV.NInt.mk 297113517731 297113674005, IV.NInt.mk 305637131826 305637291843, IV.NInt.mk 314405271374 314405435589, IV.NInt.mk 323424950894 323425122427, IV.NInt.mk 332703389065 332703563147, IV.NInt.mk 342248007559 342248185849], [IV.NInt.mk 0 28, IV.NInt.mk 0 30, IV.NInt.mk 0 32, IV.NInt.mk 0 34, IV.NInt.mk 0 36, IV.NInt.mk 0 38, IV.NInt.mk 0 40, IV.NInt.mk 0 42, IV.NInt.mk 0 44, IV.NInt.mk 0 46, IV.NInt.mk 0 48, IV.NInt.mk 0 50, IV.NInt.mk 0 53, IV.NInt.mk 0 60, IV.NInt.mk 7 82, IV.NInt.mk 56 146, IV.NInt.mk 234 340, IV.NInt.mk 786 905, IV.NInt.mk 2353 2485, IV.NInt.mk 6582 6727, IV.NInt.mk 17497 17654, IV.NInt.mk 44500 44669, IV.NInt.mk 108614 108796, IV.NInt.mk 254863 255058, IV.NInt.mk 575629 575837, IV.NInt.mk 1252603 1252829, IV.NInt.mk 2628448 2628695, IV.NInt.mk 5322961 5323240, IV.NInt.mk 10411603 10411936, IV.NInt.mk 19684717 19685134, IV.NInt.mk 36001638 36002190, IV.NInt.mk 63742931 63743692, IV.NInt.mk 109344569 109345652, IV.NInt.mk 181870684 181872243, IV.NInt.mk 293549961 293552198, IV.NInt.mk 460171691 460174870, IV.NInt.mk 701220534 701224975, IV.NInt.mk 1039633969 1039640042, IV.NInt.mk 1501100467 1501108591, IV.NInt.mk 2112880096 2112890709, IV.NInt.mk 2902214436 2902227979, IV.NInt.mk 3894482624 3894499509, IV.NInt.mk 5111333106 5111353689, IV.NInt.mk 6569055073 6569079635, IV.NInt.mk 8277436133 8277464862, IV.NInt.mk 10239282900 10239315884, IV.NInt.mk 12450672371 12450709607, IV.NInt.mk 14901878815 14901920217, IV.NInt.mk 17578811971 17578857390, IV.NInt.mk 20464731680 20464780934, IV.NInt.mk 23541984770 23542037661, IV.NInt.mk 26793540926 26793597271, IV.NInt.mk 30204172248 30204231884, IV.NInt.mk 33761205521 33761268323, IV.NInt.mk 37454856399 37454922277, IV.NInt.mk 41278214670 41278283579, IV.NInt.mk 45226982416 45227054343, IV.NInt.mk 49299072632 49299147597, IV.NInt.mk 53494161593 53494239640, IV.NInt.mk 57813262814 57813344006, IV.NInt.mk 62258362745 62258447159, IV.NInt.mk 66832134325 66832222042, IV.NInt.mk 71537727317 71537818424, IV.NInt.mk 76378624584 76378719176, IV.NInt.mk 81358549542 81358647716, IV.NInt.mk 86481410296 86481512147, IV.NInt.mk 91751268278 91751373909, IV.NInt.mk 97172322301 97172431813, IV.NInt.mk 102748901717 102749015217, IV.NInt.mk 108485464756 108485582351, IV.NInt.mk 114386599602 114386721405, IV.NInt.mk 120457026944 120457153071, IV.NInt.mk 126701603246 126701733818, IV.NInt.mk 133125324428 133125459569, IV.NInt.mk 139733329785 139733469623, IV.NInt.mk 146530906069 146531050733, IV.NInt.mk 153523491698 153523641326, IV.NInt.mk 160716681113 160716835843, IV.NInt.mk 168116229250 168116389222, IV.NInt.mk 175728056140 175728221497, IV.NInt.mk 183558251651 183558422540, IV.NInt.mk 191613080358 191613256928, IV.NInt.mk 199898986550 199899168954, IV.NInt.mk 208422599397 208422787792, IV.NInt.mk 217190738241 217190932790, IV.NInt.mk 226210418060 226210618932, IV.NInt.mk 235488855076 235489062450, IV.NInt.mk 245033472535 245033686591]) := by decide

set_option maxRecDepth 100000 in
set_option maxHeartbeats 1000000 in
/-- Chunk 10 of the kernel evaluation of the C9 call lattice (22 steps). -/
theorem IV.callChunk10 : IV.loopG IV.uI9 IV.pI9 IV.qI9 IV.discI9 true IV.KSc9 22 ([IV.NInt.mk 29218557068 29218573969, IV.NInt.mk 30056780648 30056799346, IV.NInt.mk 30919051888 30919070444, IV.NInt.mk 31806059772 31806078688, IV.NInt.mk 32718514369 32718533682, IV.NInt.mk 33657145369 33657165585, IV.NInt.mk 34622704116 34622724224, IV.NInt.mk 35615962233 35615983309, IV.NInt.mk 36637715840 36637736785, IV.NInt.mk 37688780259 37688803890, IV.NInt.mk 38769998885 38770022398, IV.NInt.mk 39882235542 39882258925, IV.NInt.mk 41026380030 41026403916, IV.NInt.mk 42203347394 42203372338, IV.NInt.mk 43414080098 43414105567, IV.NInt.mk 44659545994 44659572610, IV.NInt.mk 45940742595 45940769154, IV.NInt.mk 47258693030 47258721985, IV.NInt.mk 48614454069 48614482977, IV.NInt.mk 50009108464 50009138637, IV.NInt.mk 51443773836 51443804014, IV.NInt.mk 52919596551 52919627348, IV.NInt.mk 54437757678 54437789116, IV.NInt.mk 55999471427 55999504204, IV.NInt.mk 57605988719 57606021563, IV.NInt.mk 59258593532 59258627809, IV.NInt.mk 60958608346 60958643342, IV.NInt.mk 62707392812 62707429226, IV.NInt.mk 64506347262 64506383754, IV.NInt.mk 66356909766 66356947034, IV.NInt.mk 68260561491 68260599574, IV.NInt.mk 70218824938 70218864620, IV.NInt.mk 72233268036 72233307748, IV.NInt.mk 74305500185 74305542357, IV.NInt.mk 76437181729 76437224841, IV.NInt.mk 78630016287 78630061136, IV.NInt.mk 80885760354 80885805355, IV.NInt.mk 83206216885 83206263665, IV.NInt.mk 85593242949 85593289919, IV.NInt.mk 88048747511 88048796372, IV.NInt.mk 90574696525 90574745683, IV.NInt.mk 93173108205 93173162849, IV.NInt.mk 95846065278 95846120256, IV.NInt.mk 98595703108 98595760184, IV.NInt.mk 101424224218 101424281669, IV.NInt.mk 104333888679 104333948327, IV.NInt.mk 107327027321 107327087378, IV.NInt.mk 110406032957 110406094366, IV.NInt.mk 113573369133 113573431903, IV.NInt.mk 116831569708 116831634803, IV.NInt.mk 120183242336 120183307904, IV.NInt.mk 123631066965 123631135025, IV.NInt.mk 127177804482 127177873166, IV.NInt.mk 130826290245 130826361546, IV.NInt.mk 134579443801 134579516721, IV.NInt.mk 138440267761 138440343417, IV.NInt.mk 142411852602 142411929012, IV.NInt.mk 146497371094 146497453726, IV.NInt.mk 150700098646 150700182033, IV.NInt.mk 155023393373 155023479782, IV.NInt.mk 159470715878 159470803165, IV.NInt.mk 164045623438 164045712710, IV.NInt.mk 168751775559 168751866997, IV.NInt.mk 173592937854 173593032545, IV.NInt.mk 178572984699 178573080618, IV.NInt.mk 183695898001 183695997385, IV.NInt.mk 188965779403 188965879847, IV.NInt.mk 194386842638 194386946674, IV.NInt.mk 199963426971 199963532343, IV.NInt.mk 205699991257 205700100378, IV.NInt.mk 211601126746 211601238511, IV.NInt.mk 217671555400 217671669785, IV.NInt.mk 223916131975 223916249434, IV.NInt.mk 230339852182 230339975215, IV.NInt.mk 236947857663 236947983717, IV.NInt.mk 243745434347 243745564837, IV.NInt.mk 250738021265 250738153488, IV.NInt.mk 257931211249 257931348038, IV.NInt.mk 265330759977 265330900236, IV.NInt.mk 272942586039 272942731144, IV.NInt.mk 280772782903 280772930307, IV.NInt.mk 288827610133 288827764094, IV.NInt.mk 297113517731 297113674005, IV.NInt.mk 305637131826 305637291843, IV.NInt.mk 314405271374 314405435589, IV.NInt.mk 323424950894 323425122427, IV.NInt.mk 332703389065 332703563147, IV.NInt.mk 342248007559 342248185849], [IV.NInt.mk 0 28, IV.NInt.mk 0 30, IV.NInt.mk 0 32, IV.NInt.mk 0 34, IV.NInt.mk 0 36, IV.NInt.mk 0 38, IV.NInt.mk 0 40, IV.NInt.mk 0 42, IV.NInt.mk 0 44, IV.NInt.mk 0 46, IV.NInt.mk 0 48, IV.NInt.mk 0 50, IV.NInt.mk 0 53, IV.NInt.mk 0 60, IV.NInt.mk 7 82, IV.NInt.mk 56 146, IV.NInt.mk 234 340, IV.NInt.mk 786 905, IV.NInt.mk 2353 2485, IV.NInt.mk 6582 6727, IV.NInt.mk 17497 17654, IV.NInt.mk 44500 44669, IV.NInt.mk 108614 108796, IV.NInt.mk 254863 255058, IV.NInt.mk 575629 575837, IV.NInt.mk 1252603 1252829, IV.NInt.mk 2628448 2628695, IV.NInt.mk 5322961 5323240, IV.NInt.mk 10411603 10411936, IV.NInt.mk 19684717 19685134, IV.NInt.mk 36001638 36002190, IV.NInt.mk 63742931 63743692, IV.NInt.mk 109344569 109345652, IV.NInt.mk 181870684 181872243, IV.NInt.mk 293549961 293552198, IV.NInt.mk 460171691 460174870, IV.NInt.mk 701220534 701224975, IV.NInt.mk 1039633969 1039640042, IV.NInt.mk 1501100467 1501108591, IV.NInt.mk 2112880096 2112890709, IV.NInt.mk 2902214436 2902227979, IV.NInt.mk 3894482624 3894499509, IV.NInt.mk 5111333106 5111353689, IV.NInt.mk 6569055073 6569079635, IV.NInt.mk 8277436133 8277464862, IV.NInt.mk 10239282900 10239315884, IV.NInt.mk 12450672371 12450709607, IV.NInt.mk 14901878815 14901920217, IV.NInt.mk 17578811971 17578857390, IV.NInt.mk 20464731680 20464780934, IV.NInt.mk 23541984770 23542037661, IV.NInt.mk 26793540926 26793597271, IV.NInt.mk 30204172248 30204231884, IV.NInt.mk 33761205521 33761268323, IV.NInt.mk 37454856399 37454922277, IV.NInt.mk 41278214670 41278283579, IV.NInt.mk 45226982416 45227054343, IV.NInt.mk 49299072632 49299147597, IV.NInt.mk 53494161593 53494239640, IV.NInt.mk 57813262814 57813344006, IV.NInt.mk 62258362745 62258447159, IV.NInt.mk 66832134325 66832222042, IV.NInt.mk 71537727317 71537818424, IV.NInt.mk 76378624584 76378719176, IV.NInt.mk 81358549542 81358647716, IV.NInt.mk 86481410296 86481512147, IV.NInt.mk 91751268278 91751373909, IV.NInt.mk 97172322301 97172431813, IV.NInt.mk 102748901717 102749015217, IV.NInt.mk 108485464756 108485582351, IV.NInt.mk 114386599602 114386721405, IV.NInt.mk 120457026944 120457153071, IV.NInt.mk 126701603246 126701733818, IV.NInt.mk 133125324428 133125459569, IV.NInt.mk 139733329785 139733469623, IV.NInt.mk 146530906069 146531050733, IV.NInt.mk 153523491698 153523641326, IV.NInt.mk 160716681113 160716835843, IV.NInt.mk 168116229250 168116389222, IV.NInt.mk 175728056140 175728221497, IV.NInt.mk 183558251651 183558422540, IV.NInt.mk 191613080358 191613256928, IV.NInt.mk 199898986550 199899168954, IV.NInt.mk 208422599397 208422787792, IV.NInt.mk 217190738241 217190932790, IV.NInt.mk 226210418060 226210618932, IV.NInt.mk 235488855076 235489062450, IV.NInt.mk 245033472535 245033686591]) = ([IV.NInt.mk 39882235199 39882259160, IV.NInt.mk 41026378967 41026405406, IV.NInt.mk 42203346890 42203373160, IV.NInt.mk 43414079407 43414106192, IV.NInt.mk 44659545730 44659573085, IV.NInt.mk 45940741860 45940770478, IV.NInt.mk 47258693360 47258721855, IV.NInt.mk 48614453458 48614483308, IV.NInt.mk 50009108836 50009138531, IV.NInt.mk 51443772372 51443805768, IV.NInt.mk 52919595270 52919628535, IV.NInt.mk 54437756617 54437789742, IV.NInt.mk 55999470956 55999504800, IV.NInt.mk 57605987295 57606022612, IV.NInt.mk 59258592052 59258628124, IV.NInt.mk 60958606316 60958643996, IV.NInt.mk 62707391656 62707429293, IV.NInt.mk 64506344596 64506385545, IV.NInt.mk 66356907600 66356948520, IV.NInt.mk 68260558575 68260601265, IV.NInt.mk 70218823031 70218865773, IV.NInt.mk 72233265720 72233309351, IV.NInt.mk 74305498755 74305543303, IV.NInt.mk 76437179482 76437225907, IV.NInt.mk 78630015373 78630061932, IV.NInt.mk 80885758996 80885807564, IV.NInt.mk 83206215499 83206265096, IV.NInt.mk 85593240746 85593292331, IV.NInt.mk 88048746142 88048797887, IV.NInt.mk 90574694592 90574747454, IV.NInt.mk 93173107847 93173161872, IV.NInt.mk 95846064052 95846120318, IV.NInt.mk 98595703370 98595759741, IV.NInt.mk 101424222583 101424282374, IV.NInt.mk 104333887990 104333949124, IV.NInt.mk 107327024969 107327088539, IV.NInt.mk 110406031072 110406094917, IV.NInt.mk 113573367258 113573433599, IV.NInt.mk 116831568362 116831635036, IV.NInt.mk 120183240050 120183309381, IV.NInt.mk 123631065777 123631135584, IV.NInt.mk 127177800323 127177877694, IV.NInt.mk 130826286543 130826364446, IV.NInt.mk 134579439116 134579519967, IV.NInt.mk 138440264410 138440345855, IV.NInt.mk 142411847339 142411931871, IV.NInt.mk 146497369392 146497454572, IV.NInt.mk 150700096676 150700183793, IV.NInt.mk 155023391838 155023480908, IV.NInt.mk 159470713497 159470805836, IV.NInt.mk 164045621007 164045714089, IV.NInt.mk 168751772393 168751868977, IV.NInt.mk 173592936160 173593033705, IV.NInt.mk 178572982474 178573083698, IV.NInt.mk 183695896399 183695999947, IV.NInt.mk 188965776395 188965883785, IV.NInt.mk 194386840837 194386949374, IV.NInt.mk 199963420445 199963537593, IV.NInt.mk 205699986022 205700104325, IV.NInt.mk 211601121279 211601243834, IV.NInt.mk 217671549799 217671673690, IV.NInt.mk 223916127137 223916253875, IV.NInt.mk 230339848384 230339978217, IV.NInt.mk 236947853460 236947987877, IV.NInt.mk 243745430737 243745566979, IV.NInt.mk 250738015377 250738156497], [IV.NInt.mk 6 100, IV.NInt.mk 45 156, IV.NInt.mk 185 311, IV.NInt.mk 580 721, IV.NInt.mk 1621 1777, IV.NInt.mk 4231 4402, IV.NInt.mk 10533 10718, IV.NInt.mk 25217 25416, IV.NInt.mk 58294 58506, IV.NInt.mk 130372 130596, IV.NInt.mk 282411 282648, IV.NInt.mk 593017 593268, IV.NInt.mk 1207909 1208176, IV.NInt.mk 2388026 2388315, IV.NInt.mk 4584829 4585146, IV.NInt.mk 8553043 8553402, IV.NInt.mk 15511836 15512259, IV.NInt.mk 27364173 27364691, IV.NInt.mk 46979813 46980479, IV.NInt.mk 78539276 78540160, IV.NInt.mk 127923687 127924890, IV.NInt.mk 203119626 203121287, IV.NInt.mk 314590862 314593158, IV.NInt.mk 475553718 475556870, IV.NInt.mk 702084358 702088633, IV.NInt.mk 1012988780 1012994494, IV.NInt.mk 1429383331 1429390830, IV.NInt.mk 1973965435 1973975102, IV.NInt.mk 2669998317 2670010540, IV.NInt.mk 3540082617 3540097781, IV.NInt.mk 4604832844 4604851304, IV.NInt.mk 5881607050 5881629116, IV.NInt.mk 7383445674 7383471595, IV.NInt.mk 9118356274 9118386233, IV.NInt.mk 11089036708 11089070808, IV.NInt.mk 13293067881 13293106151, IV.NInt.mk 15723540518 15723582930, IV.NInt.mk 18370021361 18370067830, IV.NInt.mk 21219723852 21219774266, IV.NInt.mk 24258733400 24258787627, IV.NInt.mk 27473147767 27473205671, IV.NInt.mk 30850024598 30850086064, IV.NInt.mk 34378071491 34378136418, IV.NInt.mk 38048059749 38048128066, IV.NInt.mk 41852982391 41853054061, IV.NInt.mk 45788004489 45788079501, IV.NInt.mk 49850267497 49850345869, IV.NInt.mk 54038610069 54038691839, IV.NInt.mk 58353259345 58353344573, IV.NInt.mk 62795533020 62795621779, IV.NInt.mk 67367577485 67367669857, IV.NInt.mk 72072154044 72072250122, IV.NInt.mk 76912475021 76912574905, IV.NInt.mk 81892085109 81892188902, IV.NInt.mk 87014780030 87014887838, IV.NInt.mk 92284553797 92284665730, IV.NInt.mk 97705566555 97705682727, IV.NInt.mk 103282126439 103282246967, IV.NInt.mk 109018680518 109018805519, IV.NInt.mk 114919811351 114919940950, IV.NInt.mk 120990236904 120990371230, IV.NInt.mk 127234812376 127234951559, IV.NInt.mk 133658533126 133658677301, IV.NInt.mk 140266538207 140266687515, IV.NInt.mk 147064114269 147064268852, IV.NInt.mk 154056699697 154056859700]) := by decide

set_option maxRecDepth 100000 in
set_option maxHeartbeats 1000000 in
/-- Chunk 11 of the kernel evaluation of the C9 call lattice (30 steps). -/
theorem IV.callChunk11 : IV.loopG IV.uI9 IV.pI9 IV.qI9 IV.discI9 true IV.KSc9 30 ([IV.NInt.mk 39882235199 39882259160, IV.NInt.mk 41026378967 41026405406, IV.NInt.mk 42203346890 42203373160, IV.NInt.mk 43414079407 43414106192, IV.NInt.mk 44659545730 44659573085, IV.NInt.mk 45940741860 45940770478, IV.NInt.mk 47258693360 47258721855, IV.NInt.mk 48614453458 48614483308, IV.NInt.mk 50009108836 50009138531, IV.NInt.mk 51443772372 51443805768, IV.NInt.mk 52919595270 52919628535, IV.NInt.mk 54437756617 54437789742, IV.NInt.mk 55999470956 55999504800, IV.NInt.mk 57605987295 57606022612, IV.NInt.mk 59258592052 59258628124, IV.NInt.mk 60958606316 60958643996, IV.NInt.mk 62707391656 62707429293, IV.NInt.mk 64506344596 64506385545, IV.NInt.mk 66356907600 66356948520, IV.NInt.mk 68260558575 68260601265, IV.NInt.mk 70218823031 70218865773, IV.NInt.mk 72233265720 72233309351, IV.NInt.mk 74305498755 74305543303, IV.NInt.mk 76437179482 76437225907, IV.NInt.mk 78630015373 78630061932, IV.NInt.mk 80885758996 80885807564, IV.NInt.mk 83206215499 83206265096, IV.NInt.mk 85593240746 85593292331, IV.NInt.mk 88048746142 88048797887, IV.NInt.mk 90574694592 90574747454, IV.NInt.mk 93173107847 93173161872, IV.NInt.mk 95846064052 95846120318, IV.NInt.mk 98595703370 98595759741, IV.NInt.mk 101424222583 101424282374, IV.NInt.mk 104333887990 104333949124, IV.NInt.mk 107327024969 107327088539, IV.NInt.mk 110406031072 110406094917, IV.NInt.mk 113573367258 113573433599, IV.NInt.mk 116831568362 116831635036, IV.NInt.mk 120183240050 120183309381, IV.NInt.mk 123631065777 123631135584, IV.NInt.mk 127177800323 127177877694, IV.NInt.mk 130826286543 130826364446, IV.NInt.mk 134579439116 134579519967, IV.NInt.mk 138440264410 138440345855, IV.NInt.mk 142411847339 142411931871, IV.NInt.mk 146497369392 146497454572, IV.NInt.mk 150700096676 150700183793, IV.NInt.mk 155023391838 155023480908, IV.NInt.mk 159470713497 159470805836, IV.NInt.mk 164045621007 164045714089, IV.NInt.mk 168751772393 168751868977, IV.NInt.mk 173592936160 173593033705, IV.NInt.mk 178572982474 178573083698, IV.NInt.mk 183695896399 183695999947, IV.NInt.mk 188965776395 188965883785, IV.NInt.mk 194386840837 194386949374, IV.NInt.mk 199963420445 199963537593, IV.NInt.mk 205699986022 205700104325, IV.NInt.mk 211601121279 211601243834, IV.NInt.mk 217671549799 217671673690, IV.NInt.mk 223916127137 223916253875, IV.NInt.mk 230339848384 230339978217, IV.NInt.mk 236947853460 236947987877, IV.NInt.mk 243745430737 243745566979, IV.NInt.mk 250738015377 250738156497], [IV.NInt.mk 6 100, IV.NInt.mk 45 156, IV.NInt.mk 185 311, IV.NInt.mk 580 721, IV.NInt.mk 1621 1777, IV.NInt.mk 4231 4402, IV.NInt.mk 10533 10718, IV.NInt.mk 25217 25416, IV.NInt.mk 58294 58506, IV.NInt.mk 130372 130596, IV.NInt.mk 282411 282648, IV.NInt.mk 593017 593268, IV.NInt.mk 1207909 1208176, IV.NInt.mk 2388026 2388315, IV.NInt.mk 4584829 4585146, IV.NInt.mk 8553043 8553402, IV.NInt.mk 15511836 15512259, IV.NInt.mk 27364173 27364691, IV.NInt.mk 46979813 46980479, IV.NInt.mk 78539276 78540160, IV.NInt.mk 127923687 127924890, IV.NInt.mk 203119626 203121287, IV.NInt.mk 314590862 314593158, IV.NInt.mk 475553718 475556870, IV.NInt.mk 702084358 702088633, IV.NInt.mk 1012988780 1012994494, IV.NInt.mk 1429383331 1429390830, IV.NInt.mk 1973965435 1973975102, IV.NInt.mk 2669998317 2670010540, IV.NInt.mk 3540082617 3540097781, IV.NInt.mk 4604832844 4604851304, IV.NInt.mk 5881607050 5881629116, IV.NInt.mk 7383445674 7383471595, IV.NInt.mk 9118356274 9118386233, IV.NInt.mk 11089036708 11089070808, IV.NInt.mk 13293067881 13293106151, IV.NInt.mk 15723540518 15723582930, IV.NInt.mk 18370021361 18370067830, IV.NInt.mk 21219723852 21219774266, IV.NInt.mk 24258733400 24258787627, IV.NInt.mk 27473147767 27473205671, IV.NInt.mk 30850024598 30850086064, IV.NInt.mk 34378071491 34378136418, IV.NInt.mk 38048059749 38048128066, IV.NInt.mk 41852982391 41853054061, IV.NInt.mk 45788004489 45788079501, IV.NInt.mk 49850267497 49850345869, IV.NInt.mk 54038610069 54038691839, IV.NInt.mk 58353259345 58353344573, IV.NInt.mk 62795533020 62795621779, IV.NInt.mk 67367577485 67367669857, IV.NInt.mk 72072154044 72072250122, IV.NInt.mk 76912475021 76912574905, IV.NInt.mk 81892085109 81892188902, IV.NInt.mk 87014780030 87014887838, IV.NInt.mk 92284553797 92284665730, IV.NInt.mk 97705566555 97705682727, IV.NInt.mk 103282126439 103282246967, IV.NInt.mk 109018680518 109018805519, IV.NInt.mk 114919811351 114919940950, IV.NInt.mk 120990236904 120990371230, IV.NInt.mk 127234812376 127234951559, IV.NInt.mk 133658533126 133658677301, IV.NInt.mk 140266538207 140266687515, IV.NInt.mk 147064114269 147064268852, IV.NInt.mk 154056699697 154056859700]) = ([IV.NInt.mk 60958605738 60958644202, IV.NInt.mk 62707389590 62707431892, IV.NInt.mk 64506344017 64506386118, IV.NInt.mk 66356906448 66356949387, IV.NInt.mk 68260558289 68260602163, IV.NInt.mk 70218821898 70218867758, IV.NInt.mk 72233264808 72233310536, IV.NInt.mk 74305496844 74305544701, IV.NInt.mk 76437178952 76437226639, IV.NInt.mk 78630012139 78630065552, IV.NInt.mk 80885755975 80885809250, IV.NInt.mk 83206212657 83206265779, IV.NInt.mk 85593238561 85593292861, IV.NInt.mk 88048742767 88048799387, IV.NInt.mk 90574691508 90574749358, IV.NInt.mk 93173104031 93173164413, IV.NInt.mk 95846061442 95846121836, IV.NInt.mk 98595698276 98595763819, IV.NInt.mk 101424219298 101424284878, IV.NInt.mk 104333883427 104333951797, IV.NInt.mk 107327022363 107327090905, IV.NInt.mk 110406027769 110406097756, IV.NInt.mk 113573363701 113573435185, IV.NInt.mk 116831563357 116831637806, IV.NInt.mk 120183236546 120183311303, IV.NInt.mk 123631062017 123631139942, IV.NInt.mk 127177798860 127177878467, IV.NInt.mk 130826283716 130826366468, IV.NInt.mk 134579438085 134579521195, IV.NInt.mk 138440262207 138440347138, IV.NInt.mk 142411846255 142411933082, IV.NInt.mk 146497366605 146497456977, IV.NInt.mk 150700094422 150700185081, IV.NInt.mk 155023387404 155023483412, IV.NInt.mk 159470709515 159470807710, IV.NInt.mk 164045615014 164045717067], [IV.NInt.mk 26500450 26501015, IV.NInt.mk 43456062 43456752, IV.NInt.mk 69734592 69735455, IV.NInt.mk 109549789 109550899, IV.NInt.mk 168542706 168544163, IV.NInt.mk 254049989 254051920, IV.NInt.mk 375337210 375339775, IV.NInt.mk 543760096 543763486, IV.NInt.mk 772813708 772818155, IV.NInt.mk 1078032447 1078038223, IV.NInt.mk 1476713193 1476720594, IV.NInt.mk 1987450103 1987459455, IV.NInt.mk 2629491406 2629503047, IV.NInt.mk 3421952924 3421967193, IV.NInt.mk 4382946679 4382963909, IV.NInt.mk 5528701083 5528721581, IV.NInt.mk 6872758384 6872782426, IV.NInt.mk 8425332487 8425360296, IV.NInt.mk 10192895571 10192927326, IV.NInt.mk 12178036899 12178072722, IV.NInt.mk 14379605449 14379645409, IV.NInt.mk 16793114818 16793158930, IV.NInt.mk 19411359456 19411407704, IV.NInt.mk 22225170390 22225222727, IV.NInt.mk 25224228681 25224285041, IV.NInt.mk 28397857030 28397917339, IV.NInt.mk 31735722220 31735786414, IV.NInt.mk 35228400650 35228468666, IV.NInt.mk 38867781874 38867853669, IV.NInt.mk 42647307177 42647382731, IV.NInt.mk 46562058319 46562137634, IV.NInt.mk 50608724037 50608807133, IV.NInt.mk 54785478070 54785564991, IV.NInt.mk 59091802914 59091893721, IV.NInt.mk 63528289689 63528384456, IV.NInt.mk 68096438034 68096536847]) := by decide

set_option maxRecDepth 100000 in
set_option maxHeartbeats 1000000 in
/-- Chunk 12 of the kernel evaluation of the C9 call lattice (35 steps). -/
theorem IV.callChunk12 : IV.loopG IV.uI9 IV.pI9 IV.qI9 IV.discI9 true IV.KSc9 35 ([IV.NInt.mk 60958605738 60958644202, IV.NInt.mk 62707389590 62707431892, IV.NInt.mk 64506344017 64506386118, IV.NInt.mk 66356906448 66356949387, IV.NInt.mk 68260558289 68260602163, IV.NInt.mk 70218821898 70218867758, IV.NInt.mk 72233264808 72233310536, IV.NInt.mk 74305496844 74305544701, IV.NInt.mk 76437178952 76437226639, IV.NInt.mk 78630012139 78630065552, IV.NInt.mk 80885755975 80885809250, IV.NInt.mk 83206212657 83206265779, IV.NInt.mk 85593238561 85593292861, IV.NInt.mk 88048742767 88048799387, IV.NInt.mk 90574691508 90574749358, IV.NInt.mk 93173104031 93173164413, IV.NInt.mk 95846061442 95846121836, IV.NInt.mk 98595698276 98595763819, IV.NInt.mk 101424219298 101424284878, IV.NInt.mk 104333883427 104333951797, IV.NInt.mk 107327022363 107327090905, IV.NInt.mk 110406027769 110406097756, IV.NInt.mk 113573363701 113573435185, IV.NInt.mk 116831563357 116831637806, IV.NInt.mk 120183236546 120183311303, IV.NInt.mk 123631062017 123631139942, IV.NInt.mk 127177798860 127177878467, IV.NInt.mk 130826283716 130826366468, IV.NInt.mk 134579438085 134579521195, IV.NInt.mk 138440262207 138440347138, IV.NInt.mk 142411846255 142411933082, IV.NInt.mk 146497366605 146497456977, IV.NInt.mk 150700094422 150700185081, IV.NInt.mk 155023387404 155023483412, IV.NInt.mk 159470709515 159470807710, IV.NInt.mk 164045615014 164045717067], [IV.NInt.mk 26500450 26501015, IV.NInt.mk 43456062 43456752, IV.NInt.mk 69734592 69735455, IV.NInt.mk 109549789 109550899, IV.NInt.mk 168542706 168544163, IV.NInt.mk 254049989 254051920, IV.NInt.mk 375337210 375339775, IV.NInt.mk 543760096 543763486, IV.NInt.mk 772813708 772818155, IV.NInt.mk 1078032447 1078038223, IV.NInt.mk 1476713193 1476720594, IV.NInt.mk 1987450103 1987459455, IV.NInt.mk 2629491406 2629503047, IV.NInt.mk 3421952924 3421967193, IV.NInt.mk 4382946679 4382963909, IV.NInt.mk 5528701083 5528721581, IV.NInt.mk 6872758384 6872782426, IV.NInt.mk 8425332487 8425360296, IV.NInt.mk 10192895571 10192927326, IV.NInt.mk 12178036899 12178072722, IV.NInt.mk 14379605449 14379645409, IV.NInt.mk 16793114818 16793158930, IV.NInt.mk 19411359456 19411407704, IV.NInt.mk 22225170390 22225222727, IV.NInt.mk 25224228681 25224285041, IV.NInt.mk 28397857030 28397917339, IV.NInt.mk 31735722220 31735786414, IV.NInt.mk 35228400650 35228468666, IV.NInt.mk 38867781874 38867853669, IV.NInt.mk 42647307177 42647382731, IV.NInt.mk 46562058319 46562137634, IV.NInt.mk 50608724037 50608807133, IV.NInt.mk 54785478070 54785564991, IV.NInt.mk 59091802914 59091893721, IV.NInt.mk 63528289689 63528384456, IV.NInt.mk 68096438034 68096536847]) = ([IV.NInt.mk 99999957581 100000024178], [IV.NInt.mk 10440572470 10440604505]) := by decide

/-- Kernel evaluation of the 200-step interval lattice for the American call. -/
theorem IV.callRoot_eq : IV.callRoot = IV.NInt.mk 10440572470 10440604505 := by
  show (IV.loopG IV.uI9 IV.pI9 IV.qI9 IV.discI9 true IV.KSc9 200
      (IV.initSP IV.uI9 IV.dI9 IV.SI9 200,
        (IV.initSP IV.uI9 IV.dI9 IV.SI9 200).map (IV.payI true IV.KSc9))).2.headD
      (IV.NInt.mk 0 0) = IV.NInt.mk 10440572470 10440604505
  rw [IV.initLit,
    IV.payLit_call,
    IV.loopG_add _ _ _ _ _ _ 9 191,
    IV.callChunk1,
    IV.loopG_add _ _ _ _ _ _ 10 181,
    IV.callChunk2,
    IV.loopG_add _ _ _ _ _ _ 10 171,
    IV.callChunk3,
    IV.loopG_add _ _ _ _ _ _ 11 160,
    IV.callChunk4,
    IV.loopG_add _ _ _ _ _ _ 12 148,
    IV.callChunk5,
    IV.loopG_add _ _ _ _ _ _ 13 135,
    IV.callChunk6,
    IV.loopG_add _ _ _ _ _ _ 14 121,
    IV.callChunk7,
    IV.loopG_add _ _ _ _ _ _ 16 105,
    IV.callChunk8,
    IV.loopG_add _ _ _ _ _ _ 18 87,
    IV.callChunk9,
    IV.loopG_add _ _ _ _ _ _ 22 65,
    IV.callChunk10,
    IV.loopG_add _ _ _ _ _ _ 30 35,
    IV.callChunk11,
    IV.callChunk12]
  rfl

set_option maxHeartbeats 1000000 in
/-- Literal terminal payoffs of the C9 put. -/
theorem IV.payLit_put : List.map (IV.payI false IV.KSc9) [IV.NInt.mk 5910573000 5910575700, IV.NInt.mk 6080135844 6080138893, IV.NInt.mk 6254563246 6254566248, IV.NInt.mk 6433994583 6433997641, IV.NInt.mk 6618573498 6618576612, IV.NInt.mk 6808447588 6808450866, IV.NInt.mk 7003768849 7003772084, IV.NInt.mk 7204693373 7204696777, IV.NInt.mk 7411382198 7411385552, IV.NInt.mk 7624000259 7624004136, IV.NInt.mk 7842718166 7842721990, IV.NInt.mk 8067710655 8067714430, IV.NInt.mk 8299157728 8299161577, IV.NInt.mk 8537244484 8537248523, IV.NInt.mk 8782161574 8782165691, IV.NInt.mk 9034104783 9034109105, IV.NInt.mk 9293275898 9293280178, IV.NInt.mk 9559881883 9559886621, IV.NInt.mk 9834136513 9834141212, IV.NInt.mk 10116258817 10116263737, IV.NInt.mk 10406474873 10406479762, IV.NInt.mk 10705016577 10705021559, IV.NInt.mk 11012122847 11012127924, IV.NInt.mk 11328039307 11328044620, IV.NInt.mk 11653019000 11653024290, IV.NInt.mk 11987321659 11987327200, IV.NInt.mk 12331214811 12331220457, IV.NInt.mk 12684973487 12684979385, IV.NInt.mk 13048880973 13048886841, IV.NInt.mk 13423228161 13423234149, IV.NInt.mk 13808314678 13808320788, IV.NInt.mk 14204448513 14204454901, IV.NInt.mk 14611946833 14611953182, IV.NInt.mk 15031135205 15031142002, IV.NInt.mk 15462349493 15462356434, IV.NInt.mk 15905934323 15905941566, IV.NInt.mk 16362245013 16362252233, IV.NInt.mk 16831646277 16831653808, IV.NInt.mk 17314513779 17314521296, IV.NInt.mk 17811233686 17811241525, IV.NInt.mk 18322203681 18322211529, IV.NInt.mk 18847832023 18847840928, IV.NInt.mk 19388540037 19388548941, IV.NInt.mk 19944759667 19944768936, IV.NInt.mk 20516936464 20516945744, IV.NInt.mk 21105527617 21105537275, IV.NInt.mk 21711004617 21711014289, IV.NInt.mk 22333851509 22333861387, IV.NInt.mk 22974566643 22974576720, IV.NInt.mk 23633662577 23633673057, IV.NInt.mk 24311666821 24311677319, IV.NInt.mk 25009121487 25009132413, IV.NInt.mk 25726585078 25726596050, IV.NInt.mk 26464631156 26464642571, IV.NInt.mk 27223850298 27223861964, IV.NInt.mk 28004849915 28004862042, IV.NInt.mk 28808255155 28808267351, IV.NInt.mk 29634707850 29634721209, IV.NInt.mk 30484870569 30484883985, IV.NInt.mk 31359422617 31359436549, IV.NInt.mk 32259064036 32259078044, IV.NInt.mk 33184514425 33184528730, IV.NInt.mk 34136514056 34136528692, IV.NInt.mk 35115824665 35115839855, IV.NInt.mk 36123230007 36123245327, IV.NInt.mk 37159535556 37159551463, IV.NInt.mk 38225571039 38225587038, IV.NInt.mk 39322188838 39322205445, IV.NInt.mk 40450266742 40450283494, IV.NInt.mk 41610706723 41610724105, IV.NInt.mk 42804437536 42804455324, IV.NInt.mk 44032414382 44032432552, IV.NInt.mk 45295619320 45295637978, IV.NInt.mk 46595062921 46595082556, IV.NInt.mk 47931785280 47931805380, IV.NInt.mk 49306855680 49306876526, IV.NInt.mk 50721374378 50721395418, IV.NInt.mk 52176472732 52176494527, IV.NInt.mk 53673315047 53673337384, IV.NInt.mk 55213098596 55213121737, IV.NInt.mk 56797056001 56797079437, IV.NInt.mk 58426453509 58426478093, IV.NInt.mk 60102595881 60102620741, IV.NInt.mk 61826823498 61826848923, IV.NInt.mk 63600515760 63600541837, IV.NInt.mk 65425091627 65425118978, IV.NInt.mk 67302011342 67302039003, IV.NInt.mk 69232776228 69232804527, IV.NInt.mk 71218930844 71218959935, IV.NInt.mk 73262064291 73262094750, IV.NInt.mk 75363811568 75363842799, IV.NInt.mk 77525853713 77525886029, IV.NInt.mk 79749920978 79749953756, IV.NInt.mk 82037791859 82037826135, IV.NInt.mk 84391297946 84391332712, IV.NInt.mk 86812321475 86812357053, IV.NInt.mk 89302799525 89302835681, IV.NInt.mk 91864724328 91864761720, IV.NInt.mk 94500145994 94500184344, IV.NInt.mk 97211172432 97211212093, IV.NInt.mk 99999973586 100000013911, IV.NInt.mk 102868780080 102868821373, IV.NInt.mk 105819886713 105819929070, IV.NInt.mk 108855654931 108855698752, IV.NInt.mk 111978513564 111978558217, IV.NInt.mk 115190960241 115191007297, IV.NInt.mk 118495566635 118495614470, IV.NInt.mk 121894975841 121895024840, IV.NInt.mk 125391907454 125391957777, IV.NInt.mk 128989159057 128989211089, IV.NInt.mk 132689609198 132689662113, IV.NInt.mk 136496217901 136496272590, IV.NInt.mk 140412030953 140412086769, IV.NInt.mk 144440181083 144440238278, IV.NInt.mk 148583890886 148583949606, IV.NInt.mk 152846476143 152846536331, IV.NInt.mk 157231346313 157231408213, IV.NInt.mk 161742010191 161742074144, IV.NInt.mk 166382076071 166382141782, IV.NInt.mk 171155256689 171155324035, IV.NInt.mk 176065370799 176065439688, IV.NInt.mk 181116345657 181116417940, IV.NInt.mk 186312224092 186312297806, IV.NInt.mk 191657162332 191657237903, IV.NInt.mk 197155436104 197155513844, IV.NInt.mk 202811445389 202811524516, IV.NInt.mk 208629714142 208629795449, IV.NInt.mk 214614898064 214614981455, IV.NInt.mk 220771784878 220771871010, IV.NInt.mk 227105300214 227105389839, IV.NInt.mk 233620513179 233620604640, IV.NInt.mk 240322634979 240322728799, IV.NInt.mk 247217027606 247217123568, IV.NInt.mk 254309206979 254309305432, IV.NInt.mk 261604847504 261604948109, IV.NInt.mk 269109785632 269109889541, IV.NInt.mk 276830025614 276830132260, IV.NInt.mk 284771744196 284771855021, IV.NInt.mk 292941295658 292941409684, IV.NInt.mk 301345216187 301345332516, IV.NInt.mk 309990228601 309990348470, IV.NInt.mk 318883250485 318883372803, IV.NInt.mk 328031395238 328031520403, IV.NInt.mk 337441982646 337442111912, IV.NInt.mk 347122541354 347122674186, IV.NInt.mk 357080817320 357080953790, IV.NInt.mk 367324776717 367324916345, IV.NInt.mk 377862615246 377862758660, IV.NInt.mk 388702764433 388702911570, IV.NInt.mk 399853896781 399854047958, IV.NInt.mk 411324932777 411325088474, IV.NInt.mk 423125050660 423125210675, IV.NInt.mk 435263691382 435263856014, IV.NInt.mk 447750565658 447750735768, IV.NInt.mk 460595665382 460595839693, IV.NInt.mk 473809265948 473809445123, IV.NInt.mk 487401938818 487402122750, IV.NInt.mk 501384560145 501384748280, IV.NInt.mk 515768315089 515768508061, IV.NInt.mk 530564712571 530564910979, IV.NInt.mk 545785589208 545785793741, IV.NInt.mk 561443123415 561443334774, IV.NInt.mk 577549842664 577550059492, IV.NInt.mk 594118633162 594118855156, IV.NInt.mk 611162749423 611162977709, IV.NInt.mk 628695828849 628696063679, IV.NInt.mk 646731898651 646732139737, IV.NInt.mk 665285389266 665285636235, IV.NInt.mk 684371141640 684371396394, IV.NInt.mk 704004429365 704004691553, IV.NInt.mk 724200956616 724201225945, IV.NInt.mk 744976884527 744977160551, IV.NInt.mk 766348832867 766349117001, IV.NInt.mk 788333901518 788334192844, IV.NInt.mk 810949679282 810949978709, IV.NInt.mk 834214259610 834214567936, IV.NInt.mk 858146255678 858146572822, IV.NInt.mk 882764815475 882765140826, IV.NInt.mk 908089633529 908089968062, IV.NInt.mk 934140972879 934141314939, IV.NInt.mk 960939673259 960940025773, IV.NInt.mk 988507178568 988507539096, IV.NInt.mk 1016865540294 1016865911313, IV.NInt.mk 1046037450338 1046037831286, IV.NInt.mk 1076046243508 1076046637385, IV.NInt.mk 1106915933299 1106916336439, IV.NInt.mk 1138671213644 1138671628603, IV.NInt.mk 1171337493401 1171337919686, IV.NInt.mk 1204940904122 1204941342483, IV.NInt.mk 1239508332319 1239508784114, IV.NInt.mk 1275067433100 1275067896986, IV.NInt.mk 1311646657454 1311647132716, IV.NInt.mk 1349275265503 1349275756836, IV.NInt.mk 1387983369059 1387983874099, IV.NInt.mk 1427801931445 1427802450400, IV.NInt.mk 1468762813330 1468763345375, IV.NInt.mk 1510898781827 1510899329592, IV.NInt.mk 1554243552085 1554244113801, IV.NInt.mk 1598831798133 1598832375642, IV.NInt.mk 1644699196740 1644699789194, IV.NInt.mk 1691882438400 1691883052200] = [IV.NInt.mk 94089424300 94089427000, IV.NInt.mk 93919861107 93919864156, IV.NInt.mk 93745433752 93745436754, IV.NInt.mk 93566002359 93566005417, IV.NInt.mk 93381423388 93381426502, IV.NInt.mk 93191549134 93191552412, IV.NInt.mk 92996227916 92996231151, IV.NInt.mk 92795303223 92795306627, IV.NInt.mk 92588614448 92588617802, IV.NInt.mk 92375995864 92375999741, IV.NInt.mk 92157278010 92157281834, IV.NInt.mk 91932285570 91932289345, IV.NInt.mk 91700838423 91700842272, IV.NInt.mk 91462751477 91462755516, IV.NInt.mk 91217834309 91217838426, IV.NInt.mk 90965890895 90965895217, IV.NInt.mk 90706719822 90706724102, IV.NInt.mk 90440113379 90440118117, IV.NInt.mk 90165858788 90165863487, IV.NInt.mk 89883736263 89883741183, IV.NInt.mk 89593520238 89593525127, IV.NInt.mk 89294978441 89294983423, IV.NInt.mk 88987872076 88987877153, IV.NInt.mk 88671955380 88671960693, IV.NInt.mk 88346975710 88346981000, IV.NInt.mk 88012672800 88012678341, IV.NInt.mk 87668779543 87668785189, IV.NInt.mk 87315020615 87315026513, IV.NInt.mk 86951113159 86951119027, IV.NInt.mk 86576765851 86576771839, IV.NInt.mk 86191679212 86191685322, IV.NInt.mk 85795545099 85795551487, IV.NInt.mk 85388046818 85388053167, IV.NInt.mk 84968857998 84968864795, IV.NInt.mk 84537643566 84537650507, IV.NInt.mk 84094058434 84094065677, IV.NInt.mk 83637747767 83637754987, IV.NInt.mk 83168346192 83168353723, IV.NInt.mk 82685478704 82685486221, IV.NInt.mk 82188758475 82188766314, IV.NInt.mk 81677788471 81677796319, IV.NInt.mk 81152159072 81152167977, IV.NInt.mk 80611451059 80611459963, IV.NInt.mk 80055231064 80055240333, IV.NInt.mk 79483054256 79483063536, IV.NInt.mk 78894462725 78894472383, IV.NInt.mk 78288985711 78288995383, IV.NInt.mk 77666138613 77666148491, IV.NInt.mk 77025423280 77025433357, IV.NInt.mk 76366326943 76366337423, IV.NInt.mk 75688322681 75688333179, IV.NInt.mk 74990867587 74990878513, IV.NInt.mk 74273403950 74273414922, IV.NInt.mk 73535357429 73535368844, IV.NInt.mk 72776138036 72776149702, IV.NInt.mk 71995137958 71995150085, IV.NInt.mk 71191732649 71191744845, IV.NInt.mk 70365278791 70365292150, IV.NInt.mk 69515116015 69515129431, IV.NInt.mk 68640563451 68640577383, IV.NInt.mk 67740921956 67740935964, IV.NInt.mk 66815471270 66815485575, IV.NInt.mk 65863471308 65863485944, IV.NInt.mk 64884160145 64884175335, IV.NInt.mk 63876754673 63876769993, IV.NInt.mk 62840448537 62840464444, IV.NInt.mk 61774412962 61774428961, IV.NInt.mk 60677794555 60677811162, IV.NInt.mk 59549716506 59549733258, IV.NInt.mk 58389275895 58389293277, IV.NInt.mk 57195544676 57195562464, IV.NInt.mk 55967567448 55967585618, IV.NInt.mk 54704362022 54704380680, IV.NInt.mk 53404917444 53404937079, IV.NInt.mk 52068194620 52068214720, IV.NInt.mk 50693123474 50693144320, IV.NInt.mk 49278604582 49278625622, IV.NInt.mk 47823505473 47823527268, IV.NInt.mk 46326662616 46326684953, IV.NInt.mk 44786878263 44786901404, IV.NInt.mk 43202920563 43202943999, IV.NInt.mk 41573521907 41573546491, IV.NInt.mk 39897379259 39897404119, IV.NInt.mk 38173151077 38173176502, IV.NInt.mk 36399458163 36399484240, IV.NInt.mk 34574881022 34574908373, IV.NInt.mk 32697960997 32697988658, IV.NInt.mk 30767195473 30767223772, IV.NInt.mk 28781040065 28781069156, IV.NInt.mk 26737905250 26737935709, IV.NInt.mk 24636157201 24636188432, IV.NInt.mk 22474113971 22474146287, IV.NInt.mk 20250046244 20250079022, IV.NInt.mk 17962173865 17962208141, IV.NInt.mk 15608667288 15608702054, IV.NInt.mk 13187642947 13187678525, IV.NInt.mk 10697164319 10697200475, IV.NInt.mk 8135238280 8135275672, IV.NInt.mk 5499815656 5499854006, IV.NInt.mk 2788787907 2788827568, IV.NInt.mk 0 26414, IV.NInt.mk 0 0, IV.NInt.mk 0 0, IV.NInt.mk 0 0, IV.NInt.mk 0 0, IV.NInt.mk 0 0, IV.NInt.mk 0 0, IV.NInt.mk 0 0, IV.NInt.mk 0 0, IV.NInt.mk 0 0, IV.NInt.mk 0 0, IV.NInt.mk 0 0, IV.NInt.mk 0 0, IV.NInt.mk 0 0, IV.NInt.mk 0 0, IV.NInt.mk 0 0, IV.NInt.mk 0 0, IV.NInt.mk 0 0, IV.NInt.mk 0 0, IV.NInt.mk 0 0, IV.NInt.mk 0 0, IV.NInt.mk 0 0, IV.NInt.mk 0 0, IV.NInt.mk 0 0, IV.NInt.mk 0 0, IV.NInt.mk 0 0, IV.NInt.mk 0 0, IV.NInt.mk 0 0, IV.NInt.mk 0 0, IV.NInt.mk 0 0, IV.NInt.mk 0 0, IV.NInt.mk 0 0, IV.NInt.mk 0 0, IV.NInt.mk 0 0, IV.NInt.mk 0 0, IV.NInt.mk 0 0, IV.NInt.mk 0 0, IV.NInt.mk 0 0, IV.NInt.mk 0 0, IV.NInt.mk 0 0, IV.NInt.mk 0 0, IV.NInt.mk 0 0, IV.NInt.mk 0 0, IV.NInt.mk 0 0, IV.NInt.mk 0 0, IV.NInt.mk 0 0, IV.NInt.mk 0 0, IV.NInt.mk 0 0, IV.NInt.mk 0 0, IV.NInt.mk 0 0, IV.NInt.mk 0 0, IV.NInt.mk 0 0, IV.NInt.mk 0 0, IV.NInt.mk 0 0, IV.NInt.mk 0 0, IV.NInt.mk 0 0, IV.NInt.mk 0 0, IV.NInt.mk 0 0, IV.NInt.mk 0 0, IV.NInt.mk 0 0, IV.NInt.mk 0 0, IV.NInt.mk 0 0, IV.NInt.mk 0 0, IV.NInt.mk 0 0, IV.NInt.mk 0 0, IV.NInt.mk 0 0, IV.NInt.mk 0 0, IV.NInt.mk 0 0, IV.NInt.mk 0 0, IV.NInt.mk 0 0, IV.NInt.mk 0 0, IV.NInt.mk 0 0, IV.NInt.mk 0 0, IV.NInt.mk 0 0, IV.NInt.mk 0 0, IV.NInt.mk 0 0, IV.NInt.mk 0 0, IV.NInt.mk 0 0, IV.NInt.mk 0 0, IV.NInt.mk 0 0, IV.NInt.mk 0 0, IV.NInt.mk 0 0, IV.NInt.mk 0 0, IV.NInt.mk 0 0, IV.NInt.mk 0 0, IV.NInt.mk 0 0, IV.NInt.mk 0 0, IV.NInt.mk 0 0, IV.NInt.mk 0 0, IV.NInt.mk 0 0, IV.NInt.mk 0 0, IV.NInt.mk 0 0, IV.NInt.mk 0 0, IV.NInt.mk 0 0, IV.NInt.mk 0 0, IV.NInt.mk 0 0, IV.NInt.mk 0 0, IV.NInt.mk 0 0, IV.NInt.mk 0 0, IV.NInt.mk 0 0, IV.NInt.mk 0 0] := by decide

set_option maxRecDepth 100000 in
set_option maxHeartbeats 1000000 in
/-- Chunk 1 of the kernel evaluation of the C9 put lattice (9 steps). -/
theorem IV.putChunk1 : IV.loopG IV.uI9 IV.pI9 IV.qI9 IV.discI9 false IV.KSc9 9 ([IV.NInt.mk 5910573000 5910575700, IV.NInt.mk 6080135844 6080138893, IV.NInt.mk 6254563246 6254566248, IV.NInt.mk 6433994583 6433997641, IV.NInt.mk 6618573498 6618576612, IV.NInt.mk 6808447588 6808450866, IV.NInt.mk 7003768849 7003772084, IV.NInt.mk 7204693373 7204696777, IV.NInt.mk 7411382198 7411385552, IV.NInt.mk 7624000259 7624004136, IV.NInt.mk 7842718166 7842721990, IV.NInt.mk 8067710655 8067714430, IV.NInt.mk 8299157728 8299161577, IV.NInt.mk 8537244484 8537248523, IV.NInt.mk 8782161574 8782165691, IV.NInt.mk 9034104783 9034109105, IV.NInt.mk 9293275898 9293280178, IV.NInt.mk 9559881883 9559886621, IV.NInt.mk 9834136513 9834141212, IV.NInt.mk 10116258817 10116263737, IV.NInt.mk 10406474873 10406479762, IV.NInt.mk 10705016577 10705021559, IV.NInt.mk 11012122847 11012127924, IV.NInt.mk 11328039307 11328044620, IV.NInt.mk 11653019000 11653024290, IV.NInt.mk 11987321659 11987327200, IV.NInt.mk 12331214811 12331220457, IV.NInt.mk 12684973487 12684979385, IV.NInt.mk 13048880973 13048886841, IV.NInt.mk 13423228161 13423234149, IV.NInt.mk 13808314678 13808320788, IV.NInt.mk 14204448513 14204454901, IV.NInt.mk 14611946833 14611953182, IV.NInt.mk 15031135205 15031142002, IV.NInt.mk 15462349493 15462356434, IV.NInt.mk 15905934323 15905941566, IV.NInt.mk 16362245013 16362252233, IV.NInt.mk 16831646277 16831653808, IV.NInt.mk 17314513779 17314521296, IV.NInt.mk 17811233686 17811241525, IV.NInt.mk 18322203681 18322211529, IV.NInt.mk 18847832023 18847840928, IV.NInt.mk 19388540037 19388548941, IV.NInt.mk 19944759667 19944768936, IV.NInt.mk 20516936464 20516945744, IV.NInt.mk 21105527617 21105537275, IV.NInt.mk 21711004617 21711014289, IV.NInt.mk 22333851509 22333861387, IV.NInt.mk 22974566643 22974576720, IV.NInt.mk 23633662577 23633673057, IV.NInt.mk 24311666821 24311677319, IV.NInt.mk 25009121487 25009132413, IV.NInt.mk 25726585078 25726596050, IV.NInt.mk 26464631156 26464642571, IV.NInt.mk 27223850298 27223861964, IV.NInt.mk 28004849915 28004862042, IV.NInt.mk 28808255155 28808267351, IV.NInt.mk 29634707850 29634721209, IV.NInt.mk 30484870569 30484883985, IV.NInt.mk 31359422617 31359436549, IV.NInt.mk 32259064036 32259078044, IV.NInt.mk 33184514425 33184528730, IV.NInt.mk 34136514056 34136528692, IV.NInt.mk 35115824665 35115839855, IV.NInt.mk 36123230007 36123245327, IV.NInt.mk 37159535556 37159551463, IV.NInt.mk 38225571039 38225587038, IV.NInt.mk 39322188838 39322205445, IV.NInt.mk 40450266742 40450283494, IV.NInt.mk 41610706723 41610724105, IV.NInt.mk 42804437536 42804455324, IV.NInt.mk 44032414382 44032432552, IV.NInt.mk 45295619320 45295637978, IV.NInt.mk 46595062921 46595082556, IV.NInt.mk 47931785280 47931805380, IV.NInt.mk 49306855680 49306876526, IV.NInt.mk 50721374378 50721395418, IV.NInt.mk 52176472732 52176494527, IV.NInt.mk 53673315047 53673337384, IV.NInt.mk 55213098596 55213121737, IV.NInt.mk 56797056001 56797079437, IV.NInt.mk 58426453509 58426478093, IV.NInt.mk 60102595881 60102620741, IV.NInt.mk 61826823498 61826848923, IV.NInt.mk 63600515760 63600541837, IV.NInt.mk 65425091627 65425118978, IV.NInt.mk 67302011342 67302039003, IV.NInt.mk 69232776228 69232804527, IV.NInt.mk 71218930844 71218959935, IV.NInt.mk 73262064291 73262094750, IV.NInt.mk 75363811568 75363842799, IV.NInt.mk 77525853713 77525886029, IV.NInt.mk 79749920978 79749953756, IV.NInt.mk 82037791859 82037826135, IV.NInt.mk 84391297946 84391332712, IV.NInt.mk 86812321475 86812357053, IV.NInt.mk 89302799525 89302835681, IV.NInt.mk 91864724328 91864761720, IV.NInt.mk 94500145994 94500184344, IV.NInt.mk 97211172432 97211212093, IV.NInt.mk 99999973586 100000013911, IV.NInt.mk 102868780080 102868821373, IV.NInt.mk 105819886713 105819929070, IV.NInt.mk 108855654931 108855698752, IV.NInt.mk 111978513564 111978558217, IV.NInt.mk 115190960241 115191007297, IV.NInt.mk 118495566635 118495614470, IV.NInt.mk 121894975841 121895024840, IV.NInt.mk 125391907454 125391957777, IV.NInt.mk 128989159057 128989211089, IV.NInt.mk 132689609198 132689662113, IV.NInt.mk 136496217901 136496272590, IV.NInt.mk 140412030953 140412086769, IV.NInt.mk 144440181083 144440238278, IV.NInt.mk 148583890886 148583949606, IV.NInt.mk 152846476143 152846536331, IV.NInt.mk 157231346313 157231408213, IV.NInt.mk 161742010191 161742074144, IV.NInt.mk 166382076071 166382141782, IV.NInt.mk 171155256689 171155324035, IV.NInt.mk 176065370799 176065439688, IV.NInt.mk 181116345657 181116417940, IV.NInt.mk 186312224092 186312297806, IV.NInt.mk 191657162332 191657237903, IV.NInt.mk 197155436104 197155513844, IV.NInt.mk 202811445389 202811524516, IV.NInt.mk 208629714142 208629795449, IV.NInt.mk 214614898064 214614981455, IV.NInt.mk 220771784878 220771871010, IV.NInt.mk 227105300214 227105389839, IV.NInt.mk 233620513179 233620604640, IV.NInt.mk 240322634979 240322728799, IV.NInt.mk 247217027606 247217123568, IV.NInt.mk 254309206979 254309305432, IV.NInt.mk 261604847504 261604948109, IV.NInt.mk 269109785632 269109889541, IV.NInt.mk 276830025614 276830132260, IV.NInt.mk 284771744196 284771855021, IV.NInt.mk 292941295658 292941409684, IV.NInt.mk 301345216187 301345332516, IV.NInt.mk 309990228601 309990348470, IV.NInt.mk 318883250485 318883372803, IV.NInt.mk 328031395238 328031520403, IV.NInt.mk 337441982646 337442111912, IV.NInt.mk 347122541354 347122674186, IV.NInt.mk 357080817320 357080953790, IV.NInt.mk 367324776717 367324916345, IV.NInt.mk 377862615246 377862758660, IV.NInt.mk 388702764433 388702911570, IV.NInt.mk 399853896781 399854047958, IV.NInt.mk 411324932777 411325088474, IV.NInt.mk 423125050660 423125210675, IV.NInt.mk 435263691382 435263856014, IV.NInt.mk 447750565658 447750735768, IV.NInt.mk 460595665382 460595839693, IV.NInt.mk 473809265948 473809445123, IV.NInt.mk 487401938818 487402122750, IV.NInt.mk 501384560145 501384748280, IV.NInt.mk 515768315089 515768508061, IV.NInt.mk 530564712571 530564910979, IV.NInt.mk 545785589208 545785793741, IV.NInt.mk 561443123415 561443334774, IV.NInt.mk 577549842664 577550059492, IV.NInt.mk 594118633162 594118855156, IV.NInt.mk 611162749423 611162977709, IV.NInt.mk 628695828849 628696063679, IV.NInt.mk 646731898651 646732139737, IV.NInt.mk 665285389266 665285636235, IV.NInt.mk 684371141640 684371396394, IV.NInt.mk 704004429365 704004691553, IV.NInt.mk 724200956616 724201225945, IV.NInt.mk 744976884527 744977160551, IV.NInt.mk 766348832867 766349117001, IV.NInt.mk 788333901518 788334192844, IV.NInt.mk 810949679282 810949978709, IV.NInt.mk 834214259610 834214567936, IV.NInt.mk 858146255678 858146572822, IV.NInt.mk 882764815475 882765140826, IV.NInt.mk 908089633529 908089968062, IV.NInt.mk 934140972879 934141314939, IV.NInt.mk 960939673259 960940025773, IV.NInt.mk 988507178568 988507539096, IV.NInt.mk 1016865540294 1016865911313, IV.NInt.mk 1046037450338 1046037831286, IV.NInt.mk 1076046243508 1076046637385, IV.NInt.mk 1106915933299 1106916336439, IV.NInt.mk 1138671213644 1138671628603, IV.NInt.mk 1171337493401 1171337919686, IV.NInt.mk 1204940904122 1204941342483, IV.NInt.mk 1239508332319 1239508784114, IV.NInt.mk 1275067433100 1275067896986, IV.NInt.mk 1311646657454 1311647132716, IV.NInt.mk 1349275265503 1349275756836, IV.NInt.mk 1387983369059 1387983874099, IV.NInt.mk 1427801931445 1427802450400, IV.NInt.mk 1468762813330 1468763345375, IV.NInt.mk 1510898781827 1510899329592, IV.NInt.mk 1554243552085 1554244113801, IV.NInt.mk 1598831798133 1598832375642, IV.NInt.mk 1644699196740 1644699789194, IV.NInt.mk 1691882438400 1691883052200], [IV.NInt.mk 94089424300 94089427000, IV.NInt.mk 93919861107 93919864156, IV.NInt.mk 93745433752 93745436754, IV.NInt.mk 93566002359 93566005417, IV.NInt.mk 93381423388 93381426502, IV.NInt.mk 93191549134 93191552412, IV.NInt.mk 92996227916 92996231151, IV.NInt.mk 92795303223 92795306627, IV.NInt.mk 92588614448 92588617802, IV.NInt.mk 92375995864 92375999741, IV.NInt.mk 92157278010 92157281834, IV.NInt.mk 91932285570 91932289345, IV.NInt.mk 91700838423 91700842272, IV.NInt.mk 91462751477 91462755516, IV.NInt.mk 91217834309 91217838426, IV.NInt.mk 90965890895 90965895217, IV.NInt.mk 90706719822 90706724102, IV.NInt.mk 90440113379 90440118117, IV.NInt.mk 90165858788 90165863487, IV.NInt.mk 89883736263 89883741183, IV.NInt.mk 89593520238 89593525127, IV.NInt.mk 89294978441 89294983423, IV.NInt.mk 88987872076 88987877153, IV.NInt.mk 88671955380 88671960693, IV.NInt.mk 88346975710 88346981000, IV.NInt.mk 88012672800 88012678341, IV.NInt.mk 87668779543 87668785189, IV.NInt.mk 87315020615 87315026513, IV.NInt.mk 86951113159 86951119027, IV.NInt.mk 86576765851 86576771839, IV.NInt.mk 86191679212 86191685322, IV.NInt.mk 85795545099 85795551487, IV.NInt.mk 85388046818 85388053167, IV.NInt.mk 84968857998 84968864795, IV.NInt.mk 84537643566 84537650507, IV.NInt.mk 84094058434 84094065677, IV.NInt.mk 83637747767 83637754987, IV.NInt.mk 83168346192 83168353723, IV.NInt.mk 82685478704 82685486221, IV.NInt.mk 82188758475 82188766314, IV.NInt.mk 81677788471 81677796319, IV.NInt.mk 81152159072 81152167977, IV.NInt.mk 80611451059 80611459963, IV.NInt.mk 80055231064 80055240333, IV.NInt.mk 79483054256 79483063536, IV.NInt.mk 78894462725 78894472383, IV.NInt.mk 78288985711 78288995383, IV.NInt.mk 77666138613 77666148491, IV.NInt.mk 77025423280 77025433357, IV.NInt.mk 76366326943 76366337423, IV.NInt.mk 75688322681 75688333179, IV.NInt.mk 74990867587 74990878513, IV.NInt.mk 74273403950 74273414922, IV.NInt.mk 73535357429 73535368844, IV.NInt.mk 72776138036 72776149702, IV.NInt.mk 71995137958 71995150085, IV.NInt.mk 71191732649 71191744845, IV.NInt.mk 70365278791 70365292150, IV.NInt.mk 69515116015 69515129431, IV.NInt.mk 68640563451 68640577383, IV.NInt.mk 67740921956 67740935964, IV.NInt.mk 66815471270 66815485575, IV.NInt.mk 65863471308 65863485944, IV.NInt.mk 64884160145 64884175335, IV.NInt.mk 63876754673 63876769993, IV.NInt.mk 62840448537 62840464444, IV.NInt.mk 61774412962 61774428961, IV.NInt.mk 60677794555 60677811162, IV.NInt.mk 59549716506 59549733258, IV.NInt.mk 58389275895 58389293277, IV.NInt.mk 57195544676 57195562464, IV.NInt.mk 55967567448 55967585618, IV.NInt.mk 54704362022 54704380680, IV.NInt.mk 53404917444 53404937079, IV.NInt.mk 52068194620 52068214720, IV.NInt.mk 50693123474 50693144320, IV.NInt.mk 49278604582 49278625622, IV.NInt.mk 47823505473 47823527268, IV.NInt.mk 46326662616 46326684953, IV.NInt.mk 44786878263 44786901404, IV.NInt.mk 43202920563 43202943999, IV.NInt.mk 41573521907 41573546491, IV.NInt.mk 39897379259 39897404119, IV.NInt.mk 38173151077 38173176502, IV.NInt.mk 36399458163 36399484240, IV.NInt.mk 34574881022 34574908373, IV.NInt.mk 32697960997 32697988658, IV.NInt.mk 30767195473 30767223772, IV.NInt.mk 28781040065 28781069156, IV.NInt.mk 26737905250 26737935709, IV.NInt.mk 24636157201 24636188432, IV.NInt.mk 22474113971 22474146287, IV.NInt.mk 20250046244 20250079022, IV.NInt.mk 17962173865 17962208141, IV.NInt.mk 15608667288 15608702054, IV.NInt.mk 13187642947 13187678525, IV.NInt.mk 10697164319 10697200475, IV.NInt.mk 8135238280 8135275672, IV.NInt.mk 5499815656 5499854006, IV.NInt.mk 2788787907 2788827568, IV.NInt.mk 0 26414, IV.NInt.mk 0 0, IV.NInt.mk 0 0, IV.NInt.mk 0 0, IV.NInt.mk 0 0, IV.NInt.mk 0 0, IV.NInt.mk 0 0, IV.NInt.mk 0 0, IV.NInt.mk 0 0, IV.NInt.mk 0 0, IV.NInt.mk 0 0, IV.NInt.mk 0 0, IV.NInt.mk 0 0, IV.NInt.mk 0 0, IV.NInt.mk 0 0, IV.NInt.mk 0 0, IV.NInt.mk 0 0, IV.NInt.mk 0 0, IV.NInt.mk 0 0, IV.NInt.mk 0 0, IV.NInt.mk 0 0, IV.NInt.mk 0 0, IV.NInt.mk 0 0, IV.NInt.mk 0 0, IV.NInt.mk 0 0, IV.NInt.mk 0 0, IV.NInt.mk 0 0, IV.NInt.mk 0 0, IV.NInt.mk 0 0, IV.NInt.mk 0 0, IV.NInt.mk 0 0, IV.NInt.mk 0 0, IV.NInt.mk 0 0, IV.NInt.mk 0 0, IV.NInt.mk 0 0, IV.NInt.mk 0 0, IV.NInt.mk 0 0, IV.NInt.mk 0 0, IV.NInt.mk 0 0, IV.NInt.mk 0 0, IV.NInt.mk 0 0, IV.NInt.mk 0 0, IV.NInt.mk 0 0, IV.NInt.mk 0 0, IV.NInt.mk 0 0, IV.NInt.mk 0 0, IV.NInt.mk 0 0, IV.NInt.mk 0 0, IV.NInt.mk 0 0, IV.NInt.mk 0 0, IV.NInt.mk 0 0, IV.NInt.mk 0 0, IV.NInt.mk 0 0, IV.NInt.mk 0 0, IV.NInt.mk 0 0, IV.NInt.mk 0 0, IV.NInt.mk 0 0, IV.NInt.mk 0 0, IV.NInt.mk 0 0, IV.NInt.mk 0 0, IV.NInt.mk 0 0, IV.NInt.mk 0 0, IV.NInt.mk 0 0, IV.NInt.mk 0 0, IV.NInt.mk 0 0, IV.NInt.mk 0 0, IV.NInt.mk 0 0, IV.NInt.mk 0 0, IV.NInt.mk 0 0, IV.NInt.mk 0 0, IV.NInt.mk 0 0, IV.NInt.mk 0 0, IV.NInt.mk 0 0, IV.NInt.mk 0 0, IV.NInt.mk 0 0, IV.NInt.mk 0 0, IV.NInt.mk 0 0, IV.NInt.mk 0 0, IV.NInt.mk 0 0, IV.NInt.mk 0 0, IV.NInt.mk 0 0, IV.NInt.mk 0 0, IV.NInt.mk 0 0, IV.NInt.mk 0 0, IV.NInt.mk 0 0, IV.NInt.mk 0 0, IV.NInt.mk 0 0, IV.NInt.mk 0 0, IV.NInt.mk 0 0, IV.NInt.mk 0 0, IV.NInt.mk 0 0, IV.NInt.mk 0 0, IV.NInt.mk 0 0, IV.NInt.mk 0 0, IV.NInt.mk 0 0, IV.NInt.mk 0 0, IV.NInt.mk 0 0, IV.NInt.mk 0 0, IV.NInt.mk 0 0, IV.NInt.mk 0 0, IV.NInt.mk 0 0]) = ([IV.NInt.mk 6712839224 6712842360, IV.NInt.mk 6905417525 6905421057, IV.NInt.mk 7103520672 7103524155, IV.NInt.mk 7307306957 7307310503, IV.NInt.mk 7516939523 7516943135, IV.NInt.mk 7732586001 7732589800, IV.NInt.mk 7954419014 7954422767, IV.NInt.mk 8182615845 8182619792, IV.NInt.mk 8417359390 8417363282, IV.NInt.mk 8658836967 8658841456, IV.NInt.mk 8907242349 8907246782, IV.NInt.mk 9162773989 9162778368, IV.NInt.mk 9425636319 9425640785, IV.NInt.mk 9696039564 9696044245, IV.NInt.mk 9974200251 9974205025, IV.NInt.mk 10260340741 10260345750, IV.NInt.mk 10554690212 10554695176, IV.NInt.mk 10857483718 10857489204, IV.NInt.mk 11168964047 11168969494, IV.NInt.mk 11489379964 11489385665, IV.NInt.mk 11818988233 11818993899, IV.NInt.mk 12158052222 12158057998, IV.NInt.mk 12506843281 12506849167, IV.NInt.mk 12865640374 12865646530, IV.NInt.mk 13234730889 13234737022, IV.NInt.mk 13614409813 13614416237, IV.NInt.mk 14004980986 14004987535, IV.NInt.mk 14406756776 14406763611, IV.NInt.mk 14820058910 14820065717, IV.NInt.mk 15245217772 15245224719, IV.NInt.mk 15682573658 15682580745, IV.NInt.mk 16132476356 16132483764, IV.NInt.mk 16595286087 16595293455, IV.NInt.mk 17071372611 17071380493, IV.NInt.mk 17561117376 17561125424, IV.NInt.mk 18064911789 18064920185, IV.NInt.mk 18583159393 18583167769, IV.NInt.mk 19116274409 19116283142, IV.NInt.mk 19664683492 19664692213, IV.NInt.mk 20228825220 20228834313, IV.NInt.mk 20809151262 20809160369, IV.NInt.mk 21406125287 21406135600, IV.NInt.mk 22020225810 22020236126, IV.NInt.mk 22651943403 22651954141, IV.NInt.mk 23301784096 23301794851, IV.NInt.mk 23970267130 23970278321, IV.NInt.mk 24657927999 24657939211, IV.NInt.mk 25365316445 25365327897, IV.NInt.mk 26092998461 26093010148, IV.NInt.mk 26841556180 26841568332, IV.NInt.mk 27611588711 27611600889, IV.NInt.mk 28403711750 28403724421, IV.NInt.mk 29218559607 29218572336, IV.NInt.mk 30056783693 30056796935, IV.NInt.mk 30919054755 30919068286, IV.NInt.mk 31806062640 31806076704, IV.NInt.mk 32718517357 32718531507, IV.NInt.mk 33657147855 33657163334, IV.NInt.mk 34622706633 34622722187, IV.NInt.mk 35615965204 35615981353, IV.NInt.mk 36637718631 36637734874, IV.NInt.mk 37688784182 37688800773, IV.NInt.mk 38770002614 38770019591, IV.NInt.mk 39882239057 39882256669, IV.NInt.mk 41026383639 41026401414, IV.NInt.mk 42203351175 42203369628, IV.NInt.mk 43414084012 43414102578, IV.NInt.mk 44659550227 44659569493, IV.NInt.mk 45940746754 45940766198, IV.NInt.mk 47258697997 47258718168, IV.NInt.mk 48614458772 48614479414, IV.NInt.mk 50009113936 50009135026, IV.NInt.mk 51443778840 51443800498, IV.NInt.mk 52919601232 52919624013, IV.NInt.mk 54437762381 54437785702, IV.NInt.mk 55999476706 55999500890, IV.NInt.mk 57605993807 57606018223, IV.NInt.mk 59258598608 59258623899, IV.NInt.mk 60958613448 60958639370, IV.NInt.mk 62707398111 62707424958, IV.NInt.mk 64506352527 64506379725, IV.NInt.mk 66356914820 66356943338, IV.NInt.mk 68260566843 68260595694, IV.NInt.mk 70218830921 70218860431, IV.NInt.mk 72233273684 72233303951, IV.NInt.mk 74305506689 74305538423, IV.NInt.mk 76437188388 76437220490, IV.NInt.mk 78630023883 78630056730, IV.NInt.mk 80885767383 80885801148, IV.NInt.mk 83206223681 83206259023, IV.NInt.mk 85593249707 85593285946, IV.NInt.mk 88048754668 88048792163, IV.NInt.mk 90574703672 90574741713, IV.NInt.mk 93173116618 93173156383, IV.NInt.mk 95846073704 95846114049, IV.NInt.mk 98595712651 98595753943, IV.NInt.mk 101424233465 101424275439, IV.NInt.mk 104333898792 104333942195, IV.NInt.mk 107327037010 107327081529, IV.NInt.mk 110406042148 110406088182, IV.NInt.mk 113573378679 113573425497, IV.NInt.mk 116831580003 116831627948, IV.NInt.mk 120183252401 120183301582, IV.NInt.mk 123631077847 123631128721, IV.NInt.mk 127177814843 127177866693, IV.NInt.mk 130826300033 130826354651, IV.NInt.mk 134579454162 134579509694, IV.NInt.mk 138440279071 138440335959, IV.NInt.mk 142411863503 142411921929, IV.NInt.mk 146497384767 146497445171, IV.NInt.mk 150700112130 150700173573, IV.NInt.mk 155023407390 155023470887, IV.NInt.mk 159470729749 159470794566, IV.NInt.mk 164045637159 164045703582, IV.NInt.mk 168751789629 168751857827, IV.NInt.mk 173592953004 173593022909, IV.NInt.mk 178572999521 178573071418, IV.NInt.mk 183695914242 183695988514, IV.NInt.mk 188965795226 188965871543, IV.NInt.mk 194386859157 194386937379, IV.NInt.mk 199963443120 199963523144, IV.NInt.mk 205700007441 205700091371, IV.NInt.mk 211601143690 211601229297, IV.NInt.mk 217671572240 217671660010, IV.NInt.mk 223916149182 223916239471, IV.NInt.mk 230339871725 230339963643, IV.NInt.mk 236947877872 236947972327, IV.NInt.mk 243745455269 243745552150, IV.NInt.mk 250738041492 250738141549, IV.NInt.mk 257931230747 257931334837, IV.NInt.mk 265330780195 265330886438, IV.NInt.mk 272942608379 272942717363, IV.NInt.mk 280772805093 280772916582, IV.NInt.mk 288827634957 288827749344, IV.NInt.mk 297113542586 297113659494, IV.NInt.mk 305637156638 305637277372, IV.NInt.mk 314405296344 314405420265, IV.NInt.mk 323424976847 323425105593, IV.NInt.mk 332703414916 332703547380, IV.NInt.mk 342248033924 342248169088, IV.NInt.mk 352066469203 352066608476, IV.NInt.mk 362166577292 362166719436, IV.NInt.mk 372556437118 372556582586, IV.NInt.mk 383244362015 383244512238, IV.NInt.mk 394238902519 394239056889, IV.NInt.mk 405548855979 405549014582, IV.NInt.mk 417183269850 417183432143, IV.NInt.mk 429151452268 429151618967, IV.NInt.mk 441462979207 441463150242, IV.NInt.mk 454127700321 454127876057, IV.NInt.mk 467155746914 467155927900, IV.NInt.mk 480557543023 480557729031, IV.NInt.mk 494343811059 494344002434, IV.NInt.mk 508525579811 508525777533, IV.NInt.mk 523114197417 523114400039, IV.NInt.mk 538121333990 538121542269, IV.NInt.mk 553558995898 553559209719, IV.NInt.mk 569439535562 569439754297, IV.NInt.mk 585775656348 585775880722, IV.NInt.mk 602580429332 602580660029, IV.NInt.mk 619867297762 619867535566, IV.NInt.mk 637650093075 637650338790, IV.NInt.mk 655943043153 655943295243, IV.NInt.mk 674760783299 674761041422, IV.NInt.mk 694118367117 694118632557, IV.NInt.mk 714031283068 714031556117, IV.NInt.mk 734515462335 734515742673, IV.NInt.mk 755587294056 755587581261, IV.NInt.mk 777263633599 777263929841, IV.NInt.mk 799561827705 799562132585, IV.NInt.mk 822499712140 822500025334, IV.NInt.mk 846095641654 846095962661, IV.NInt.mk 870368491885 870368822321, IV.NInt.mk 895337683755 895338022578, IV.NInt.mk 921023193460 921023541714, IV.NInt.mk 947445570355 947445928950, IV.NInt.mk 974625954054 974626322905, IV.NInt.mk 1002586091586 1002586470004, IV.NInt.mk 1031348350693 1031348739794, IV.NInt.mk 1060935744801 1060936142714, IV.NInt.mk 1091371942304 1091372352361, IV.NInt.mk 1122681297773 1122681717208, IV.NInt.mk 1154888855831 1154889287468, IV.NInt.mk 1188020388447 1188020831653, IV.NInt.mk 1222102397754 1222102855947, IV.NInt.mk 1257162156699 1257162625724, IV.NInt.mk 1293227711026 1293228193792, IV.NInt.mk 1330327918435 1330328414395, IV.NInt.mk 1368492457425 1368492967438, IV.NInt.mk 1407751863922 1407752389542, IV.NInt.mk 1448137546777 1448138086487, IV.NInt.mk 1489681818744 1489682371746], [IV.NInt.mk 93287157640 93287160776, IV.NInt.mk 93094578943 93094582475, IV.NInt.mk 92896475845 92896479328, IV.NInt.mk 92692689497 92692693043, IV.NInt.mk 92483056865 92483060477, IV.NInt.mk 92267410200 92267413999, IV.NInt.mk 92045577233 92045580986, IV.NInt.mk 91817380208 91817384155, IV.NInt.mk 91582636718 91582640610, IV.NInt.mk 91341158544 91341163033, IV.NInt.mk 91092753218 91092757651, IV.NInt.mk 90837221632 90837226011, IV.NInt.mk 90574359215 90574363681, IV.NInt.mk 90303955755 90303960436, IV.NInt.mk 90025794975 90025799749, IV.NInt.mk 89739654250 89739659259, IV.NInt.mk 89445304824 89445309788, IV.NInt.mk 89142510796 89142516282, IV.NInt.mk 88831030506 88831035953, IV.NInt.mk 88510614335 88510620036, IV.NInt.mk 88181006101 88181011767, IV.NInt.mk 87841942002 87841947778, IV.NInt.mk 87493150833 87493156719, IV.NInt.mk 87134353470 87134359626, IV.NInt.mk 86765262978 86765269111, IV.NInt.mk 86385583763 86385590187, IV.NInt.mk 85995012465 85995019014, IV.NInt.mk 85593236389 85593243224, IV.NInt.mk 85179934283 85179941090, IV.NInt.mk 84754775281 84754782228, IV.NInt.mk 84317419255 84317426342, IV.NInt.mk 83867516236 83867523644, IV.NInt.mk 83404706545 83404713913, IV.NInt.mk 82928619507 82928627389, IV.NInt.mk 82438874576 82438882624, IV.NInt.mk 81935079815 81935088211, IV.NInt.mk 81416832231 81416840607, IV.NInt.mk 80883716858 80883725591, IV.NInt.mk 80335307787 80335316508, IV.NInt.mk 79771165687 79771174780, IV.NInt.mk 79190839631 79190848738, IV.NInt.mk 78593864400 78593874713, IV.NInt.mk 77979763874 77979774190, IV.NInt.mk 77348045859 77348056597, IV.NInt.mk 76698205149 76698215904, IV.NInt.mk 76029721679 76029732870, IV.NInt.mk 75342060789 75342072001, IV.NInt.mk 74634672103 74634683555, IV.NInt.mk 73906989852 73907001539, IV.NInt.mk 73158431668 73158443820, IV.NInt.mk 72388399111 72388411289, IV.NInt.mk 71596275579 71596288250, IV.NInt.mk 70781427664 70781440393, IV.NInt.mk 69943203065 69943216307, IV.NInt.mk 69080931714 69080945245, IV.NInt.mk 68193923296 68193937360, IV.NInt.mk 67281468493 67281482643, IV.NInt.mk 66342836666 66342852145, IV.NInt.mk 65377277813 65377293367, IV.NInt.mk 64384018647 64384034796, IV.NInt.mk 63362265126 63362281369, IV.NInt.mk 62311199227 62311215818, IV.NInt.mk 61229980409 61229997386, IV.NInt.mk 60117743331 60117760943, IV.NInt.mk 58973598586 58973616361, IV.NInt.mk 57796630372 57796648825, IV.NInt.mk 56585897422 56585915988, IV.NInt.mk 55340430507 55340449773, IV.NInt.mk 54059233802 54059253246, IV.NInt.mk 52741281832 52741302003, IV.NInt.mk 51385520586 51385541228, IV.NInt.mk 49990864974 49990886064, IV.NInt.mk 48556199502 48556221160, IV.NInt.mk 47080375987 47080398768, IV.NInt.mk 45562214298 45562237619, IV.NInt.mk 44000499110 44000523294, IV.NInt.mk 42393981777 42394006193, IV.NInt.mk 40741376101 40741401392, IV.NInt.mk 39041360630 39041386552, IV.NInt.mk 37292575042 37292601889, IV.NInt.mk 35493620275 35493647473, IV.NInt.mk 33643056662 33643085180, IV.NInt.mk 31739404306 31739433157, IV.NInt.mk 29781139569 29781169079, IV.NInt.mk 27766696049 27766726316, IV.NInt.mk 25694461577 25694493311, IV.NInt.mk 23562779510 23562811612, IV.NInt.mk 21369943270 21369976117, IV.NInt.mk 19114198852 19114232617, IV.NInt.mk 16793740977 16793776319, IV.NInt.mk 14406714054 14406750293, IV.NInt.mk 11951207837 11951245332, IV.NInt.mk 9425258287 9425296328, IV.NInt.mk 6826843617 6826883382, IV.NInt.mk 4356213311 4356248463, IV.NInt.mk 2329609133 2329636858, IV.NInt.mk 976601152 976618712, IV.NInt.mk 294631595 294639908, IV.NInt.mk 56126010 56128710, IV.NInt.mk 5026673 5027206, IV.NInt.mk 0 47, IV.NInt.mk 0 0, IV.NInt.mk 0 0, IV.NInt.mk 0 0, IV.NInt.mk 0 0, IV.NInt.mk 0 0, IV.NInt.mk 0 0, IV.NInt.mk 0 0, IV.NInt.mk 0 0, IV.NInt.mk 0 0, IV.NInt.mk 0 0, IV.NInt.mk 0 0, IV.NInt.mk 0 0, IV.NInt.mk 0 0, IV.NInt.mk 0 0, IV.NInt.mk 0 0, IV.NInt.mk 0 0, IV.NInt.mk 0 0, IV.NInt.mk 0 0, IV.NInt.mk 0 0, IV.NInt.mk 0 0, IV.NInt.mk 0 0, IV.NInt.mk 0 0, IV.NInt.mk 0 0, IV.NInt.mk 0 0, IV.NInt.mk 0 0, IV.NInt.mk 0 0, IV.NInt.mk 0 0, IV.NInt.mk 0 0, IV.NInt.mk 0 0, IV.NInt.mk 0 0, IV.NInt.mk 0 0, IV.NInt.mk 0 0, IV.NInt.mk 0 0, IV.NInt.mk 0 0, IV.NInt.mk 0 0, IV.NInt.mk 0 0, IV.NInt.mk 0 0, IV.NInt.mk 0 0, IV.NInt.mk 0 0, IV.NInt.mk 0 0, IV.NInt.mk 0 0, IV.NInt.mk 0 0, IV.NInt.mk 0 0, IV.NInt.mk 0 0, IV.NInt.mk 0 0, IV.NInt.mk 0 0, IV.NInt.mk 0 0, IV.NInt.mk 0 0, IV.NInt.mk 0 0, IV.NInt.mk 0 0, IV.NInt.mk 0 0, IV.NInt.mk 0 0, IV.NInt.mk 0 0, IV.NInt.mk 0 0, IV.NInt.mk 0 0, IV.NInt.mk 0 0, IV.NInt.mk 0 0, IV.NInt.mk 0 0, IV.NInt.mk 0 0, IV.NInt.mk 0 0, IV.NInt.mk 0 0, IV.NInt.mk 0 0, IV.NInt.mk 0 0, IV.NInt.mk 0 0, IV.NInt.mk 0 0, IV.NInt.mk 0 0, IV.NInt.mk 0 0, IV.NInt.mk 0 0, IV.NInt.mk 0 0, IV.NInt.mk 0 0, IV.NInt.mk 0 0, IV.NInt.mk 0 0, IV.NInt.mk 0 0, IV.NInt.mk 0 0, IV.NInt.mk 0 0, IV.NInt.mk 0 0, IV.NInt.mk 0 0, IV.NInt.mk 0 0, IV.NInt.mk 0 0, IV.NInt.mk 0 0, IV.NInt.mk 0 0, IV.NInt.mk 0 0, IV.NInt.mk 0 0, IV.NInt.mk 0 0, IV.NInt.mk 0 0, IV.NInt.mk 0 0, IV.NInt.mk 0 0, IV.NInt.mk 0 0, IV.NInt.mk 0 0, IV.NInt.mk 0 0, IV.NInt.mk 0 0]) := by decide

set_option maxRecDepth 100000 in
set_option maxHeartbeats 1000000 in
/-- Chunk 2 of the kernel evaluation of the C9 put lattice (10 steps). -/
theorem IV.putChunk2 : IV.loopG IV.uI9 IV.pI9 IV.qI9 IV.discI9 false IV.KSc9 10 ([IV.NInt.mk 6712839224 6712842360, IV.NInt.mk 6905417525 6905421057, IV.NInt.mk 7103520672 7103524155, IV.NInt.mk 7307306957 7307310503, IV.NInt.mk 7516939523 7516943135, IV.NInt.mk 7732586001 7732589800, IV.NInt.mk 7954419014 7954422767, IV.NInt.mk 8182615845 8182619792, IV.NInt.mk 8417359390 8417363282, IV.NInt.mk 8658836967 8658841456, IV.NInt.mk 8907242349 8907246782, IV.NInt.mk 9162773989 9162778368, IV.NInt.mk 9425636319 9425640785, IV.NInt.mk 9696039564 9696044245, IV.NInt.mk 9974200251 9974205025, IV.NInt.mk 10260340741 10260345750, IV.NInt.mk 10554690212 10554695176, IV.NInt.mk 10857483718 10857489204, IV.NInt.mk 11168964047 11168969494, IV.NInt.mk 11489379964 11489385665, IV.NInt.mk 11818988233 11818993899, IV.NInt.mk 12158052222 12158057998, IV.NInt.mk 12506843281 12506849167, IV.NInt.mk 12865640374 12865646530, IV.NInt.mk 13234730889 13234737022, IV.NInt.mk 13614409813 13614416237, IV.NInt.mk 14004980986 14004987535, IV.NInt.mk 14406756776 14406763611, IV.NInt.mk 14820058910 14820065717, IV.NInt.mk 15245217772 15245224719, IV.NInt.mk 15682573658 15682580745, IV.NInt.mk 16132476356 16132483764, IV.NInt.mk 16595286087 16595293455, IV.NInt.mk 17071372611 17071380493, IV.NInt.mk 17561117376 17561125424, IV.NInt.mk 18064911789 18064920185, IV.NInt.mk 18583159393 18583167769, IV.NInt.mk 19116274409 19116283142, IV.NInt.mk 19664683492 19664692213, IV.NInt.mk 20228825220 20228834313, IV.NInt.mk 20809151262 20809160369, IV.NInt.mk 21406125287 21406135600, IV.NInt.mk 22020225810 22020236126, IV.NInt.mk 22651943403 22651954141, IV.NInt.mk 23301784096 23301794851, IV.NInt.mk 23970267130 23970278321, IV.NInt.mk 24657927999 24657939211, IV.NInt.mk 25365316445 25365327897, IV.NInt.mk 26092998461 26093010148, IV.NInt.mk 26841556180 26841568332, IV.NInt.mk 27611588711 27611600889, IV.NInt.mk 28403711750 28403724421, IV.NInt.mk 29218559607 29218572336, IV.NInt.mk 30056783693 30056796935, IV.NInt.mk 30919054755 30919068286, IV.NInt.mk 31806062640 31806076704, IV.NInt.mk 32718517357 32718531507, IV.NInt.mk 33657147855 33657163334, IV.NInt.mk 34622706633 34622722187, IV.NInt.mk 35615965204 35615981353, IV.NInt.mk 36637718631 36637734874, IV.NInt.mk 37688784182 37688800773, IV.NInt.mk 38770002614 38770019591, IV.NInt.mk 39882239057 39882256669, IV.NInt.mk 41026383639 41026401414, IV.NInt.mk 42203351175 42203369628, IV.NInt.mk 43414084012 43414102578, IV.NInt.mk 44659550227 44659569493, IV.NInt.mk 45940746754 45940766198, IV.NInt.mk 47258697997 47258718168, IV.NInt.mk 48614458772 48614479414, IV.NInt.mk 50009113936 50009135026, IV.NInt.mk 51443778840 51443800498, IV.NInt.mk 52919601232 52919624013, IV.NInt.mk 54437762381 54437785702, IV.NInt.mk 55999476706 55999500890, IV.NInt.mk 57605993807 57606018223, IV.NInt.mk 59258598608 59258623899, IV.NInt.mk 60958613448 60958639370, IV.NInt.mk 62707398111 62707424958, IV.NInt.mk 64506352527 64506379725, IV.NInt.mk 66356914820 66356943338, IV.NInt.mk 68260566843 68260595694, IV.NInt.mk 70218830921 70218860431, IV.NInt.mk 72233273684 72233303951, IV.NInt.mk 74305506689 74305538423, IV.NInt.mk 76437188388 76437220490, IV.NInt.mk 78630023883 78630056730, IV.NInt.mk 80885767383 80885801148, IV.NInt.mk 83206223681 83206259023, IV.NInt.mk 85593249707 85593285946, IV.NInt.mk 88048754668 88048792163, IV.NInt.mk 90574703672 90574741713, IV.NInt.mk 93173116618 93173156383, IV.NInt.mk 95846073704 95846114049, IV.NInt.mk 98595712651 98595753943, IV.NInt.mk 101424233465 101424275439, IV.NInt.mk 104333898792 104333942195, IV.NInt.mk 107327037010 107327081529, IV.NInt.mk 110406042148 110406088182, IV.NInt.mk 113573378679 113573425497, IV.NInt.mk 116831580003 116831627948, IV.NInt.mk 120183252401 120183301582, IV.NInt.mk 123631077847 123631128721, IV.NInt.mk 127177814843 127177866693, IV.NInt.mk 130826300033 130826354651, IV.NInt.mk 134579454162 134579509694, IV.NInt.mk 138440279071 138440335959, IV.NInt.mk 142411863503 142411921929, IV.NInt.mk 146497384767 146497445171, IV.NInt.mk 150700112130 150700173573, IV.NInt.mk 155023407390 155023470887, IV.NInt.mk 159470729749 159470794566, IV.NInt.mk 164045637159 164045703582, IV.NInt.mk 168751789629 168751857827, IV.NInt.mk 173592953004 173593022909, IV.NInt.mk 178572999521 178573071418, IV.NInt.mk 183695914242 183695988514, IV.NInt.mk 188965795226 188965871543, IV.NInt.mk 194386859157 194386937379, IV.NInt.mk 199963443120 199963523144, IV.NInt.mk 205700007441 205700091371, IV.NInt.mk 211601143690 211601229297, IV.NInt.mk 217671572240 217671660010, IV.NInt.mk 223916149182 223916239471, IV.NInt.mk 230339871725 230339963643, IV.NInt.mk 236947877872 236947972327, IV.NInt.mk 243745455269 243745552150, IV.NInt.mk 250738041492 250738141549, IV.NInt.mk 257931230747 257931334837, IV.NInt.mk 265330780195 265330886438, IV.NInt.mk 272942608379 272942717363, IV.NInt.mk 280772805093 280772916582, IV.NInt.mk 288827634957 288827749344, IV.NInt.mk 297113542586 297113659494, IV.NInt.mk 305637156638 305637277372, IV.NInt.mk 314405296344 314405420265, IV.NInt.mk 323424976847 323425105593, IV.NInt.mk 332703414916 332703547380, IV.NInt.mk 342248033924 342248169088, IV.NInt.mk 352066469203 352066608476, IV.NInt.mk 362166577292 362166719436, IV.NInt.mk 372556437118 372556582586, IV.NInt.mk 383244362015 383244512238, IV.NInt.mk 394238902519 394239056889, IV.NInt.mk 405548855979 405549014582, IV.NInt.mk 417183269850 417183432143, IV.NInt.mk 429151452268 429151618967, IV.NInt.mk 441462979207 441463150242, IV.NInt.mk 454127700321 454127876057, IV.NInt.mk 467155746914 467155927900, IV.NInt.mk 480557543023 480557729031, IV.NInt.mk 494343811059 494344002434, IV.NInt.mk 508525579811 508525777533, IV.NInt.mk 523114197417 523114400039, IV.NInt.mk 538121333990 538121542269, IV.NInt.mk 553558995898 553559209719, IV.NInt.mk 569439535562 569439754297, IV.NInt.mk 585775656348 585775880722, IV.NInt.mk 602580429332 602580660029, IV.NInt.mk 619867297762 619867535566, IV.NInt.mk 637650093075 637650338790, IV.NInt.mk 655943043153 655943295243, IV.NInt.mk 674760783299 674761041422, IV.NInt.mk 694118367117 694118632557, IV.NInt.mk 714031283068 714031556117, IV.NInt.mk 734515462335 734515742673, IV.NInt.mk 755587294056 755587581261, IV.NInt.mk 777263633599 777263929841, IV.NInt.mk 799561827705 799562132585, IV.NInt.mk 822499712140 822500025334, IV.NInt.mk 846095641654 846095962661, IV.NInt.mk 870368491885 870368822321, IV.NInt.mk 895337683755 895338022578, IV.NInt.mk 921023193460 921023541714, IV.NInt.mk 947445570355 947445928950, IV.NInt.mk 974625954054 974626322905, IV.NInt.mk 1002586091586 1002586470004, IV.NInt.mk 1031348350693 1031348739794, IV.NInt.mk 1060935744801 1060936142714, IV.NInt.mk 1091371942304 1091372352361, IV.NInt.mk 1122681297773 1122681717208, IV.NInt.mk 1154888855831 1154889287468, IV.NInt.mk 1188020388447 1188020831653, IV.NInt.mk 1222102397754 1222102855947, IV.NInt.mk 1257162156699 1257162625724, IV.NInt.mk 1293227711026 1293228193792, IV.NInt.mk 1330327918435 1330328414395, IV.NInt.mk 1368492457425 1368492967438, IV.NInt.mk 1407751863922 1407752389542, IV.NInt.mk 1448137546777 1448138086487, IV.NInt.mk 1489681818744 1489682371746], [IV.NInt.mk 93287157640 93287160776, IV.NInt.mk 93094578943 93094582475, IV.NInt.mk 92896475845 92896479328, IV.NInt.mk 92692689497 92692693043, IV.NInt.mk 92483056865 92483060477, IV.NInt.mk 92267410200 92267413999, IV.NInt.mk 92045577233 92045580986, IV.NInt.mk 91817380208 91817384155, IV.NInt.mk 91582636718 91582640610, IV.NInt.mk 91341158544 91341163033, IV.NInt.mk 91092753218 91092757651, IV.NInt.mk 90837221632 90837226011, IV.NInt.mk 90574359215 90574363681, IV.NInt.mk 90303955755 90303960436, IV.NInt.mk 90025794975 90025799749, IV.NInt.mk 89739654250 89739659259, IV.NInt.mk 89445304824 89445309788, IV.NInt.mk 89142510796 89142516282, IV.NInt.mk 88831030506 88831035953, IV.NInt.mk 88510614335 88510620036, IV.NInt.mk 88181006101 88181011767, IV.NInt.mk 87841942002 87841947778, IV.NInt.mk 87493150833 87493156719, IV.NInt.mk 87134353470 87134359626, IV.NInt.mk 86765262978 86765269111, IV.NInt.mk 86385583763 86385590187, IV.NInt.mk 85995012465 85995019014, IV.NInt.mk 85593236389 85593243224, IV.NInt.mk 85179934283 85179941090, IV.NInt.mk 84754775281 84754782228, IV.NInt.mk 84317419255 84317426342, IV.NInt.mk 83867516236 83867523644, IV.NInt.mk 83404706545 83404713913, IV.NInt.mk 82928619507 82928627389, IV.NInt.mk 82438874576 82438882624, IV.NInt.mk 81935079815 81935088211, IV.NInt.mk 81416832231 81416840607, IV.NInt.mk 80883716858 80883725591, IV.NInt.mk 80335307787 80335316508, IV.NInt.mk 79771165687 79771174780, IV.NInt.mk 79190839631 79190848738, IV.NInt.mk 78593864400 78593874713, IV.NInt.mk 77979763874 77979774190, IV.NInt.mk 77348045859 77348056597, IV.NInt.mk 76698205149 76698215904, IV.NInt.mk 76029721679 76029732870, IV.NInt.mk 75342060789 75342072001, IV.NInt.mk 74634672103 74634683555, IV.NInt.mk 73906989852 73907001539, IV.NInt.mk 73158431668 73158443820, IV.NInt.mk 72388399111 72388411289, IV.NInt.mk 71596275579 71596288250, IV.NInt.mk 70781427664 70781440393, IV.NInt.mk 69943203065 69943216307, IV.NInt.mk 69080931714 69080945245, IV.NInt.mk 68193923296 68193937360, IV.NInt.mk 67281468493 67281482643, IV.NInt.mk 66342836666 66342852145, IV.NInt.mk 65377277813 65377293367, IV.NInt.mk 64384018647 64384034796, IV.NInt.mk 63362265126 63362281369, IV.NInt.mk 62311199227 62311215818, IV.NInt.mk 61229980409 61229997386, IV.NInt.mk 60117743331 60117760943, IV.NInt.mk 58973598586 58973616361, IV.NInt.mk 57796630372 57796648825, IV.NInt.mk 56585897422 56585915988, IV.NInt.mk 55340430507 55340449773, IV.NInt.mk 54059233802 54059253246, IV.NInt.mk 52741281832 52741302003, IV.NInt.mk 51385520586 51385541228, IV.NInt.mk 49990864974 49990886064, IV.NInt.mk 48556199502 48556221160, IV.NInt.mk 47080375987 47080398768, IV.NInt.mk 45562214298 45562237619, IV.NInt.mk 44000499110 44000523294, IV.NInt.mk 42393981777 42394006193, IV.NInt.mk 40741376101 40741401392, IV.NInt.mk 39041360630 39041386552, IV.NInt.mk 37292575042 37292601889, IV.NInt.mk 35493620275 35493647473, IV.NInt.mk 33643056662 33643085180, IV.NInt.mk 31739404306 31739433157, IV.NInt.mk 29781139569 29781169079, IV.NInt.mk 27766696049 27766726316, IV.NInt.mk 25694461577 25694493311, IV.NInt.mk 23562779510 23562811612, IV.NInt.mk 21369943270 21369976117, IV.NInt.mk 19114198852 19114232617, IV.NInt.mk 16793740977 16793776319, IV.NInt.mk 14406714054 14406750293, IV.NInt.mk 11951207837 11951245332, IV.NInt.mk 9425258287 9425296328, IV.NInt.mk 6826843617 6826883382, IV.NInt.mk 4356213311 4356248463, IV.NInt.mk 2329609133 2329636858, IV.NInt.mk 976601152 976618712, IV.NInt.mk 294631595 294639908, IV.NInt.mk 56126010 56128710, IV.NInt.mk 5026673 5027206, IV.NInt.mk 0 47, IV.NInt.mk 0 0, IV.NInt.mk 0 0, IV.NInt.mk 0 0, IV.NInt.mk 0 0, IV.NInt.mk 0 0, IV.NInt.mk 0 0, IV.NInt.mk 0 0, IV.NInt.mk 0 0, IV.NInt.mk 0 0, IV.NInt.mk 0 0, IV.NInt.mk 0 0, IV.NInt.mk 0 0, IV.NInt.mk 0 0, IV.NInt.mk 0 0, IV.NInt.mk 0 0, IV.NInt.mk 0 0, IV.NInt.mk 0 0, IV.NInt.mk 0 0, IV.NInt.mk 0 0, IV.NInt.mk 0 0, IV.NInt.mk 0 0, IV.NInt.mk 0 0, IV.NInt.mk 0 0, IV.NInt.mk 0 0, IV.NInt.mk 0 0, IV.NInt.mk 0 0, IV.NInt.mk 0 0, IV.NInt.mk 0 0, IV.NInt.mk 0 0, IV.NInt.mk 0 0, IV.NInt.mk 0 0, IV.NInt.mk 0 0, IV.NInt.mk 0 0, IV.NInt.mk 0 0, IV.NInt.mk 0 0, IV.NInt.mk 0 0, IV.NInt.mk 0 0, IV.NInt.mk 0 0, IV.NInt.mk 0 0, IV.NInt.mk 0 0, IV.NInt.mk 0 0, IV.NInt.mk 0 0, IV.NInt.mk 0 0, IV.NInt.mk 0 0, IV.NInt.mk 0 0, IV.NInt.mk 0 0, IV.NInt.mk 0 0, IV.NInt.mk 0 0, IV.NInt.mk 0 0, IV.NInt.mk 0 0, IV.NInt.mk 0 0, IV.NInt.mk 0 0, IV.NInt.mk 0 0, IV.NInt.mk 0 0, IV.NInt.mk 0 0, IV.NInt.mk 0 0, IV.NInt.mk 0 0, IV.NInt.mk 0 0, IV.NInt.mk 0 0, IV.NInt.mk 0 0, IV.NInt.mk 0 0, IV.NInt.mk 0 0, IV.NInt.mk 0 0, IV.NInt.mk 0 0, IV.NInt.mk 0 0, IV.NInt.mk 0 0, IV.NInt.mk 0 0, IV.NInt.mk 0 0, IV.NInt.mk 0 0, IV.NInt.mk 0 0, IV.NInt.mk 0 0, IV.NInt.mk 0 0, IV.NInt.mk 0 0, IV.NInt.mk 0 0, IV.NInt.mk 0 0, IV.NInt.mk 0 0, IV.NInt.mk 0 0, IV.NInt.mk 0 0, IV.NInt.mk 0 0, IV.NInt.mk 0 0, IV.NInt.mk 0 0, IV.NInt.mk 0 0, IV.NInt.mk 0 0, IV.NInt.mk 0 0, IV.NInt.mk 0 0, IV.NInt.mk 0 0, IV.NInt.mk 0 0, IV.NInt.mk 0 0, IV.NInt.mk 0 0, IV.NInt.mk 0 0, IV.NInt.mk 0 0]) = ([IV.NInt.mk 7732585968 7732589670, IV.NInt.mk 7954418819 7954422979, IV.NInt.mk 8182615797 8182619901, IV.NInt.mk 8417359239 8417363417, IV.NInt.mk 8658837065 8658841322, IV.NInt.mk 8907242380 8907246855, IV.NInt.mk 9162774024 9162778448, IV.NInt.mk 9425636212 9425640864, IV.NInt.mk 9696039625 9696044218, IV.NInt.mk 9974200038 9974205319, IV.NInt.mk 10260340659 10260345877, IV.NInt.mk 10554690085 10554695243, IV.NInt.mk 10857483806 10857489067, IV.NInt.mk 11168963980 11168969495, IV.NInt.mk 11489380030 11489385654, IV.NInt.mk 11818988096 11818993991, IV.NInt.mk 12158052166 12158058014, IV.NInt.mk 12506843003 12506849455, IV.NInt.mk 12865640279 12865646689, IV.NInt.mk 13234730546 13234737253, IV.NInt.mk 13614409574 13614416245, IV.NInt.mk 14004980741 14004987543, IV.NInt.mk 14406756615 14406763549, IV.NInt.mk 14820058538 14820065789, IV.NInt.mk 15245217560 15245224785, IV.NInt.mk 15682573471 15682581037, IV.NInt.mk 16132476272 16132483986, IV.NInt.mk 16595285783 16595293832, IV.NInt.mk 17071372603 17071380625, IV.NInt.mk 17561117308 17561125493, IV.NInt.mk 18064911883 18064920237, IV.NInt.mk 18583159256 18583167982, IV.NInt.mk 19116274370 19116283054, IV.NInt.mk 19664683150 19664692434, IV.NInt.mk 20228824993 20228834475, IV.NInt.mk 20809150766 20809160655, IV.NInt.mk 21406125313 21406135185, IV.NInt.mk 22020225778 22020236068, IV.NInt.mk 22651943633 22651953914, IV.NInt.mk 23301784075 23301794792, IV.NInt.mk 23970267390 23970278127, IV.NInt.mk 24657927683 24657939814, IV.NInt.mk 25365316155 25365328298, IV.NInt.mk 26092997906 26093010542, IV.NInt.mk 26841555834 26841568499, IV.NInt.mk 27611588059 27611601233, IV.NInt.mk 28403711426 28403724631, IV.NInt.mk 29218559182 29218572671, IV.NInt.mk 30056783301 30056797071, IV.NInt.mk 30919054349 30919068662, IV.NInt.mk 31806062447 31806076800, IV.NInt.mk 32718516821 32718531749, IV.NInt.mk 33657148134 33657163141, IV.NInt.mk 34622706760 34622722367, IV.NInt.mk 35615965335 35615981282, IV.NInt.mk 36637718499 36637735073, IV.NInt.mk 37688784126 37688800806, IV.NInt.mk 38770001890 38770020113, IV.NInt.mk 39882238606 39882256928, IV.NInt.mk 41026382990 41026402006, IV.NInt.mk 42203350881 42203370019, IV.NInt.mk 43414083695 43414103247, IV.NInt.mk 44659549915 44659569922, IV.NInt.mk 45940746088 45940766839, IV.NInt.mk 47258697559 47258718511, IV.NInt.mk 48614458120 48614479866, IV.NInt.mk 50009113264 50009135153, IV.NInt.mk 51443778130 51443800841, IV.NInt.mk 52919601098 52919624026, IV.NInt.mk 54437762184 54437785967, IV.NInt.mk 55999476445 55999500786, IV.NInt.mk 57605993540 57606018414, IV.NInt.mk 59258598249 59258623789, IV.NInt.mk 60958612675 60958639531, IV.NInt.mk 62707397536 62707425029, IV.NInt.mk 64506351733 64506380238, IV.NInt.mk 66356914689 66356943477, IV.NInt.mk 68260566524 68260596340, IV.NInt.mk 70218830452 70218861013, IV.NInt.mk 72233272819 72233304471, IV.NInt.mk 74305506226 74305538300, IV.NInt.mk 76437187255 76437220870, IV.NInt.mk 78630022872 78630056890, IV.NInt.mk 80885766656 80885801455, IV.NInt.mk 83206223222 83206258916, IV.NInt.mk 85593248939 85593286349, IV.NInt.mk 88048754196 88048792054, IV.NInt.mk 90574703118 90574741857, IV.NInt.mk 93173116391 93173156216, IV.NInt.mk 95846072980 95846114645, IV.NInt.mk 98595711897 98595754622, IV.NInt.mk 101424232376 101424276576, IV.NInt.mk 104333898046 104333942903, IV.NInt.mk 107327035648 107327082522, IV.NInt.mk 110406041383 110406088955, IV.NInt.mk 113573377715 113573426409, IV.NInt.mk 116831578848 116831628361, IV.NInt.mk 120183251151 120183302342, IV.NInt.mk 123631076702 123631129213, IV.NInt.mk 127177813211 127177867502, IV.NInt.mk 130826299522 130826354755, IV.NInt.mk 134579453891 134579510458, IV.NInt.mk 138440278518 138440336545, IV.NInt.mk 142411862789 142411922808, IV.NInt.mk 146497384256 146497445438, IV.NInt.mk 150700110474 150700174885, IV.NInt.mk 155023405879 155023471386, IV.NInt.mk 159470728324 159470795435, IV.NInt.mk 164045635757 164045704687, IV.NInt.mk 168751788158 168751859412, IV.NInt.mk 173592951426 173593023922, IV.NInt.mk 178572998045 178573072958, IV.NInt.mk 183695912709 183695989192, IV.NInt.mk 188965793855 188965872242, IV.NInt.mk 194386857485 194386937972, IV.NInt.mk 199963441515 199963524020, IV.NInt.mk 205700006414 205700091269, IV.NInt.mk 211601142608 211601230258, IV.NInt.mk 217671570698 217671660764, IV.NInt.mk 223916147920 223916240242, IV.NInt.mk 230339870205 230339964670, IV.NInt.mk 236947875455 236947974480, IV.NInt.mk 243745452733 243745553758, IV.NInt.mk 250738039492 250738143077, IV.NInt.mk 257931229505 257931336064, IV.NInt.mk 265330779113 265330887620, IV.NInt.mk 272942606826 272942718332, IV.NInt.mk 280772803539 280772917918, IV.NInt.mk 288827632852 288827750969, IV.NInt.mk 297113538785 297113661627, IV.NInt.mk 305637153064 305637278474, IV.NInt.mk 314405293323 314405421975, IV.NInt.mk 323424974458 323425106082, IV.NInt.mk 332703412735 332703547791, IV.NInt.mk 342248031784 342248169836, IV.NInt.mk 352066467214 352066609771, IV.NInt.mk 362166574164 362166720492, IV.NInt.mk 372556433451 372556585438, IV.NInt.mk 383244358138 383244514516, IV.NInt.mk 394238899287 394239058882, IV.NInt.mk 405548852109 405549016549, IV.NInt.mk 417183266631 417183434490, IV.NInt.mk 429151449047 429151620856, IV.NInt.mk 441462975571 441463152978, IV.NInt.mk 454127695649 454127877956, IV.NInt.mk 467155743032 467155930345, IV.NInt.mk 480557539577 480557731273, IV.NInt.mk 494343807416 494344004323, IV.NInt.mk 508525577208 508525779250, IV.NInt.mk 523114194867 523114402468, IV.NInt.mk 538121330744 538121544542, IV.NInt.mk 553558992391 553559212123, IV.NInt.mk 569439531058 569439757127, IV.NInt.mk 585775650913 585775884456, IV.NInt.mk 602580423993 602580663345, IV.NInt.mk 619867293214 619867539259, IV.NInt.mk 637650088835 637650341432, IV.NInt.mk 655943039725 655943298166, IV.NInt.mk 674760779023 674761044144, IV.NInt.mk 694118363428 694118636024, IV.NInt.mk 714031278351 714031559330, IV.NInt.mk 734515456359 734515746656, IV.NInt.mk 755587286696 755587584543, IV.NInt.mk 777263627909 777263932918, IV.NInt.mk 799561820391 799562134048, IV.NInt.mk 822499705457 822500028107, IV.NInt.mk 846095634395 846095965671, IV.NInt.mk 870368486012 870368825438, IV.NInt.mk 895337676176 895338026257, IV.NInt.mk 921023186766 921023547054, IV.NInt.mk 947445562984 947445933108, IV.NInt.mk 974625947844 974626327233, IV.NInt.mk 1002586084379 1002586474909, IV.NInt.mk 1031348343746 1031348744218, IV.NInt.mk 1060935736719 1060936148347, IV.NInt.mk 1091371934303 1091372358145, IV.NInt.mk 1122681287433 1122681723396, IV.NInt.mk 1154888846722 1154889294023, IV.NInt.mk 1188020377799 1188020837733, IV.NInt.mk 1222102390052 1222102860473, IV.NInt.mk 1257162147342 1257162632098, IV.NInt.mk 1293227703940 1293228199852], [IV.NInt.mk 92267410330 92267414032, IV.NInt.mk 92045577021 92045581181, IV.NInt.mk 91817380099 91817384203, IV.NInt.mk 91582636583 91582640761, IV.NInt.mk 91341158678 91341162935, IV.NInt.mk 91092753145 91092757620, IV.NInt.mk 90837221552 90837225976, IV.NInt.mk 90574359136 90574363788, IV.NInt.mk 90303955782 90303960375, IV.NInt.mk 90025794681 90025799962, IV.NInt.mk 89739654123 89739659341, IV.NInt.mk 89445304757 89445309915, IV.NInt.mk 89142510933 89142516194, IV.NInt.mk 88831030505 88831036020, IV.NInt.mk 88510614346 88510619970, IV.NInt.mk 88181006009 88181011904, IV.NInt.mk 87841941986 87841947834, IV.NInt.mk 87493150545 87493156997, IV.NInt.mk 87134353311 87134359721, IV.NInt.mk 86765262747 86765269454, IV.NInt.mk 86385583755 86385590426, IV.NInt.mk 85995012457 85995019259, IV.NInt.mk 85593236451 85593243385, IV.NInt.mk 85179934211 85179941462, IV.NInt.mk 84754775215 84754782440, IV.NInt.mk 84317418963 84317426529, IV.NInt.mk 83867516014 83867523728, IV.NInt.mk 83404706168 83404714217, IV.NInt.mk 82928619375 82928627397, IV.NInt.mk 82438874507 82438882692, IV.NInt.mk 81935079763 81935088117, IV.NInt.mk 81416832018 81416840744, IV.NInt.mk 80883716946 80883725630, IV.NInt.mk 80335307566 80335316850, IV.NInt.mk 79771165525 79771175007, IV.NInt.mk 79190839345 79190849234, IV.NInt.mk 78593864815 78593874687, IV.NInt.mk 77979763932 77979774222, IV.NInt.mk 77348046086 77348056367, IV.NInt.mk 76698205208 76698215925, IV.NInt.mk 76029721873 76029732610, IV.NInt.mk 75342060186 75342072317, IV.NInt.mk 74634671702 74634683845, IV.NInt.mk 73906989458 73907002094, IV.NInt.mk 73158431501 73158444166, IV.NInt.mk 72388398767 72388411941, IV.NInt.mk 71596275369 71596288574, IV.NInt.mk 70781427329 70781440818, IV.NInt.mk 69943202929 69943216699, IV.NInt.mk 69080931338 69080945651, IV.NInt.mk 68193923200 68193937553, IV.NInt.mk 67281468251 67281483179, IV.NInt.mk 66342836859 66342851866, IV.NInt.mk 65377277633 65377293240, IV.NInt.mk 64384018718 64384034665, IV.NInt.mk 63362264927 63362281501, IV.NInt.mk 62311199194 62311215874, IV.NInt.mk 61229979887 61229998110, IV.NInt.mk 60117743072 60117761394, IV.NInt.mk 58973597994 58973617010, IV.NInt.mk 57796629981 57796649119, IV.NInt.mk 56585896753 56585916305, IV.NInt.mk 55340430078 55340450085, IV.NInt.mk 54059233161 54059253912, IV.NInt.mk 52741281489 52741302441, IV.NInt.mk 51385520134 51385541880, IV.NInt.mk 49990864847 49990886736, IV.NInt.mk 48556199159 48556221870, IV.NInt.mk 47080375974 47080398902, IV.NInt.mk 45562214033 45562237816, IV.NInt.mk 44000499214 44000523555, IV.NInt.mk 42393981586 42394006460, IV.NInt.mk 40741376211 40741401751, IV.NInt.mk 39041360469 39041387325, IV.NInt.mk 37292574971 37292602464, IV.NInt.mk 35493619762 35493648267, IV.NInt.mk 33643056523 33643085311, IV.NInt.mk 31739403660 31739433476, IV.NInt.mk 29781138987 29781169548, IV.NInt.mk 27766695529 27766727181, IV.NInt.mk 25694461700 25694493774, IV.NInt.mk 23562779130 23562812745, IV.NInt.mk 21369943110 21369977128, IV.NInt.mk 19114198545 19114233344, IV.NInt.mk 16793741084 16793776778, IV.NInt.mk 14406713651 14406751061, IV.NInt.mk 11951207946 11951245804, IV.NInt.mk 9425258143 9425296882, IV.NInt.mk 6962657086 6962693088, IV.NInt.mk 4764819389 4764850982, IV.NInt.mk 2961983870 2962009102, IV.NInt.mk 1638361415 1638379392, IV.NInt.mk 789386300 789397478, IV.NInt.mk 323853826 323859765, IV.NInt.mk 110255295 110257941, IV.NInt.mk 30176970 30177941, IV.NInt.mk 6360301 6360592, IV.NInt.mk 966576 966652, IV.NInt.mk 94094 94115, IV.NInt.mk 4399 4405, IV.NInt.mk 0 1, IV.NInt.mk 0 0, IV.NInt.mk 0 0, IV.NInt.mk 0 0, IV.NInt.mk 0 0, IV.NInt.mk 0 0, IV.NInt.mk 0 0, IV.NInt.mk 0 0, IV.NInt.mk 0 0, IV.NInt.mk 0 0, IV.NInt.mk 0 0, IV.NInt.mk 0 0, IV.NInt.mk 0 0, IV.NInt.mk 0 0, IV.NInt.mk 0 0, IV.NInt.mk 0 0, IV.NInt.mk 0 0, IV.NInt.mk 0 0, IV.NInt.mk 0 0, IV.NInt.mk 0 0, IV.NInt.mk 0 0, IV.NInt.mk 0 0, IV.NInt.mk 0 0, IV.NInt.mk 0 0, IV.NInt.mk 0 0, IV.NInt.mk 0 0, IV.NInt.mk 0 0, IV.NInt.mk 0 0, IV.NInt.mk 0 0, IV.NInt.mk 0 0, IV.NInt.mk 0 0, IV.NInt.mk 0 0, IV.NInt.mk 0 0, IV.NInt.mk 0 0, IV.NInt.mk 0 0, IV.NInt.mk 0 0, IV.NInt.mk 0 0, IV.NInt.mk 0 0, IV.NInt.mk 0 0, IV.NInt.mk 0 0, IV.NInt.mk 0 0, IV.NInt.mk 0 0, IV.NInt.mk 0 0, IV.NInt.mk 0 0, IV.NInt.mk 0 0, IV.NInt.mk 0 0, IV.NInt.mk 0 0, IV.NInt.mk 0 0, IV.NInt.mk 0 0, IV.NInt.mk 0 0, IV.NInt.mk 0 0, IV.NInt.mk 0 0, IV.NInt.mk 0 0, IV.NInt.mk 0 0, IV.NInt.mk 0 0, IV.NInt.mk 0 0, IV.NInt.mk 0 0, IV.NInt.mk 0 0, IV.NInt.mk 0 0, IV.NInt.mk 0 0, IV.NInt.mk 0 0, IV.NInt.mk 0 0, IV.NInt.mk 0 0, IV.NInt.mk 0 0, IV.NInt.mk 0 0, IV.NInt.mk 0 0, IV.NInt.mk 0 0, IV.NInt.mk 0 0, IV.NInt.mk 0 0, IV.NInt.mk 0 0, IV.NInt.mk 0 0, IV.NInt.mk 0 0, IV.NInt.mk 0 0, IV.NInt.mk 0 0, IV.NInt.mk 0 0, IV.NInt.mk 0 0, IV.NInt.mk 0 0, IV.NInt.mk 0 0, IV.NInt.mk 0 0, IV.NInt.mk 0 0, IV.NInt.mk 0 0, IV.NInt.mk 0 0]) := by decide

set_option maxRecDepth 100000 in
set_option maxHeartbeats 1000000 in
/-- Chunk 3 of the kernel evaluation of the C9 put lattice (10 steps). -/
theorem IV.putChunk3 : IV.loopG IV.uI9 IV.pI9 IV.qI9 IV.discI9 false IV.KSc9 10 ([IV.NInt.mk 7732585968 7732589670, IV.NInt.mk 7954418819 7954422979, IV.NInt.mk 8182615797 8182619901, IV.NInt.mk 8417359239 8417363417, IV.NInt.mk 8658837065 8658841322, IV.NInt.mk 8907242380 8907246855, IV.NInt.mk 9162774024 9162778448, IV.NInt.mk 9425636212 9425640864, IV.NInt.mk 9696039625 9696044218, IV.NInt.mk 9974200038 9974205319, IV.NInt.mk 10260340659 10260345877, IV.NInt.mk 10554690085 10554695243, IV.NInt.mk 10857483806 10857489067, IV.NInt.mk 11168963980 11168969495, IV.NInt.mk 11489380030 11489385654, IV.NInt.mk 11818988096 11818993991, IV.NInt.mk 12158052166 12158058014, IV.NInt.mk 12506843003 12506849455, IV.NInt.mk 12865640279 12865646689, IV.NInt.mk 13234730546 13234737253, IV.NInt.mk 13614409574 13614416245, IV.NInt.mk 14004980741 14004987543, IV.NInt.mk 14406756615 14406763549, IV.NInt.mk 14820058538 14820065789, IV.NInt.mk 15245217560 15245224785, IV.NInt.mk 15682573471 15682581037, IV.NInt.mk 16132476272 16132483986, IV.NInt.mk 16595285783 16595293832, IV.NInt.mk 17071372603 17071380625, IV.NInt.mk 17561117308 17561125493, IV.NInt.mk 18064911883 18064920237, IV.NInt.mk 18583159256 18583167982, IV.NInt.mk 19116274370 19116283054, IV.NInt.mk 19664683150 19664692434, IV.NInt.mk 20228824993 20228834475, IV.NInt.mk 20809150766 20809160655, IV.NInt.mk 21406125313 21406135185, IV.NInt.mk 22020225778 22020236068, IV.NInt.mk 22651943633 22651953914, IV.NInt.mk 23301784075 23301794792, IV.NInt.mk 23970267390 23970278127, IV.NInt.mk 24657927683 24657939814, IV.NInt.mk 25365316155 25365328298, IV.NInt.mk 26092997906 26093010542, IV.NInt.mk 26841555834 26841568499, IV.NInt.mk 27611588059 27611601233, IV.NInt.mk 28403711426 28403724631, IV.NInt.mk 29218559182 29218572671, IV.NInt.mk 30056783301 30056797071, IV.NInt.mk 30919054349 30919068662, IV.NInt.mk 31806062447 31806076800, IV.NInt.mk 32718516821 32718531749, IV.NInt.mk 33657148134 33657163141, IV.NInt.mk 34622706760 34622722367, IV.NInt.mk 35615965335 35615981282, IV.NInt.mk 36637718499 36637735073, IV.NInt.mk 37688784126 37688800806, IV.NInt.mk 38770001890 38770020113, IV.NInt.mk 39882238606 39882256928, IV.NInt.mk 41026382990 41026402006, IV.NInt.mk 42203350881 42203370019, IV.NInt.mk 43414083695 43414103247, IV.NInt.mk 44659549915 44659569922, IV.NInt.mk 45940746088 45940766839, IV.NInt.mk 47258697559 47258718511, IV.NInt.mk 48614458120 48614479866, IV.NInt.mk 50009113264 50009135153, IV.NInt.mk 51443778130 51443800841, IV.NInt.mk 52919601098 52919624026, IV.NInt.mk 54437762184 54437785967, IV.NInt.mk 55999476445 55999500786, IV.NInt.mk 57605993540 57606018414, IV.NInt.mk 59258598249 59258623789, IV.NInt.mk 60958612675 60958639531, IV.NInt.mk 62707397536 62707425029, IV.NInt.mk 64506351733 64506380238, IV.NInt.mk 66356914689 66356943477, IV.NInt.mk 68260566524 68260596340, IV.NInt.mk 70218830452 70218861013, IV.NInt.mk 72233272819 72233304471, IV.NInt.mk 74305506226 74305538300, IV.NInt.mk 76437187255 76437220870, IV.NInt.mk 78630022872 78630056890, IV.NInt.mk 80885766656 80885801455, IV.NInt.mk 83206223222 83206258916, IV.NInt.mk 85593248939 85593286349, IV.NInt.mk 88048754196 88048792054, IV.NInt.mk 90574703118 90574741857, IV.NInt.mk 93173116391 93173156216, IV.NInt.mk 95846072980 95846114645, IV.NInt.mk 98595711897 98595754622, IV.NInt.mk 101424232376 101424276576, IV.NInt.mk 104333898046 104333942903, IV.NInt.mk 107327035648 107327082522, IV.NInt.mk 110406041383 110406088955, IV.NInt.mk 113573377715 113573426409, IV.NInt.mk 116831578848 116831628361, IV.NInt.mk 120183251151 120183302342, IV.NInt.mk 123631076702 123631129213, IV.NInt.mk 127177813211 127177867502, IV.NInt.mk 130826299522 130826354755, IV.NInt.mk 134579453891 134579510458, IV.NInt.mk 138440278518 138440336545, IV.NInt.mk 142411862789 142411922808, IV.NInt.mk 146497384256 146497445438, IV.NInt.mk 150700110474 150700174885, IV.NInt.mk 155023405879 155023471386, IV.NInt.mk 159470728324 159470795435, IV.NInt.mk 164045635757 164045704687, IV.NInt.mk 168751788158 168751859412, IV.NInt.mk 173592951426 173593023922, IV.NInt.mk 178572998045 178573072958, IV.NInt.mk 183695912709 183695989192, IV.NInt.mk 188965793855 188965872242, IV.NInt.mk 194386857485 194386937972, IV.NInt.mk 199963441515 199963524020, IV.NInt.mk 205700006414 205700091269, IV.NInt.mk 211601142608 211601230258, IV.NInt.mk 217671570698 217671660764, IV.NInt.mk 223916147920 223916240242, IV.NInt.mk 230339870205 230339964670, IV.NInt.mk 236947875455 236947974480, IV.NInt.mk 243745452733 243745553758, IV.NInt.mk 250738039492 250738143077, IV.NInt.mk 257931229505 257931336064, IV.NInt.mk 265330779113 265330887620, IV.NInt.mk 272942606826 272942718332, IV.NInt.mk 280772803539 280772917918, IV.NInt.mk 288827632852 288827750969, IV.NInt.mk 297113538785 297113661627, IV.NInt.mk 305637153064 305637278474, IV.NInt.mk 314405293323 314405421975, IV.NInt.mk 323424974458 323425106082, IV.NInt.mk 332703412735 332703547791, IV.NInt.mk 342248031784 342248169836, IV.NInt.mk 352066467214 352066609771, IV.NInt.mk 362166574164 362166720492, IV.NInt.mk 372556433451 372556585438, IV.NInt.mk 383244358138 383244514516, IV.NInt.mk 394238899287 394239058882, IV.NInt.mk 405548852109 405549016549, IV.NInt.mk 417183266631 417183434490, IV.NInt.mk 429151449047 429151620856, IV.NInt.mk 441462975571 441463152978, IV.NInt.mk 454127695649 454127877956, IV.NInt.mk 467155743032 467155930345, IV.NInt.mk 480557539577 480557731273, IV.NInt.mk 494343807416 494344004323, IV.NInt.mk 508525577208 508525779250, IV.NInt.mk 523114194867 523114402468, IV.NInt.mk 538121330744 538121544542, IV.NInt.mk 553558992391 553559212123, IV.NInt.mk 569439531058 569439757127, IV.NInt.mk 585775650913 585775884456, IV.NInt.mk 602580423993 602580663345, IV.NInt.mk 619867293214 619867539259, IV.NInt.mk 637650088835 637650341432, IV.NInt.mk 655943039725 655943298166, IV.NInt.mk 674760779023 674761044144, IV.NInt.mk 694118363428 694118636024, IV.NInt.mk 714031278351 714031559330, IV.NInt.mk 734515456359 734515746656, IV.NInt.mk 755587286696 755587584543, IV.NInt.mk 777263627909 777263932918, IV.NInt.mk 799561820391 799562134048, IV.NInt.mk 822499705457 822500028107, IV.NInt.mk 846095634395 846095965671, IV.NInt.mk 870368486012 870368825438, IV.NInt.mk 895337676176 895338026257, IV.NInt.mk 921023186766 921023547054, IV.NInt.mk 947445562984 947445933108, IV.NInt.mk 974625947844 974626327233, IV.NInt.mk 1002586084379 1002586474909, IV.NInt.mk 1031348343746 1031348744218, IV.NInt.mk 1060935736719 1060936148347, IV.NInt.mk 1091371934303 1091372358145, IV.NInt.mk 1122681287433 1122681723396, IV.NInt.mk 1154888846722 1154889294023, IV.NInt.mk 1188020377799 1188020837733, IV.NInt.mk 1222102390052 1222102860473, IV.NInt.mk 1257162147342 1257162632098, IV.NInt.mk 1293227703940 1293228199852], [IV.NInt.mk 92267410330 92267414032, IV.NInt.mk 92045577021 92045581181, IV.NInt.mk 91817380099 91817384203, IV.NInt.mk 91582636583 91582640761, IV.NInt.mk 91341158678 91341162935, IV.NInt.mk 91092753145 91092757620, IV.NInt.mk 90837221552 90837225976, IV.NInt.mk 90574359136 90574363788, IV.NInt.mk 90303955782 90303960375, IV.NInt.mk 90025794681 90025799962, IV.NInt.mk 89739654123 89739659341, IV.NInt.mk 89445304757 89445309915, IV.NInt.mk 89142510933 89142516194, IV.NInt.mk 88831030505 88831036020, IV.NInt.mk 88510614346 88510619970, IV.NInt.mk 88181006009 88181011904, IV.NInt.mk 87841941986 87841947834, IV.NInt.mk 87493150545 87493156997, IV.NInt.mk 87134353311 87134359721, IV.NInt.mk 86765262747 86765269454, IV.NInt.mk 86385583755 86385590426, IV.NInt.mk 85995012457 85995019259, IV.NInt.mk 85593236451 85593243385, IV.NInt.mk 85179934211 85179941462, IV.NInt.mk 84754775215 84754782440, IV.NInt.mk 84317418963 84317426529, IV.NInt.mk 83867516014 83867523728, IV.NInt.mk 83404706168 83404714217, IV.NInt.mk 82928619375 82928627397, IV.NInt.mk 82438874507 82438882692, IV.NInt.mk 81935079763 81935088117, IV.NInt.mk 81416832018 81416840744, IV.NInt.mk 80883716946 80883725630, IV.NInt.mk 80335307566 80335316850, IV.NInt.mk 79771165525 79771175007, IV.NInt.mk 79190839345 79190849234, IV.NInt.mk 78593864815 78593874687, IV.NInt.mk 77979763932 77979774222, IV.NInt.mk 77348046086 77348056367, IV.NInt.mk 76698205208 76698215925, IV.NInt.mk 76029721873 76029732610, IV.NInt.mk 75342060186 75342072317, IV.NInt.mk 74634671702 74634683845, IV.NInt.mk 73906989458 73907002094, IV.NInt.mk 73158431501 73158444166, IV.NInt.mk 72388398767 72388411941, IV.NInt.mk 71596275369 71596288574, IV.NInt.mk 70781427329 70781440818, IV.NInt.mk 69943202929 69943216699, IV.NInt.mk 69080931338 69080945651, IV.NInt.mk 68193923200 68193937553, IV.NInt.mk 67281468251 67281483179, IV.NInt.mk 66342836859 66342851866, IV.NInt.mk 65377277633 65377293240, IV.NInt.mk 64384018718 64384034665, IV.NInt.mk 63362264927 63362281501, IV.NInt.mk 62311199194 62311215874, IV.NInt.mk 61229979887 61229998110, IV.NInt.mk 60117743072 60117761394, IV.NInt.mk 58973597994 58973617010, IV.NInt.mk 57796629981 57796649119, IV.NInt.mk 56585896753 56585916305, IV.NInt.mk 55340430078 55340450085, IV.NInt.mk 54059233161 54059253912, IV.NInt.mk 52741281489 52741302441, IV.NInt.mk 51385520134 51385541880, IV.NInt.mk 49990864847 49990886736, IV.NInt.mk 48556199159 48556221870, IV.NInt.mk 47080375974 47080398902, IV.NInt.mk 45562214033 45562237816, IV.NInt.mk 44000499214 44000523555, IV.NInt.mk 42393981586 42394006460, IV.NInt.mk 40741376211 40741401751, IV.NInt.mk 39041360469 39041387325, IV.NInt.mk 37292574971 37292602464, IV.NInt.mk 35493619762 35493648267, IV.NInt.mk 33643056523 33643085311, IV.NInt.mk 31739403660 31739433476, IV.NInt.mk 29781138987 29781169548, IV.NInt.mk 27766695529 27766727181, IV.NInt.mk 25694461700 25694493774, IV.NInt.mk 23562779130 23562812745, IV.NInt.mk 21369943110 21369977128, IV.NInt.mk 19114198545 19114233344, IV.NInt.mk 16793741084 16793776778, IV.NInt.mk 14406713651 14406751061, IV.NInt.mk 11951207946 11951245804, IV.NInt.mk 9425258143 9425296882, IV.NInt.mk 6962657086 6962693088, IV.NInt.mk 4764819389 4764850982, IV.NInt.mk 2961983870 2962009102, IV.NInt.mk 1638361415 1638379392, IV.NInt.mk 789386300 789397478, IV.NInt.mk 323853826 323859765, IV.NInt.mk 110255295 110257941, IV.NInt.mk 30176970 30177941, IV.NInt.mk 6360301 6360592, IV.NInt.mk 966576 966652, IV.NInt.mk 94094 94115, IV.NInt.mk 4399 4405, IV.NInt.mk 0 1, IV.NInt.mk 0 0, IV.NInt.mk 0 0, IV.NInt.mk 0 0, IV.NInt.mk 0 0, IV.NInt.mk 0 0, IV.NInt.mk 0 0, IV.NInt.mk 0 0, IV.NInt.mk 0 0, IV.NInt.mk 0 0, IV.NInt.mk 0 0, IV.NInt.mk 0 0, IV.NInt.mk 0 0, IV.NInt.mk 0 0, IV.NInt.mk 0 0, IV.NInt.mk 0 0, IV.NInt.mk 0 0, IV.NInt.mk 0 0, IV.NInt.mk 0 0, IV.NInt.mk 0 0, IV.NInt.mk 0 0, IV.NInt.mk 0 0, IV.NInt.mk 0 0, IV.NInt.mk 0 0, IV.NInt.mk 0 0, IV.NInt.mk 0 0, IV.NInt.mk 0 0, IV.NInt.mk 0 0, IV.NInt.mk 0 0, IV.NInt.mk 0 0, IV.NInt.mk 0 0, IV.NInt.mk 0 0, IV.NInt.mk 0 0, IV.NInt.mk 0 0, IV.NInt.mk 0 0, IV.NInt.mk 0 0, IV.NInt.mk 0 0, IV.NInt.mk 0 0, IV.NInt.mk 0 0, IV.NInt.mk 0 0, IV.NInt.mk 0 0, IV.NInt.mk 0 0, IV.NInt.mk 0 0, IV.NInt.mk 0 0, IV.NInt.mk 0 0, IV.NInt.mk 0 0, IV.NInt.mk 0 0, IV.NInt.mk 0 0, IV.NInt.mk 0 0, IV.NInt.mk 0 0, IV.NInt.mk 0 0, IV.NInt.mk 0 0, IV.NInt.mk 0 0, IV.NInt.mk 0 0, IV.NInt.mk 0 0, IV.NInt.mk 0 0, IV.NInt.mk 0 0, IV.NInt.mk 0 0, IV.NInt.mk 0 0, IV.NInt.mk 0 0, IV.NInt.mk 0 0, IV.NInt.mk 0 0, IV.NInt.mk 0 0, IV.NInt.mk 0 0, IV.NInt.mk 0 0, IV.NInt.mk 0 0, IV.NInt.mk 0 0, IV.NInt.mk 0 0, IV.NInt.mk 0 0, IV.NInt.mk 0 0, IV.NInt.mk 0 0, IV.NInt.mk 0 0, IV.NInt.mk 0 0, IV.NInt.mk 0 0, IV.NInt.mk 0 0, IV.NInt.mk 0 0, IV.NInt.mk 0 0, IV.NInt.mk 0 0, IV.NInt.mk 0 0, IV.NInt.mk 0 0, IV.NInt.mk 0 0, IV.NInt.mk 0 0]) = ([IV.NInt.mk 8907242341 8907246704, IV.NInt.mk 9162773800 9162778691, IV.NInt.mk 9425636158 9425640987, IV.NInt.mk 9696039454 9696044372, IV.NInt.mk 9974200151 9974205164, IV.NInt.mk 10260340695 10260345961, IV.NInt.mk 10554690127 10554695335, IV.NInt.mk 10857483681 10857489159, IV.NInt.mk 11168964050 11168969463, IV.NInt.mk 11489379786 11489385992, IV.NInt.mk 11818987999 11818994137, IV.NInt.mk 12158052019 12158058091, IV.NInt.mk 12506843103 12506849298, IV.NInt.mk 12865640201 12865646691, IV.NInt.mk 13234730622 13234737242, IV.NInt.mk 13614409417 13614416352, IV.NInt.mk 14004980676 14004987562, IV.NInt.mk 14406756294 14406763880, IV.NInt.mk 14820058431 14820065971, IV.NInt.mk 15245217165 15245225050, IV.NInt.mk 15682573195 15682581046, IV.NInt.mk 16132475990 16132483995, IV.NInt.mk 16595285600 16595293762, IV.NInt.mk 17071372177 17071380708, IV.NInt.mk 17561117062 17561125569, IV.NInt.mk 18064911666 18064920572, IV.NInt.mk 18583159158 18583168240, IV.NInt.mk 19116274020 19116283489, IV.NInt.mk 19664683142 19664692587, IV.NInt.mk 20228824915 20228834553, IV.NInt.mk 20809150876 20809160714, IV.NInt.mk 21406125154 21406135430, IV.NInt.mk 22020225736 22020235967, IV.NInt.mk 22651943240 22651954166, IV.NInt.mk 23301783815 23301794977, IV.NInt.mk 23970266820 23970278456, IV.NInt.mk 24657927710 24657939336, IV.NInt.mk 25365316116 25365328231, IV.NInt.mk 26092998170 26093010281, IV.NInt.mk 26841555811 26841568430, IV.NInt.mk 27611588359 27611601010, IV.NInt.mk 28403711063 28403725325, IV.NInt.mk 29218558845 29218573133, IV.NInt.mk 30056782661 30056797523, IV.NInt.mk 30919053950 30919068857, IV.NInt.mk 31806061695 31806077197, IV.NInt.mk 32718516446 32718531992, IV.NInt.mk 33657147645 33657163527, IV.NInt.mk 34622706308 34622722524, IV.NInt.mk 35615964869 35615981715, IV.NInt.mk 36637718277 36637735183, IV.NInt.mk 37688783508 37688801085, IV.NInt.mk 38770002213 38770019891, IV.NInt.mk 39882238753 39882257135, IV.NInt.mk 41026383142 41026401925, IV.NInt.mk 42203350729 42203370247, IV.NInt.mk 43414083635 43414103285, IV.NInt.mk 44659549081 44659570522, IV.NInt.mk 45940745567 45940767138, IV.NInt.mk 47258696813 47258719194, IV.NInt.mk 48614457782 48614480315, IV.NInt.mk 50009112900 50009135924, IV.NInt.mk 51443777770 51443801333, IV.NInt.mk 52919600329 52919624765, IV.NInt.mk 54437761678 54437786360, IV.NInt.mk 55999475694 55999501305, IV.NInt.mk 57605992764 57606018560, IV.NInt.mk 59258597430 59258624186, IV.NInt.mk 60958612520 60958639544, IV.NInt.mk 62707397310 62707425334, IV.NInt.mk 64506351432 64506380115, IV.NInt.mk 66356914379 66356943699, IV.NInt.mk 68260566109 68260596213, IV.NInt.mk 70218829560 70218861200, IV.NInt.mk 72233272160 72233304553, IV.NInt.mk 74305505313 74305538890, IV.NInt.mk 76437187106 76437221032, IV.NInt.mk 78630022505 78630057637, IV.NInt.mk 80885766116 80885802126, IV.NInt.mk 83206222225 83206259517, IV.NInt.mk 85593248408 85593286207, IV.NInt.mk 88048752893 88048792490, IV.NInt.mk 90574701953 90574742043, IV.NInt.mk 93173115556 93173156570, IV.NInt.mk 95846072451 95846114523, IV.NInt.mk 98595711012 98595755086, IV.NInt.mk 101424231833 101424276452, IV.NInt.mk 104333897407 104333943071, IV.NInt.mk 107327035386 107327082331, IV.NInt.mk 110406040550 110406089645, IV.NInt.mk 113573376845 113573427193, IV.NInt.mk 116831577592 116831629671, IV.NInt.mk 120183250291 120183303157, IV.NInt.mk 123631075134 123631130359, IV.NInt.mk 127177812329 127177868394, IV.NInt.mk 130826298415 130826355805, IV.NInt.mk 134579452563 134579510934, IV.NInt.mk 138440277077 138440337421, IV.NInt.mk 142411861471 142411923370, IV.NInt.mk 146497382376 146497446367, IV.NInt.mk 150700109885 150700175005, IV.NInt.mk 155023405567 155023472265, IV.NInt.mk 159470727686 159470796111, IV.NInt.mk 164045634934 164045705700, IV.NInt.mk 168751787568 168751859720, IV.NInt.mk 173592949516 173593025433, IV.NInt.mk 178572996303 178573073531, IV.NInt.mk 183695911065 183695990193, IV.NInt.mk 188965792241 188965873513, IV.NInt.mk 194386855793 194386939797, IV.NInt.mk 199963439698 199963525189, IV.NInt.mk 205700004713 205700093045, IV.NInt.mk 211601140841 211601231041, IV.NInt.mk 217671569117 217671661571, IV.NInt.mk 223916145994 223916240926, IV.NInt.mk 230339868357 230339965678, IV.NInt.mk 236947874270 236947974362, IV.NInt.mk 243745451486 243745554866, IV.NInt.mk 250738037714 250738143944, IV.NInt.mk 257931228052 257931336951, IV.NInt.mk 265330777360 265330888802, IV.NInt.mk 272942604043 272942720811, IV.NInt.mk 280772800620 280772919771, IV.NInt.mk 288827630550 288827752727, IV.NInt.mk 297113537354 297113663040, IV.NInt.mk 305637151820 305637279833, IV.NInt.mk 314405291537 314405423092, IV.NInt.mk 323424972665 323425107620, IV.NInt.mk 332703410313 332703549663, IV.NInt.mk 342248027407 342248172293, IV.NInt.mk 352066463097 352066611041, IV.NInt.mk 362166570685 362166722462, IV.NInt.mk 372556430699 372556586002, IV.NInt.mk 383244355626 383244514990, IV.NInt.mk 394238896824 394239059745, IV.NInt.mk 405548849820 405549018041, IV.NInt.mk 417183263029 417183435708, IV.NInt.mk 429151444824 429151624142, IV.NInt.mk 441462971104 441463155601, IV.NInt.mk 454127691925 454127880253, IV.NInt.mk 467155738574 467155932612, IV.NInt.mk 480557535867 480557733975, IV.NInt.mk 494343803705 494344006498, IV.NInt.mk 508525573021 508525782401, IV.NInt.mk 523114189487 523114404656, IV.NInt.mk 538121326272 538121547356, IV.NInt.mk 553558988420 553559214706, IV.NInt.mk 569439526861 569439759305, IV.NInt.mk 585775647916 585775886435, IV.NInt.mk 602580421055 602580666144, IV.NInt.mk 619867289477 619867541874, IV.NInt.mk 637650084796 637650344204, IV.NInt.mk 655943034537 655943301426, IV.NInt.mk 674760772762 674761048446, IV.NInt.mk 694118357278 694118639843, IV.NInt.mk 714031273113 714031563583, IV.NInt.mk 734515451475 734515749697, IV.NInt.mk 755587282748 755587587909, IV.NInt.mk 777263622983 777263936054, IV.NInt.mk 799561816141 799562138043, IV.NInt.mk 822499700024 822500031806, IV.NInt.mk 846095627511 846095970260, IV.NInt.mk 870368477533 870368829218, IV.NInt.mk 895337669621 895338029803, IV.NInt.mk 921023178344 921023548738, IV.NInt.mk 947445555286 947445936302, IV.NInt.mk 974625939482 974626330703, IV.NInt.mk 1002586077615 1002586478499, IV.NInt.mk 1031348335016 1031348748456, IV.NInt.mk 1060935729007 1060936154497, IV.NInt.mk 1091371925811 1091372362934, IV.NInt.mk 1122681280280 1122681728382], [IV.NInt.mk 91092753296 91092757659, IV.NInt.mk 90837221309 90837226200, IV.NInt.mk 90574359013 90574363842, IV.NInt.mk 90303955628 90303960546, IV.NInt.mk 90025794836 90025799849, IV.NInt.mk 89739654039 89739659305, IV.NInt.mk 89445304665 89445309873, IV.NInt.mk 89142510841 89142516319, IV.NInt.mk 88831030537 88831035950, IV.NInt.mk 88510614008 88510620214, IV.NInt.mk 88181005863 88181012001, IV.NInt.mk 87841941909 87841947981, IV.NInt.mk 87493150702 87493156897, IV.NInt.mk 87134353309 87134359799, IV.NInt.mk 86765262758 86765269378, IV.NInt.mk 86385583648 86385590583, IV.NInt.mk 85995012438 85995019324, IV.NInt.mk 85593236120 85593243706, IV.NInt.mk 85179934029 85179941569, IV.NInt.mk 84754774950 84754782835, IV.NInt.mk 84317418954 84317426805, IV.NInt.mk 83867516005 83867524010, IV.NInt.mk 83404706238 83404714400, IV.NInt.mk 82928619292 82928627823, IV.NInt.mk 82438874431 82438882938, IV.NInt.mk 81935079428 81935088334, IV.NInt.mk 81416831760 81416840842, IV.NInt.mk 80883716511 80883725980, IV.NInt.mk 80335307413 80335316858, IV.NInt.mk 79771165447 79771175085, IV.NInt.mk 79190839286 79190849124, IV.NInt.mk 78593864570 78593874846, IV.NInt.mk 77979764033 77979774264, IV.NInt.mk 77348045834 77348056760, IV.NInt.mk 76698205023 76698216185, IV.NInt.mk 76029721544 76029733180, IV.NInt.mk 75342060664 75342072290, IV.NInt.mk 74634671769 74634683884, IV.NInt.mk 73906989719 73907001830, IV.NInt.mk 73158431570 73158444189, IV.NInt.mk 72388398990 72388411641, IV.NInt.mk 71596274675 71596288937, IV.NInt.mk 70781426867 70781441155, IV.NInt.mk 69943202477 69943217339, IV.NInt.mk 69080931143 69080946050, IV.NInt.mk 68193922803 68193938305, IV.NInt.mk 67281468008 67281483554, IV.NInt.mk 66342836473 66342852355, IV.NInt.mk 65377277476 65377293692, IV.NInt.mk 64384018285 64384035131, IV.NInt.mk 63362264817 63362281723, IV.NInt.mk 62311198915 62311216492, IV.NInt.mk 61229980109 61229997787, IV.NInt.mk 60117742865 60117761247, IV.NInt.mk 58973598075 58973616858, IV.NInt.mk 57796629753 57796649271, IV.NInt.mk 56585896715 56585916365, IV.NInt.mk 55340429478 55340450919, IV.NInt.mk 54059232862 54059254433, IV.NInt.mk 52741280806 52741303187, IV.NInt.mk 51385519685 51385542218, IV.NInt.mk 49990864076 49990887100, IV.NInt.mk 48556198667 48556222230, IV.NInt.mk 47080375235 47080399671, IV.NInt.mk 45562213640 45562238322, IV.NInt.mk 44000498695 44000524306, IV.NInt.mk 42393981440 42394007236, IV.NInt.mk 40741375814 40741402570, IV.NInt.mk 39041360456 39041387480, IV.NInt.mk 37292574666 37292602690, IV.NInt.mk 35493619885 35493648568, IV.NInt.mk 33643056301 33643085621, IV.NInt.mk 31739403787 31739433891, IV.NInt.mk 29781138800 29781170440, IV.NInt.mk 27766695447 27766727840, IV.NInt.mk 25694461110 25694494687, IV.NInt.mk 23562778968 23562812894, IV.NInt.mk 21369942363 21369977495, IV.NInt.mk 19114197874 19114233884, IV.NInt.mk 16793740483 16793777775, IV.NInt.mk 14406713793 14406751592, IV.NInt.mk 11951207510 11951247107, IV.NInt.mk 9469795962 9469833729, IV.NInt.mk 7159118094 7159152229, IV.NInt.mk 5117298265 5117327890, IV.NInt.mk 3422525992 3422550100, IV.NInt.mk 2119211697 2119229844, IV.NInt.mk 1202220381 1202232878, IV.NInt.mk 618399556 618407348, IV.NInt.mk 285401831 285406193, IV.NInt.mk 116883594 116885773, IV.NInt.mk 41967818 41968791, IV.NInt.mk 13029542 13029934, IV.NInt.mk 3439840 3439993, IV.NInt.mk 756025 756090, IV.NInt.mk 134445 134481, IV.NInt.mk 18563 18587, IV.NInt.mk 1860 1878, IV.NInt.mk 115 127, IV.NInt.mk 1 7, IV.NInt.mk 0 1, IV.NInt.mk 0 0, IV.NInt.mk 0 0, IV.NInt.mk 0 0, IV.NInt.mk 0 0, IV.NInt.mk 0 0, IV.NInt.mk 0 0, IV.NInt.mk 0 0, IV.NInt.mk 0 0, IV.NInt.mk 0 0, IV.NInt.mk 0 0, IV.NInt.mk 0 0, IV.NInt.mk 0 0, IV.NInt.mk 0 0, IV.NInt.mk 0 0, IV.NInt.mk 0 0, IV.NInt.mk 0 0, IV.NInt.mk 0 0, IV.NInt.mk 0 0, IV.NInt.mk 0 0, IV.NInt.mk 0 0, IV.NInt.mk 0 0, IV.NInt.mk 0 0, IV.NInt.mk 0 0, IV.NInt.mk 0 0, IV.NInt.mk 0 0, IV.NInt.mk 0 0, IV.NInt.mk 0 0, IV.NInt.mk 0 0, IV.NInt.mk 0 0, IV.NInt.mk 0 0, IV.NInt.mk 0 0, IV.NInt.mk 0 0, IV.NInt.mk 0 0, IV.NInt.mk 0 0, IV.NInt.mk 0 0, IV.NInt.mk 0 0, IV.NInt.mk 0 0, IV.NInt.mk 0 0, IV.NInt.mk 0 0, IV.NInt.mk 0 0, IV.NInt.mk 0 0, IV.NInt.mk 0 0, IV.NInt.mk 0 0, IV.NInt.mk 0 0, IV.NInt.mk 0 0, IV.NInt.mk 0 0, IV.NInt.mk 0 0, IV.NInt.mk 0 0, IV.NInt.mk 0 0, IV.NInt.mk 0 0, IV.NInt.mk 0 0, IV.NInt.mk 0 0, IV.NInt.mk 0 0, IV.NInt.mk 0 0, IV.NInt.mk 0 0, IV.NInt.mk 0 0, IV.NInt.mk 0 0, IV.NInt.mk 0 0, IV.NInt.mk 0 0, IV.NInt.mk 0 0, IV.NInt.mk 0 0, IV.NInt.mk 0 0, IV.NInt.mk 0 0, IV.NInt.mk 0 0, IV.NInt.mk 0 0, IV.NInt.mk 0 0, IV.NInt.mk 0 0, IV.NInt.mk 0 0, IV.NInt.mk 0 0, IV.NInt.mk 0 0, IV.NInt.mk 0 0]) := by decide

set_option maxRecDepth 100000 in
set_option maxHeartbeats 1000000 in
/-- Chunk 4 of the kernel evaluation of the C9 put lattice (11 steps). -/
theorem IV.putChunk4 : IV.loopG IV.uI9 IV.pI9 IV.qI9 IV.discI9 false IV.KSc9 11 ([IV.NInt.mk 8907242341 8907246704, IV.NInt.mk 9162773800 9162778691, IV.NInt.mk 9425636158 9425640987, IV.NInt.mk 9696039454 9696044372, IV.NInt.mk 9974200151 9974205164, IV.NInt.mk 10260340695 10260345961, IV.NInt.mk 10554690127 10554695335, IV.NInt.mk 10857483681 10857489159, IV.NInt.mk 11168964050 11168969463, IV.NInt.mk 11489379786 11489385992, IV.NInt.mk 11818987999 11818994137, IV.NInt.mk 12158052019 12158058091, IV.NInt.mk 12506843103 12506849298, IV.NInt.mk 12865640201 12865646691, IV.NInt.mk 13234730622 13234737242, IV.NInt.mk 13614409417 13614416352, IV.NInt.mk 14004980676 14004987562, IV.NInt.mk 14406756294 14406763880, IV.NInt.mk 14820058431 14820065971, IV.NInt.mk 15245217165 15245225050, IV.NInt.mk 15682573195 15682581046, IV.NInt.mk 16132475990 16132483995, IV.NInt.mk 16595285600 16595293762, IV.NInt.mk 17071372177 17071380708, IV.NInt.mk 17561117062 17561125569, IV.NInt.mk 18064911666 18064920572, IV.NInt.mk 18583159158 18583168240, IV.NInt.mk 19116274020 19116283489, IV.NInt.mk 19664683142 19664692587, IV.NInt.mk 20228824915 20228834553, IV.NInt.mk 20809150876 20809160714, IV.NInt.mk 21406125154 21406135430, IV.NInt.mk 22020225736 22020235967, IV.NInt.mk 22651943240 22651954166, IV.NInt.mk 23301783815 23301794977, IV.NInt.mk 23970266820 23970278456, IV.NInt.mk 24657927710 24657939336, IV.NInt.mk 25365316116 25365328231, IV.NInt.mk 26092998170 26093010281, IV.NInt.mk 26841555811 26841568430, IV.NInt.mk 27611588359 27611601010, IV.NInt.mk 28403711063 28403725325, IV.NInt.mk 29218558845 29218573133, IV.NInt.mk 30056782661 30056797523, IV.NInt.mk 30919053950 30919068857, IV.NInt.mk 31806061695 31806077197, IV.NInt.mk 32718516446 32718531992, IV.NInt.mk 33657147645 33657163527, IV.NInt.mk 34622706308 34622722524, IV.NInt.mk 35615964869 35615981715, IV.NInt.mk 36637718277 36637735183, IV.NInt.mk 37688783508 37688801085, IV.NInt.mk 38770002213 38770019891, IV.NInt.mk 39882238753 39882257135, IV.NInt.mk 41026383142 41026401925, IV.NInt.mk 42203350729 42203370247, IV.NInt.mk 43414083635 43414103285, IV.NInt.mk 44659549081 44659570522, IV.NInt.mk 45940745567 45940767138, IV.NInt.mk 47258696813 47258719194, IV.NInt.mk 48614457782 48614480315, IV.NInt.mk 50009112900 50009135924, IV.NInt.mk 51443777770 51443801333, IV.NInt.mk 52919600329 52919624765, IV.NInt.mk 54437761678 54437786360, IV.NInt.mk 55999475694 55999501305, IV.NInt.mk 57605992764 57606018560, IV.NInt.mk 59258597430 59258624186, IV.NInt.mk 60958612520 60958639544, IV.NInt.mk 62707397310 62707425334, IV.NInt.mk 64506351432 64506380115, IV.NInt.mk 66356914379 66356943699, IV.NInt.mk 68260566109 68260596213, IV.NInt.mk 70218829560 70218861200, IV.NInt.mk 72233272160 72233304553, IV.NInt.mk 74305505313 74305538890, IV.NInt.mk 76437187106 76437221032, IV.NInt.mk 78630022505 78630057637, IV.NInt.mk 80885766116 80885802126, IV.NInt.mk 83206222225 83206259517, IV.NInt.mk 85593248408 85593286207, IV.NInt.mk 88048752893 88048792490, IV.NInt.mk 90574701953 90574742043, IV.NInt.mk 93173115556 93173156570, IV.NInt.mk 95846072451 95846114523, IV.NInt.mk 98595711012 98595755086, IV.NInt.mk 101424231833 101424276452, IV.NInt.mk 104333897407 104333943071, IV.NInt.mk 107327035386 107327082331, IV.NInt.mk 110406040550 110406089645, IV.NInt.mk 113573376845 113573427193, IV.NInt.mk 116831577592 116831629671, IV.NInt.mk 120183250291 120183303157, IV.NInt.mk 123631075134 123631130359, IV.NInt.mk 127177812329 127177868394, IV.NInt.mk 130826298415 130826355805, IV.NInt.mk 134579452563 134579510934, IV.NInt.mk 138440277077 138440337421, IV.NInt.mk 142411861471 142411923370, IV.NInt.mk 146497382376 146497446367, IV.NInt.mk 150700109885 150700175005, IV.NInt.mk 155023405567 155023472265, IV.NInt.mk 159470727686 159470796111, IV.NInt.mk 164045634934 164045705700, IV.NInt.mk 168751787568 168751859720, IV.NInt.mk 173592949516 173593025433, IV.NInt.mk 178572996303 178573073531, IV.NInt.mk 183695911065 183695990193, IV.NInt.mk 188965792241 188965873513, IV.NInt.mk 194386855793 194386939797, IV.NInt.mk 199963439698 199963525189, IV.NInt.mk 205700004713 205700093045, IV.NInt.mk 211601140841 211601231041, IV.NInt.mk 217671569117 217671661571, IV.NInt.mk 223916145994 223916240926, IV.NInt.mk 230339868357 230339965678, IV.NInt.mk 236947874270 236947974362, IV.NInt.mk 243745451486 243745554866, IV.NInt.mk 250738037714 250738143944, IV.NInt.mk 257931228052 257931336951, IV.NInt.mk 265330777360 265330888802, IV.NInt.mk 272942604043 272942720811, IV.NInt.mk 280772800620 280772919771, IV.NInt.mk 288827630550 288827752727, IV.NInt.mk 297113537354 297113663040, IV.NInt.mk 305637151820 305637279833, IV.NInt.mk 314405291537 314405423092, IV.NInt.mk 323424972665 323425107620, IV.NInt.mk 332703410313 332703549663, IV.NInt.mk 342248027407 342248172293, IV.NInt.mk 352066463097 352066611041, IV.NInt.mk 362166570685 362166722462, IV.NInt.mk 372556430699 372556586002, IV.NInt.mk 383244355626 383244514990, IV.NInt.mk 394238896824 394239059745, IV.NInt.mk 405548849820 405549018041, IV.NInt.mk 417183263029 417183435708, IV.NInt.mk 429151444824 429151624142, IV.NInt.mk 441462971104 441463155601, IV.NInt.mk 454127691925 454127880253, IV.NInt.mk 467155738574 467155932612, IV.NInt.mk 480557535867 480557733975, IV.NInt.mk 494343803705 494344006498, IV.NInt.mk 508525573021 508525782401, IV.NInt.mk 523114189487 523114404656, IV.NInt.mk 538121326272 538121547356, IV.NInt.mk 553558988420 553559214706, IV.NInt.mk 569439526861 569439759305, IV.NInt.mk 585775647916 585775886435, IV.NInt.mk 602580421055 602580666144, IV.NInt.mk 619867289477 619867541874, IV.NInt.mk 637650084796 637650344204, IV.NInt.mk 655943034537 655943301426, IV.NInt.mk 674760772762 674761048446, IV.NInt.mk 694118357278 694118639843, IV.NInt.mk 714031273113 714031563583, IV.NInt.mk 734515451475 734515749697, IV.NInt.mk 755587282748 755587587909, IV.NInt.mk 777263622983 777263936054, IV.NInt.mk 799561816141 799562138043, IV.NInt.mk 822499700024 822500031806, IV.NInt.mk 846095627511 846095970260, IV.NInt.mk 870368477533 870368829218, IV.NInt.mk 895337669621 895338029803, IV.NInt.mk 921023178344 921023548738, IV.NInt.mk 947445555286 947445936302, IV.NInt.mk 974625939482 974626330703, IV.NInt.mk 1002586077615 1002586478499, IV.NInt.mk 1031348335016 1031348748456, IV.NInt.mk 1060935729007 1060936154497, IV.NInt.mk 1091371925811 1091372362934, IV.NInt.mk 1122681280280 1122681728382], [IV.NInt.mk 91092753296 91092757659, IV.NInt.mk 90837221309 90837226200, IV.NInt.mk 90574359013 90574363842, IV.NInt.mk 90303955628 90303960546, IV.NInt.mk 90025794836 90025799849, IV.NInt.mk 89739654039 89739659305, IV.NInt.mk 89445304665 89445309873, IV.NInt.mk 89142510841 89142516319, IV.NInt.mk 88831030537 88831035950, IV.NInt.mk 88510614008 88510620214, IV.NInt.mk 88181005863 88181012001, IV.NInt.mk 87841941909 87841947981, IV.NInt.mk 87493150702 87493156897, IV.NInt.mk 87134353309 87134359799, IV.NInt.mk 86765262758 86765269378, IV.NInt.mk 86385583648 86385590583, IV.NInt.mk 85995012438 85995019324, IV.NInt.mk 85593236120 85593243706, IV.NInt.mk 85179934029 85179941569, IV.NInt.mk 84754774950 84754782835, IV.NInt.mk 84317418954 84317426805, IV.NInt.mk 83867516005 83867524010, IV.NInt.mk 83404706238 83404714400, IV.NInt.mk 82928619292 82928627823, IV.NInt.mk 82438874431 82438882938, IV.NInt.mk 81935079428 81935088334, IV.NInt.mk 81416831760 81416840842, IV.NInt.mk 80883716511 80883725980, IV.NInt.mk 80335307413 80335316858, IV.NInt.mk 79771165447 79771175085, IV.NInt.mk 79190839286 79190849124, IV.NInt.mk 78593864570 78593874846, IV.NInt.mk 77979764033 77979774264, IV.NInt.mk 77348045834 77348056760, IV.NInt.mk 76698205023 76698216185, IV.NInt.mk 76029721544 76029733180, IV.NInt.mk 75342060664 75342072290, IV.NInt.mk 74634671769 74634683884, IV.NInt.mk 73906989719 73907001830, IV.NInt.mk 73158431570 73158444189, IV.NInt.mk 72388398990 72388411641, IV.NInt.mk 71596274675 71596288937, IV.NInt.mk 70781426867 70781441155, IV.NInt.mk 69943202477 69943217339, IV.NInt.mk 69080931143 69080946050, IV.NInt.mk 68193922803 68193938305, IV.NInt.mk 67281468008 67281483554, IV.NInt.mk 66342836473 66342852355, IV.NInt.mk 65377277476 65377293692, IV.NInt.mk 64384018285 64384035131, IV.NInt.mk 63362264817 63362281723, IV.NInt.mk 62311198915 62311216492, IV.NInt.mk 61229980109 61229997787, IV.NInt.mk 60117742865 60117761247, IV.NInt.mk 58973598075 58973616858, IV.NInt.mk 57796629753 57796649271, IV.NInt.mk 56585896715 56585916365, IV.NInt.mk 55340429478 55340450919, IV.NInt.mk 54059232862 54059254433, IV.NInt.mk 52741280806 52741303187, IV.NInt.mk 51385519685 51385542218, IV.NInt.mk 49990864076 49990887100, IV.NInt.mk 48556198667 48556222230, IV.NInt.mk 47080375235 47080399671, IV.NInt.mk 45562213640 45562238322, IV.NInt.mk 44000498695 44000524306, IV.NInt.mk 42393981440 42394007236, IV.NInt.mk 40741375814 40741402570, IV.NInt.mk 39041360456 39041387480, IV.NInt.mk 37292574666 37292602690, IV.NInt.mk 35493619885 35493648568, IV.NInt.mk 33643056301 33643085621, IV.NInt.mk 31739403787 31739433891, IV.NInt.mk 29781138800 29781170440, IV.NInt.mk 27766695447 27766727840, IV.NInt.mk 25694461110 25694494687, IV.NInt.mk 23562778968 23562812894, IV.NInt.mk 21369942363 21369977495, IV.NInt.mk 19114197874 19114233884, IV.NInt.mk 16793740483 16793777775, IV.NInt.mk 14406713793 14406751592, IV.NInt.mk 11951207510 11951247107, IV.NInt.mk 9469795962 9469833729, IV.NInt.mk 7159118094 7159152229, IV.NInt.mk 5117298265 5117327890, IV.NInt.mk 3422525992 3422550100, IV.NInt.mk 2119211697 2119229844, IV.NInt.mk 1202220381 1202232878, IV.NInt.mk 618399556 618407348, IV.NInt.mk 285401831 285406193, IV.NInt.mk 116883594 116885773, IV.NInt.mk 41967818 41968791, IV.NInt.mk 13029542 13029934, IV.NInt.mk 3439840 3439993, IV.NInt.mk 756025 756090, IV.NInt.mk 134445 134481, IV.NInt.mk 18563 18587, IV.NInt.mk 1860 1878, IV.NInt.mk 115 127, IV.NInt.mk 1 7, IV.NInt.mk 0 1, IV.NInt.mk 0 0, IV.NInt.mk 0 0, IV.NInt.mk 0 0, IV.NInt.mk 0 0, IV.NInt.mk 0 0, IV.NInt.mk 0 0, IV.NInt.mk 0 0, IV.NInt.mk 0 0, IV.NInt.mk 0 0, IV.NInt.mk 0 0, IV.NInt.mk 0 0, IV.NInt.mk 0 0, IV.NInt.mk 0 0, IV.NInt.mk 0 0, IV.NInt.mk 0 0, IV.NInt.mk 0 0, IV.NInt.mk 0 0, IV.NInt.mk 0 0, IV.NInt.mk 0 0, IV.NInt.mk 0 0, IV.NInt.mk 0 0, IV.NInt.mk 0 0, IV.NInt.mk 0 0, IV.NInt.mk 0 0, IV.NInt.mk 0 0, IV.NInt.mk 0 0, IV.NInt.mk 0 0, IV.NInt.mk 0 0, IV.NInt.mk 0 0, IV.NInt.mk 0 0, IV.NInt.mk 0 0, IV.NInt.mk 0 0, IV.NInt.mk 0 0, IV.NInt.mk 0 0, IV.NInt.mk 0 0, IV.NInt.mk 0 0, IV.NInt.mk 0 0, IV.NInt.mk 0 0, IV.NInt.mk 0 0, IV.NInt.mk 0 0, IV.NInt.mk 0 0, IV.NInt.mk 0 0, IV.NInt.mk 0 0, IV.NInt.mk 0 0, IV.NInt.mk 0 0, IV.NInt.mk 0 0, IV.NInt.mk 0 0, IV.NInt.mk 0 0, IV.NInt.mk 0 0, IV.NInt.mk 0 0, IV.NInt.mk 0 0, IV.NInt.mk 0 0, IV.NInt.mk 0 0, IV.NInt.mk 0 0, IV.NInt.mk 0 0, IV.NInt.mk 0 0, IV.NInt.mk 0 0, IV.NInt.mk 0 0, IV.NInt.mk 0 0, IV.NInt.mk 0 0, IV.NInt.mk 0 0, IV.NInt.mk 0 0, IV.NInt.mk 0 0, IV.NInt.mk 0 0, IV.NInt.mk 0 0, IV.NInt.mk 0 0, IV.NInt.mk 0 0, IV.NInt.mk 0 0, IV.NInt.mk 0 0, IV.NInt.mk 0 0, IV.NInt.mk 0 0]) = ([IV.NInt.mk 10406474658 10406479881, IV.NInt.mk 10705016175 10705022019, IV.NInt.mk 11012122501 11012128275, IV.NInt.mk 11328039028 11328044907, IV.NInt.mk 11653018650 11653024645, IV.NInt.mk 11987321254 11987327548, IV.NInt.mk 12331214435 12331220666, IV.NInt.mk 12684973021 12684979570, IV.NInt.mk 13048880553 13048887029, IV.NInt.mk 13423227417 13423234825, IV.NInt.mk 13808313998 13808321332, IV.NInt.mk 14204447954 14204455213, IV.NInt.mk 14611946195 14611953602, IV.NInt.mk 15031134623 15031142379, IV.NInt.mk 15462348906 15462356817, IV.NInt.mk 15905933755 15905942043, IV.NInt.mk 16362244445 16362252681, IV.NInt.mk 16831645372 16831654427, IV.NInt.mk 17314512914 17314521920, IV.NInt.mk 17811232706 17811242125, IV.NInt.mk 18322202799 18322212183, IV.NInt.mk 18847831480 18847841049, IV.NInt.mk 19388539402 19388549159, IV.NInt.mk 19944759015 19944769210, IV.NInt.mk 20516935851 20516946025, IV.NInt.mk 21105527201 21105537845, IV.NInt.mk 21711004092 21711014949, IV.NInt.mk 22333850770 22333862086, IV.NInt.mk 22974565977 22974577274, IV.NInt.mk 23633661897 23633673425, IV.NInt.mk 24311666061 24311677830, IV.NInt.mk 25009120724 25009133012, IV.NInt.mk 25726584323 25726596565, IV.NInt.mk 26464630055 26464643119, IV.NInt.mk 27223849265 27223862612, IV.NInt.mk 28004848721 28004862631, IV.NInt.mk 28808254012 28808267922, IV.NInt.mk 29634707282 29634721768, IV.NInt.mk 30484869943 30484884435, IV.NInt.mk 31359421888 31359436986, IV.NInt.mk 32259063315 32259078456, IV.NInt.mk 33184513026 33184530058, IV.NInt.mk 34136512809 34136529887, IV.NInt.mk 35115823194 35115840949, IV.NInt.mk 36123228627 36123246444, IV.NInt.mk 37159534058 37159552583, IV.NInt.mk 38225569637 38225588228, IV.NInt.mk 39322187584 39322206577, IV.NInt.mk 40450265316 40450284713, IV.NInt.mk 41610705289 41610725433, IV.NInt.mk 42804436250 42804456475, IV.NInt.mk 44032412685 44032433708, IV.NInt.mk 45295617909 45295639067, IV.NInt.mk 46595061768 46595083763, IV.NInt.mk 47931784082 47931806559, IV.NInt.mk 49306854267 49306877619, IV.NInt.mk 50721373020 50721396540, IV.NInt.mk 52176470357 52176495985, IV.NInt.mk 53673312845 53673338638, IV.NInt.mk 55213096506 55213123265, IV.NInt.mk 56797053879 56797080833, IV.NInt.mk 58426451914 58426479458, IV.NInt.mk 60102593982 60102622177, IV.NInt.mk 61826821245 61826850476, IV.NInt.mk 63600513596 63600543133, IV.NInt.mk 65425089229 65425119873, IV.NInt.mk 67302008993 67302039873, IV.NInt.mk 69232773637 69232805662, IV.NInt.mk 71218928643 71218961000, IV.NInt.mk 73262062075 73262095623, IV.NInt.mk 75363809144 75363843482, IV.NInt.mk 77525851634 77525886744, IV.NInt.mk 79749918605 79749954655, IV.NInt.mk 82037789331 82037827199, IV.NInt.mk 84391295060 84391333833, IV.NInt.mk 86812318422 86812358604, IV.NInt.mk 89302796588 89302837207, IV.NInt.mk 91864721496 91864763553, IV.NInt.mk 94500143084 94500186191, IV.NInt.mk 97211169324 97211213959, IV.NInt.mk 99999970452 100000015710, IV.NInt.mk 102868775886 102868823273, IV.NInt.mk 105819882848 105819930845, IV.NInt.mk 108855651304 108855700413, IV.NInt.mk 111978509887 111978560269, IV.NInt.mk 115190956897 115191009650, IV.NInt.mk 118495563322 118495616748, IV.NInt.mk 121894972468 121895027151, IV.NInt.mk 125391903766 125391959985, IV.NInt.mk 128989155083 128989213854, IV.NInt.mk 132689605081 132689665355, IV.NInt.mk 136496213482 136496275819, IV.NInt.mk 140412026669 140412089969, IV.NInt.mk 144440175955 144440242054, IV.NInt.mk 148583886136 148583953258, IV.NInt.mk 152846471181 152846539903, IV.NInt.mk 157231341614 157231411525, IV.NInt.mk 161742005062 161742077331, IV.NInt.mk 166382071066 166382145202, IV.NInt.mk 171155250933 171155327562, IV.NInt.mk 176065365157 176065443160, IV.NInt.mk 181116341123 181116421024, IV.NInt.mk 186312219172 186312301146, IV.NInt.mk 191657156983 191657241749, IV.NInt.mk 197155430889 197155517336, IV.NInt.mk 202811438354 202811529259, IV.NInt.mk 208629707210 208629799711, IV.NInt.mk 214614891023 214614985809, IV.NInt.mk 220771778063 220771875419, IV.NInt.mk 227105293910 227105394528, IV.NInt.mk 233620506685 233620609113, IV.NInt.mk 240322627971 240322733790, IV.NInt.mk 247217020339 247217128413, IV.NInt.mk 254309199447 254309310233, IV.NInt.mk 261604839172 261604952933, IV.NInt.mk 269109777451 269109894085, IV.NInt.mk 276830017172 276830137126, IV.NInt.mk 284771736099 284771859979, IV.NInt.mk 292941287194 292941414493, IV.NInt.mk 301345207301 301345337810, IV.NInt.mk 309990219914 309990353487, IV.NInt.mk 318883239604 318883379497, IV.NInt.mk 328031384359 328031527135, IV.NInt.mk 337441971876 337442118289, IV.NInt.mk 347122530226 347122680845, IV.NInt.mk 357080806267 357080959710, IV.NInt.mk 367324765094 367324922789, IV.NInt.mk 377862603806 377862765584, IV.NInt.mk 388702751924 388702918954, IV.NInt.mk 399853881773 399854055394, IV.NInt.mk 411324918301 411325095619, IV.NInt.mk 423125036644 423125218566, IV.NInt.mk 435263677409 435263863586, IV.NInt.mk 447750552215 447750743269, IV.NInt.mk 460595651744 460595847094, IV.NInt.mk 473809251957 473809453645, IV.NInt.mk 487401924265 487402131308, IV.NInt.mk 501384543785 501384758732, IV.NInt.mk 515768298194 515768519351, IV.NInt.mk 530564695476 530564921267, IV.NInt.mk 545785572170 545785804800, IV.NInt.mk 561443107763 561443345315, IV.NInt.mk 577549826485 577550069688, IV.NInt.mk 594118615950 594118867029, IV.NInt.mk 611162731496 611162989520, IV.NInt.mk 628695811067 628696076192, IV.NInt.mk 646731880353 646732151754, IV.NInt.mk 665285369145 665285647941, IV.NInt.mk 684371122442 684371408541, IV.NInt.mk 704004409514 704004703501, IV.NInt.mk 724200936269 724201239015, IV.NInt.mk 744976862404 744977173564, IV.NInt.mk 766348810164 766349130299, IV.NInt.mk 788333876764 788334207410, IV.NInt.mk 810949654476 810949993406, IV.NInt.mk 834214234709 834214583131, IV.NInt.mk 858146230157 858146587893, IV.NInt.mk 882764789961 882765156073, IV.NInt.mk 908089607321 908089982948, IV.NInt.mk 934140945465 934141331692, IV.NInt.mk 960939644583 960940042643], [IV.NInt.mk 89593520119 89593525342, IV.NInt.mk 89294977981 89294983825, IV.NInt.mk 88987871725 88987877499, IV.NInt.mk 88671955093 88671960972, IV.NInt.mk 88346975355 88346981350, IV.NInt.mk 88012672452 88012678746, IV.NInt.mk 87668779334 87668785565, IV.NInt.mk 87315020430 87315026979, IV.NInt.mk 86951112971 86951119447, IV.NInt.mk 86576765175 86576772583, IV.NInt.mk 86191678668 86191686002, IV.NInt.mk 85795544787 85795552046, IV.NInt.mk 85388046398 85388053805, IV.NInt.mk 84968857621 84968865377, IV.NInt.mk 84537643183 84537651094, IV.NInt.mk 84094057957 84094066245, IV.NInt.mk 83637747319 83637755555, IV.NInt.mk 83168345573 83168354628, IV.NInt.mk 82685478080 82685487086, IV.NInt.mk 82188757875 82188767294, IV.NInt.mk 81677787817 81677797201, IV.NInt.mk 81152158951 81152168520, IV.NInt.mk 80611450841 80611460598, IV.NInt.mk 80055230790 80055240985, IV.NInt.mk 79483053975 79483064149, IV.NInt.mk 78894462155 78894472799, IV.NInt.mk 78288985051 78288995908, IV.NInt.mk 77666137914 77666149230, IV.NInt.mk 77025422726 77025434023, IV.NInt.mk 76366326575 76366338103, IV.NInt.mk 75688322170 75688333939, IV.NInt.mk 74990866988 74990879276, IV.NInt.mk 74273403435 74273415677, IV.NInt.mk 73535356881 73535369945, IV.NInt.mk 72776137388 72776150735, IV.NInt.mk 71995137369 71995151279, IV.NInt.mk 71191732078 71191745988, IV.NInt.mk 70365278232 70365292718, IV.NInt.mk 69515115565 69515130057, IV.NInt.mk 68640563014 68640578112, IV.NInt.mk 67740921544 67740936685, IV.NInt.mk 66815469942 66815486974, IV.NInt.mk 65863470113 65863487191, IV.NInt.mk 64884159051 64884176806, IV.NInt.mk 63876753556 63876771373, IV.NInt.mk 62840447417 62840465942, IV.NInt.mk 61774411772 61774430363, IV.NInt.mk 60677793423 60677812416, IV.NInt.mk 59549715287 59549734684, IV.NInt.mk 58389274567 58389294711, IV.NInt.mk 57195543525 57195563750, IV.NInt.mk 55967566292 55967587315, IV.NInt.mk 54704360933 54704382091, IV.NInt.mk 53404916237 53404938232, IV.NInt.mk 52068193441 52068215918, IV.NInt.mk 50693122381 50693145733, IV.NInt.mk 49278603460 49278626980, IV.NInt.mk 47823504015 47823529643, IV.NInt.mk 46326661362 46326687155, IV.NInt.mk 44786876735 44786903494, IV.NInt.mk 43202919167 43202946121, IV.NInt.mk 41573520542 41573548086, IV.NInt.mk 39897377823 39897406018, IV.NInt.mk 38173149524 38173178755, IV.NInt.mk 36399456867 36399486404, IV.NInt.mk 34574880127 34574910771, IV.NInt.mk 32697960127 32697991007, IV.NInt.mk 30767194338 30767226363, IV.NInt.mk 28781039000 28781071357, IV.NInt.mk 26737904377 26737937925, IV.NInt.mk 24636156518 24636190856, IV.NInt.mk 22474113256 22474148366, IV.NInt.mk 20250045345 20250081395, IV.NInt.mk 17962172801 17962210669, IV.NInt.mk 15608666167 15608704940, IV.NInt.mk 13187641396 13187681578, IV.NInt.mk 10738640377 10738678742, IV.NInt.mk 8444254741 8444289620, IV.NInt.mk 6378574696 6378605459, IV.NInt.mk 4598924297 4598950301, IV.NInt.mk 3144495105 3144515966, IV.NInt.mk 2026144492 2026160253, IV.NInt.mk 1222833226 1222844364, IV.NInt.mk 687180366 687187686, IV.NInt.mk 357486532 357490987, IV.NInt.mk 171165884 171168392, IV.NInt.mk 74983980 74985287, IV.NInt.mk 29867824 29868463, IV.NInt.mk 10744447 10744752, IV.NInt.mk 3464394 3464548, IV.NInt.mk 992560 992647, IV.NInt.mk 250087 250148, IV.NInt.mk 54715 54763, IV.NInt.mk 10221 10262, IV.NInt.mk 1588 1621, IV.NInt.mk 191 217, IV.NInt.mk 13 29, IV.NInt.mk 0 8, IV.NInt.mk 0 5, IV.NInt.mk 0 3, IV.NInt.mk 0 1, IV.NInt.mk 0 0, IV.NInt.mk 0 0, IV.NInt.mk 0 0, IV.NInt.mk 0 0, IV.NInt.mk 0 0, IV.NInt.mk 0 0, IV.NInt.mk 0 0, IV.NInt.mk 0 0, IV.NInt.mk 0 0, IV.NInt.mk 0 0, IV.NInt.mk 0 0, IV.NInt.mk 0 0, IV.NInt.mk 0 0, IV.NInt.mk 0 0, IV.NInt.mk 0 0, IV.NInt.mk 0 0, IV.NInt.mk 0 0, IV.NInt.mk 0 0, IV.NInt.mk 0 0, IV.NInt.mk 0 0, IV.NInt.mk 0 0, IV.NInt.mk 0 0, IV.NInt.mk 0 0, IV.NInt.mk 0 0, IV.NInt.mk 0 0, IV.NInt.mk 0 0, IV.NInt.mk 0 0, IV.NInt.mk 0 0, IV.NInt.mk 0 0, IV.NInt.mk 0 0, IV.NInt.mk 0 0, IV.NInt.mk 0 0, IV.NInt.mk 0 0, IV.NInt.mk 0 0, IV.NInt.mk 0 0, IV.NInt.mk 0 0, IV.NInt.mk 0 0, IV.NInt.mk 0 0, IV.NInt.mk 0 0, IV.NInt.mk 0 0, IV.NInt.mk 0 0, IV.NInt.mk 0 0, IV.NInt.mk 0 0, IV.NInt.mk 0 0, IV.NInt.mk 0 0, IV.NInt.mk 0 0, IV.NInt.mk 0 0, IV.NInt.mk 0 0, IV.NInt.mk 0 0, IV.NInt.mk 0 0, IV.NInt.mk 0 0, IV.NInt.mk 0 0, IV.NInt.mk 0 0, IV.NInt.mk 0 0, IV.NInt.mk 0 0, IV.NInt.mk 0 0, IV.NInt.mk 0 0, IV.NInt.mk 0 0, IV.NInt.mk 0 0, IV.NInt.mk 0 0]) := by decide

set_option maxRecDepth 100000 in
set_option maxHeartbeats 1000000 in
/-- Chunk 5 of the kernel evaluation of the C9 put lattice (12 steps). -/
theorem IV.putChunk5 : IV.loopG IV.uI9 IV.pI9 IV.qI9 IV.discI9 false IV.KSc9 12 ([IV.NInt.mk 10406474658 10406479881, IV.NInt.mk 10705016175 10705022019, IV.NInt.mk 11012122501 11012128275, IV.NInt.mk 11328039028 11328044907, IV.NInt.mk 11653018650 11653024645, IV.NInt.mk 11987321254 11987327548, IV.NInt.mk 12331214435 12331220666, IV.NInt.mk 12684973021 12684979570, IV.NInt.mk 13048880553 13048887029, IV.NInt.mk 13423227417 13423234825, IV.NInt.mk 13808313998 13808321332, IV.NInt.mk 14204447954 14204455213, IV.NInt.mk 14611946195 14611953602, IV.NInt.mk 15031134623 15031142379, IV.NInt.mk 15462348906 15462356817, IV.NInt.mk 15905933755 15905942043, IV.NInt.mk 16362244445 16362252681, IV.NInt.mk 16831645372 16831654427, IV.NInt.mk 17314512914 17314521920, IV.NInt.mk 17811232706 17811242125, IV.NInt.mk 18322202799 18322212183, IV.NInt.mk 18847831480 18847841049, IV.NInt.mk 19388539402 19388549159, IV.NInt.mk 19944759015 19944769210, IV.NInt.mk 20516935851 20516946025, IV.NInt.mk 21105527201 21105537845, IV.NInt.mk 21711004092 21711014949, IV.NInt.mk 22333850770 22333862086, IV.NInt.mk 22974565977 22974577274, IV.NInt.mk 23633661897 23633673425, IV.NInt.mk 24311666061 24311677830, IV.NInt.mk 25009120724 25009133012, IV.NInt.mk 25726584323 25726596565, IV.NInt.mk 26464630055 26464643119, IV.NInt.mk 27223849265 27223862612, IV.NInt.mk 28004848721 28004862631, IV.NInt.mk 28808254012 28808267922, IV.NInt.mk 29634707282 29634721768, IV.NInt.mk 30484869943 30484884435, IV.NInt.mk 31359421888 31359436986, IV.NInt.mk 32259063315 32259078456, IV.NInt.mk 33184513026 33184530058, IV.NInt.mk 34136512809 34136529887, IV.NInt.mk 35115823194 35115840949, IV.NInt.mk 36123228627 36123246444, IV.NInt.mk 37159534058 37159552583, IV.NInt.mk 38225569637 38225588228, IV.NInt.mk 39322187584 39322206577, IV.NInt.mk 40450265316 40450284713, IV.NInt.mk 41610705289 41610725433, IV.NInt.mk 42804436250 42804456475, IV.NInt.mk 44032412685 44032433708, IV.NInt.mk 45295617909 45295639067, IV.NInt.mk 46595061768 46595083763, IV.NInt.mk 47931784082 47931806559, IV.NInt.mk 49306854267 49306877619, IV.NInt.mk 50721373020 50721396540, IV.NInt.mk 52176470357 52176495985, IV.NInt.mk 53673312845 53673338638, IV.NInt.mk 55213096506 55213123265, IV.NInt.mk 56797053879 56797080833, IV.NInt.mk 58426451914 58426479458, IV.NInt.mk 60102593982 60102622177, IV.NInt.mk 61826821245 61826850476, IV.NInt.mk 63600513596 63600543133, IV.NInt.mk 65425089229 65425119873, IV.NInt.mk 67302008993 67302039873, IV.NInt.mk 69232773637 69232805662, IV.NInt.mk 71218928643 71218961000, IV.NInt.mk 73262062075 73262095623, IV.NInt.mk 75363809144 75363843482, IV.NInt.mk 77525851634 77525886744, IV.NInt.mk 79749918605 79749954655, IV.NInt.mk 82037789331 82037827199, IV.NInt.mk 84391295060 84391333833, IV.NInt.mk 86812318422 86812358604, IV.NInt.mk 89302796588 89302837207, IV.NInt.mk 91864721496 91864763553, IV.NInt.mk 94500143084 94500186191, IV.NInt.mk 97211169324 97211213959, IV.NInt.mk 99999970452 100000015710, IV.NInt.mk 102868775886 102868823273, IV.NInt.mk 105819882848 105819930845, IV.NInt.mk 108855651304 108855700413, IV.NInt.mk 111978509887 111978560269, IV.NInt.mk 115190956897 115191009650, IV.NInt.mk 118495563322 118495616748, IV.NInt.mk 121894972468 121895027151, IV.NInt.mk 125391903766 125391959985, IV.NInt.mk 128989155083 128989213854, IV.NInt.mk 132689605081 132689665355, IV.NInt.mk 136496213482 136496275819, IV.NInt.mk 140412026669 140412089969, IV.NInt.mk 144440175955 144440242054, IV.NInt.mk 148583886136 148583953258, IV.NInt.mk 152846471181 152846539903, IV.NInt.mk 157231341614 157231411525, IV.NInt.mk 161742005062 161742077331, IV.NInt.mk 166382071066 166382145202, IV.NInt.mk 171155250933 171155327562, IV.NInt.mk 176065365157 176065443160, IV.NInt.mk 181116341123 181116421024, IV.NInt.mk 186312219172 186312301146, IV.NInt.mk 191657156983 191657241749, IV.NInt.mk 197155430889 197155517336, IV.NInt.mk 202811438354 202811529259, IV.NInt.mk 208629707210 208629799711, IV.NInt.mk 214614891023 214614985809, IV.NInt.mk 220771778063 220771875419, IV.NInt.mk 227105293910 227105394528, IV.NInt.mk 233620506685 233620609113, IV.NInt.mk 240322627971 240322733790, IV.NInt.mk 247217020339 247217128413, IV.NInt.mk 254309199447 254309310233, IV.NInt.mk 261604839172 261604952933, IV.NInt.mk 269109777451 269109894085, IV.NInt.mk 276830017172 276830137126, IV.NInt.mk 284771736099 284771859979, IV.NInt.mk 292941287194 292941414493, IV.NInt.mk 301345207301 301345337810, IV.NInt.mk 309990219914 309990353487, IV.NInt.mk 318883239604 318883379497, IV.NInt.mk 328031384359 328031527135, IV.NInt.mk 337441971876 337442118289, IV.NInt.mk 347122530226 347122680845, IV.NInt.mk 357080806267 357080959710, IV.NInt.mk 367324765094 367324922789, IV.NInt.mk 377862603806 377862765584, IV.NInt.mk 388702751924 388702918954, IV.NInt.mk 399853881773 399854055394, IV.NInt.mk 411324918301 411325095619, IV.NInt.mk 423125036644 423125218566, IV.NInt.mk 435263677409 435263863586, IV.NInt.mk 447750552215 447750743269, IV.NInt.mk 460595651744 460595847094, IV.NInt.mk 473809251957 473809453645, IV.NInt.mk 487401924265 487402131308, IV.NInt.mk 501384543785 501384758732, IV.NInt.mk 515768298194 515768519351, IV.NInt.mk 530564695476 530564921267, IV.NInt.mk 545785572170 545785804800, IV.NInt.mk 561443107763 561443345315, IV.NInt.mk 577549826485 577550069688, IV.NInt.mk 594118615950 594118867029, IV.NInt.mk 611162731496 611162989520, IV.NInt.mk 628695811067 628696076192, IV.NInt.mk 646731880353 646732151754, IV.NInt.mk 665285369145 665285647941, IV.NInt.mk 684371122442 684371408541, IV.NInt.mk 704004409514 704004703501, IV.NInt.mk 724200936269 724201239015, IV.NInt.mk 744976862404 744977173564, IV.NInt.mk 766348810164 766349130299, IV.NInt.mk 788333876764 788334207410, IV.NInt.mk 810949654476 810949993406, IV.NInt.mk 834214234709 834214583131, IV.NInt.mk 858146230157 858146587893, IV.NInt.mk 882764789961 882765156073, IV.NInt.mk 908089607321 908089982948, IV.NInt.mk 934140945465 934141331692, IV.NInt.mk 960939644583 960940042643], [IV.NInt.mk 89593520119 89593525342, IV.NInt.mk 89294977981 89294983825, IV.NInt.mk 88987871725 88987877499, IV.NInt.mk 88671955093 88671960972, IV.NInt.mk 88346975355 88346981350, IV.NInt.mk 88012672452 88012678746, IV.NInt.mk 87668779334 87668785565, IV.NInt.mk 87315020430 87315026979, IV.NInt.mk 86951112971 86951119447, IV.NInt.mk 86576765175 86576772583, IV.NInt.mk 86191678668 86191686002, IV.NInt.mk 85795544787 85795552046, IV.NInt.mk 85388046398 85388053805, IV.NInt.mk 84968857621 84968865377, IV.NInt.mk 84537643183 84537651094, IV.NInt.mk 84094057957 84094066245, IV.NInt.mk 83637747319 83637755555, IV.NInt.mk 83168345573 83168354628, IV.NInt.mk 82685478080 82685487086, IV.NInt.mk 82188757875 82188767294, IV.NInt.mk 81677787817 81677797201, IV.NInt.mk 81152158951 81152168520, IV.NInt.mk 80611450841 80611460598, IV.NInt.mk 80055230790 80055240985, IV.NInt.mk 79483053975 79483064149, IV.NInt.mk 78894462155 78894472799, IV.NInt.mk 78288985051 78288995908, IV.NInt.mk 77666137914 77666149230, IV.NInt.mk 77025422726 77025434023, IV.NInt.mk 76366326575 76366338103, IV.NInt.mk 75688322170 75688333939, IV.NInt.mk 74990866988 74990879276, IV.NInt.mk 74273403435 74273415677, IV.NInt.mk 73535356881 73535369945, IV.NInt.mk 72776137388 72776150735, IV.NInt.mk 71995137369 71995151279, IV.NInt.mk 71191732078 71191745988, IV.NInt.mk 70365278232 70365292718, IV.NInt.mk 69515115565 69515130057, IV.NInt.mk 68640563014 68640578112, IV.NInt.mk 67740921544 67740936685, IV.NInt.mk 66815469942 66815486974, IV.NInt.mk 65863470113 65863487191, IV.NInt.mk 64884159051 64884176806, IV.NInt.mk 63876753556 63876771373, IV.NInt.mk 62840447417 62840465942, IV.NInt.mk 61774411772 61774430363, IV.NInt.mk 60677793423 60677812416, IV.NInt.mk 59549715287 59549734684, IV.NInt.mk 58389274567 58389294711, IV.NInt.mk 57195543525 57195563750, IV.NInt.mk 55967566292 55967587315, IV.NInt.mk 54704360933 54704382091, IV.NInt.mk 53404916237 53404938232, IV.NInt.mk 52068193441 52068215918, IV.NInt.mk 50693122381 50693145733, IV.NInt.mk 49278603460 49278626980, IV.NInt.mk 47823504015 47823529643, IV.NInt.mk 46326661362 46326687155, IV.NInt.mk 44786876735 44786903494, IV.NInt.mk 43202919167 43202946121, IV.NInt.mk 41573520542 41573548086, IV.NInt.mk 39897377823 39897406018, IV.NInt.mk 38173149524 38173178755, IV.NInt.mk 36399456867 36399486404, IV.NInt.mk 34574880127 34574910771, IV.NInt.mk 32697960127 32697991007, IV.NInt.mk 30767194338 30767226363, IV.NInt.mk 28781039000 28781071357, IV.NInt.mk 26737904377 26737937925, IV.NInt.mk 24636156518 24636190856, IV.NInt.mk 22474113256 22474148366, IV.NInt.mk 20250045345 20250081395, IV.NInt.mk 17962172801 17962210669, IV.NInt.mk 15608666167 15608704940, IV.NInt.mk 13187641396 13187681578, IV.NInt.mk 10738640377 10738678742, IV.NInt.mk 8444254741 8444289620, IV.NInt.mk 6378574696 6378605459, IV.NInt.mk 4598924297 4598950301, IV.NInt.mk 3144495105 3144515966, IV.NInt.mk 2026144492 2026160253, IV.NInt.mk 1222833226 1222844364, IV.NInt.mk 687180366 687187686, IV.NInt.mk 357486532 357490987, IV.NInt.mk 171165884 171168392, IV.NInt.mk 74983980 74985287, IV.NInt.mk 29867824 29868463, IV.NInt.mk 10744447 10744752, IV.NInt.mk 3464394 3464548, IV.NInt.mk 992560 992647, IV.NInt.mk 250087 250148, IV.NInt.mk 54715 54763, IV.NInt.mk 10221 10262, IV.NInt.mk 1588 1621, IV.NInt.mk 191 217, IV.NInt.mk 13 29, IV.NInt.mk 0 8, IV.NInt.mk 0 5, IV.NInt.mk 0 3, IV.NInt.mk 0 1, IV.NInt.mk 0 0, IV.NInt.mk 0 0, IV.NInt.mk 0 0, IV.NInt.mk 0 0, IV.NInt.mk 0 0, IV.NInt.mk 0 0, IV.NInt.mk 0 0, IV.NInt.mk 0 0, IV.NInt.mk 0 0, IV.NInt.mk 0 0, IV.NInt.mk 0 0, IV.NInt.mk 0 0, IV.NInt.mk 0 0, IV.NInt.mk 0 0, IV.NInt.mk 0 0, IV.NInt.mk 0 0, IV.NInt.mk 0 0, IV.NInt.mk 0 0, IV.NInt.mk 0 0, IV.NInt.mk 0 0, IV.NInt.mk 0 0, IV.NInt.mk 0 0, IV.NInt.mk 0 0, IV.NInt.mk 0 0, IV.NInt.mk 0 0, IV.NInt.mk 0 0, IV.NInt.mk 0 0, IV.NInt.mk 0 0, IV.NInt.mk 0 0, IV.NInt.mk 0 0, IV.NInt.mk 0 0, IV.NInt.mk 0 0, IV.NInt.mk 0 0, IV.NInt.mk 0 0, IV.NInt.mk 0 0, IV.NInt.mk 0 0, IV.NInt.mk 0 0, IV.NInt.mk 0 0, IV.NInt.mk 0 0, IV.NInt.mk 0 0, IV.NInt.mk 0 0, IV.NInt.mk 0 0, IV.NInt.mk 0 0, IV.NInt.mk 0 0, IV.NInt.mk 0 0, IV.NInt.mk 0 0, IV.NInt.mk 0 0, IV.NInt.mk 0 0, IV.NInt.mk 0 0, IV.NInt.mk 0 0, IV.NInt.mk 0 0, IV.NInt.mk 0 0, IV.NInt.mk 0 0, IV.NInt.mk 0 0, IV.NInt.mk 0 0, IV.NInt.mk 0 0, IV.NInt.mk 0 0, IV.NInt.mk 0 0, IV.NInt.mk 0 0, IV.NInt.mk 0 0]) = ([IV.NInt.mk 12331214283 12331220633, IV.NInt.mk 12684972838 12684979924, IV.NInt.mk 13048880313 13048887321, IV.NInt.mk 13423227489 13423234625, IV.NInt.mk 13808314032 13808321311, IV.NInt.mk 14204447898 14204455537, IV.NInt.mk 14611946178 14611953746, IV.NInt.mk 15031134527 15031142478, IV.NInt.mk 15462348929 15462356800, IV.NInt.mk 15905933482 15905942459, IV.NInt.mk 16362244125 16362253021, IV.NInt.mk 16831645422 16831654234, IV.NInt.mk 17314512895 17314521890, IV.NInt.mk 17811232726 17811242139, IV.NInt.mk 18322202665 18322212271, IV.NInt.mk 18847831181 18847841241, IV.NInt.mk 19388539259 19388549259, IV.NInt.mk 19944758691 19944769670, IV.NInt.mk 20516935468 20516946395, IV.NInt.mk 21105526553 21105537975, IV.NInt.mk 21711003615 21711015005, IV.NInt.mk 22333850461 22333862075, IV.NInt.mk 22974565543 22974577386, IV.NInt.mk 23633661294 23633673665, IV.NInt.mk 24311665649 24311678007, IV.NInt.mk 25009120487 25009133408, IV.NInt.mk 25726583944 25726597125, IV.NInt.mk 26464629832 26464643570, IV.NInt.mk 27223849144 27223862866, IV.NInt.mk 28004848790 28004862795, IV.NInt.mk 28808253873 28808268173, IV.NInt.mk 29634706941 29634721866, IV.NInt.mk 30484869717 30484884599, IV.NInt.mk 31359421414 31359437280, IV.NInt.mk 32259062752 32259078962, IV.NInt.mk 33184512721 33184529609, IV.NInt.mk 34136512620 34136529519, IV.NInt.mk 35115823358 35115840949, IV.NInt.mk 36123228679 36123246290, IV.NInt.mk 37159534230 37159552572, IV.NInt.mk 38225569709 38225588115, IV.NInt.mk 39322186872 39322207531, IV.NInt.mk 40450264699 40450285429, IV.NInt.mk 41610704389 41610725932, IV.NInt.mk 42804435472 42804457104, IV.NInt.mk 44032411783 44032434267, IV.NInt.mk 45295617006 45295639585, IV.NInt.mk 46595060991 46595084063, IV.NInt.mk 47931783435 47931807001, IV.NInt.mk 49306853711 49306878179, IV.NInt.mk 50721372342 50721396923, IV.NInt.mk 52176470352 52176495894, IV.NInt.mk 53673312927 53673338646, IV.NInt.mk 55213096687 55213123416, IV.NInt.mk 56797053777 56797081095, IV.NInt.mk 58426451404 58426479778, IV.NInt.mk 60102593847 60102622439, IV.NInt.mk 61826820125 61826851238, IV.NInt.mk 63600512568 63600543897, IV.NInt.mk 65425088416 65425120909, IV.NInt.mk 67302008163 67302040912, IV.NInt.mk 69232773094 69232806566, IV.NInt.mk 71218927646 71218961913, IV.NInt.mk 73262061039 73262096556, IV.NInt.mk 75363808380 75363844288, IV.NInt.mk 77525850174 77525887416, IV.NInt.mk 79749917455 79749955005, IV.NInt.mk 82037788552 82037827484, IV.NInt.mk 84391294785 84391334140, IV.NInt.mk 86812317947 86812358741, IV.NInt.mk 89302795689 89302837447, IV.NInt.mk 91864720847 91864763553, IV.NInt.mk 94500142285 94500186135, IV.NInt.mk 97211168365 97211214402, IV.NInt.mk 99999969034 100000016173, IV.NInt.mk 102868775124 102868823967, IV.NInt.mk 105819882100 105819931495, IV.NInt.mk 108855650316 108855701456, IV.NInt.mk 111978508866 111978561284, IV.NInt.mk 115190955599 115191009866, IV.NInt.mk 118495562151 118495617193, IV.NInt.mk 121894970281 121895027887, IV.NInt.mk 125391902099 125391960469, IV.NInt.mk 128989154059 128989213791, IV.NInt.mk 132689603985 132689665271, IV.NInt.mk 136496212252 136496276392, IV.NInt.mk 140412025371 140412090352, IV.NInt.mk 144440175538 144440242057, IV.NInt.mk 148583885161 148583953550, IV.NInt.mk 152846469592 152846541056, IV.NInt.mk 157231339917 157231413210, IV.NInt.mk 161742003273 161742079064, IV.NInt.mk 166382069493 166382146483, IV.NInt.mk 171155249045 171155329405, IV.NInt.mk 176065363169 176065444799, IV.NInt.mk 181116338771 181116422359, IV.NInt.mk 186312217174 186312302234, IV.NInt.mk 191657154765 191657242680, IV.NInt.mk 197155428686 197155518879, IV.NInt.mk 202811436676 202811529888, IV.NInt.mk 208629705845 208629800755, IV.NInt.mk 214614889978 214614987210, IV.NInt.mk 220771776701 220771876461, IV.NInt.mk 227105292678 227105395824, IV.NInt.mk 233620505176 233620610390, IV.NInt.mk 240322624997 240322735573, IV.NInt.mk 247217017424 247217129974, IV.NInt.mk 254309196726 254309312067, IV.NInt.mk 261604836790 261604955260, IV.NInt.mk 269109774215 269109896642, IV.NInt.mk 276830014499 276830139159, IV.NInt.mk 284771733140 284771861916, IV.NInt.mk 292941284548 292941416091, IV.NInt.mk 301345204537 301345339389, IV.NInt.mk 309990216394 309990354875, IV.NInt.mk 318883237824 318883379816, IV.NInt.mk 328031381986 328031528020, IV.NInt.mk 337441969253 337442120049, IV.NInt.mk 347122527609 347122682572, IV.NInt.mk 357080802927 357080961810, IV.NInt.mk 367324762248 367324924884, IV.NInt.mk 377862599033 377862769283, IV.NInt.mk 388702747793 388702921589, IV.NInt.mk 399853879669 399854057905, IV.NInt.mk 411324915093 411325098451, IV.NInt.mk 423125033754 423125220597, IV.NInt.mk 435263673942 435263865966, IV.NInt.mk 447750548853 447750745864, IV.NInt.mk 460595647100 460595850486, IV.NInt.mk 473809245007 473809456360, IV.NInt.mk 487401918241 487402134133, IV.NInt.mk 501384538937 501384760452, IV.NInt.mk 515768293799 515768520527, IV.NInt.mk 530564690667 530564923349, IV.NInt.mk 545785568064 545785806016, IV.NInt.mk 561443102544 561443348191, IV.NInt.mk 577549820766 577550072949, IV.NInt.mk 594118609266 594118871011, IV.NInt.mk 611162724950 611162994254, IV.NInt.mk 628695804267 628696079271, IV.NInt.mk 646731872998 646732156320, IV.NInt.mk 665285363303 665285652674, IV.NInt.mk 684371115837 684371412132, IV.NInt.mk 704004401858 704004707718, IV.NInt.mk 724200928354 724201242687, IV.NInt.mk 744976855696 744977178683, IV.NInt.mk 766348803702 766349134380, IV.NInt.mk 788333871042 788334210743, IV.NInt.mk 810949648386 810949997007], [IV.NInt.mk 87668779367 87668785717, IV.NInt.mk 87315020076 87315027162, IV.NInt.mk 86951112679 86951119687, IV.NInt.mk 86576765375 86576772511, IV.NInt.mk 86191678689 86191685968, IV.NInt.mk 85795544463 85795552102, IV.NInt.mk 85388046254 85388053822, IV.NInt.mk 84968857522 84968865473, IV.NInt.mk 84537643200 84537651071, IV.NInt.mk 84094057541 84094066518, IV.NInt.mk 83637746979 83637755875, IV.NInt.mk 83168345766 83168354578, IV.NInt.mk 82685478110 82685487105, IV.NInt.mk 82188757861 82188767274, IV.NInt.mk 81677787729 81677797335, IV.NInt.mk 81152158759 81152168819, IV.NInt.mk 80611450741 80611460741, IV.NInt.mk 80055230330 80055241309, IV.NInt.mk 79483053605 79483064532, IV.NInt.mk 78894462025 78894473447, IV.NInt.mk 78288984995 78288996385, IV.NInt.mk 77666137925 77666149539, IV.NInt.mk 77025422614 77025434457, IV.NInt.mk 76366326335 76366338706, IV.NInt.mk 75688321993 75688334351, IV.NInt.mk 74990866592 74990879513, IV.NInt.mk 74273402875 74273416056, IV.NInt.mk 73535356430 73535370168, IV.NInt.mk 72776137134 72776150856, IV.NInt.mk 71995137205 71995151210, IV.NInt.mk 71191731827 71191746127, IV.NInt.mk 70365278134 70365293059, IV.NInt.mk 69515115401 69515130283, IV.NInt.mk 68640562720 68640578586, IV.NInt.mk 67740921038 67740937248, IV.NInt.mk 66815470391 66815487279, IV.NInt.mk 65863470481 65863487380, IV.NInt.mk 64884159051 64884176642, IV.NInt.mk 63876753710 63876771321, IV.NInt.mk 62840447428 62840465770, IV.NInt.mk 61774411885 61774430291, IV.NInt.mk 60677792469 60677813128, IV.NInt.mk 59549714571 59549735301, IV.NInt.mk 58389274068 58389295611, IV.NInt.mk 57195542896 57195564528, IV.NInt.mk 55967565733 55967588217, IV.NInt.mk 54704360415 54704382994, IV.NInt.mk 53404915937 53404939009, IV.NInt.mk 52068192999 52068216565, IV.NInt.mk 50693121821 50693146289, IV.NInt.mk 49278603077 49278627658, IV.NInt.mk 47823504106 47823529648, IV.NInt.mk 46326661354 46326687073, IV.NInt.mk 44786876584 44786903313, IV.NInt.mk 43202918905 43202946223, IV.NInt.mk 41573520222 41573548596, IV.NInt.mk 39897377561 39897406153, IV.NInt.mk 38173148762 38173179875, IV.NInt.mk 36399456103 36399487432, IV.NInt.mk 34574879091 34574911584, IV.NInt.mk 32697959088 32697991837, IV.NInt.mk 30767193434 30767226906, IV.NInt.mk 28781038087 28781072354, IV.NInt.mk 26737903444 26737938961, IV.NInt.mk 24636155712 24636191620, IV.NInt.mk 22474112584 22474149826, IV.NInt.mk 20250044995 20250082545, IV.NInt.mk 17962172516 17962211448, IV.NInt.mk 15608665860 15608705215, IV.NInt.mk 13187641259 13187682053, IV.NInt.mk 10815624855 10815662165, IV.NInt.mk 8622143442 8622177317, IV.NInt.mk 6652789264 6652819153, IV.NInt.mk 4946598332 4946623751, IV.NInt.mk 3528990673 3529011422, IV.NInt.mk 2405627472 2405643656, IV.NInt.mk 1560643147 1560655149, IV.NInt.mk 959865319 959873751, IV.NInt.mk 557632258 557637855, IV.NInt.mk 304906306 304909813, IV.NInt.mk 156366777 156368853, IV.NInt.mk 74948508 74949677, IV.NInt.mk 33456106 33456743, IV.NInt.mk 13857175 13857523, IV.NInt.mk 5304643 5304844, IV.NInt.mk 1868849 1868979, IV.NInt.mk 603100 603196, IV.NInt.mk 177332 177412, IV.NInt.mk 47214 47281, IV.NInt.mk 11290 11351, IV.NInt.mk 2393 2444, IV.NInt.mk 435 477, IV.NInt.mk 59 93, IV.NInt.mk 3 25, IV.NInt.mk 0 13, IV.NInt.mk 0 11, IV.NInt.mk 0 9, IV.NInt.mk 0 7, IV.NInt.mk 0 5, IV.NInt.mk 0 3, IV.NInt.mk 0 1, IV.NInt.mk 0 0, IV.NInt.mk 0 0, IV.NInt.mk 0 0, IV.NInt.mk 0 0, IV.NInt.mk 0 0, IV.NInt.mk 0 0, IV.NInt.mk 0 0, IV.NInt.mk 0 0, IV.NInt.mk 0 0, IV.NInt.mk 0 0, IV.NInt.mk 0 0, IV.NInt.mk 0 0, IV.NInt.mk 0 0, IV.NInt.mk 0 0, IV.NInt.mk 0 0, IV.NInt.mk 0 0, IV.NInt.mk 0 0, IV.NInt.mk 0 0, IV.NInt.mk 0 0, IV.NInt.mk 0 0, IV.NInt.mk 0 0, IV.NInt.mk 0 0, IV.NInt.mk 0 0, IV.NInt.mk 0 0, IV.NInt.mk 0 0, IV.NInt.mk 0 0, IV.NInt.mk 0 0, IV.NInt.mk 0 0, IV.NInt.mk 0 0, IV.NInt.mk 0 0, IV.NInt.mk 0 0, IV.NInt.mk 0 0, IV.NInt.mk 0 0, IV.NInt.mk 0 0, IV.NInt.mk 0 0, IV.NInt.mk 0 0, IV.NInt.mk 0 0, IV.NInt.mk 0 0, IV.NInt.mk 0 0, IV.NInt.mk 0 0, IV.NInt.mk 0 0, IV.NInt.mk 0 0, IV.NInt.mk 0 0, IV.NInt.mk 0 0, IV.NInt.mk 0 0, IV.NInt.mk 0 0, IV.NInt.mk 0 0, IV.NInt.mk 0 0]) := by decide

set_option maxRecDepth 100000 in
set_option maxHeartbeats 1000000 in
/-- Chunk 6 of the kernel evaluation of the C9 put lattice (13 steps). -/
theorem IV.putChunk6 : IV.loopG IV.uI9 IV.pI9 IV.qI9 IV.discI9 false IV.KSc9 13 ([IV.NInt.mk 12331214283 12331220633, IV.NInt.mk 12684972838 12684979924, IV.NInt.mk 13048880313 13048887321, IV.NInt.mk 13423227489 13423234625, IV.NInt.mk 13808314032 13808321311, IV.NInt.mk 14204447898 14204455537, IV.NInt.mk 14611946178 14611953746, IV.NInt.mk 15031134527 15031142478, IV.NInt.mk 15462348929 15462356800, IV.NInt.mk 15905933482 15905942459, IV.NInt.mk 16362244125 16362253021, IV.NInt.mk 16831645422 16831654234, IV.NInt.mk 17314512895 17314521890, IV.NInt.mk 17811232726 17811242139, IV.NInt.mk 18322202665 18322212271, IV.NInt.mk 18847831181 18847841241, IV.NInt.mk 19388539259 19388549259, IV.NInt.mk 19944758691 19944769670, IV.NInt.mk 20516935468 20516946395, IV.NInt.mk 21105526553 21105537975, IV.NInt.mk 21711003615 21711015005, IV.NInt.mk 22333850461 22333862075, IV.NInt.mk 22974565543 22974577386, IV.NInt.mk 23633661294 23633673665, IV.NInt.mk 24311665649 24311678007, IV.NInt.mk 25009120487 25009133408, IV.NInt.mk 25726583944 25726597125, IV.NInt.mk 26464629832 26464643570, IV.NInt.mk 27223849144 27223862866, IV.NInt.mk 28004848790 28004862795, IV.NInt.mk 28808253873 28808268173, IV.NInt.mk 29634706941 29634721866, IV.NInt.mk 30484869717 30484884599, IV.NInt.mk 31359421414 31359437280, IV.NInt.mk 32259062752 32259078962, IV.NInt.mk 33184512721 33184529609, IV.NInt.mk 34136512620 34136529519, IV.NInt.mk 35115823358 35115840949, IV.NInt.mk 36123228679 36123246290, IV.NInt.mk 37159534230 37159552572, IV.NInt.mk 38225569709 38225588115, IV.NInt.mk 39322186872 39322207531, IV.NInt.mk 40450264699 40450285429, IV.NInt.mk 41610704389 41610725932, IV.NInt.mk 42804435472 42804457104, IV.NInt.mk 44032411783 44032434267, IV.NInt.mk 45295617006 45295639585, IV.NInt.mk 46595060991 46595084063, IV.NInt.mk 47931783435 47931807001, IV.NInt.mk 49306853711 49306878179, IV.NInt.mk 50721372342 50721396923, IV.NInt.mk 52176470352 52176495894, IV.NInt.mk 53673312927 53673338646, IV.NInt.mk 55213096687 55213123416, IV.NInt.mk 56797053777 56797081095, IV.NInt.mk 58426451404 58426479778, IV.NInt.mk 60102593847 60102622439, IV.NInt.mk 61826820125 61826851238, IV.NInt.mk 63600512568 63600543897, IV.NInt.mk 65425088416 65425120909, IV.NInt.mk 67302008163 67302040912, IV.NInt.mk 69232773094 69232806566, IV.NInt.mk 71218927646 71218961913, IV.NInt.mk 73262061039 73262096556, IV.NInt.mk 75363808380 75363844288, IV.NInt.mk 77525850174 77525887416, IV.NInt.mk 79749917455 79749955005, IV.NInt.mk 82037788552 82037827484, IV.NInt.mk 84391294785 84391334140, IV.NInt.mk 86812317947 86812358741, IV.NInt.mk 89302795689 89302837447, IV.NInt.mk 91864720847 91864763553, IV.NInt.mk 94500142285 94500186135, IV.NInt.mk 97211168365 97211214402, IV.NInt.mk 99999969034 100000016173, IV.NInt.mk 102868775124 102868823967, IV.NInt.mk 105819882100 105819931495, IV.NInt.mk 108855650316 108855701456, IV.NInt.mk 111978508866 111978561284, IV.NInt.mk 115190955599 115191009866, IV.NInt.mk 118495562151 118495617193, IV.NInt.mk 121894970281 121895027887, IV.NInt.mk 125391902099 125391960469, IV.NInt.mk 128989154059 128989213791, IV.NInt.mk 132689603985 132689665271, IV.NInt.mk 136496212252 136496276392, IV.NInt.mk 140412025371 140412090352, IV.NInt.mk 144440175538 144440242057, IV.NInt.mk 148583885161 148583953550, IV.NInt.mk 152846469592 152846541056, IV.NInt.mk 157231339917 157231413210, IV.NInt.mk 161742003273 161742079064, IV.NInt.mk 166382069493 166382146483, IV.NInt.mk 171155249045 171155329405, IV.NInt.mk 176065363169 176065444799, IV.NInt.mk 181116338771 181116422359, IV.NInt.mk 186312217174 186312302234, IV.NInt.mk 191657154765 191657242680, IV.NInt.mk 197155428686 197155518879, IV.NInt.mk 202811436676 202811529888, IV.NInt.mk 208629705845 208629800755, IV.NInt.mk 214614889978 214614987210, IV.NInt.mk 220771776701 220771876461, IV.NInt.mk 227105292678 227105395824, IV.NInt.mk 233620505176 233620610390, IV.NInt.mk 240322624997 240322735573, IV.NInt.mk 247217017424 247217129974, IV.NInt.mk 254309196726 254309312067, IV.NInt.mk 261604836790 261604955260, IV.NInt.mk 269109774215 269109896642, IV.NInt.mk 276830014499 276830139159, IV.NInt.mk 284771733140 284771861916, IV.NInt.mk 292941284548 292941416091, IV.NInt.mk 301345204537 301345339389, IV.NInt.mk 309990216394 309990354875, IV.NInt.mk 318883237824 318883379816, IV.NInt.mk 328031381986 328031528020, IV.NInt.mk 337441969253 337442120049, IV.NInt.mk 347122527609 347122682572, IV.NInt.mk 357080802927 357080961810, IV.NInt.mk 367324762248 367324924884, IV.NInt.mk 377862599033 377862769283, IV.NInt.mk 388702747793 388702921589, IV.NInt.mk 399853879669 399854057905, IV.NInt.mk 411324915093 411325098451, IV.NInt.mk 423125033754 423125220597, IV.NInt.mk 435263673942 435263865966, IV.NInt.mk 447750548853 447750745864, IV.NInt.mk 460595647100 460595850486, IV.NInt.mk 473809245007 473809456360, IV.NInt.mk 487401918241 487402134133, IV.NInt.mk 501384538937 501384760452, IV.NInt.mk 515768293799 515768520527, IV.NInt.mk 530564690667 530564923349, IV.NInt.mk 545785568064 545785806016, IV.NInt.mk 561443102544 561443348191, IV.NInt.mk 577549820766 577550072949, IV.NInt.mk 594118609266 594118871011, IV.NInt.mk 611162724950 611162994254, IV.NInt.mk 628695804267 628696079271, IV.NInt.mk 646731872998 646732156320, IV.NInt.mk 665285363303 665285652674, IV.NInt.mk 684371115837 684371412132, IV.NInt.mk 704004401858 704004707718, IV.NInt.mk 724200928354 724201242687, IV.NInt.mk 744976855696 744977178683, IV.NInt.mk 766348803702 766349134380, IV.NInt.mk 788333871042 788334210743, IV.NInt.mk 810949648386 810949997007], [IV.NInt.mk 87668779367 87668785717, IV.NInt.mk 87315020076 87315027162, IV.NInt.mk 86951112679 86951119687, IV.NInt.mk 86576765375 86576772511, IV.NInt.mk 86191678689 86191685968, IV.NInt.mk 85795544463 85795552102, IV.NInt.mk 85388046254 85388053822, IV.NInt.mk 84968857522 84968865473, IV.NInt.mk 84537643200 84537651071, IV.NInt.mk 84094057541 84094066518, IV.NInt.mk 83637746979 83637755875, IV.NInt.mk 83168345766 83168354578, IV.NInt.mk 82685478110 82685487105, IV.NInt.mk 82188757861 82188767274, IV.NInt.mk 81677787729 81677797335, IV.NInt.mk 81152158759 81152168819, IV.NInt.mk 80611450741 80611460741, IV.NInt.mk 80055230330 80055241309, IV.NInt.mk 79483053605 79483064532, IV.NInt.mk 78894462025 78894473447, IV.NInt.mk 78288984995 78288996385, IV.NInt.mk 77666137925 77666149539, IV.NInt.mk 77025422614 77025434457, IV.NInt.mk 76366326335 76366338706, IV.NInt.mk 75688321993 75688334351, IV.NInt.mk 74990866592 74990879513, IV.NInt.mk 74273402875 74273416056, IV.NInt.mk 73535356430 73535370168, IV.NInt.mk 72776137134 72776150856, IV.NInt.mk 71995137205 71995151210, IV.NInt.mk 71191731827 71191746127, IV.NInt.mk 70365278134 70365293059, IV.NInt.mk 69515115401 69515130283, IV.NInt.mk 68640562720 68640578586, IV.NInt.mk 67740921038 67740937248, IV.NInt.mk 66815470391 66815487279, IV.NInt.mk 65863470481 65863487380, IV.NInt.mk 64884159051 64884176642, IV.NInt.mk 63876753710 63876771321, IV.NInt.mk 62840447428 62840465770, IV.NInt.mk 61774411885 61774430291, IV.NInt.mk 60677792469 60677813128, IV.NInt.mk 59549714571 59549735301, IV.NInt.mk 58389274068 58389295611, IV.NInt.mk 57195542896 57195564528, IV.NInt.mk 55967565733 55967588217, IV.NInt.mk 54704360415 54704382994, IV.NInt.mk 53404915937 53404939009, IV.NInt.mk 52068192999 52068216565, IV.NInt.mk 50693121821 50693146289, IV.NInt.mk 49278603077 49278627658, IV.NInt.mk 47823504106 47823529648, IV.NInt.mk 46326661354 46326687073, IV.NInt.mk 44786876584 44786903313, IV.NInt.mk 43202918905 43202946223, IV.NInt.mk 41573520222 41573548596, IV.NInt.mk 39897377561 39897406153, IV.NInt.mk 38173148762 38173179875, IV.NInt.mk 36399456103 36399487432, IV.NInt.mk 34574879091 34574911584, IV.NInt.mk 32697959088 32697991837, IV.NInt.mk 30767193434 30767226906, IV.NInt.mk 28781038087 28781072354, IV.NInt.mk 26737903444 26737938961, IV.NInt.mk 24636155712 24636191620, IV.NInt.mk 22474112584 22474149826, IV.NInt.mk 20250044995 20250082545, IV.NInt.mk 17962172516 17962211448, IV.NInt.mk 15608665860 15608705215, IV.NInt.mk 13187641259 13187682053, IV.NInt.mk 10815624855 10815662165, IV.NInt.mk 8622143442 8622177317, IV.NInt.mk 6652789264 6652819153, IV.NInt.mk 4946598332 4946623751, IV.NInt.mk 3528990673 3529011422, IV.NInt.mk 2405627472 2405643656, IV.NInt.mk 1560643147 1560655149, IV.NInt.mk 959865319 959873751, IV.NInt.mk 557632258 557637855, IV.NInt.mk 304906306 304909813, IV.NInt.mk 156366777 156368853, IV.NInt.mk 74948508 74949677, IV.NInt.mk 33456106 33456743, IV.NInt.mk 13857175 13857523, IV.NInt.mk 5304643 5304844, IV.NInt.mk 1868849 1868979, IV.NInt.mk 603100 603196, IV.NInt.mk 177332 177412, IV.NInt.mk 47214 47281, IV.NInt.mk 11290 11351, IV.NInt.mk 2393 2444, IV.NInt.mk 435 477, IV.NInt.mk 59 93, IV.NInt.mk 3 25, IV.NInt.mk 0 13, IV.NInt.mk 0 11, IV.NInt.mk 0 9, IV.NInt.mk 0 7, IV.NInt.mk 0 5, IV.NInt.mk 0 3, IV.NInt.mk 0 1, IV.NInt.mk 0 0, IV.NInt.mk 0 0, IV.NInt.mk 0 0, IV.NInt.mk 0 0, IV.NInt.mk 0 0, IV.NInt.mk 0 0, IV.NInt.mk 0 0, IV.NInt.mk 0 0, IV.NInt.mk 0 0, IV.NInt.mk 0 0, IV.NInt.mk 0 0, IV.NInt.mk 0 0, IV.NInt.mk 0 0, IV.NInt.mk 0 0, IV.NInt.mk 0 0, IV.NInt.mk 0 0, IV.NInt.mk 0 0, IV.NInt.mk 0 0, IV.NInt.mk 0 0, IV.NInt.mk 0 0, IV.NInt.mk 0 0, IV.NInt.mk 0 0, IV.NInt.mk 0 0, IV.NInt.mk 0 0, IV.NInt.mk 0 0, IV.NInt.mk 0 0, IV.NInt.mk 0 0, IV.NInt.mk 0 0, IV.NInt.mk 0 0, IV.NInt.mk 0 0, IV.NInt.mk 0 0, IV.NInt.mk 0 0, IV.NInt.mk 0 0, IV.NInt.mk 0 0, IV.NInt.mk 0 0, IV.NInt.mk 0 0, IV.NInt.mk 0 0, IV.NInt.mk 0 0, IV.NInt.mk 0 0, IV.NInt.mk 0 0, IV.NInt.mk 0 0, IV.NInt.mk 0 0, IV.NInt.mk 0 0, IV.NInt.mk 0 0, IV.NInt.mk 0 0, IV.NInt.mk 0 0, IV.NInt.mk 0 0, IV.NInt.mk 0 0]) = ([IV.NInt.mk 14820058214 14820066049, IV.NInt.mk 15245216862 15245225588, IV.NInt.mk 15682572816 15682581451, IV.NInt.mk 16132475542 16132484339, IV.NInt.mk 16595285196 16595294169, IV.NInt.mk 17071371880 17071381295, IV.NInt.mk 17561116695 17561126029, IV.NInt.mk 18064911017 18064920819, IV.NInt.mk 18583158645 18583168356, IV.NInt.mk 19116273125 19116284173, IV.NInt.mk 19664682237 19664693197, IV.NInt.mk 20228824129 20228834994, IV.NInt.mk 20809150113 20809161206, IV.NInt.mk 21406124317 21406135918, IV.NInt.mk 22020224767 22020236608, IV.NInt.mk 22651942377 22651954771, IV.NInt.mk 23301783098 23301795431, IV.NInt.mk 23970265876 23970279393, IV.NInt.mk 24657926713 24657940178, IV.NInt.mk 25365314807 25365328875, IV.NInt.mk 26092997020 26093011058, IV.NInt.mk 26841554809 26841569126, IV.NInt.mk 27611587232 27611601837, IV.NInt.mk 28403710149 28403725397, IV.NInt.mk 29218558044 29218573285, IV.NInt.mk 30056782172 30056798101, IV.NInt.mk 30919053309 30919069565, IV.NInt.mk 31806061094 31806078025, IV.NInt.mk 32718515791 32718532718, IV.NInt.mk 33657146813 33657164087, IV.NInt.mk 34622705420 34622723064, IV.NInt.mk 35615963854 35615982263, IV.NInt.mk 36637717391 36637735763, IV.NInt.mk 37688782336 37688801904, IV.NInt.mk 38770000836 38770020832, IV.NInt.mk 39882236998 39882257821, IV.NInt.mk 41026381734 41026402585, IV.NInt.mk 42203349534 42203371232, IV.NInt.mk 43414082328 43414104064, IV.NInt.mk 44659548366 44659570999, IV.NInt.mk 45940744809 45940767534, IV.NInt.mk 47258695321 47258720771, IV.NInt.mk 48614456296 48614481850, IV.NInt.mk 50009110819 50009137365, IV.NInt.mk 51443776032 51443802700, IV.NInt.mk 52919598282 52919625997, IV.NInt.mk 54437759796 54437787645, IV.NInt.mk 55999474245 55999502705, IV.NInt.mk 57605991170 57606020245, IV.NInt.mk 59258595779 59258625959, IV.NInt.mk 60958610716 60958641053, IV.NInt.mk 62707395281 62707426798, IV.NInt.mk 64506349838 64506381589, IV.NInt.mk 66356912521 66356945508, IV.NInt.mk 68260564159 68260597882, IV.NInt.mk 70218827727 70218862743, IV.NInt.mk 72233270752 72233306055, IV.NInt.mk 74305502507 74305540867, IV.NInt.mk 76437184327 76437222971, IV.NInt.mk 78630019492 78630059563, IV.NInt.mk 80885763270 80885803682, IV.NInt.mk 83206219961 83206261272, IV.NInt.mk 85593245719 85593288012, IV.NInt.mk 88048750515 88048794343, IV.NInt.mk 90574699482 90574743811, IV.NInt.mk 93173112302 93173158268, IV.NInt.mk 95846069388 95846115758, IV.NInt.mk 98595707991 98595756062, IV.NInt.mk 101424229061 101424277676, IV.NInt.mk 104333894192 104333944570, IV.NInt.mk 107327032117 107327083694, IV.NInt.mk 110406037894 110406090650, IV.NInt.mk 113573373913 113573428081, IV.NInt.mk 116831574070 116831630913, IV.NInt.mk 120183246286 120183304495, IV.NInt.mk 123631071645 123631131944, IV.NInt.mk 127177808905 127177869917, IV.NInt.mk 130826294827 130826357981, IV.NInt.mk 134579448773 134579513509, IV.NInt.mk 138440272735 138440339747, IV.NInt.mk 142411857399 142411925390, IV.NInt.mk 146497377709 146497448833, IV.NInt.mk 150700105191 150700177286, IV.NInt.mk 155023400713 155023474502, IV.NInt.mk 159470722939 159470798650, IV.NInt.mk 164045629742 164045708946, IV.NInt.mk 168751782525 168751862799, IV.NInt.mk 173592945661 173593027844, IV.NInt.mk 178572991945 178573076441, IV.NInt.mk 183695905877 183695994135, IV.NInt.mk 188965787010 188965877532, IV.NInt.mk 194386850339 194386943933, IV.NInt.mk 199963434282 199963529388, IV.NInt.mk 205699998193 205700097424, IV.NInt.mk 211601134572 211601235405, IV.NInt.mk 217671562900 217671666162, IV.NInt.mk 223916140171 223916245285, IV.NInt.mk 230339861670 230339970295, IV.NInt.mk 236947867804 236947979254, IV.NInt.mk 243745443924 243745559086, IV.NInt.mk 250738030855 250738148146, IV.NInt.mk 257931221667 257931341845, IV.NInt.mk 265330770295 265330893604, IV.NInt.mk 272942597757 272942725234, IV.NInt.mk 280772794064 280772924128, IV.NInt.mk 288827621730 288827758341, IV.NInt.mk 297113528928 297113668017, IV.NInt.mk 305637142885 305637285436, IV.NInt.mk 314405282666 314405429090, IV.NInt.mk 323424962888 323425114185, IV.NInt.mk 332703401158 332703555257, IV.NInt.mk 342248019387 342248178555, IV.NInt.mk 352066454518 352066617135, IV.NInt.mk 362166561503 362166728228, IV.NInt.mk 372556420612 372556591833, IV.NInt.mk 383244345772 383244521348, IV.NInt.mk 394238885805 394239066382, IV.NInt.mk 405548838580 405549025023, IV.NInt.mk 417183251474 417183443075, IV.NInt.mk 429151433733 429151630197, IV.NInt.mk 441462960405 441463161540, IV.NInt.mk 454127678665 454127889111, IV.NInt.mk 467155725383 467155940256, IV.NInt.mk 480557521817 480557742201, IV.NInt.mk 494343788843 494344015560, IV.NInt.mk 508525558908 508525789996, IV.NInt.mk 523114175260 523114412760, IV.NInt.mk 538121311537 538121555222, IV.NInt.mk 553558972380 553559223925, IV.NInt.mk 569439508214 569439769537, IV.NInt.mk 585775629222 585775896213, IV.NInt.mk 602580401895 602580675857, IV.NInt.mk 619867270781 619867551230, IV.NInt.mk 637650066380 637650354212, IV.NInt.mk 655943016611 655943311013, IV.NInt.mk 674760755669 674761059557], [IV.NInt.mk 85179933951 85179941786, IV.NInt.mk 84754774412 84754783138, IV.NInt.mk 84317418549 84317427184, IV.NInt.mk 83867515661 83867524458, IV.NInt.mk 83404705831 83404714804, IV.NInt.mk 82928618705 82928628120, IV.NInt.mk 82438873971 82438883305, IV.NInt.mk 81935079181 81935088983, IV.NInt.mk 81416831644 81416841355, IV.NInt.mk 80883715827 80883726875, IV.NInt.mk 80335306803 80335317763, IV.NInt.mk 79771165006 79771175871, IV.NInt.mk 79190838794 79190849887, IV.NInt.mk 78593864082 78593875683, IV.NInt.mk 77979763392 77979775233, IV.NInt.mk 77348045229 77348057623, IV.NInt.mk 76698204569 76698216902, IV.NInt.mk 76029720607 76029734124, IV.NInt.mk 75342059822 75342073287, IV.NInt.mk 74634671125 74634685193, IV.NInt.mk 73906988942 73907002980, IV.NInt.mk 73158430874 73158445191, IV.NInt.mk 72388398163 72388412768, IV.NInt.mk 71596274603 71596289851, IV.NInt.mk 70781426715 70781441956, IV.NInt.mk 69943201899 69943217828, IV.NInt.mk 69080930435 69080946691, IV.NInt.mk 68193921975 68193938906, IV.NInt.mk 67281467282 67281484209, IV.NInt.mk 66342835913 66342853187, IV.NInt.mk 65377276936 65377294580, IV.NInt.mk 64384017737 64384036146, IV.NInt.mk 63362264237 63362282609, IV.NInt.mk 62311198096 62311217664, IV.NInt.mk 61229979168 61229999164, IV.NInt.mk 60117742179 60117763002, IV.NInt.mk 58973597415 58973618266, IV.NInt.mk 57796628768 57796650466, IV.NInt.mk 56585895936 56585917672, IV.NInt.mk 55340429001 55340451634, IV.NInt.mk 54059232466 54059255191, IV.NInt.mk 52741279229 52741304679, IV.NInt.mk 51385518150 51385543704, IV.NInt.mk 49990862635 49990889181, IV.NInt.mk 48556197300 48556223968, IV.NInt.mk 47080374003 47080401718, IV.NInt.mk 45562212355 45562240204, IV.NInt.mk 44000497295 44000525755, IV.NInt.mk 42393979755 42394008830, IV.NInt.mk 40741374041 40741404221, IV.NInt.mk 39041358947 39041389284, IV.NInt.mk 37292573202 37292604719, IV.NInt.mk 35493618411 35493650162, IV.NInt.mk 33643054492 33643087479, IV.NInt.mk 31739402118 31739435841, IV.NInt.mk 29781137257 29781172273, IV.NInt.mk 27766693945 27766729248, IV.NInt.mk 25694459133 25694497493, IV.NInt.mk 23562777029 23562815673, IV.NInt.mk 21369940437 21369980508, IV.NInt.mk 19114196318 19114236730, IV.NInt.mk 16793738728 16793780039, IV.NInt.mk 14406711988 14406754281, IV.NInt.mk 12039745349 12039784093, IV.NInt.mk 9838405730 9838440858, IV.NInt.mk 7836119575 7836150882, IV.NInt.mk 6064060495 6064087669, IV.NInt.mk 4545420696 4545443577, IV.NInt.mk 3290309439 3290328058, IV.NInt.mk 2293507537 2293522122, IV.NInt.mk 1535208787 1535219753, IV.NInt.mk 984236898 984244793, IV.NInt.mk 602853335 602858771, IV.NInt.mk 351936142 351939722, IV.NInt.mk 195367029 195369287, IV.NInt.mk 102894292 102895666, IV.NInt.mk 51299159 51299977, IV.NInt.mk 24156231 24156717, IV.NInt.mk 10718852 10719154, IV.NInt.mk 4471273 4471473, IV.NInt.mk 1748983 1749133, IV.NInt.mk 639798 639919, IV.NInt.mk 218233 218339, IV.NInt.mk 69177 69272, IV.NInt.mk 20293 20379, IV.NInt.mk 5474 5549, IV.NInt.mk 1340 1405, IV.NInt.mk 287 340, IV.NInt.mk 47 89, IV.NInt.mk 3 35, IV.NInt.mk 0 22, IV.NInt.mk 0 19, IV.NInt.mk 0 17, IV.NInt.mk 0 15, IV.NInt.mk 0 13, IV.NInt.mk 0 11, IV.NInt.mk 0 9, IV.NInt.mk 0 7, IV.NInt.mk 0 5, IV.NInt.mk 0 3, IV.NInt.mk 0 1, IV.NInt.mk 0 0, IV.NInt.mk 0 0, IV.NInt.mk 0 0, IV.NInt.mk 0 0, IV.NInt.mk 0 0, IV.NInt.mk 0 0, IV.NInt.mk 0 0, IV.NInt.mk 0 0, IV.NInt.mk 0 0, IV.NInt.mk 0 0, IV.NInt.mk 0 0, IV.NInt.mk 0 0, IV.NInt.mk 0 0, IV.NInt.mk 0 0, IV.NInt.mk 0 0, IV.NInt.mk 0 0, IV.NInt.mk 0 0, IV.NInt.mk 0 0, IV.NInt.mk 0 0, IV.NInt.mk 0 0, IV.NInt.mk 0 0, IV.NInt.mk 0 0, IV.NInt.mk 0 0, IV.NInt.mk 0 0, IV.NInt.mk 0 0, IV.NInt.mk 0 0, IV.NInt.mk 0 0, IV.NInt.mk 0 0, IV.NInt.mk 0 0, IV.NInt.mk 0 0, IV.NInt.mk 0 0, IV.NInt.mk 0 0, IV.NInt.mk 0 0, IV.NInt.mk 0 0, IV.NInt.mk 0 0]) := by decide

set_option maxRecDepth 100000 in
set_option maxHeartbeats 1000000 in
/-- Chunk 7 of the kernel evaluation of the C9 put lattice (14 steps). -/
theorem IV.putChunk7 : IV.loopG IV.uI9 IV.pI9 IV.qI9 IV.discI9 false IV.KSc9 14 ([IV.NInt.mk 14820058214 14820066049, IV.NInt.mk 15245216862 15245225588, IV.NInt.mk 15682572816 15682581451, IV.NInt.mk 16132475542 16132484339, IV.NInt.mk 16595285196 16595294169, IV.NInt.mk 17071371880 17071381295, IV.NInt.mk 17561116695 17561126029, IV.NInt.mk 18064911017 18064920819, IV.NInt.mk 18583158645 18583168356, IV.NInt.mk 19116273125 19116284173, IV.NInt.mk 19664682237 19664693197, IV.NInt.mk 20228824129 20228834994, IV.NInt.mk 20809150113 20809161206, IV.NInt.mk 21406124317 21406135918, IV.NInt.mk 22020224767 22020236608, IV.NInt.mk 22651942377 22651954771, IV.NInt.mk 23301783098 23301795431, IV.NInt.mk 23970265876 23970279393, IV.NInt.mk 24657926713 24657940178, IV.NInt.mk 25365314807 25365328875, IV.NInt.mk 26092997020 26093011058, IV.NInt.mk 26841554809 26841569126, IV.NInt.mk 27611587232 27611601837, IV.NInt.mk 28403710149 28403725397, IV.NInt.mk 29218558044 29218573285, IV.NInt.mk 30056782172 30056798101, IV.NInt.mk 30919053309 30919069565, IV.NInt.mk 31806061094 31806078025, IV.NInt.mk 32718515791 32718532718, IV.NInt.mk 33657146813 33657164087, IV.NInt.mk 34622705420 34622723064, IV.NInt.mk 35615963854 35615982263, IV.NInt.mk 36637717391 36637735763, IV.NInt.mk 37688782336 37688801904, IV.NInt.mk 38770000836 38770020832, IV.NInt.mk 39882236998 39882257821, IV.NInt.mk 41026381734 41026402585, IV.NInt.mk 42203349534 42203371232, IV.NInt.mk 43414082328 43414104064, IV.NInt.mk 44659548366 44659570999, IV.NInt.mk 45940744809 45940767534, IV.NInt.mk 47258695321 47258720771, IV.NInt.mk 48614456296 48614481850, IV.NInt.mk 50009110819 50009137365, IV.NInt.mk 51443776032 51443802700, IV.NInt.mk 52919598282 52919625997, IV.NInt.mk 54437759796 54437787645, IV.NInt.mk 55999474245 55999502705, IV.NInt.mk 57605991170 57606020245, IV.NInt.mk 59258595779 59258625959, IV.NInt.mk 60958610716 60958641053, IV.NInt.mk 62707395281 62707426798, IV.NInt.mk 64506349838 64506381589, IV.NInt.mk 66356912521 66356945508, IV.NInt.mk 68260564159 68260597882, IV.NInt.mk 70218827727 70218862743, IV.NInt.mk 72233270752 72233306055, IV.NInt.mk 74305502507 74305540867, IV.NInt.mk 76437184327 76437222971, IV.NInt.mk 78630019492 78630059563, IV.NInt.mk 80885763270 80885803682, IV.NInt.mk 83206219961 83206261272, IV.NInt.mk 85593245719 85593288012, IV.NInt.mk 88048750515 88048794343, IV.NInt.mk 90574699482 90574743811, IV.NInt.mk 93173112302 93173158268, IV.NInt.mk 95846069388 95846115758, IV.NInt.mk 98595707991 98595756062, IV.NInt.mk 101424229061 101424277676, IV.NInt.mk 104333894192 104333944570, IV.NInt.mk 107327032117 107327083694, IV.NInt.mk 110406037894 110406090650, IV.NInt.mk 113573373913 113573428081, IV.NInt.mk 116831574070 116831630913, IV.NInt.mk 120183246286 120183304495, IV.NInt.mk 123631071645 123631131944, IV.NInt.mk 127177808905 127177869917, IV.NInt.mk 130826294827 130826357981, IV.NInt.mk 134579448773 134579513509, IV.NInt.mk 138440272735 138440339747, IV.NInt.mk 142411857399 142411925390, IV.NInt.mk 146497377709 146497448833, IV.NInt.mk 150700105191 150700177286, IV.NInt.mk 155023400713 155023474502, IV.NInt.mk 159470722939 159470798650, IV.NInt.mk 164045629742 164045708946, IV.NInt.mk 168751782525 168751862799, IV.NInt.mk 173592945661 173593027844, IV.NInt.mk 178572991945 178573076441, IV.NInt.mk 183695905877 183695994135, IV.NInt.mk 188965787010 188965877532, IV.NInt.mk 194386850339 194386943933, IV.NInt.mk 199963434282 199963529388, IV.NInt.mk 205699998193 205700097424, IV.NInt.mk 211601134572 211601235405, IV.NInt.mk 217671562900 217671666162, IV.NInt.mk 223916140171 223916245285, IV.NInt.mk 230339861670 230339970295, IV.NInt.mk 236947867804 236947979254, IV.NInt.mk 243745443924 243745559086, IV.NInt.mk 250738030855 250738148146, IV.NInt.mk 257931221667 257931341845, IV.NInt.mk 265330770295 265330893604, IV.NInt.mk 272942597757 272942725234, IV.NInt.mk 280772794064 280772924128, IV.NInt.mk 288827621730 288827758341, IV.NInt.mk 297113528928 297113668017, IV.NInt.mk 305637142885 305637285436, IV.NInt.mk 314405282666 314405429090, IV.NInt.mk 323424962888 323425114185, IV.NInt.mk 332703401158 332703555257, IV.NInt.mk 342248019387 342248178555, IV.NInt.mk 352066454518 352066617135, IV.NInt.mk 362166561503 362166728228, IV.NInt.mk 372556420612 372556591833, IV.NInt.mk 383244345772 383244521348, IV.NInt.mk 394238885805 394239066382, IV.NInt.mk 405548838580 405549025023, IV.NInt.mk 417183251474 417183443075, IV.NInt.mk 429151433733 429151630197, IV.NInt.mk 441462960405 441463161540, IV.NInt.mk 454127678665 454127889111, IV.NInt.mk 467155725383 467155940256, IV.NInt.mk 480557521817 480557742201, IV.NInt.mk 494343788843 494344015560, IV.NInt.mk 508525558908 508525789996, IV.NInt.mk 523114175260 523114412760, IV.NInt.mk 538121311537 538121555222, IV.NInt.mk 553558972380 553559223925, IV.NInt.mk 569439508214 569439769537, IV.NInt.mk 585775629222 585775896213, IV.NInt.mk 602580401895 602580675857, IV.NInt.mk 619867270781 619867551230, IV.NInt.mk 637650066380 637650354212, IV.NInt.mk 655943016611 655943311013, IV.NInt.mk 674760755669 674761059557], [IV.NInt.mk 85179933951 85179941786, IV.NInt.mk 84754774412 84754783138, IV.NInt.mk 84317418549 84317427184, IV.NInt.mk 83867515661 83867524458, IV.NInt.mk 83404705831 83404714804, IV.NInt.mk 82928618705 82928628120, IV.NInt.mk 82438873971 82438883305, IV.NInt.mk 81935079181 81935088983, IV.NInt.mk 81416831644 81416841355, IV.NInt.mk 80883715827 80883726875, IV.NInt.mk 80335306803 80335317763, IV.NInt.mk 79771165006 79771175871, IV.NInt.mk 79190838794 79190849887, IV.NInt.mk 78593864082 78593875683, IV.NInt.mk 77979763392 77979775233, IV.NInt.mk 77348045229 77348057623, IV.NInt.mk 76698204569 76698216902, IV.NInt.mk 76029720607 76029734124, IV.NInt.mk 75342059822 75342073287, IV.NInt.mk 74634671125 74634685193, IV.NInt.mk 73906988942 73907002980, IV.NInt.mk 73158430874 73158445191, IV.NInt.mk 72388398163 72388412768, IV.NInt.mk 71596274603 71596289851, IV.NInt.mk 70781426715 70781441956, IV.NInt.mk 69943201899 69943217828, IV.NInt.mk 69080930435 69080946691, IV.NInt.mk 68193921975 68193938906, IV.NInt.mk 67281467282 67281484209, IV.NInt.mk 66342835913 66342853187, IV.NInt.mk 65377276936 65377294580, IV.NInt.mk 64384017737 64384036146, IV.NInt.mk 63362264237 63362282609, IV.NInt.mk 62311198096 62311217664, IV.NInt.mk 61229979168 61229999164, IV.NInt.mk 60117742179 60117763002, IV.NInt.mk 58973597415 58973618266, IV.NInt.mk 57796628768 57796650466, IV.NInt.mk 56585895936 56585917672, IV.NInt.mk 55340429001 55340451634, IV.NInt.mk 54059232466 54059255191, IV.NInt.mk 52741279229 52741304679, IV.NInt.mk 51385518150 51385543704, IV.NInt.mk 49990862635 49990889181, IV.NInt.mk 48556197300 48556223968, IV.NInt.mk 47080374003 47080401718, IV.NInt.mk 45562212355 45562240204, IV.NInt.mk 44000497295 44000525755, IV.NInt.mk 42393979755 42394008830, IV.NInt.mk 40741374041 40741404221, IV.NInt.mk 39041358947 39041389284, IV.NInt.mk 37292573202 37292604719, IV.NInt.mk 35493618411 35493650162, IV.NInt.mk 33643054492 33643087479, IV.NInt.mk 31739402118 31739435841, IV.NInt.mk 29781137257 29781172273, IV.NInt.mk 27766693945 27766729248, IV.NInt.mk 25694459133 25694497493, IV.NInt.mk 23562777029 23562815673, IV.NInt.mk 21369940437 21369980508, IV.NInt.mk 19114196318 19114236730, IV.NInt.mk 16793738728 16793780039, IV.NInt.mk 14406711988 14406754281, IV.NInt.mk 12039745349 12039784093, IV.NInt.mk 9838405730 9838440858, IV.NInt.mk 7836119575 7836150882, IV.NInt.mk 6064060495 6064087669, IV.NInt.mk 4545420696 4545443577, IV.NInt.mk 3290309439 3290328058, IV.NInt.mk 2293507537 2293522122, IV.NInt.mk 1535208787 1535219753, IV.NInt.mk 984236898 984244793, IV.NInt.mk 602853335 602858771, IV.NInt.mk 351936142 351939722, IV.NInt.mk 195367029 195369287, IV.NInt.mk 102894292 102895666, IV.NInt.mk 51299159 51299977, IV.NInt.mk 24156231 24156717, IV.NInt.mk 10718852 10719154, IV.NInt.mk 4471273 4471473, IV.NInt.mk 1748983 1749133, IV.NInt.mk 639798 639919, IV.NInt.mk 218233 218339, IV.NInt.mk 69177 69272, IV.NInt.mk 20293 20379, IV.NInt.mk 5474 5549, IV.NInt.mk 1340 1405, IV.NInt.mk 287 340, IV.NInt.mk 47 89, IV.NInt.mk 3 35, IV.NInt.mk 0 22, IV.NInt.mk 0 19, IV.NInt.mk 0 17, IV.NInt.mk 0 15, IV.NInt.mk 0 13, IV.NInt.mk 0 11, IV.NInt.mk 0 9, IV.NInt.mk 0 7, IV.NInt.mk 0 5, IV.NInt.mk 0 3, IV.NInt.mk 0 1, IV.NInt.mk 0 0, IV.NInt.mk 0 0, IV.NInt.mk 0 0, IV.NInt.mk 0 0, IV.NInt.mk 0 0, IV.NInt.mk 0 0, IV.NInt.mk 0 0, IV.NInt.mk 0 0, IV.NInt.mk 0 0, IV.NInt.mk 0 0, IV.NInt.mk 0 0, IV.NInt.mk 0 0, IV.NInt.mk 0 0, IV.NInt.mk 0 0, IV.NInt.mk 0 0, IV.NInt.mk 0 0, IV.NInt.mk 0 0, IV.NInt.mk 0 0, IV.NInt.mk 0 0, IV.NInt.mk 0 0, IV.NInt.mk 0 0, IV.NInt.mk 0 0, IV.NInt.mk 0 0, IV.NInt.mk 0 0, IV.NInt.mk 0 0, IV.NInt.mk 0 0, IV.NInt.mk 0 0, IV.NInt.mk 0 0, IV.NInt.mk 0 0, IV.NInt.mk 0 0, IV.NInt.mk 0 0, IV.NInt.mk 0 0, IV.NInt.mk 0 0, IV.NInt.mk 0 0, IV.NInt.mk 0 0]) = ([IV.NInt.mk 18064910974 18064920790, IV.NInt.mk 18583158137 18583169047, IV.NInt.mk 19116273210 19116284014, IV.NInt.mk 19664682167 19664693176, IV.NInt.mk 20228824027 20228835260, IV.NInt.mk 20809149923 20809161703, IV.NInt.mk 21406124401 21406136087, IV.NInt.mk 22020224524 22020236791, IV.NInt.mk 22651942505 22651954670, IV.NInt.mk 23301782437 23301796242, IV.NInt.mk 23970265765 23970279469, IV.NInt.mk 24657926561 24657940163, IV.NInt.mk 25365314959 25365328848, IV.NInt.mk 26092996705 26093011224, IV.NInt.mk 26841554493 26841569313, IV.NInt.mk 27611586718 27611602221, IV.NInt.mk 28403710110 28403725550, IV.NInt.mk 29218557236 29218574133, IV.NInt.mk 30056781464 30056798302, IV.NInt.mk 30919052228 30919069817, IV.NInt.mk 31806060511 31806078078, IV.NInt.mk 32718515081 32718532999, IV.NInt.mk 33657146154 33657164438, IV.NInt.mk 34622704439 34622723518, IV.NInt.mk 35615963337 35615982424, IV.NInt.mk 36637716698 36637736634, IV.NInt.mk 37688782160 37688802508, IV.NInt.mk 38770000360 38770021547, IV.NInt.mk 39882237076 39882258273, IV.NInt.mk 41026381423 41026403062, IV.NInt.mk 42203349155 42203371260, IV.NInt.mk 43414081592 43414104645, IV.NInt.mk 44659548135 44659571162, IV.NInt.mk 45940743823 45940768327, IV.NInt.mk 47258695189 47258720231, IV.NInt.mk 48614455534 48614481606, IV.NInt.mk 50009110842 50009136961, IV.NInt.mk 51443775821 51443802995, IV.NInt.mk 52919598645 52919625885, IV.NInt.mk 54437759557 54437787913, IV.NInt.mk 55999474049 55999502539, IV.NInt.mk 57605989918 57606021749, IV.NInt.mk 59258594853 59258626832, IV.NInt.mk 60958609078 60958642293, IV.NInt.mk 62707394338 62707427728, IV.NInt.mk 64506347972 64506382661, IV.NInt.mk 66356911054 66356945933, IV.NInt.mk 68260562989 68260598639, IV.NInt.mk 70218826906 70218863331, IV.NInt.mk 72233269409 72233307207, IV.NInt.mk 74305502733 74305540754, IV.NInt.mk 76437183799 76437223289, IV.NInt.mk 78630019581 78630059385, IV.NInt.mk 80885763089 80885804434, IV.NInt.mk 83206219389 83206261657, IV.NInt.mk 85593244899 85593288778, IV.NInt.mk 88048750362 88048794627, IV.NInt.mk 90574697404 90574745428, IV.NInt.mk 93173111105 93173159512, IV.NInt.mk 95846067682 95846117865, IV.NInt.mk 98595706716 98595757351, IV.NInt.mk 101424227561 101424279328, IV.NInt.mk 104333892772 104333945783, IV.NInt.mk 107327030512 107327085431, IV.NInt.mk 110406036180 110406091754, IV.NInt.mk 113573371664 113573429278, IV.NInt.mk 116831572890 116831631041, IV.NInt.mk 120183245055 120183305325, IV.NInt.mk 123631071011 123631131990, IV.NInt.mk 127177807521 127177870699, IV.NInt.mk 130826293203 130826357893, IV.NInt.mk 134579447508 134579513686, IV.NInt.mk 138440271965 138440339919, IV.NInt.mk 142411855273 142411926543, IV.NInt.mk 146497376351 146497449344, IV.NInt.mk 150700103309 150700178907, IV.NInt.mk 155023398939 155023475464, IV.NInt.mk 159470721105 159470800303, IV.NInt.mk 164045628366 164045709557, IV.NInt.mk 168751780002 168751864030, IV.NInt.mk 173592943403 173593028690, IV.NInt.mk 178572988666 178573077843, IV.NInt.mk 183695903620 183695994054, IV.NInt.mk 188965784994 188965877566, IV.NInt.mk 194386848731 194386943717, IV.NInt.mk 199963431692 199963531013, IV.NInt.mk 205699996952 205700097658, IV.NInt.mk 211601133093 211601236205, IV.NInt.mk 217671560854 217671666869, IV.NInt.mk 223916137143 223916247831, IV.NInt.mk 230339859115 230339972652, IV.NInt.mk 236947864635 236947982008, IV.NInt.mk 243745442016 243745561327, IV.NInt.mk 250738026992 250738151427, IV.NInt.mk 257931217590 257931344075, IV.NInt.mk 265330766619 265330896168, IV.NInt.mk 272942594515 272942726426, IV.NInt.mk 280772790280 280772926579, IV.NInt.mk 288827619812 288827759667, IV.NInt.mk 297113525692 297113670189, IV.NInt.mk 305637140016 305637287221, IV.NInt.mk 314405280455 314405431298, IV.NInt.mk 323424960761 323425115551, IV.NInt.mk 332703398374 332703558370, IV.NInt.mk 342248016703 342248179985, IV.NInt.mk 352066449439 352066620840, IV.NInt.mk 362166556593 362166731153, IV.NInt.mk 372556416415 372556595336, IV.NInt.mk 383244341007 383244524798, IV.NInt.mk 394238880836 394239070717, IV.NInt.mk 405548833807 405549027257, IV.NInt.mk 417183246855 417183446649, IV.NInt.mk 429151429036 429151633196, IV.NInt.mk 441462955142 441463164480, IV.NInt.mk 454127674619 454127889615, IV.NInt.mk 467155721733 467155942215, IV.NInt.mk 480557517065 480557743830, IV.NInt.mk 494343784780 494344018884, IV.NInt.mk 508525553181 508525793767, IV.NInt.mk 523114169771 523114416487, IV.NInt.mk 538121306061 538121558674, IV.NInt.mk 553558965255 553559229435], [IV.NInt.mk 81935079210 81935089026, IV.NInt.mk 81416830953 81416841863, IV.NInt.mk 80883715986 80883726790, IV.NInt.mk 80335306824 80335317833, IV.NInt.mk 79771164740 79771175973, IV.NInt.mk 79190838297 79190850077, IV.NInt.mk 78593863913 78593875599, IV.NInt.mk 77979763209 77979775476, IV.NInt.mk 77348045330 77348057495, IV.NInt.mk 76698203758 76698217563, IV.NInt.mk 76029720531 76029734235, IV.NInt.mk 75342059837 75342073439, IV.NInt.mk 74634671152 74634685041, IV.NInt.mk 73906988776 73907003295, IV.NInt.mk 73158430687 73158445507, IV.NInt.mk 72388397779 72388413282, IV.NInt.mk 71596274450 71596289890, IV.NInt.mk 70781425867 70781442764, IV.NInt.mk 69943201698 69943218536, IV.NInt.mk 69080930183 69080947772, IV.NInt.mk 68193921922 68193939489, IV.NInt.mk 67281467001 67281484919, IV.NInt.mk 66342835562 66342853846, IV.NInt.mk 65377276482 65377295561, IV.NInt.mk 64384017576 64384036663, IV.NInt.mk 63362263366 63362283302, IV.NInt.mk 62311197492 62311217840, IV.NInt.mk 61229978453 61229999640, IV.NInt.mk 60117741727 60117762924, IV.NInt.mk 58973596938 58973618577, IV.NInt.mk 57796628740 57796650845, IV.NInt.mk 56585895355 56585918408, IV.NInt.mk 55340428838 55340451865, IV.NInt.mk 54059231673 54059256177, IV.NInt.mk 52741279769 52741304811, IV.NInt.mk 51385518394 51385544466, IV.NInt.mk 49990863039 49990889158, IV.NInt.mk 48556197005 48556224179, IV.NInt.mk 47080374115 47080401355, IV.NInt.mk 45562212087 45562240443, IV.NInt.mk 44000497461 44000525951, IV.NInt.mk 42393978251 42394010082, IV.NInt.mk 40741373168 40741405147, IV.NInt.mk 39041357707 39041390922, IV.NInt.mk 37292572272 37292605662, IV.NInt.mk 35493617339 35493652028, IV.NInt.mk 33643054067 33643088946, IV.NInt.mk 31739401361 31739437011, IV.NInt.mk 29781136669 29781173094, IV.NInt.mk 27766692793 27766730591, IV.NInt.mk 25694459246 25694497267, IV.NInt.mk 23562776711 23562816201, IV.NInt.mk 21369940615 21369980419, IV.NInt.mk 19114195566 19114236911, IV.NInt.mk 16793738343 16793780611, IV.NInt.mk 14409093078 14409135352, IV.NInt.mk 12119324931 12119364326, IV.NInt.mk 9994908553 9994943830, IV.NInt.mk 8063555373 8063586402, IV.NInt.mk 6349469271 6349496183, IV.NInt.mk 4868787713 4868810539, IV.NInt.mk 3627511744 3627530585, IV.NInt.mk 2620427512 2620442595, IV.NInt.mk 1831582712 1831594396, IV.NInt.mk 1236326478 1236335220, IV.NInt.mk 804445036 804451347, IV.NInt.mk 503685745 503690142, IV.NInt.mk 302970599 302973559, IV.NInt.mk 174792987 174794918, IV.NInt.mk 96573074 96574309, IV.NInt.mk 51019456 51020238, IV.NInt.mk 25734053 25734556, IV.NInt.mk 12374171 12374506, IV.NInt.mk 5663594 5663835, IV.NInt.mk 2463486 2463676, IV.NInt.mk 1016657 1016816, IV.NInt.mk 397379 397520, IV.NInt.mk 146830 146957, IV.NInt.mk 51172 51288, IV.NInt.mk 16772 16877, IV.NInt.mk 5144 5239, IV.NInt.mk 1460 1544, IV.NInt.mk 372 444, IV.NInt.mk 78 136, IV.NInt.mk 9 56, IV.NInt.mk 0 36, IV.NInt.mk 0 29, IV.NInt.mk 0 27, IV.NInt.mk 0 25, IV.NInt.mk 0 23, IV.NInt.mk 0 21, IV.NInt.mk 0 19, IV.NInt.mk 0 17, IV.NInt.mk 0 15, IV.NInt.mk 0 13, IV.NInt.mk 0 11, IV.NInt.mk 0 9, IV.NInt.mk 0 7, IV.NInt.mk 0 5, IV.NInt.mk 0 3, IV.NInt.mk 0 1, IV.NInt.mk 0 0, IV.NInt.mk 0 0, IV.NInt.mk 0 0, IV.NInt.mk 0 0, IV.NInt.mk 0 0, IV.NInt.mk 0 0, IV.NInt.mk 0 0, IV.NInt.mk 0 0, IV.NInt.mk 0 0, IV.NInt.mk 0 0, IV.NInt.mk 0 0, IV.NInt.mk 0 0, IV.NInt.mk 0 0, IV.NInt.mk 0 0, IV.NInt.mk 0 0, IV.NInt.mk 0 0, IV.NInt.mk 0 0, IV.NInt.mk 0 0, IV.NInt.mk 0 0, IV.NInt.mk 0 0, IV.NInt.mk 0 0]) := by decide

set_option maxRecDepth 100000 in
set_option maxHeartbeats 1000000 in
/-- Chunk 8 of the kernel evaluation of the C9 put lattice (16 steps). -/
theorem IV.putChunk8 : IV.loopG IV.uI9 IV.pI9 IV.qI9 IV.discI9 false IV.KSc9 16 ([IV.NInt.mk 18064910974 18064920790, IV.NInt.mk 18583158137 18583169047, IV.NInt.mk 19116273210 19116284014, IV.NInt.mk 19664682167 19664693176, IV.NInt.mk 20228824027 20228835260, IV.NInt.mk 20809149923 20809161703, IV.NInt.mk 21406124401 21406136087, IV.NInt.mk 22020224524 22020236791, IV.NInt.mk 22651942505 22651954670, IV.NInt.mk 23301782437 23301796242, IV.NInt.mk 23970265765 23970279469, IV.NInt.mk 24657926561 24657940163, IV.NInt.mk 25365314959 25365328848, IV.NInt.mk 26092996705 26093011224, IV.NInt.mk 26841554493 26841569313, IV.NInt.mk 27611586718 27611602221, IV.NInt.mk 28403710110 28403725550, IV.NInt.mk 29218557236 29218574133, IV.NInt.mk 30056781464 30056798302, IV.NInt.mk 30919052228 30919069817, IV.NInt.mk 31806060511 31806078078, IV.NInt.mk 32718515081 32718532999, IV.NInt.mk 33657146154 33657164438, IV.NInt.mk 34622704439 34622723518, IV.NInt.mk 35615963337 35615982424, IV.NInt.mk 36637716698 36637736634, IV.NInt.mk 37688782160 37688802508, IV.NInt.mk 38770000360 38770021547, IV.NInt.mk 39882237076 39882258273, IV.NInt.mk 41026381423 41026403062, IV.NInt.mk 42203349155 42203371260, IV.NInt.mk 43414081592 43414104645, IV.NInt.mk 44659548135 44659571162, IV.NInt.mk 45940743823 45940768327, IV.NInt.mk 47258695189 47258720231, IV.NInt.mk 48614455534 48614481606, IV.NInt.mk 50009110842 50009136961, IV.NInt.mk 51443775821 51443802995, IV.NInt.mk 52919598645 52919625885, IV.NInt.mk 54437759557 54437787913, IV.NInt.mk 55999474049 55999502539, IV.NInt.mk 57605989918 57606021749, IV.NInt.mk 59258594853 59258626832, IV.NInt.mk 60958609078 60958642293, IV.NInt.mk 62707394338 62707427728, IV.NInt.mk 64506347972 64506382661, IV.NInt.mk 66356911054 66356945933, IV.NInt.mk 68260562989 68260598639, IV.NInt.mk 70218826906 70218863331, IV.NInt.mk 72233269409 72233307207, IV.NInt.mk 74305502733 74305540754, IV.NInt.mk 76437183799 76437223289, IV.NInt.mk 78630019581 78630059385, IV.NInt.mk 80885763089 80885804434, IV.NInt.mk 83206219389 83206261657, IV.NInt.mk 85593244899 85593288778, IV.NInt.mk 88048750362 88048794627, IV.NInt.mk 90574697404 90574745428, IV.NInt.mk 93173111105 93173159512, IV.NInt.mk 95846067682 95846117865, IV.NInt.mk 98595706716 98595757351, IV.NInt.mk 101424227561 101424279328, IV.NInt.mk 104333892772 104333945783, IV.NInt.mk 107327030512 107327085431, IV.NInt.mk 110406036180 110406091754, IV.NInt.mk 113573371664 113573429278, IV.NInt.mk 116831572890 116831631041, IV.NInt.mk 120183245055 120183305325, IV.NInt.mk 123631071011 123631131990, IV.NInt.mk 127177807521 127177870699, IV.NInt.mk 130826293203 130826357893, IV.NInt.mk 134579447508 134579513686, IV.NInt.mk 138440271965 138440339919, IV.NInt.mk 142411855273 142411926543, IV.NInt.mk 146497376351 146497449344, IV.NInt.mk 150700103309 150700178907, IV.NInt.mk 155023398939 155023475464, IV.NInt.mk 159470721105 159470800303, IV.NInt.mk 164045628366 164045709557, IV.NInt.mk 168751780002 168751864030, IV.NInt.mk 173592943403 173593028690, IV.NInt.mk 178572988666 178573077843, IV.NInt.mk 183695903620 183695994054, IV.NInt.mk 188965784994 188965877566, IV.NInt.mk 194386848731 194386943717, IV.NInt.mk 199963431692 199963531013, IV.NInt.mk 205699996952 205700097658, IV.NInt.mk 211601133093 211601236205, IV.NInt.mk 217671560854 217671666869, IV.NInt.mk 223916137143 223916247831, IV.NInt.mk 230339859115 230339972652, IV.NInt.mk 236947864635 236947982008, IV.NInt.mk 243745442016 243745561327, IV.NInt.mk 250738026992 250738151427, IV.NInt.mk 257931217590 257931344075, IV.NInt.mk 265330766619 265330896168, IV.NInt.mk 272942594515 272942726426, IV.NInt.mk 280772790280 280772926579, IV.NInt.mk 288827619812 288827759667, IV.NInt.mk 297113525692 297113670189, IV.NInt.mk 305637140016 305637287221, IV.NInt.mk 314405280455 314405431298, IV.NInt.mk 323424960761 323425115551, IV.NInt.mk 332703398374 332703558370, IV.NInt.mk 342248016703 342248179985, IV.NInt.mk 352066449439 352066620840, IV.NInt.mk 362166556593 362166731153, IV.NInt.mk 372556416415 372556595336, IV.NInt.mk 383244341007 383244524798, IV.NInt.mk 394238880836 394239070717, IV.NInt.mk 405548833807 405549027257, IV.NInt.mk 417183246855 417183446649, IV.NInt.mk 429151429036 429151633196, IV.NInt.mk 441462955142 441463164480, IV.NInt.mk 454127674619 454127889615, IV.NInt.mk 467155721733 467155942215, IV.NInt.mk 480557517065 480557743830, IV.NInt.mk 494343784780 494344018884, IV.NInt.mk 508525553181 508525793767, IV.NInt.mk 523114169771 523114416487, IV.NInt.mk 538121306061 538121558674, IV.NInt.mk 553558965255 553559229435], [IV.NInt.mk 81935079210 81935089026, IV.NInt.mk 81416830953 81416841863, IV.NInt.mk 80883715986 80883726790, IV.NInt.mk 80335306824 80335317833, IV.NInt.mk 79771164740 79771175973, IV.NInt.mk 79190838297 79190850077, IV.NInt.mk 78593863913 78593875599, IV.NInt.mk 77979763209 77979775476, IV.NInt.mk 77348045330 77348057495, IV.NInt.mk 76698203758 76698217563, IV.NInt.mk 76029720531 76029734235, IV.NInt.mk 75342059837 75342073439, IV.NInt.mk 74634671152 74634685041, IV.NInt.mk 73906988776 73907003295, IV.NInt.mk 73158430687 73158445507, IV.NInt.mk 72388397779 72388413282, IV.NInt.mk 71596274450 71596289890, IV.NInt.mk 70781425867 70781442764, IV.NInt.mk 69943201698 69943218536, IV.NInt.mk 69080930183 69080947772, IV.NInt.mk 68193921922 68193939489, IV.NInt.mk 67281467001 67281484919, IV.NInt.mk 66342835562 66342853846, IV.NInt.mk 65377276482 65377295561, IV.NInt.mk 64384017576 64384036663, IV.NInt.mk 63362263366 63362283302, IV.NInt.mk 62311197492 62311217840, IV.NInt.mk 61229978453 61229999640, IV.NInt.mk 60117741727 60117762924, IV.NInt.mk 58973596938 58973618577, IV.NInt.mk 57796628740 57796650845, IV.NInt.mk 56585895355 56585918408, IV.NInt.mk 55340428838 55340451865, IV.NInt.mk 54059231673 54059256177, IV.NInt.mk 52741279769 52741304811, IV.NInt.mk 51385518394 51385544466, IV.NInt.mk 49990863039 49990889158, IV.NInt.mk 48556197005 48556224179, IV.NInt.mk 47080374115 47080401355, IV.NInt.mk 45562212087 45562240443, IV.NInt.mk 44000497461 44000525951, IV.NInt.mk 42393978251 42394010082, IV.NInt.mk 40741373168 40741405147, IV.NInt.mk 39041357707 39041390922, IV.NInt.mk 37292572272 37292605662, IV.NInt.mk 35493617339 35493652028, IV.NInt.mk 33643054067 33643088946, IV.NInt.mk 31739401361 31739437011, IV.NInt.mk 29781136669 29781173094, IV.NInt.mk 27766692793 27766730591, IV.NInt.mk 25694459246 25694497267, IV.NInt.mk 23562776711 23562816201, IV.NInt.mk 21369940615 21369980419, IV.NInt.mk 19114195566 19114236911, IV.NInt.mk 16793738343 16793780611, IV.NInt.mk 14409093078 14409135352, IV.NInt.mk 12119324931 12119364326, IV.NInt.mk 9994908553 9994943830, IV.NInt.mk 8063555373 8063586402, IV.NInt.mk 6349469271 6349496183, IV.NInt.mk 4868787713 4868810539, IV.NInt.mk 3627511744 3627530585, IV.NInt.mk 2620427512 2620442595, IV.NInt.mk 1831582712 1831594396, IV.NInt.mk 1236326478 1236335220, IV.NInt.mk 804445036 804451347, IV.NInt.mk 503685745 503690142, IV.NInt.mk 302970599 302973559, IV.NInt.mk 174792987 174794918, IV.NInt.mk 96573074 96574309, IV.NInt.mk 51019456 51020238, IV.NInt.mk 25734053 25734556, IV.NInt.mk 12374171 12374506, IV.NInt.mk 5663594 5663835, IV.NInt.mk 2463486 2463676, IV.NInt.mk 1016657 1016816, IV.NInt.mk 397379 397520, IV.NInt.mk 146830 146957, IV.NInt.mk 51172 51288, IV.NInt.mk 16772 16877, IV.NInt.mk 5144 5239, IV.NInt.mk 1460 1544, IV.NInt.mk 372 444, IV.NInt.mk 78 136, IV.NInt.mk 9 56, IV.NInt.mk 0 36, IV.NInt.mk 0 29, IV.NInt.mk 0 27, IV.NInt.mk 0 25, IV.NInt.mk 0 23, IV.NInt.mk 0 21, IV.NInt.mk 0 19, IV.NInt.mk 0 17, IV.NInt.mk 0 15, IV.NInt.mk 0 13, IV.NInt.mk 0 11, IV.NInt.mk 0 9, IV.NInt.mk 0 7, IV.NInt.mk 0 5, IV.NInt.mk 0 3, IV.NInt.mk 0 1, IV.NInt.mk 0 0, IV.NInt.mk 0 0, IV.NInt.mk 0 0, IV.NInt.mk 0 0, IV.NInt.mk 0 0, IV.NInt.mk 0 0, IV.NInt.mk 0 0, IV.NInt.mk 0 0, IV.NInt.mk 0 0, IV.NInt.mk 0 0, IV.NInt.mk 0 0, IV.NInt.mk 0 0, IV.NInt.mk 0 0, IV.NInt.mk 0 0, IV.NInt.mk 0 0, IV.NInt.mk 0 0, IV.NInt.mk 0 0, IV.NInt.mk 0 0, IV.NInt.mk 0 0, IV.NInt.mk 0 0, IV.NInt.mk 0 0]) = ([IV.NInt.mk 22651942164 22651954848, IV.NInt.mk 23301782333 23301796397, IV.NInt.mk 23970265659 23970279603, IV.NInt.mk 24657926287 24657940497, IV.NInt.mk 25365314702 25365329207, IV.NInt.mk 26092996599 26093011795, IV.NInt.mk 26841554472 26841569568, IV.NInt.mk 27611586522 27611602358, IV.NInt.mk 28403709952 28403725670, IV.NInt.mk 29218556843 29218574629, IV.NInt.mk 30056781050 30056798726, IV.NInt.mk 30919052255 30919069817, IV.NInt.mk 31806060285 31806078221, IV.NInt.mk 32718514537 32718533277, IV.NInt.mk 33657145664 33657164797, IV.NInt.mk 34622704003 34622724007, IV.NInt.mk 35615962884 35615982827, IV.NInt.mk 36637715498 36637737279, IV.NInt.mk 37688781111 37688802837, IV.NInt.mk 38769999142 38770021828, IV.NInt.mk 39882236028 39882258702, IV.NInt.mk 41026380509 41026403640, IV.NInt.mk 42203348213 42203371822, IV.NInt.mk 43414080469 43414105094, IV.NInt.mk 44659547062 44659571718, IV.NInt.mk 45940743412 45940769155, IV.NInt.mk 47258694779 47258721056, IV.NInt.mk 48614455247 48614482597, IV.NInt.mk 50009110432 50009137819, IV.NInt.mk 51443775213 51443803177, IV.NInt.mk 52919597878 52919626447, IV.NInt.mk 54437758758 54437788541, IV.NInt.mk 55999473406 55999503183, IV.NInt.mk 57605989521 57606021177, IV.NInt.mk 59258594298 59258626653, IV.NInt.mk 60958608489 60958642158, IV.NInt.mk 62707393821 62707427582, IV.NInt.mk 64506348060 64506383168, IV.NInt.mk 66356910916 66356946136, IV.NInt.mk 68260562323 68260598976, IV.NInt.mk 70218826408 70218863255, IV.NInt.mk 72233267810 72233308878, IV.NInt.mk 74305501183 74305542471, IV.NInt.mk 76437181983 76437224859, IV.NInt.mk 78630017734 78630060861, IV.NInt.mk 80885760578 80885805372, IV.NInt.mk 83206217513 83206262580, IV.NInt.mk 85593243589 85593289660, IV.NInt.mk 88048748686 88048795771, IV.NInt.mk 90574697205 90574746046, IV.NInt.mk 93173110752 93173159916, IV.NInt.mk 95846066979 95846118025, IV.NInt.mk 98595706287 98595757771, IV.NInt.mk 101424226815 101424280275, IV.NInt.mk 104333891966 104333946631, IV.NInt.mk 107327029540 107327086272, IV.NInt.mk 110406035457 110406092720, IV.NInt.mk 113573369434 113573431461, IV.NInt.mk 116831570760 116831633318, IV.NInt.mk 120183242844 120183307685, IV.NInt.mk 123631068550 123631134009, IV.NInt.mk 127177805686 127177872620, IV.NInt.mk 130826291316 130826359868, IV.NInt.mk 134579444768 134579515773, IV.NInt.mk 138440269681 138440341570, IV.NInt.mk 142411853065 142411927571, IV.NInt.mk 146497374760 146497450010, IV.NInt.mk 150700101485 150700179452, IV.NInt.mk 155023397310 155023476234, IV.NInt.mk 159470718992 159470800746, IV.NInt.mk 164045625942 164045709662, IV.NInt.mk 168751778899 168751864564, IV.NInt.mk 173592941554 173593029519, IV.NInt.mk 178572986881 178573079080, IV.NInt.mk 183695900980 183695995428, IV.NInt.mk 188965781811 188965879606, IV.NInt.mk 194386846036 194386945078, IV.NInt.mk 199963429541 199963532024, IV.NInt.mk 205699994471 205700099540, IV.NInt.mk 211601129264 211601237983, IV.NInt.mk 217671557929 217671668325, IV.NInt.mk 223916133253 223916248624, IV.NInt.mk 230339855657 230339972705, IV.NInt.mk 236947862102 236947981934, IV.NInt.mk 243745439043 243745562012, IV.NInt.mk 250738024554 250738153069, IV.NInt.mk 257931214973 257931345338, IV.NInt.mk 265330764015 265330897513, IV.NInt.mk 272942591095 272942728352, IV.NInt.mk 280772786398 280772929637, IV.NInt.mk 288827615943 288827762882, IV.NInt.mk 297113522201 297113674083, IV.NInt.mk 305637136293 305637290739, IV.NInt.mk 314405274192 314405435201, IV.NInt.mk 323424955367 323425119089, IV.NInt.mk 332703393384 332703561094, IV.NInt.mk 342248011985 342248182810, IV.NInt.mk 352066446296 352066622774, IV.NInt.mk 362166553236 362166734336, IV.NInt.mk 372556411294 372556598378, IV.NInt.mk 383244336580 383244527228, IV.NInt.mk 394238877903 394239073287, IV.NInt.mk 405548829943 405549030452, IV.NInt.mk 417183242788 417183450007, IV.NInt.mk 429151424796 429151636323, IV.NInt.mk 441462947994 441463169900], [IV.NInt.mk 77348045152 77348057836, IV.NInt.mk 76698203603 76698217667, IV.NInt.mk 76029720397 76029734341, IV.NInt.mk 75342059503 75342073713, IV.NInt.mk 74634670793 74634685298, IV.NInt.mk 73906988205 73907003401, IV.NInt.mk 73158430432 73158445528, IV.NInt.mk 72388397642 72388413478, IV.NInt.mk 71596274330 71596290048, IV.NInt.mk 70781425371 70781443157, IV.NInt.mk 69943201274 69943218950, IV.NInt.mk 69080930183 69080947745, IV.NInt.mk 68193921779 68193939715, IV.NInt.mk 67281466723 67281485463, IV.NInt.mk 66342835203 66342854336, IV.NInt.mk 65377275993 65377295997, IV.NInt.mk 64384017173 64384037116, IV.NInt.mk 63362262721 63362284502, IV.NInt.mk 62311197163 62311218889, IV.NInt.mk 61229978172 61230000858, IV.NInt.mk 60117741298 60117763972, IV.NInt.mk 58973596360 58973619491, IV.NInt.mk 57796628178 57796651787, IV.NInt.mk 56585894906 56585919531, IV.NInt.mk 55340428282 55340452938, IV.NInt.mk 54059230845 54059256588, IV.NInt.mk 52741278944 52741305221, IV.NInt.mk 51385517403 51385544753, IV.NInt.mk 49990862181 49990889568, IV.NInt.mk 48556196823 48556224787, IV.NInt.mk 47080373553 47080402122, IV.NInt.mk 45562211459 45562241242, IV.NInt.mk 44000496817 44000526594, IV.NInt.mk 42393978823 42394010479, IV.NInt.mk 40741373347 40741405702, IV.NInt.mk 39041357842 39041391511, IV.NInt.mk 37292572418 37292606179, IV.NInt.mk 35493616832 35493651940, IV.NInt.mk 33643053864 33643089084, IV.NInt.mk 31739401024 31739437677, IV.NInt.mk 29781136745 29781173592, IV.NInt.mk 27766691122 27766732190, IV.NInt.mk 25694457529 25694498817, IV.NInt.mk 23562775141 23562818017, IV.NInt.mk 21369939139 21369982266, IV.NInt.mk 19114194628 19114239422, IV.NInt.mk 16793737420 16793782487, IV.NInt.mk 14442472398 14442515473, IV.NInt.mk 12221170087 12221208890, IV.NInt.mk 10167185111 10167219957, IV.NInt.mk 8301160736 8301191637, IV.NInt.mk 6639747788 6639774707, IV.NInt.mk 5193730393 5193753358, IV.NInt.mk 3966347266 3966366423, IV.NInt.mk 2952474905 2952490504, IV.NInt.mk 2138945709 2138958083, IV.NInt.mk 1505909742 1505919289, IV.NInt.mk 1028927005 1028934165, IV.NInt.mk 681379547 681384764, IV.NInt.mk 436791242 436794937, IV.NInt.mk 270723445 270725999, IV.NInt.mk 162051564 162053294, IV.NInt.mk 93579691 93580850, IV.NInt.mk 52077446 52078223, IV.NInt.mk 27900044 27900575, IV.NInt.mk 14374710 14375091, IV.NInt.mk 7115155 7115444, IV.NInt.mk 3379931 3380167, IV.NInt.mk 1539245 1539447, IV.NInt.mk 671279 671460, IV.NInt.mk 280018 280183, IV.NInt.mk 111581 111734, IV.NInt.mk 42406 42547, IV.NInt.mk 15337 15466, IV.NInt.mk 5257 5375, IV.NInt.mk 1693 1798, IV.NInt.mk 501 593, IV.NInt.mk 127 206, IV.NInt.mk 23 89, IV.NInt.mk 0 54, IV.NInt.mk 0 43, IV.NInt.mk 0 39, IV.NInt.mk 0 37, IV.NInt.mk 0 35, IV.NInt.mk 0 33, IV.NInt.mk 0 31, IV.NInt.mk 0 29, IV.NInt.mk 0 27, IV.NInt.mk 0 25, IV.NInt.mk 0 23, IV.NInt.mk 0 21, IV.NInt.mk 0 19, IV.NInt.mk 0 17, IV.NInt.mk 0 15, IV.NInt.mk 0 13, IV.NInt.mk 0 11, IV.NInt.mk 0 9, IV.NInt.mk 0 7, IV.NInt.mk 0 5, IV.NInt.mk 0 3, IV.NInt.mk 0 1, IV.NInt.mk 0 0, IV.NInt.mk 0 0, IV.NInt.mk 0 0, IV.NInt.mk 0 0, IV.NInt.mk 0 0]) := by decide

set_option maxRecDepth 100000 in
set_option maxHeartbeats 1000000 in
/-- Chunk 9 of the kernel evaluation of the C9 put lattice (18 steps). -/
theorem IV.putChunk9 : IV.loopG IV.uI9 IV.pI9 IV.qI9 IV.discI9 false IV.KSc9 18 ([IV.NInt.mk 22651942164 22651954848, IV.NInt.mk 23301782333 23301796397, IV.NInt.mk 23970265659 23970279603, IV.NInt.mk 24657926287 24657940497, IV.NInt.mk 25365314702 25365329207, IV.NInt.mk 26092996599 26093011795, IV.NInt.mk 26841554472 26841569568, IV.NInt.mk 27611586522 27611602358, IV.NInt.mk 28403709952 28403725670, IV.NInt.mk 29218556843 29218574629, IV.NInt.mk 30056781050 30056798726, IV.NInt.mk 30919052255 30919069817, IV.NInt.mk 31806060285 31806078221, IV.NInt.mk 32718514537 32718533277, IV.NInt.mk 33657145664 33657164797, IV.NInt.mk 34622704003 34622724007, IV.NInt.mk 35615962884 35615982827, IV.NInt.mk 36637715498 36637737279, IV.NInt.mk 37688781111 37688802837, IV.NInt.mk 38769999142 38770021828, IV.NInt.mk 39882236028 39882258702, IV.NInt.mk 41026380509 41026403640, IV.NInt.mk 42203348213 42203371822, IV.NInt.mk 43414080469 43414105094, IV.NInt.mk 44659547062 44659571718, IV.NInt.mk 45940743412 45940769155, IV.NInt.mk 47258694779 47258721056, IV.NInt.mk 48614455247 48614482597, IV.NInt.mk 50009110432 50009137819, IV.NInt.mk 51443775213 51443803177, IV.NInt.mk 52919597878 52919626447, IV.NInt.mk 54437758758 54437788541, IV.NInt.mk 55999473406 55999503183, IV.NInt.mk 57605989521 57606021177, IV.NInt.mk 59258594298 59258626653, IV.NInt.mk 60958608489 60958642158, IV.NInt.mk 62707393821 62707427582, IV.NInt.mk 64506348060 64506383168, IV.NInt.mk 66356910916 66356946136, IV.NInt.mk 68260562323 68260598976, IV.NInt.mk 70218826408 70218863255, IV.NInt.mk 72233267810 72233308878, IV.NInt.mk 74305501183 74305542471, IV.NInt.mk 76437181983 76437224859, IV.NInt.mk 78630017734 78630060861, IV.NInt.mk 80885760578 80885805372, IV.NInt.mk 83206217513 83206262580, IV.NInt.mk 85593243589 85593289660, IV.NInt.mk 88048748686 88048795771, IV.NInt.mk 90574697205 90574746046, IV.NInt.mk 93173110752 93173159916, IV.NInt.mk 95846066979 95846118025, IV.NInt.mk 98595706287 98595757771, IV.NInt.mk 101424226815 101424280275, IV.NInt.mk 104333891966 104333946631, IV.NInt.mk 107327029540 107327086272, IV.NInt.mk 110406035457 110406092720, IV.NInt.mk 113573369434 113573431461, IV.NInt.mk 116831570760 116831633318, IV.NInt.mk 120183242844 120183307685, IV.NInt.mk 123631068550 123631134009, IV.NInt.mk 127177805686 127177872620, IV.NInt.mk 130826291316 130826359868, IV.NInt.mk 134579444768 134579515773, IV.NInt.mk 138440269681 138440341570, IV.NInt.mk 142411853065 142411927571, IV.NInt.mk 146497374760 146497450010, IV.NInt.mk 150700101485 150700179452, IV.NInt.mk 155023397310 155023476234, IV.NInt.mk 159470718992 159470800746, IV.NInt.mk 164045625942 164045709662, IV.NInt.mk 168751778899 168751864564, IV.NInt.mk 173592941554 173593029519, IV.NInt.mk 178572986881 178573079080, IV.NInt.mk 183695900980 183695995428, IV.NInt.mk 188965781811 188965879606, IV.NInt.mk 194386846036 194386945078, IV.NInt.mk 199963429541 199963532024, IV.NInt.mk 205699994471 205700099540, IV.NInt.mk 211601129264 211601237983, IV.NInt.mk 217671557929 217671668325, IV.NInt.mk 223916133253 223916248624, IV.NInt.mk 230339855657 230339972705, IV.NInt.mk 236947862102 236947981934, IV.NInt.mk 243745439043 243745562012, IV.NInt.mk 250738024554 250738153069, IV.NInt.mk 257931214973 257931345338, IV.NInt.mk 265330764015 265330897513, IV.NInt.mk 272942591095 272942728352, IV.NInt.mk 280772786398 280772929637, IV.NInt.mk 288827615943 288827762882, IV.NInt.mk 297113522201 297113674083, IV.NInt.mk 305637136293 305637290739, IV.NInt.mk 314405274192 314405435201, IV.NInt.mk 323424955367 323425119089, IV.NInt.mk 332703393384 332703561094, IV.NInt.mk 342248011985 342248182810, IV.NInt.mk 352066446296 352066622774, IV.NInt.mk 362166553236 362166734336, IV.NInt.mk 372556411294 372556598378, IV.NInt.mk 383244336580 383244527228, IV.NInt.mk 394238877903 394239073287, IV.NInt.mk 405548829943 405549030452, IV.NInt.mk 417183242788 417183450007, IV.NInt.mk 429151424796 429151636323, IV.NInt.mk 441462947994 441463169900], [IV.NInt.mk 77348045152 77348057836, IV.NInt.mk 76698203603 76698217667, IV.NInt.mk 76029720397 76029734341, IV.NInt.mk 75342059503 75342073713, IV.NInt.mk 74634670793 74634685298, IV.NInt.mk 73906988205 73907003401, IV.NInt.mk 73158430432 73158445528, IV.NInt.mk 72388397642 72388413478, IV.NInt.mk 71596274330 71596290048, IV.NInt.mk 70781425371 70781443157, IV.NInt.mk 69943201274 69943218950, IV.NInt.mk 69080930183 69080947745, IV.NInt.mk 68193921779 68193939715, IV.NInt.mk 67281466723 67281485463, IV.NInt.mk 66342835203 66342854336, IV.NInt.mk 65377275993 65377295997, IV.NInt.mk 64384017173 64384037116, IV.NInt.mk 63362262721 63362284502, IV.NInt.mk 62311197163 62311218889, IV.NInt.mk 61229978172 61230000858, IV.NInt.mk 60117741298 60117763972, IV.NInt.mk 58973596360 58973619491, IV.NInt.mk 57796628178 57796651787, IV.NInt.mk 56585894906 56585919531, IV.NInt.mk 55340428282 55340452938, IV.NInt.mk 54059230845 54059256588, IV.NInt.mk 52741278944 52741305221, IV.NInt.mk 51385517403 51385544753, IV.NInt.mk 49990862181 49990889568, IV.NInt.mk 48556196823 48556224787, IV.NInt.mk 47080373553 47080402122, IV.NInt.mk 45562211459 45562241242, IV.NInt.mk 44000496817 44000526594, IV.NInt.mk 42393978823 42394010479, IV.NInt.mk 40741373347 40741405702, IV.NInt.mk 39041357842 39041391511, IV.NInt.mk 37292572418 37292606179, IV.NInt.mk 35493616832 35493651940, IV.NInt.mk 33643053864 33643089084, IV.NInt.mk 31739401024 31739437677, IV.NInt.mk 29781136745 29781173592, IV.NInt.mk 27766691122 27766732190, IV.NInt.mk 25694457529 25694498817, IV.NInt.mk 23562775141 23562818017, IV.NInt.mk 21369939139 21369982266, IV.NInt.mk 19114194628 19114239422, IV.NInt.mk 16793737420 16793782487, IV.NInt.mk 14442472398 14442515473, IV.NInt.mk 12221170087 12221208890, IV.NInt.mk 10167185111 10167219957, IV.NInt.mk 8301160736 8301191637, IV.NInt.mk 6639747788 6639774707, IV.NInt.mk 5193730393 5193753358, IV.NInt.mk 3966347266 3966366423, IV.NInt.mk 2952474905 2952490504, IV.NInt.mk 2138945709 2138958083, IV.NInt.mk 1505909742 1505919289, IV.NInt.mk 1028927005 1028934165, IV.NInt.mk 681379547 681384764, IV.NInt.mk 436791242 436794937, IV.NInt.mk 270723445 270725999, IV.NInt.mk 162051564 162053294, IV.NInt.mk 93579691 93580850, IV.NInt.mk 52077446 52078223, IV.NInt.mk 27900044 27900575, IV.NInt.mk 14374710 14375091, IV.NInt.mk 7115155 7115444, IV.NInt.mk 3379931 3380167, IV.NInt.mk 1539245 1539447, IV.NInt.mk 671279 671460, IV.NInt.mk 280018 280183, IV.NInt.mk 111581 111734, IV.NInt.mk 42406 42547, IV.NInt.mk 15337 15466, IV.NInt.mk 5257 5375, IV.NInt.mk 1693 1798, IV.NInt.mk 501 593, IV.NInt.mk 127 206, IV.NInt.mk 23 89, IV.NInt.mk 0 54, IV.NInt.mk 0 43, IV.NInt.mk 0 39, IV.NInt.mk 0 37, IV.NInt.mk 0 35, IV.NInt.mk 0 33, IV.NInt.mk 0 31, IV.NInt.mk 0 29, IV.NInt.mk 0 27, IV.NInt.mk 0 25, IV.NInt.mk 0 23, IV.NInt.mk 0 21, IV.NInt.mk 0 19, IV.NInt.mk 0 17, IV.NInt.mk 0 15, IV.NInt.mk 0 13, IV.NInt.mk 0 11, IV.NInt.mk 0 9, IV.NInt.mk 0 7, IV.NInt.mk 0 5, IV.NInt.mk 0 3, IV.NInt.mk 0 1, IV.NInt.mk 0 0, IV.NInt.mk 0 0, IV.NInt.mk 0 0, IV.NInt.mk 0 0, IV.NInt.mk 0 0]) = ([IV.NInt.mk 29218557068 29218573969, IV.NInt.mk 30056780648 30056799346, IV.NInt.mk 30919051888 30919070444, IV.NInt.mk 31806059772 31806078688, IV.NInt.mk 32718514369 32718533682, IV.NInt.mk 33657145369 33657165585, IV.NInt.mk 34622704116 34622724224, IV.NInt.mk 35615962233 35615983309, IV.NInt.mk 36637715840 36637736785, IV.NInt.mk 37688780259 37688803890, IV.NInt.mk 38769998885 38770022398, IV.NInt.mk 39882235542 39882258925, IV.NInt.mk 41026380030 41026403916, IV.NInt.mk 42203347394 42203372338, IV.NInt.mk 43414080098 43414105567, IV.NInt.mk 44659545994 44659572610, IV.NInt.mk 45940742595 45940769154, IV.NInt.mk 47258693030 47258721985, IV.NInt.mk 48614454069 48614482977, IV.NInt.mk 50009108464 50009138637, IV.NInt.mk 51443773836 51443804014, IV.NInt.mk 52919596551 52919627348, IV.NInt.mk 54437757678 54437789116, IV.NInt.mk 55999471427 55999504204, IV.NInt.mk 57605988719 57606021563, IV.NInt.mk 59258593532 59258627809, IV.NInt.mk 60958608346 60958643342, IV.NInt.mk 62707392812 62707429226, IV.NInt.mk 64506347262 64506383754, IV.NInt.mk 66356909766 66356947034, IV.NInt.mk 68260561491 68260599574, IV.NInt.mk 70218824938 70218864620, IV.NInt.mk 72233268036 72233307748, IV.NInt.mk 74305500185 74305542357, IV.NInt.mk 76437181729 76437224841, IV.NInt.mk 78630016287 78630061136, IV.NInt.mk 80885760354 80885805355, IV.NInt.mk 83206216885 83206263665, IV.NInt.mk 85593242949 85593289919, IV.NInt.mk 88048747511 88048796372, IV.NInt.mk 90574696525 90574745683, IV.NInt.mk 93173108205 93173162849, IV.NInt.mk 95846065278 95846120256, IV.NInt.mk 98595703108 98595760184, IV.NInt.mk 101424224218 101424281669, IV.NInt.mk 104333888679 104333948327, IV.NInt.mk 107327027321 107327087378, IV.NInt.mk 110406032957 110406094366, IV.NInt.mk 113573369133 113573431903, IV.NInt.mk 116831569708 116831634803, IV.NInt.mk 120183242336 120183307904, IV.NInt.mk 123631066965 123631135025, IV.NInt.mk 127177804482 127177873166, IV.NInt.mk 130826290245 130826361546, IV.NInt.mk 134579443801 134579516721, IV.NInt.mk 138440267761 138440343417, IV.NInt.mk 142411852602 142411929012, IV.NInt.mk 146497371094 146497453726, IV.NInt.mk 150700098646 150700182033, IV.NInt.mk 155023393373 155023479782, IV.NInt.mk 159470715878 159470803165, IV.NInt.mk 164045623438 164045712710, IV.NInt.mk 168751775559 168751866997, IV.NInt.mk 173592937854 173593032545, IV.NInt.mk 178572984699 178573080618, IV.NInt.mk 183695898001 183695997385, IV.NInt.mk 188965779403 188965879847, IV.NInt.mk 194386842638 194386946674, IV.NInt.mk 199963426971 199963532343, IV.NInt.mk 205699991257 205700100378, IV.NInt.mk 211601126746 211601238511, IV.NInt.mk 217671555400 217671669785, IV.NInt.mk 223916131975 223916249434, IV.NInt.mk 230339852182 230339975215, IV.NInt.mk 236947857663 236947983717, IV.NInt.mk 243745434347 243745564837, IV.NInt.mk 250738021265 250738153488, IV.NInt.mk 257931211249 257931348038, IV.NInt.mk 265330759977 265330900236, IV.NInt.mk 272942586039 272942731144, IV.NInt.mk 280772782903 280772930307, IV.NInt.mk 288827610133 288827764094, IV.NInt.mk 297113517731 297113674005, IV.NInt.mk 305637131826 305637291843, IV.NInt.mk 314405271374 314405435589, IV.NInt.mk 323424950894 323425122427, IV.NInt.mk 332703389065 332703563147, IV.NInt.mk 342248007559 342248185849], [IV.NInt.mk 70781426031 70781442932, IV.NInt.mk 69943200654 69943219352, IV.NInt.mk 69080929556 69080948112, IV.NInt.mk 68193921312 68193940228, IV.NInt.mk 67281466318 67281485631, IV.NInt.mk 66342834415 66342854631, IV.NInt.mk 65377275776 65377295884, IV.NInt.mk 64384016691 64384037767, IV.NInt.mk 63362263215 63362284160, IV.NInt.mk 62311196110 62311219741, IV.NInt.mk 61229977602 61230001115, IV.NInt.mk 60117741075 60117764458, IV.NInt.mk 58973596084 58973619970, IV.NInt.mk 57796627662 57796652606, IV.NInt.mk 56585894433 56585919902, IV.NInt.mk 55340427390 55340454006, IV.NInt.mk 54059230846 54059257405, IV.NInt.mk 52741278015 52741306970, IV.NInt.mk 51385517023 51385545931, IV.NInt.mk 49990861363 49990891536, IV.NInt.mk 48556195986 48556226164, IV.NInt.mk 47080372652 47080403449, IV.NInt.mk 45562210884 45562242322, IV.NInt.mk 44000495796 44000528573, IV.NInt.mk 42393978437 42394011281, IV.NInt.mk 40741372191 40741406468, IV.NInt.mk 39041356658 39041391654, IV.NInt.mk 37292570774 37292607188, IV.NInt.mk 35493616246 35493652738, IV.NInt.mk 33643052966 33643090234, IV.NInt.mk 31739400426 31739438509, IV.NInt.mk 29781135380 29781175062, IV.NInt.mk 27766692252 27766731964, IV.NInt.mk 25694457643 25694499815, IV.NInt.mk 23562775159 23562818271, IV.NInt.mk 21369938864 21369983713, IV.NInt.mk 19114194645 19114239646, IV.NInt.mk 16793736335 16793783115, IV.NInt.mk 14490820527 14490863276, IV.NInt.mk 12338157815 12338197110, IV.NInt.mk 10351315347 10351350625, IV.NInt.mk 8544900790 8544931909, IV.NInt.mk 6930819631 6930846702, IV.NInt.mk 5516330266 5516353473, IV.NInt.mk 4302745750 4302765304, IV.NInt.mk 3284985238 3285001393, IV.NInt.mk 2451884068 2451897131, IV.NInt.mk 1787135535 1787145865, IV.NInt.mk 1270703986 1270711968, IV.NInt.mk 880489042 880495066, IV.NInt.mk 593995083 593999529, IV.NInt.mk 389788509 389791723, IV.NInt.mk 248593298 248595581, IV.NInt.mk 153959825 153961426, IV.NInt.mk 92521000 92522121, IV.NInt.mk 53908446 53909239, IV.NInt.mk 30432265 30432839, IV.NInt.mk 16632455 16632887, IV.NInt.mk 8794481 8794823, IV.NInt.mk 4495562 4495849, IV.NInt.mk 2220055 2220306, IV.NInt.mk 1058350 1058576, IV.NInt.mk 486686 486895, IV.NInt.mk 215707 215901, IV.NInt.mk 92058 92240, IV.NInt.mk 37787 37957, IV.NInt.mk 14890 15047, IV.NInt.mk 5615 5758, IV.NInt.mk 2011 2142, IV.NInt.mk 672 789, IV.NInt.mk 200 304, IV.NInt.mk 48 136, IV.NInt.mk 5 79, IV.NInt.mk 0 60, IV.NInt.mk 0 54, IV.NInt.mk 0 51, IV.NInt.mk 0 49, IV.NInt.mk 0 47, IV.NInt.mk 0 45, IV.NInt.mk 0 43, IV.NInt.mk 0 41, IV.NInt.mk 0 39, IV.NInt.mk 0 37, IV.NInt.mk 0 35, IV.NInt.mk 0 33, IV.NInt.mk 0 31, IV.NInt.mk 0 29, IV.NInt.mk 0 27]) := by decide

set_option maxRecDepth 100000 in
set_option maxHeartbeats 1000000 in
/-- Chunk 10 of the kernel evaluation of the C9 put lattice (22 steps). -/
theorem IV.putChunk10 : IV.loopG IV.uI9 IV.pI9 IV.qI9 IV.discI9 false IV.KSc9 22 ([IV.NInt.mk 29218557068 29218573969, IV.NInt.mk 30056780648 30056799346, IV.NInt.mk 30919051888 30919070444, IV.NInt.mk 31806059772 31806078688, IV.NInt.mk 32718514369 32718533682, IV.NInt.mk 33657145369 33657165585, IV.NInt.mk 34622704116 34622724224, IV.NInt.mk 35615962233 35615983309, IV.NInt.mk 36637715840 36637736785, IV.NInt.mk 37688780259 37688803890, IV.NInt.mk 38769998885 38770022398, IV.NInt.mk 39882235542 39882258925, IV.NInt.mk 41026380030 41026403916, IV.NInt.mk 42203347394 42203372338, IV.NInt.mk 43414080098 43414105567, IV.NInt.mk 44659545994 44659572610, IV.NInt.mk 45940742595 45940769154, IV.NInt.mk 47258693030 47258721985, IV.NInt.mk 48614454069 48614482977, IV.NInt.mk 50009108464 50009138637, IV.NInt.mk 51443773836 51443804014, IV.NInt.mk 52919596551 52919627348, IV.NInt.mk 54437757678 54437789116, IV.NInt.mk 55999471427 55999504204, IV.NInt.mk 57605988719 57606021563, IV.NInt.mk 59258593532 59258627809, IV.NInt.mk 60958608346 60958643342, IV.NInt.mk 62707392812 62707429226, IV.NInt.mk 64506347262 64506383754, IV.NInt.mk 66356909766 66356947034, IV.NInt.mk 68260561491 68260599574, IV.NInt.mk 70218824938 70218864620, IV.NInt.mk 72233268036 72233307748, IV.NInt.mk 74305500185 74305542357, IV.NInt.mk 76437181729 76437224841, IV.NInt.mk 78630016287 78630061136, IV.NInt.mk 80885760354 80885805355, IV.NInt.mk 83206216885 83206263665, IV.NInt.mk 85593242949 85593289919, IV.NInt.mk 88048747511 88048796372, IV.NInt.mk 90574696525 90574745683, IV.NInt.mk 93173108205 93173162849, IV.NInt.mk 95846065278 95846120256, IV.NInt.mk 98595703108 98595760184, IV.NInt.mk 101424224218 101424281669, IV.NInt.mk 104333888679 104333948327, IV.NInt.mk 107327027321 107327087378, IV.NInt.mk 110406032957 110406094366, IV.NInt.mk 113573369133 113573431903, IV.NInt.mk 116831569708 116831634803, IV.NInt.mk 120183242336 120183307904, IV.NInt.mk 123631066965 123631135025, IV.NInt.mk 127177804482 127177873166, IV.NInt.mk 130826290245 130826361546, IV.NInt.mk 134579443801 134579516721, IV.NInt.mk 138440267761 138440343417, IV.NInt.mk 142411852602 142411929012, IV.NInt.mk 146497371094 146497453726, IV.NInt.mk 150700098646 150700182033, IV.NInt.mk 155023393373 155023479782, IV.NInt.mk 159470715878 159470803165, IV.NInt.mk 164045623438 164045712710, IV.NInt.mk 168751775559 168751866997, IV.NInt.mk 173592937854 173593032545, IV.NInt.mk 178572984699 178573080618, IV.NInt.mk 183695898001 183695997385, IV.NInt.mk 188965779403 188965879847, IV.NInt.mk 194386842638 194386946674, IV.NInt.mk 199963426971 199963532343, IV.NInt.mk 205699991257 205700100378, IV.NInt.mk 211601126746 211601238511, IV.NInt.mk 217671555400 217671669785, IV.NInt.mk 223916131975 223916249434, IV.NInt.mk 230339852182 230339975215, IV.NInt.mk 236947857663 236947983717, IV.NInt.mk 243745434347 243745564837, IV.NInt.mk 250738021265 250738153488, IV.NInt.mk 257931211249 257931348038, IV.NInt.mk 265330759977 265330900236, IV.NInt.mk 272942586039 272942731144, IV.NInt.mk 280772782903 280772930307, IV.NInt.mk 288827610133 288827764094, IV.NInt.mk 297113517731 297113674005, IV.NInt.mk 305637131826 305637291843, IV.NInt.mk 314405271374 314405435589, IV.NInt.mk 323424950894 323425122427, IV.NInt.mk 332703389065 332703563147, IV.NInt.mk 342248007559 342248185849], [IV.NInt.mk 70781426031 70781442932, IV.NInt.mk 69943200654 69943219352, IV.NInt.mk 69080929556 69080948112, IV.NInt.mk 68193921312 68193940228, IV.NInt.mk 67281466318 67281485631, IV.NInt.mk 66342834415 66342854631, IV.NInt.mk 65377275776 65377295884, IV.NInt.mk 64384016691 64384037767, IV.NInt.mk 63362263215 63362284160, IV.NInt.mk 62311196110 62311219741, IV.NInt.mk 61229977602 61230001115, IV.NInt.mk 60117741075 60117764458, IV.NInt.mk 58973596084 58973619970, IV.NInt.mk 57796627662 57796652606, IV.NInt.mk 56585894433 56585919902, IV.NInt.mk 55340427390 55340454006, IV.NInt.mk 54059230846 54059257405, IV.NInt.mk 52741278015 52741306970, IV.NInt.mk 51385517023 51385545931, IV.NInt.mk 49990861363 49990891536, IV.NInt.mk 48556195986 48556226164, IV.NInt.mk 47080372652 47080403449, IV.NInt.mk 45562210884 45562242322, IV.NInt.mk 44000495796 44000528573, IV.NInt.mk 42393978437 42394011281, IV.NInt.mk 40741372191 40741406468, IV.NInt.mk 39041356658 39041391654, IV.NInt.mk 37292570774 37292607188, IV.NInt.mk 35493616246 35493652738, IV.NInt.mk 33643052966 33643090234, IV.NInt.mk 31739400426 31739438509, IV.NInt.mk 29781135380 29781175062, IV.NInt.mk 27766692252 27766731964, IV.NInt.mk 25694457643 25694499815, IV.NInt.mk 23562775159 23562818271, IV.NInt.mk 21369938864 21369983713, IV.NInt.mk 19114194645 19114239646, IV.NInt.mk 16793736335 16793783115, IV.NInt.mk 14490820527 14490863276, IV.NInt.mk 12338157815 12338197110, IV.NInt.mk 10351315347 10351350625, IV.NInt.mk 8544900790 8544931909, IV.NInt.mk 6930819631 6930846702, IV.NInt.mk 5516330266 5516353473, IV.NInt.mk 4302745750 4302765304, IV.NInt.mk 3284985238 3285001393, IV.NInt.mk 2451884068 2451897131, IV.NInt.mk 1787135535 1787145865, IV.NInt.mk 1270703986 1270711968, IV.NInt.mk 880489042 880495066, IV.NInt.mk 593995083 593999529, IV.NInt.mk 389788509 389791723, IV.NInt.mk 248593298 248595581, IV.NInt.mk 153959825 153961426, IV.NInt.mk 92521000 92522121, IV.NInt.mk 53908446 53909239, IV.NInt.mk 30432265 30432839, IV.NInt.mk 16632455 16632887, IV.NInt.mk 8794481 8794823, IV.NInt.mk 4495562 4495849, IV.NInt.mk 2220055 2220306, IV.NInt.mk 1058350 1058576, IV.NInt.mk 486686 486895, IV.NInt.mk 215707 215901, IV.NInt.mk 92058 92240, IV.NInt.mk 37787 37957, IV.NInt.mk 14890 15047, IV.NInt.mk 5615 5758, IV.NInt.mk 2011 2142, IV.NInt.mk 672 789, IV.NInt.mk 200 304, IV.NInt.mk 48 136, IV.NInt.mk 5 79, IV.NInt.mk 0 60, IV.NInt.mk 0 54, IV.NInt.mk 0 51, IV.NInt.mk 0 49, IV.NInt.mk 0 47, IV.NInt.mk 0 45, IV.NInt.mk 0 43, IV.NInt.mk 0 41, IV.NInt.mk 0 39, IV.NInt.mk 0 37, IV.NInt.mk 0 35, IV.NInt.mk 0 33, IV.NInt.mk 0 31, IV.NInt.mk 0 29, IV.NInt.mk 0 27]) = ([IV.NInt.mk 39882235199 39882259160, IV.NInt.mk 41026378967 41026405406, IV.NInt.mk 42203346890 42203373160, IV.NInt.mk 43414079407 43414106192, IV.NInt.mk 44659545730 44659573085, IV.NInt.mk 45940741860 45940770478, IV.NInt.mk 47258693360 47258721855, IV.NInt.mk 48614453458 48614483308, IV.NInt.mk 50009108836 50009138531, IV.NInt.mk 51443772372 51443805768, IV.NInt.mk 52919595270 52919628535, IV.NInt.mk 54437756617 54437789742, IV.NInt.mk 55999470956 55999504800, IV.NInt.mk 57605987295 57606022612, IV.NInt.mk 59258592052 59258628124, IV.NInt.mk 60958606316 60958643996, IV.NInt.mk 62707391656 62707429293, IV.NInt.mk 64506344596 64506385545, IV.NInt.mk 66356907600 66356948520, IV.NInt.mk 68260558575 68260601265, IV.NInt.mk 70218823031 70218865773, IV.NInt.mk 72233265720 72233309351, IV.NInt.mk 74305498755 74305543303, IV.NInt.mk 76437179482 76437225907, IV.NInt.mk 78630015373 78630061932, IV.NInt.mk 80885758996 80885807564, IV.NInt.mk 83206215499 83206265096, IV.NInt.mk 85593240746 85593292331, IV.NInt.mk 88048746142 88048797887, IV.NInt.mk 90574694592 90574747454, IV.NInt.mk 93173107847 93173161872, IV.NInt.mk 95846064052 95846120318, IV.NInt.mk 98595703370 98595759741, IV.NInt.mk 101424222583 101424282374, IV.NInt.mk 104333887990 104333949124, IV.NInt.mk 107327024969 107327088539, IV.NInt.mk 110406031072 110406094917, IV.NInt.mk 113573367258 113573433599, IV.NInt.mk 116831568362 116831635036, IV.NInt.mk 120183240050 120183309381, IV.NInt.mk 123631065777 123631135584, IV.NInt.mk 127177800323 127177877694, IV.NInt.mk 130826286543 130826364446, IV.NInt.mk 134579439116 134579519967, IV.NInt.mk 138440264410 138440345855, IV.NInt.mk 142411847339 142411931871, IV.NInt.mk 146497369392 146497454572, IV.NInt.mk 150700096676 150700183793, IV.NInt.mk 155023391838 155023480908, IV.NInt.mk 159470713497 159470805836, IV.NInt.mk 164045621007 164045714089, IV.NInt.mk 168751772393 168751868977, IV.NInt.mk 173592936160 173593033705, IV.NInt.mk 178572982474 178573083698, IV.NInt.mk 183695896399 183695999947, IV.NInt.mk 188965776395 188965883785, IV.NInt.mk 194386840837 194386949374, IV.NInt.mk 199963420445 199963537593, IV.NInt.mk 205699986022 205700104325, IV.NInt.mk 211601121279 211601243834, IV.NInt.mk 217671549799 217671673690, IV.NInt.mk 223916127137 223916253875, IV.NInt.mk 230339848384 230339978217, IV.NInt.mk 236947853460 236947987877, IV.NInt.mk 243745430737 243745566979, IV.NInt.mk 250738015377 250738156497], [IV.NInt.mk 60117740840 60117764801, IV.NInt.mk 58973594594 58973621033, IV.NInt.mk 57796626840 57796653110, IV.NInt.mk 56585893808 56585920593, IV.NInt.mk 55340426915 55340454270, IV.NInt.mk 54059229522 54059258140, IV.NInt.mk 52741278145 52741306640, IV.NInt.mk 51385516692 51385546542, IV.NInt.mk 49990861469 49990891164, IV.NInt.mk 48556194232 48556227628, IV.NInt.mk 47080371465 47080404730, IV.NInt.mk 45562210258 45562243383, IV.NInt.mk 44000495200 44000529044, IV.NInt.mk 42393977388 42394012705, IV.NInt.mk 40741371876 40741407948, IV.NInt.mk 39041356004 39041393684, IV.NInt.mk 37292570707 37292608344, IV.NInt.mk 35493614455 35493655404, IV.NInt.mk 33643051480 33643092400, IV.NInt.mk 31739398735 31739441425, IV.NInt.mk 29781134227 29781176969, IV.NInt.mk 27766690649 27766734280, IV.NInt.mk 25694456697 25694501245, IV.NInt.mk 23562774093 23562820518, IV.NInt.mk 21369938068 21369984627, IV.NInt.mk 19114192436 19114241004, IV.NInt.mk 16794803191 16794851078, IV.NInt.mk 14564973514 14565017779, IV.NInt.mk 12483238013 12483277509, IV.NInt.mk 10562548757 10562584088, IV.NInt.mk 8814303574 8814334887, IV.NInt.mk 7246614156 7246641567, IV.NInt.mk 5863624868 5863648532, IV.NInt.mk 4664985147 4665005267, IV.NInt.mk 3645640467 3645657297, IV.NInt.mk 2796034798 2796048638, IV.NInt.mk 2102722412 2102733591, IV.NInt.mk 1549305291 1549314157, IV.NInt.mk 1117562366 1117569267, IV.NInt.mk 788620949 788626225, IV.NInt.mk 544033465 544037432, IV.NInt.mk 366655535 366658473, IV.NInt.mk 241265288 241267438, IV.NInt.mk 154908966 154910532, IV.NInt.mk 96996367 96997511, IV.NInt.mk 59196084 59196930, IV.NInt.mk 35193155 35193798, IV.NInt.mk 20371665 20372172, IV.NInt.mk 11475668 11476083, IV.NInt.mk 6287755 6288109, IV.NInt.mk 3349377 3349691, IV.NInt.mk 1733670 1733956, IV.NInt.mk 871533 871796, IV.NInt.mk 425289 425537, IV.NInt.mk 201334 201568, IV.NInt.mk 92405 92625, IV.NInt.mk 41081 41287, IV.NInt.mk 17666 17860, IV.NInt.mk 7331 7512, IV.NInt.mk 2921 3087, IV.NInt.mk 1105 1255, IV.NInt.mk 386 522, IV.NInt.mk 116 238, IV.NInt.mk 26 130, IV.NInt.mk 1 90, IV.NInt.mk 0 76]) := by decide

set_option maxRecDepth 100000 in
set_option maxHeartbeats 1000000 in
/-- Chunk 11 of the kernel evaluation of the C9 put lattice (30 steps). -/
theorem IV.putChunk11 : IV.loopG IV.uI9 IV.pI9 IV.qI9 IV.discI9 false IV.KSc9 30 ([IV.NInt.mk 39882235199 39882259160, IV.NInt.mk 41026378967 41026405406, IV.NInt.mk 42203346890 42203373160, IV.NInt.mk 43414079407 43414106192, IV.NInt.mk 44659545730 44659573085, IV.NInt.mk 45940741860 45940770478, IV.NInt.mk 47258693360 47258721855, IV.NInt.mk 48614453458 48614483308, IV.NInt.mk 50009108836 50009138531, IV.NInt.mk 51443772372 51443805768, IV.NInt.mk 52919595270 52919628535, IV.NInt.mk 54437756617 54437789742, IV.NInt.mk 55999470956 55999504800, IV.NInt.mk 57605987295 57606022612, IV.NInt.mk 59258592052 59258628124, IV.NInt.mk 60958606316 60958643996, IV.NInt.mk 62707391656 62707429293, IV.NInt.mk 64506344596 64506385545, IV.NInt.mk 66356907600 66356948520, IV.NInt.mk 68260558575 68260601265, IV.NInt.mk 70218823031 70218865773, IV.NInt.mk 72233265720 72233309351, IV.NInt.mk 74305498755 74305543303, IV.NInt.mk 76437179482 76437225907, IV.NInt.mk 78630015373 78630061932, IV.NInt.mk 80885758996 80885807564, IV.NInt.mk 83206215499 83206265096, IV.NInt.mk 85593240746 85593292331, IV.NInt.mk 88048746142 88048797887, IV.NInt.mk 90574694592 90574747454, IV.NInt.mk 93173107847 93173161872, IV.NInt.mk 95846064052 95846120318, IV.NInt.mk 98595703370 98595759741, IV.NInt.mk 101424222583 101424282374, IV.NInt.mk 104333887990 104333949124, IV.NInt.mk 107327024969 107327088539, IV.NInt.mk 110406031072 110406094917, IV.NInt.mk 113573367258 113573433599, IV.NInt.mk 116831568362 116831635036, IV.NInt.mk 120183240050 120183309381, IV.NInt.mk 123631065777 123631135584, IV.NInt.mk 127177800323 127177877694, IV.NInt.mk 130826286543 130826364446, IV.NInt.mk 134579439116 134579519967, IV.NInt.mk 138440264410 138440345855, IV.NInt.mk 142411847339 142411931871, IV.NInt.mk 146497369392 146497454572, IV.NInt.mk 150700096676 150700183793, IV.NInt.mk 155023391838 155023480908, IV.NInt.mk 159470713497 159470805836, IV.NInt.mk 164045621007 164045714089, IV.NInt.mk 168751772393 168751868977, IV.NInt.mk 173592936160 173593033705, IV.NInt.mk 178572982474 178573083698, IV.NInt.mk 183695896399 183695999947, IV.NInt.mk 188965776395 188965883785, IV.NInt.mk 194386840837 194386949374, IV.NInt.mk 199963420445 199963537593, IV.NInt.mk 205699986022 205700104325, IV.NInt.mk 211601121279 211601243834, IV.NInt.mk 217671549799 217671673690, IV.NInt.mk 223916127137 223916253875, IV.NInt.mk 230339848384 230339978217, IV.NInt.mk 236947853460 236947987877, IV.NInt.mk 243745430737 243745566979, IV.NInt.mk 250738015377 250738156497], [IV.NInt.mk 60117740840 60117764801, IV.NInt.mk 58973594594 58973621033, IV.NInt.mk 57796626840 57796653110, IV.NInt.mk 56585893808 56585920593, IV.NInt.mk 55340426915 55340454270, IV.NInt.mk 54059229522 54059258140, IV.NInt.mk 52741278145 52741306640, IV.NInt.mk 51385516692 51385546542, IV.NInt.mk 49990861469 49990891164, IV.NInt.mk 48556194232 48556227628, IV.NInt.mk 47080371465 47080404730, IV.NInt.mk 45562210258 45562243383, IV.NInt.mk 44000495200 44000529044, IV.NInt.mk 42393977388 42394012705, IV.NInt.mk 40741371876 40741407948, IV.NInt.mk 39041356004 39041393684, IV.NInt.mk 37292570707 37292608344, IV.NInt.mk 35493614455 35493655404, IV.NInt.mk 33643051480 33643092400, IV.NInt.mk 31739398735 31739441425, IV.NInt.mk 29781134227 29781176969, IV.NInt.mk 27766690649 27766734280, IV.NInt.mk 25694456697 25694501245, IV.NInt.mk 23562774093 23562820518, IV.NInt.mk 21369938068 21369984627, IV.NInt.mk 19114192436 19114241004, IV.NInt.mk 16794803191 16794851078, IV.NInt.mk 14564973514 14565017779, IV.NInt.mk 12483238013 12483277509, IV.NInt.mk 10562548757 10562584088, IV.NInt.mk 8814303574 8814334887, IV.NInt.mk 7246614156 7246641567, IV.NInt.mk 5863624868 5863648532, IV.NInt.mk 4664985147 4665005267, IV.NInt.mk 3645640467 3645657297, IV.NInt.mk 2796034798 2796048638, IV.NInt.mk 2102722412 2102733591, IV.NInt.mk 1549305291 1549314157, IV.NInt.mk 1117562366 1117569267, IV.NInt.mk 788620949 788626225, IV.NInt.mk 544033465 544037432, IV.NInt.mk 366655535 366658473, IV.NInt.mk 241265288 241267438, IV.NInt.mk 154908966 154910532, IV.NInt.mk 96996367 96997511, IV.NInt.mk 59196084 59196930, IV.NInt.mk 35193155 35193798, IV.NInt.mk 20371665 20372172, IV.NInt.mk 11475668 11476083, IV.NInt.mk 6287755 6288109, IV.NInt.mk 3349377 3349691, IV.NInt.mk 1733670 1733956, IV.NInt.mk 871533 871796, IV.NInt.mk 425289 425537, IV.NInt.mk 201334 201568, IV.NInt.mk 92405 92625, IV.NInt.mk 41081 41287, IV.NInt.mk 17666 17860, IV.NInt.mk 7331 7512, IV.NInt.mk 2921 3087, IV.NInt.mk 1105 1255, IV.NInt.mk 386 522, IV.NInt.mk 116 238, IV.NInt.mk 26 130, IV.NInt.mk 1 90, IV.NInt.mk 0 76]) = ([IV.NInt.mk 60958605738 60958644202, IV.NInt.mk 62707389590 62707431892, IV.NInt.mk 64506344017 64506386118, IV.NInt.mk 66356906448 66356949387, IV.NInt.mk 68260558289 68260602163, IV.NInt.mk 70218821898 70218867758, IV.NInt.mk 72233264808 72233310536, IV.NInt.mk 74305496844 74305544701, IV.NInt.mk 76437178952 76437226639, IV.NInt.mk 78630012139 78630065552, IV.NInt.mk 80885755975 80885809250, IV.NInt.mk 83206212657 83206265779, IV.NInt.mk 85593238561 85593292861, IV.NInt.mk 88048742767 88048799387, IV.NInt.mk 90574691508 90574749358, IV.NInt.mk 93173104031 93173164413, IV.NInt.mk 95846061442 95846121836, IV.NInt.mk 98595698276 98595763819, IV.NInt.mk 101424219298 101424284878, IV.NInt.mk 104333883427 104333951797, IV.NInt.mk 107327022363 107327090905, IV.NInt.mk 110406027769 110406097756, IV.NInt.mk 113573363701 113573435185, IV.NInt.mk 116831563357 116831637806, IV.NInt.mk 120183236546 120183311303, IV.NInt.mk 123631062017 123631139942, IV.NInt.mk 127177798860 127177878467, IV.NInt.mk 130826283716 130826366468, IV.NInt.mk 134579438085 134579521195, IV.NInt.mk 138440262207 138440347138, IV.NInt.mk 142411846255 142411933082, IV.NInt.mk 146497366605 146497456977, IV.NInt.mk 150700094422 150700185081, IV.NInt.mk 155023387404 155023483412, IV.NInt.mk 159470709515 159470807710, IV.NInt.mk 164045615014 164045717067], [IV.NInt.mk 39041355798 39041394262, IV.NInt.mk 37292568108 37292610410, IV.NInt.mk 35493613882 35493655983, IV.NInt.mk 33643050613 33643093552, IV.NInt.mk 31739397837 31739441711, IV.NInt.mk 29781132242 29781178102, IV.NInt.mk 27766689464 27766735192, IV.NInt.mk 25694455299 25694503156, IV.NInt.mk 23562773361 23562821048, IV.NInt.mk 21369934448 21369987861, IV.NInt.mk 19114190750 19114244025, IV.NInt.mk 16832809895 16832859697, IV.NInt.mk 14679296012 14679340994, IV.NInt.mk 12674117212 12674157641, IV.NInt.mk 10825675701 10825711773, IV.NInt.mk 9140565612 9140597562, IV.NInt.mk 7623085049 7623113099, IV.NInt.mk 6274737897 6274762265, IV.NInt.mk 5093859519 5093880441, IV.NInt.mk 4075470316 4075488049, IV.NInt.mk 3211401959 3211416789, IV.NInt.mk 2490683382 2490695614, IV.NInt.mk 1900132787 1900142731, IV.NInt.mk 1425080067 1425088034, IV.NInt.mk 1050137156 1050143453, IV.NInt.mk 759938516 759943422, IV.NInt.mk 539787340 539791120, IV.NInt.mk 376162877 376165764, IV.NInt.mk 257066514 257068704, IV.NInt.mk 172205869 172207530, IV.NInt.mk 113033719 113034986, IV.NInt.mk 72670439 72671416, IV.NInt.mk 45744164 45744935, IV.NInt.mk 28182898 28183526, IV.NInt.mk 16988545 16989071, IV.NInt.mk 10016118 10016574]) := by decide

set_option maxRecDepth 100000 in
set_option maxHeartbeats 1000000 in
/-- Chunk 12 of the kernel evaluation of the C9 put lattice (35 steps). -/
theorem IV.putChunk12 : IV.loopG IV.uI9 IV.pI9 IV.qI9 IV.discI9 false IV.KSc9 35 ([IV.NInt.mk 60958605738 60958644202, IV.NInt.mk 62707389590 62707431892, IV.NInt.mk 64506344017 64506386118, IV.NInt.mk 66356906448 66356949387, IV.NInt.mk 68260558289 68260602163, IV.NInt.mk 70218821898 70218867758, IV.NInt.mk 72233264808 72233310536, IV.NInt.mk 74305496844 74305544701, IV.NInt.mk 76437178952 76437226639, IV.NInt.mk 78630012139 78630065552, IV.NInt.mk 80885755975 80885809250, IV.NInt.mk 83206212657 83206265779, IV.NInt.mk 85593238561 85593292861, IV.NInt.mk 88048742767 88048799387, IV.NInt.mk 90574691508 90574749358, IV.NInt.mk 93173104031 93173164413, IV.NInt.mk 95846061442 95846121836, IV.NInt.mk 98595698276 98595763819, IV.NInt.mk 101424219298 101424284878, IV.NInt.mk 104333883427 104333951797, IV.NInt.mk 107327022363 107327090905, IV.NInt.mk 110406027769 110406097756, IV.NInt.mk 113573363701 113573435185, IV.NInt.mk 116831563357 116831637806, IV.NInt.mk 120183236546 120183311303, IV.NInt.mk 123631062017 123631139942, IV.NInt.mk 127177798860 127177878467, IV.NInt.mk 130826283716 130826366468, IV.NInt.mk 134579438085 134579521195, IV.NInt.mk 138440262207 138440347138, IV.NInt.mk 142411846255 142411933082, IV.NInt.mk 146497366605 146497456977, IV.NInt.mk 150700094422 150700185081, IV.NInt.mk 155023387404 155023483412, IV.NInt.mk 159470709515 159470807710, IV.NInt.mk 164045615014 164045717067], [IV.NInt.mk 39041355798 39041394262, IV.NInt.mk 37292568108 37292610410, IV.NInt.mk 35493613882 35493655983, IV.NInt.mk 33643050613 33643093552, IV.NInt.mk 31739397837 31739441711, IV.NInt.mk 29781132242 29781178102, IV.NInt.mk 27766689464 27766735192, IV.NInt.mk 25694455299 25694503156, IV.NInt.mk 23562773361 23562821048, IV.NInt.mk 21369934448 21369987861, IV.NInt.mk 19114190750 19114244025, IV.NInt.mk 16832809895 16832859697, IV.NInt.mk 14679296012 14679340994, IV.NInt.mk 12674117212 12674157641, IV.NInt.mk 10825675701 10825711773, IV.NInt.mk 9140565612 9140597562, IV.NInt.mk 7623085049 7623113099, IV.NInt.mk 6274737897 6274762265, IV.NInt.mk 5093859519 5093880441, IV.NInt.mk 4075470316 4075488049, IV.NInt.mk 3211401959 3211416789, IV.NInt.mk 2490683382 2490695614, IV.NInt.mk 1900132787 1900142731, IV.NInt.mk 1425080067 1425088034, IV.NInt.mk 1050137156 1050143453, IV.NInt.mk 759938516 759943422, IV.NInt.mk 539787340 539791120, IV.NInt.mk 376162877 376165764, IV.NInt.mk 257066514 257068704, IV.NInt.mk 172205869 172207530, IV.NInt.mk 113033719 113034986, IV.NInt.mk 72670439 72671416, IV.NInt.mk 45744164 45744935, IV.NInt.mk 28182898 28183526, IV.NInt.mk 16988545 16989071, IV.NInt.mk 10016118 10016574]) = ([IV.NInt.mk 99999957581 100000024178], [IV.NInt.mk 6086374232 6086397882]) := by decide

/-- Kernel evaluation of the 200-step interval lattice for the American put. -/
theorem IV.putRoot_eq : IV.putRoot = IV.NInt.mk 6086374232 6086397882 := by
  show (IV.loopG IV.uI9 IV.pI9 IV.qI9 IV.discI9 false IV.KSc9 200
      (IV.initSP IV.uI9 IV.dI9 IV.SI9 200,
        (IV.initSP IV.uI9 IV.dI9 IV.SI9 200).map (IV.payI false IV.KSc9))).2.headD
      (IV.NInt.mk 0 0) = IV.NInt.mk 6086374232 6086397882
  rw [IV.initLit,
    IV.payLit_put,
    IV.loopG_add _ _ _ _ _ _ 9 191,
    IV.putChunk1,
    IV.loopG_add _ _ _ _ _ _ 10 181,
    IV.putChunk2,
    IV.loopG_add _ _ _ _ _ _ 10 171,
    IV.putChunk3,
    IV.loopG_add _ _ _ _ _ _ 11 160,
    IV.putChunk4,
    IV.loopG_add _ _ _ _ _ _ 12 148,
    IV.putChunk5,
    IV.loopG_add _ _ _ _ _ _ 13 135,
    IV.putChunk6,
    IV.loopG_add _ _ _ _ _ _ 14 121,
    IV.putChunk7,
    IV.loopG_add _ _ _ _ _ _ 16 105,
    IV.putChunk8,
    IV.loopG_add _ _ _ _ _ _ 18 87,
    IV.putChunk9,
    IV.loopG_add _ _ _ _ _ _ 22 65,
    IV.putChunk10,
    IV.loopG_add _ _ _ _ _ _ 30 35,
    IV.putChunk11,
    IV.putChunk12]
  rfl

/-- The real-number model built from the C9 call contract has the normalized
field values used by the enclosure argument. -/
theorem m9call_fields :
    (CRR.mkModel Real.exp Real.sqrt (aC9call ℝ)).S = 100 ∧
    (CRR.mkModel Real.exp Real.sqrt (aC9call ℝ)).K = 100 ∧
    (CRR.mkModel Real.exp Real.sqrt (aC9call ℝ)).n = 200 ∧
    (CRR.mkModel Real.exp Real.sqrt (aC9call ℝ)).american = true ∧
    (CRR.mkModel Real.exp Real.sqrt (aC9call ℝ)).u
      = Real.exp (2 / 10 * Real.sqrt (1 / 200)) ∧
    (CRR.mkModel Real.exp Real.sqrt (aC9call ℝ)).d
      = 1 / (CRR.mkModel Real.exp Real.sqrt (aC9call ℝ)).u ∧
    (CRR.mkModel Real.exp Real.sqrt (aC9call ℝ)).p
      = (Real.exp (1 / 4000) - (CRR.mkModel Real.exp Real.sqrt (aC9call ℝ)).d) /
        ((CRR.mkModel Real.exp Real.sqrt (aC9call ℝ)).u
          - (CRR.mkModel Real.exp Real.sqrt (aC9call ℝ)).d) ∧
    (CRR.mkModel Real.exp Real.sqrt (aC9call ℝ)).oneMinusP
      = 1 - (CRR.mkModel Real.exp Real.sqrt (aC9call ℝ)).p ∧
    (CRR.mkModel Real.exp Real.sqrt (aC9call ℝ)).r
        * (CRR.mkModel Real.exp Real.sqrt (aC9call ℝ)).dt = 1 / 4000 ∧
    (CRR.mkModel Real.exp Real.sqrt (aC9call ℝ)).optionCall = true := by
  refine ⟨rfl, rfl, rfl, rfl, ?_, rfl, ?_, rfl, ?_, rfl⟩ <;>
    norm_num [CRR.mkModel, aC9call]

/-- The real-number model built from the C9 put contract agrees with the call
model on every field except `optionCall`. -/
theorem m9put_fields :
    CRR.mkModel Real.exp Real.sqrt (aC9put ℝ)
      = { CRR.mkModel Real.exp Real.sqrt (aC9call ℝ) with optionCall := false } := rfl



/-- C9, counterexample: for `S=100, K=100, T=1, r=0.05, σ=0.2, n=200` the lattice
price of the American call is strictly below 10.45, so it does not lie in the
claimed interval `[10.45, 10.60]`. -/
theorem C9_counterexample :
    CRR.price Real.exp (CRR.mkModel Real.exp Real.sqrt (aC9call ℝ)) < 1045 / 100 := by
  obtain ⟨hS, hK, hn, ham, hu, hd, hp, hq, hrdt, hoc⟩ := m9call_fields
  have h := c9_root_encl hS hK hn ham hu hd hp hq hrdt
  rw [hoc, show IV.root IV.uI9 IV.dI9 IV.pI9 IV.qI9 IV.discI9 IV.SI9 true IV.KSc9 200
      = IV.callRoot from rfl, IV.callRoot_eq] at h
  obtain ⟨-, h2⟩ := h
  have hSc : ((IV.Sc : ℕ) : ℝ) = 10 ^ 9 := by norm_num [IV.Sc]
  rw [hSc] at h2
  norm_num at h2
  linarith

/-- C9 (amended): for the concrete contract `S=100, K=100, T=1, r=0.05, σ=0.2,
steps=200` the lattice pricer returns an American call price in the interval
`[10.43, 10.45]` and an American put price in the interval `[6.00, 6.15]`. -/
theorem C9_amended :
    (1043 / 100 ≤ CRR.price Real.exp (CRR.mkModel Real.exp Real.sqrt (aC9call ℝ)) ∧
      CRR.price Real.exp (CRR.mkModel Real.exp Real.sqrt (aC9call ℝ)) ≤ 1045 / 100) ∧
    (600 / 100 ≤ CRR.price Real.exp (CRR.mkModel Real.exp Real.sqrt (aC9put ℝ)) ∧
      CRR.price Real.exp (CRR.mkModel Real.exp Real.sqrt (aC9put ℝ)) ≤ 615 / 100) := by
  obtain ⟨hS, hK, hn, ham, hu, hd, hp, hq, hrdt, hoc⟩ := m9call_fields
  have hSc : ((IV.Sc : ℕ) : ℝ) = 10 ^ 9 := by norm_num [IV.Sc]
  constructor
  · have h := c9_root_encl hS hK hn ham hu hd hp hq hrdt
    rw [hoc, show IV.root IV.uI9 IV.dI9 IV.pI9 IV.qI9 IV.discI9 IV.SI9 true IV.KSc9 200
        = IV.callRoot from rfl, IV.callRoot_eq] at h
    obtain ⟨h1, h2⟩ := h
    rw [hSc] at h1 h2
    norm_num at h1 h2
    constructor <;> linarith
  · have hSp : (CRR.mkModel Real.exp Real.sqrt (aC9put ℝ)).S = 100 := rfl
    have hup : (CRR.mkModel Real.exp Real.sqrt (aC9put ℝ)).u
        = Real.exp (2 / 10 * Real.sqrt (1 / 200)) := by
      norm_num [CRR.mkModel, aC9put, aC9call]
    have hpp : (CRR.mkModel Real.exp Real.sqrt (aC9put ℝ)).p
        = (Real.exp (1 / 4000) - (CRR.mkModel Real.exp Real.sqrt (aC9put ℝ)).d) /
          ((CRR.mkModel Real.exp Real.sqrt (aC9put ℝ)).u
            - (CRR.mkModel Real.exp Real.sqrt (aC9put ℝ)).d) := by
      norm_num [CRR.mkModel, aC9put, aC9call]
    have hrdtp : (CRR.mkModel Real.exp Real.sqrt (aC9put ℝ)).r
        * (CRR.mkModel Real.exp Real.sqrt (aC9put ℝ)).dt = 1 / 4000 := by
      norm_num [CRR.mkModel, aC9put, aC9call]
    have h := c9_root_encl hSp rfl rfl rfl hup rfl hpp rfl hrdtp
    have hocp : (CRR.mkModel Real.exp Real.sqrt (aC9put ℝ)).optionCall = false := rfl
    rw [hocp, show IV.root IV.uI9 IV.dI9 IV.pI9 IV.qI9 IV.discI9 IV.SI9 false IV.KSc9 200
        = IV.putRoot from rfl, IV.putRoot_eq] at h
    obtain ⟨h1, h2⟩ := h
    rw [hSc] at h1 h2
    norm_num at h1 h2
    constructor <;> linarith


end Delta
